import Mathlib

/-!
# VDrift `GraphicsGL2`: pass resolution and execution

A shallow embedding of `src/graphics/graphics_gl2.cpp` (and the enums of
`src/graphics/fbtexture.h`).  C++ `std::map`s are association lists, pointers are
natural-number identities, the two `std::ostream`s are lists of written lines,
`assert` failures are `none`.  Collaborators whose code lives in other files (the
configuration loader, the shader compiler, the quaternion class, the spatial index,
the GL capability probes) are fields of one environment record, so every theorem
holds for every behaviour of those collaborators.

The file has two parts: all definitions first, then all theorems.
-/

set_option autoImplicit false

namespace VDrift

/-! ## Part 1: definitions -/

/-! ### `std::map` as an association list -/

/-- The lookup `m.find(k)`: the value stored under `k`, `none` for `m.end()`. -/
def mapFind {K V : Type} [DecidableEq K] : List (K × V) → K → Option V
  | [], _ => none
  | (k1, v1) :: m, k => if k1 = k then some v1 else mapFind m k

/-- The assignment `m[k] = v`: overwrites the entry of `k`, or adds one. -/
def mapSet {K V : Type} [DecidableEq K] : List (K × V) → K → V → List (K × V)
  | [], k, v => [(k, v)]
  | (k1, v1) :: m, k, v => if k1 = k then (k1, v) :: m else (k1, v1) :: mapSet m k v

/-- The call `m.erase(k)`. -/
def mapErase {K V : Type} [DecidableEq K] : List (K × V) → K → List (K × V)
  | [], _ => []
  | (k1, v1) :: m, k => if k1 = k then m else (k1, v1) :: mapErase m k

/-- The names registered in a map. -/
def mapKeys {K V : Type} (m : List (K × V)) : List K := m.map Prod.fst

/-- Whether `m.find(k) != m.end()`. -/
def mapMem {K V : Type} [DecidableEq K] (m : List (K × V)) (k : K) : Bool :=
  (mapFind m k).isSome

/-! ### `Tokenize` (lines 26-45) -/

/-- The value `std::string::npos` of a 64-bit `size_t`. -/
def npos : Nat := 18446744073709551615

/-- The conversion of a `size_t` to `unsigned int`. -/
def toUInt (n : Nat) : Nat := n % 4294967296

/-- The index of the first element of `l` satisfying `p`, counted from `i`. -/
def findFrom (p : Char → Bool) : List Char → Nat → Option Nat
  | [], _ => none
  | c :: l, i => if p c then some i else findFrom p l (i + 1)

/-- The call `input.find_first_of(tokens, pos)`. -/
def find_first_of (input tokens : List Char) (pos : Nat) : Nat :=
  match findFrom (fun c => tokens.contains c) (input.drop pos) pos with
  | some i => i
  | none => npos

/-- The call `input.find_first_not_of(tokens, pos)`. -/
def find_first_not_of (input tokens : List Char) (pos : Nat) : Nat :=
  match findFrom (fun c => !tokens.contains c) (input.drop pos) pos with
  | some i => i
  | none => npos

/-- The call `input.substr(pos, n)`; `none` is the `std::out_of_range` exception. -/
def substr (input : List Char) (pos n : Nat) : Option (List Char) :=
  if pos > input.length then none else some ((input.drop pos).take n)

/-- The `while` loop of `Tokenize`; the first argument bounds the number of iterations,
`none` is an exception or an exhausted bound. -/
def TokenizeLoop (input tokens : List Char) :
    Nat → Nat → Nat → List (List Char) → Option (List (List Char))
  | 0, _, _, _ => none
  | fuel + 1, pos, lastpos, out =>
    if pos = toUInt npos then some out
    else
      let pos1 := toUInt (find_first_of input tokens pos)
      match substr input lastpos (toUInt (pos1 + 4294967296 - lastpos)) with
      | none => none
      | some thisstr =>
        let out1 := if thisstr.isEmpty then out else out ++ [thisstr]
        let pos2 := toUInt (find_first_not_of input tokens pos1)
        TokenizeLoop input tokens fuel pos2 pos2 out1

/-- Break up the input into a vector of strings using the token characters given. -/
def Tokenize (input tokens : String) : Option (List String) :=
  (TokenizeLoop input.data tokens.data (input.data.length + 2) 0 0 []).map
    (fun out => out.map String.mk)

/-! ### `ReportOnce` (lines 47-57) -/

/-- The function `ReportOnce`: `prev_messages` is its function-local static map, the
result is the map and the output stream after the call. -/
def ReportOnce (id : Nat) (message : String)
    (prev_messages : List (Nat × String)) (output : List String) :
    List (Nat × String) × List String :=
  let i := mapFind prev_messages id
  if i = none ∨ i ≠ some message then
    (mapSet prev_messages id message, output ++ [message])
  else
    (prev_messages, output)

/-- A run of `ReportOnce` calls, each a pair of a site identity and a message, starting
from the given static map and output stream. -/
def ReportOnceRun (calls : List (Nat × String))
    (start : List (Nat × String) × List String) : List (Nat × String) × List String :=
  calls.foldl (fun st c => ReportOnce c.1 c.2 st.1 st.2) start

/-- The message of the most recent call of the site `id` in a run of calls. -/
def lastReported : List (Nat × String) → Nat → Option String
  | [], _ => none
  | c :: calls, id =>
    match lastReported calls id with
    | some m => some m
    | none => if c.1 = id then some c.2 else none

/-! ### `BuildKey` (lines 85-88) -/

/-- The cull-cache key of a camera and a draw layer. -/
def BuildKey (camera draw : String) : String :=
  camera ++ ";" ++ draw

/-! ### `GetCubeSideOrientation` (lines 90-127) -/

/-- The message written by the `default` case of `GetCubeSideOrientation`. -/
def cubeOrientationError (i : Int) : String :=
  "Reached odd spot while building cubemap orientation. How many sides are in a cube, anyway? "
    ++ toString i ++ "?"

/-- The function `GetCubeSideOrientation`.  `Rotate deg x y z q` stands for
`q.Rotate(angle, x, y, z)` of the quaternion class, with the angle in degrees
(`M_PI*0.5` is 90, `-M_PI*0.5` is -90, `M_PI` is 180).  The result is the error stream
after the call and the returned orientation, `none` when `assert(0)` is reached. -/
def GetCubeSideOrientation {Q : Type} (Rotate : Int → Int → Int → Int → Q → Q)
    (i : Int) (origorient : Q) (error_output : List String) : List String × Option Q :=
  let orient := origorient
  if i = 0 then (error_output, some (Rotate 90 0 1 0 orient))
  else if i = 1 then (error_output, some (Rotate (-90) 0 1 0 orient))
  else if i = 2 then (error_output, some (Rotate 90 1 0 0 orient))
  else if i = 3 then (error_output, some (Rotate (-90) 1 0 0 orient))
  else if i = 4 then (error_output, some orient)
  else if i = 5 then (error_output, some (Rotate 180 0 1 0 orient))
  else (error_output ++ [cubeOrientationError i], none)

/-! ### `AttachCubeSide` (lines 129-164) and the enums of `fbtexture.h` -/

/-- The enum `FrameBufferTexture::Target`. -/
inductive Target
  | NORMAL
  | RECTANGLE
  | CUBEMAP
  deriving DecidableEq, Repr

/-- The enum `FrameBufferTexture::CubeSide`. -/
inductive CubeSide
  | POSX
  | NEGX
  | POSY
  | NEGY
  | POSZ
  | NEGZ
  deriving DecidableEq, Repr

/-- The enum `FrameBufferTexture::Format`. -/
inductive Format
  | LUM8
  | RGB8
  | RGBA8
  | RGB16
  | RGBA16
  | DEPTH24
  deriving DecidableEq, Repr

/-- The cube side selected by `AttachCubeSide` for the index `i`; `none` is the
`default` case, which ends in `assert(0)`. -/
def cubeSideOfIndex (i : Int) : Option CubeSide :=
  if i = 0 then some CubeSide.POSX
  else if i = 1 then some CubeSide.NEGX
  else if i = 2 then some CubeSide.POSY
  else if i = 3 then some CubeSide.NEGY
  else if i = 4 then some CubeSide.POSZ
  else if i = 5 then some CubeSide.NEGZ
  else none

/-- The message written by the `default` case of `AttachCubeSide`. -/
def cubeAttachError (i : Int) : String :=
  "Reached odd spot while attaching cubemap side. How many sides are in a cube, anyway? "
    ++ toString i ++ "?"

/-! ### String tables (lines 59-77, 166-198) -/

/-- The function `TextureFormatFromString`; `none` is `assert(0)`. -/
def TextureFormatFromString (format : String) : Option Format :=
  if format = "depth" ∨ format = "depthshadow" then some Format.DEPTH24
  else if format = "luminance8" then some Format.LUM8
  else if format = "RGBA8" then some Format.RGBA8
  else if format = "RGB8" then some Format.RGB8
  else if format = "RGBA16" then some Format.RGBA16
  else if format = "RGB16" then some Format.RGB16
  else none

/-- The depth functions returned by `DepthModeFromString`. -/
inductive DepthMode
  | GL_LEQUAL
  | GL_EQUAL
  | GL_GEQUAL
  | GL_ALWAYS
  deriving DecidableEq, Repr

/-- The function `DepthModeFromString`; `none` is `assert(0)`. -/
def DepthModeFromString (mode : String) : Option DepthMode :=
  if mode = "lequal" then some DepthMode.GL_LEQUAL
  else if mode = "equal" then some DepthMode.GL_EQUAL
  else if mode = "gequal" then some DepthMode.GL_GEQUAL
  else if mode = "disabled" then some DepthMode.GL_ALWAYS
  else none

/-- The enum `BlendMode::BLENDMODE`, as far as `BlendModeFromString` returns it. -/
inductive BlendMode
  | DISABLED
  | ADD
  | ALPHABLEND
  | PREMULTIPLIED_ALPHA
  | ALPHATEST
  deriving DecidableEq, Repr

/-- The function `BlendModeFromString`; `none` is `assert(0)`. -/
def BlendModeFromString (mode : String) : Option BlendMode :=
  if mode = "disabled" then some BlendMode.DISABLED
  else if mode = "add" then some BlendMode.ADD
  else if mode = "alphablend" then some BlendMode.ALPHABLEND
  else if mode = "alphablend_premultiplied" then some BlendMode.PREMULTIPLIED_ALPHA
  else if mode = "alphatest" then some BlendMode.ALPHATEST
  else none

/-! ### The render configuration (declared in `graphics_config.h`) -/

/-- Modelled from the spec: the condition expression of a pass or output, whose class is
declared outside the given sources.  It is a conjunction of required flags, each
optionally negated. -/
structure GraphicsConfigCondition where
  positive_conditions : List String
  negated_conditions : List String
  deriving DecidableEq, Repr

/-- Modelled from the spec: `Satisfied` holds when every required flag's presence in the
active flag set matches its required polarity. -/
def GraphicsConfigCondition.Satisfied (c : GraphicsConfigCondition)
    (conditions : List String) : Bool :=
  c.positive_conditions.all (fun f => conditions.contains f) &&
    c.negated_conditions.all (fun f => !conditions.contains f)

/-- A shader descriptor: the fields `EnableShaders` reads. -/
structure GraphicsConfigShader where
  name : String
  defines : String
  vertex : String
  fragment : String
  deriving DecidableEq, Repr

/-- An output descriptor: the fields `EnableShaders` reads.  The size
specifications are kept as written; `GetSize` belongs to the environment. -/
structure GraphicsConfigOutput where
  name : String
  type : String
  format : String
  width : String
  height : String
  mipmap : Bool
  multisample : Int
  filter : String
  conditions : GraphicsConfigCondition
  deriving DecidableEq, Repr

/-- The input mapping of a pass: the entries of the `std::map <unsigned int, std::string>`
named `tu`, in iteration order (ascending texture unit). -/
structure GraphicsConfigInputs where
  tu : List (Nat × String)
  deriving DecidableEq, Repr

/-- A pass descriptor: the fields read by the code. -/
structure GraphicsConfigPass where
  camera : String
  draw : List String
  output : String
  shader : String
  inputs : GraphicsConfigInputs
  blendmode : String
  depthtest : String
  clear_color : Bool
  clear_depth : Bool
  write_color : Bool
  write_alpha : Bool
  write_depth : Bool
  cull : Bool
  conditions : GraphicsConfigCondition
  deriving DecidableEq, Repr

/-- The render configuration. -/
structure GraphicsConfig where
  shaders : List GraphicsConfigShader
  outputs : List GraphicsConfigOutput
  passes : List GraphicsConfigPass
  deriving DecidableEq, Repr

/-- The configuration `GraphicsConfig()`. -/
def GraphicsConfig.empty : GraphicsConfig := ⟨[], [], []⟩

/-! ### Render targets and textures -/

/-- The object `FrameBufferTexture`, as far as `fbtexture.h` declares its state and `Init`
receives arguments. -/
structure FrameBufferTexture where
  inited : Bool
  sizew : Int
  sizeh : Int
  target : Target
  mipmap : Bool
  multisample : Int
  format : Format
  filternearest : Bool
  depthcomparisonenabled : Bool
  deriving DecidableEq, Repr

/-- The constructor `FrameBufferTexture()` of `fbtexture.h`. -/
def FrameBufferTexture.new : FrameBufferTexture :=
  { inited := false, sizew := 0, sizeh := 0, target := Target.NORMAL, mipmap := false,
    multisample := 0, format := Format.RGB8, filternearest := false,
    depthcomparisonenabled := true }

/-- Modelled from the spec: the call `fbtex.Init(...)`, whose body is outside the given
sources, keeps its arguments in the texture object. -/
def FrameBufferTexture.Init (sizex sizey : Int) (newtarget : Target) (newformat : Format)
    (filternearest usemipmap : Bool) (newmultisample : Int)
    (newdepthcomparisonenabled : Bool) : FrameBufferTexture :=
  { inited := true, sizew := sizex, sizeh := sizey, target := newtarget, mipmap := usemipmap,
    multisample := newmultisample, format := newformat, filternearest := filternearest,
    depthcomparisonenabled := newdepthcomparisonenabled }

/-- Modelled from the spec: a framebuffer object wraps the textures handed to its `Init`
(named by their keys in `texture_outputs`, in the order given) and carries the cube
side selected last. -/
structure FrameBufferObject where
  inited : Bool
  textures : List (String × FrameBufferTexture)
  cube_side : Option CubeSide
  deriving DecidableEq, Repr

/-- The two targets of a `RenderOutput`. -/
inductive RenderTarget
  | RENDER_TO_FRAMEBUFFER
  | RENDER_TO_FBO
  deriving DecidableEq, Repr

/-- Modelled from the spec: a render output is either the default framebuffer or an owned
framebuffer object. -/
structure RenderOutput where
  target : RenderTarget
  fbo : FrameBufferObject
  deriving DecidableEq, Repr

/-- Modelled from the spec: the value of `render_outputs[name]` for a name that has no
entry yet (a default-constructed `RenderOutput`). -/
def RenderOutput.new : RenderOutput :=
  { target := RenderTarget.RENDER_TO_FRAMEBUFFER,
    fbo := { inited := false, textures := [], cube_side := none } }

/-- The call `RenderToFramebuffer()`. -/
def RenderOutput.RenderToFramebuffer (o : RenderOutput) : RenderOutput :=
  { o with target := RenderTarget.RENDER_TO_FRAMEBUFFER }

/-- The call `RenderToFBO()`, which also hands out the framebuffer object. -/
def RenderOutput.RenderToFBO (o : RenderOutput) : RenderOutput :=
  { o with target := RenderTarget.RENDER_TO_FBO }

/-- The call `IsFBO()`. -/
def RenderOutput.IsFBO (o : RenderOutput) : Bool :=
  o.target = RenderTarget.RENDER_TO_FBO

/-- The textures bound through the input-texture map. -/
inductive TextureRef
  | static_reflection
  | static_ambient
  | fbtexture (name : String)
  | sky
  | external (id : Nat)
  deriving DecidableEq, Repr

/-- The value `operator[]` of a map yields: the stored one, or a fresh one. -/
def mapGetD {K V : Type} [DecidableEq K] (m : List (K × V)) (k : K) (fresh : V) : V :=
  match mapFind m k with
  | some v => v
  | none => fresh

/-! ### Cameras and render inputs -/

/-- A vector of three floats; the modelled code only stores and passes them on. -/
abbrev Vec3 := Int × Int × Int

/-- The record `GraphicsCamera`; float fields are carried as integers, the modelled code
assigns and copies them without arithmetic. -/
structure GraphicsCamera (Q : Type) where
  pos : Vec3
  orient : Q
  fov : Int
  view_distance : Int
  w : Int
  h : Int
  orthomode : Bool
  orthomin : Vec3
  orthomax : Vec3
  deriving DecidableEq, Repr

/-- The sub-camera of a cube side (lines 1023-1032): the base camera with the
orientation of the side, a field of view of 90 and the size of the framebuffer object. -/
def GraphicsCamera.cubeSide {Q : Type} (bc : GraphicsCamera Q) (orient : Q) (w h : Int) :
    GraphicsCamera Q :=
  { bc with orient := orient, fov := 90, w := w, h := h }

/-- The frustum `renderscene.SetCameraInfo` returns, given by what it is computed from:
the orthographic box when ortho mode is on, and the camera parameters. -/
structure Frustum (Q : Type) where
  ortho : Option (Vec3 × Vec3)
  pos : Vec3
  orient : Q
  fov : Int
  view_distance : Int
  w : Int
  h : Int
  deriving DecidableEq, Repr

/-- The orthographic box a camera asks for: `SetOrtho(cam.orthomin, cam.orthomax)` in
ortho mode, `DisableOrtho()` otherwise. -/
def cameraOrtho {Q : Type} (cam : GraphicsCamera Q) : Option (Vec3 × Vec3) :=
  if cam.orthomode then some (cam.orthomin, cam.orthomax) else none

/-- The frustum of a camera under a given orthographic box. -/
def cameraFrustum {Q : Type} (ortho : Option (Vec3 × Vec3)) (cam : GraphicsCamera Q) :
    Frustum Q :=
  { ortho := ortho, pos := cam.pos, orient := cam.orient, fov := cam.fov,
    view_distance := cam.view_distance, w := cam.w, h := cam.h }

/-- The state the code sets on `renderscene` (a `RenderInputScene`, whose class is
outside the given sources): each setter keeps the value it is given. -/
structure RenderInputScene (Q : Type) where
  shaders : Bool
  fsaa : Int
  contrast : Int
  sun_direction : Vec3
  default_shader : Option String
  blendmode : BlendMode
  depthmode : DepthMode
  clear : Bool × Bool
  write_color : Bool
  write_alpha : Bool
  write_depth : Bool
  ortho : Option (Vec3 × Vec3)
  camera : Option (Frustum Q)
  carpainthack : Bool
  drawlists : List Nat × List Nat
  deriving DecidableEq, Repr

/-- The calls `SetFlags`, `SetFSAA`, `SetContrast` and `SetSunDirection` of `DrawScene`. -/
@[simps]
def RenderInputScene.SetFrame {Q : Type} (rs : RenderInputScene Q) (shaders : Bool)
    (fsaa contrast : Int) (sun : Vec3) : RenderInputScene Q :=
  { rs with shaders := shaders, fsaa := fsaa, contrast := contrast, sun_direction := sun }

/-- The call `SetDefaultShader`. -/
@[simps]
def RenderInputScene.SetDefaultShader {Q : Type} (rs : RenderInputScene Q) (shader : String) :
    RenderInputScene Q :=
  { rs with default_shader := some shader }

/-- The call `SetBlendMode`. -/
@[simps]
def RenderInputScene.SetBlendMode {Q : Type} (rs : RenderInputScene Q) (mode : BlendMode) :
    RenderInputScene Q :=
  { rs with blendmode := mode }

/-- The call `SetDepthMode`. -/
@[simps]
def RenderInputScene.SetDepthMode {Q : Type} (rs : RenderInputScene Q) (mode : DepthMode) :
    RenderInputScene Q :=
  { rs with depthmode := mode }

/-- The call `SetClear`. -/
@[simps]
def RenderInputScene.SetClear {Q : Type} (rs : RenderInputScene Q) (color depth : Bool) :
    RenderInputScene Q :=
  { rs with clear := (color, depth) }

/-- The calls `SetWriteColor`, `SetWriteAlpha` and `SetWriteDepth`. -/
@[simps]
def RenderInputScene.SetWrite {Q : Type} (rs : RenderInputScene Q) (color alpha depth : Bool) :
    RenderInputScene Q :=
  { rs with write_color := color, write_alpha := alpha, write_depth := depth }

/-- The call `SetOrtho` or `DisableOrtho` chosen by the camera, followed by
`SetCameraInfo`. -/
@[simps]
def RenderInputScene.SetCamera {Q : Type} (rs : RenderInputScene Q) (cam : GraphicsCamera Q) :
    RenderInputScene Q :=
  { rs with ortho := cameraOrtho cam, camera := some (cameraFrustum (cameraOrtho cam) cam) }

/-- The call `DisableOrtho`. -/
@[simps]
def RenderInputScene.DisableOrtho {Q : Type} (rs : RenderInputScene Q) : RenderInputScene Q :=
  { rs with ortho := none }

/-- The call `SetCarPaintHack`. -/
@[simps]
def RenderInputScene.SetCarPaintHack {Q : Type} (rs : RenderInputScene Q) (hack : Bool) :
    RenderInputScene Q :=
  { rs with carpainthack := hack }

/-- The call `SetDrawLists`. -/
@[simps]
def RenderInputScene.SetDrawLists {Q : Type} (rs : RenderInputScene Q)
    (dynamic_list static_list : List Nat) : RenderInputScene Q :=
  { rs with drawlists := (dynamic_list, static_list) }

/-- The state the code sets on `postprocess` (a `RenderInputPostprocess`, whose class is
outside the given sources): each setter keeps the value it is given. -/
structure RenderInputPostprocess (Q : Type) where
  contrast : Int
  sun_direction : Vec3
  camera : Option (Frustum Q)
  depthmode : DepthMode
  write_depth : Bool
  clear : Bool × Bool
  blendmode : BlendMode
  write_color : Bool
  write_alpha : Bool
  shader : Option String
  source_textures : List (Option TextureRef)
  deriving DecidableEq, Repr

/-- The calls `SetContrast` and `SetSunDirection` of `DrawScene`. -/
@[simps]
def RenderInputPostprocess.SetFrame {Q : Type} (pp : RenderInputPostprocess Q)
    (contrast : Int) (sun : Vec3) : RenderInputPostprocess Q :=
  { pp with contrast := contrast, sun_direction := sun }

/-- The call `SetCameraInfo`. -/
@[simps]
def RenderInputPostprocess.SetCameraInfo {Q : Type} (pp : RenderInputPostprocess Q)
    (cam : GraphicsCamera Q) : RenderInputPostprocess Q :=
  { pp with camera := some (cameraFrustum none cam) }

/-- The call `SetDepthMode`. -/
@[simps]
def RenderInputPostprocess.SetDepthMode {Q : Type} (pp : RenderInputPostprocess Q)
    (mode : DepthMode) : RenderInputPostprocess Q :=
  { pp with depthmode := mode }

/-- The calls `SetWriteDepth` and `SetClear`. -/
@[simps]
def RenderInputPostprocess.SetWriteDepthClear {Q : Type} (pp : RenderInputPostprocess Q)
    (write_depth color depth : Bool) : RenderInputPostprocess Q :=
  { pp with write_depth := write_depth, clear := (color, depth) }

/-- The call `SetBlendMode`. -/
@[simps]
def RenderInputPostprocess.SetBlendMode {Q : Type} (pp : RenderInputPostprocess Q)
    (mode : BlendMode) : RenderInputPostprocess Q :=
  { pp with blendmode := mode }

/-- The calls `SetWriteColor` and `SetWriteAlpha`. -/
@[simps]
def RenderInputPostprocess.SetWrite {Q : Type} (pp : RenderInputPostprocess Q)
    (color alpha : Bool) : RenderInputPostprocess Q :=
  { pp with write_color := color, write_alpha := alpha }

/-- The calls `SetShader` and `SetSourceTextures`. -/
@[simps]
def RenderInputPostprocess.SetShaderTextures {Q : Type} (pp : RenderInputPostprocess Q)
    (shader : String) (textures : List (Option TextureRef)) : RenderInputPostprocess Q :=
  { pp with shader := some shader, source_textures := textures }

/-! ### Collaborators, observable events, renderer state -/

/-- The collaborators of `graphics_gl2.cpp` whose code is in other files: the quaternion
rotation, the configuration loader (the success flag of `config.Load(path, ...)` and the
configuration it leaves), the shader compiler (`shader.Load` of a vertex path, a
fragment path and the defines), the size resolution of an output descriptor, the
framebuffer-object queries, the intersection test of the spatial index, `std::sort` of
the two-dimensional draw list, the text `operator<<` gives for a stream, and the GL
capability probes. -/
structure Collaborators (Q : Type) where
  Rotate : Int → Int → Int → Int → Q → Q
  configLoad : String → Bool × GraphicsConfig
  shaderLoad : String → String → List String → Bool
  GetSize : String → Int → Int
  fboIsCubemap : FrameBufferObject → Bool
  fboGetWidth : FrameBufferObject → Int
  fboGetHeight : FrameBufferObject → Int
  intersects : Frustum Q → Nat → Bool
  sortDraworder : List Nat → List Nat
  streamText : String
  GLEW_EXT_texture_filter_anisotropic : Bool
  GL_MAX_TEXTURE_MAX_ANISOTROPY_EXT : Int
  GLEW_ARB_multitexture : Bool
  GLEW_ARB_texture_cube_map : Bool
  GLEW_ARB_texture_non_power_of_two : Bool
  GL_MAX_COLOR_ATTACHMENTS : Int
  GL_MAX_DRAW_BUFFERS : Int
  GLEW_framebuffer_object : Bool
  GLEW_VERSION_2_0 : Bool
  GLEW_ARB_shading_language_100 : Bool
  GLEW_ARB_fragment_shader : Bool
  GLEW_ARB_texture_float : Bool
  GLEW_ARB_half_float_pixel : Bool

/-- What the code does to its collaborators, recorded in order.  A pass is named by its
position in `config.passes` (the address `&pass` of the source). -/
inductive Event
  | EnableShaders
  | DisableShaders
  | configLoad (rcpath : String)
  | shaderLoad (name : String)
  | textureLoad (file : String)
  | textureInit (name : String) (texture : FrameBufferTexture)
  | fboInit (outname : String) (textures : List String)
  | report (id : Nat) (message : String)
  | query (id : Nat) (layer key : String) (culled : Bool)
  | attachCubeSide (id : Nat) (output : String) (side : CubeSide)
  | renderDrawlists (id : Nat) (layer camera output : String) (clear : Bool × Bool)
      (dynamic_list static_list : List Nat) (extra_textures : List (Option TextureRef))
  | render (id : Nat) (post : Bool) (output : String)
  deriving DecidableEq, Repr

/-- The enum of `reflection_status`. -/
inductive ReflectionStatus
  | REFLECTION_DISABLED
  | REFLECTION_STATIC
  | REFLECTION_DYNAMIC
  deriving DecidableEq, Repr

/-- The state of a `GraphicsGL2` object, with the two stream arguments of its methods
(`info_output`, `error_output`), the static map of `ReportOnce` (`prev_messages`), the
local map `culled_static_drawlist` that `DrawScene` hands to its passes, and the record
of events (`trace`).  Drawables are named by natural numbers. -/
structure GraphicsGL2 (Q : Type) where
  initialized : Bool
  using_shaders : Bool
  max_anisotropy : Int
  shadows : Bool
  shadow_distance : Int
  shadow_quality : Int
  closeshadow : Int
  fsaa : Int
  lighting : Int
  bloom : Bool
  normalmaps : Bool
  contrast : Int
  reflection_status : ReflectionStatus
  renderconfigfile : String
  shaderpath : String
  sky_dynamic : Bool
  has_sky : Bool
  light_direction : Vec3
  w : Int
  h : Int
  config : GraphicsConfig
  shadermap : List (String × Bool)
  conditions : List String
  render_outputs : List (String × RenderOutput)
  texture_outputs : List (String × FrameBufferTexture)
  texture_inputs : List (String × TextureRef)
  cameras : List (String × GraphicsCamera Q)
  static_drawlist : List (String × List Nat)
  dynamic_drawlist : List (String × List Nat)
  culled_static_drawlist : List (String × List Nat)
  renderscene : RenderInputScene Q
  postprocess : RenderInputPostprocess Q
  prev_messages : List (Nat × String)
  info_output : List String
  error_output : List String
  trace : List Event

/-- The state after the constructor `GraphicsGL2()`, for given collaborator objects. -/
def GraphicsGL2.new {Q : Type} (renderscene : RenderInputScene Q)
    (postprocess : RenderInputPostprocess Q) : GraphicsGL2 Q :=
  { initialized := false, using_shaders := false, max_anisotropy := 0, shadows := false,
    shadow_distance := 0, shadow_quality := 0, closeshadow := 5, fsaa := 1, lighting := 0,
    bloom := false, normalmaps := false, contrast := 1,
    reflection_status := ReflectionStatus.REFLECTION_DISABLED,
    renderconfigfile := "noshaders.conf", shaderpath := "", sky_dynamic := false,
    has_sky := false, light_direction := (0, 0, 0), w := 0, h := 0,
    config := GraphicsConfig.empty, shadermap := [], conditions := [], render_outputs := [],
    texture_outputs := [], texture_inputs := [], cameras := [], static_drawlist := [],
    dynamic_drawlist := [], culled_static_drawlist := [], renderscene := renderscene, postprocess := postprocess,
    prev_messages := [], info_output := [], error_output := [], trace := [] }

/-- Append a line to `info_output`. -/
@[simps]
def GraphicsGL2.info {Q : Type} (g : GraphicsGL2 Q) (line : String) : GraphicsGL2 Q :=
  { g with info_output := g.info_output ++ [line] }

/-- Append a line to `error_output`. -/
@[simps]
def GraphicsGL2.error {Q : Type} (g : GraphicsGL2 Q) (line : String) : GraphicsGL2 Q :=
  { g with error_output := g.error_output ++ [line] }

/-- Record an event. -/
@[simps]
def GraphicsGL2.log {Q : Type} (g : GraphicsGL2 Q) (e : Event) : GraphicsGL2 Q :=
  { g with trace := g.trace ++ [e] }

/-- The call `ReportOnce(&pass, message, error_output)`; a written line is recorded as an
event of the pass. -/
@[simps]
def GraphicsGL2.Report {Q : Type} (g : GraphicsGL2 Q) (id : Nat) (message : String) :
    GraphicsGL2 Q :=
  { g with
    prev_messages := (ReportOnce id message g.prev_messages g.error_output).1
    error_output := (ReportOnce id message g.prev_messages g.error_output).2
    trace := if (ReportOnce id message g.prev_messages g.error_output).2.length =
                g.error_output.length then g.trace
             else g.trace ++ [Event.report id message] }

/-- Assign `error_output` (the stream after a callee wrote to it). -/
@[simps]
def GraphicsGL2.setErrorOutput {Q : Type} (g : GraphicsGL2 Q) (v : List String) :
    GraphicsGL2 Q :=
  { g with error_output := v }

/-- Assign `initialized`. -/
@[simps]
def GraphicsGL2.setInitialized {Q : Type} (g : GraphicsGL2 Q) (v : Bool) : GraphicsGL2 Q :=
  { g with initialized := v }

/-- Assign `renderconfigfile`. -/
@[simps]
def GraphicsGL2.setRenderconfigfile {Q : Type} (g : GraphicsGL2 Q) (v : String) :
    GraphicsGL2 Q :=
  { g with renderconfigfile := v }

/-- Assign `using_shaders`. -/
@[simps]
def GraphicsGL2.setUsingShaders {Q : Type} (g : GraphicsGL2 Q) (v : Bool) : GraphicsGL2 Q :=
  { g with using_shaders := v }

/-- Assign `shadows`. -/
@[simps]
def GraphicsGL2.setShadows {Q : Type} (g : GraphicsGL2 Q) (v : Bool) : GraphicsGL2 Q :=
  { g with shadows := v }

/-- Assign `has_sky` (whether the pointer `sky` holds a sky object). -/
@[simps]
def GraphicsGL2.setSky {Q : Type} (g : GraphicsGL2 Q) (v : Bool) : GraphicsGL2 Q :=
  { g with has_sky := v }

/-- Assign `config`. -/
@[simps]
def GraphicsGL2.setConfig {Q : Type} (g : GraphicsGL2 Q) (v : GraphicsConfig) :
    GraphicsGL2 Q :=
  { g with config := v }

/-- Assign `shadermap`. -/
@[simps]
def GraphicsGL2.setShadermap {Q : Type} (g : GraphicsGL2 Q) (v : List (String × Bool)) :
    GraphicsGL2 Q :=
  { g with shadermap := v }

/-- Assign `conditions`. -/
@[simps]
def GraphicsGL2.setConditions {Q : Type} (g : GraphicsGL2 Q) (v : List String) :
    GraphicsGL2 Q :=
  { g with conditions := v }

/-- Assign `render_outputs`. -/
@[simps]
def GraphicsGL2.setRenderOutputs {Q : Type} (g : GraphicsGL2 Q)
    (v : List (String × RenderOutput)) : GraphicsGL2 Q :=
  { g with render_outputs := v }

/-- Assign `texture_outputs`. -/
@[simps]
def GraphicsGL2.setTextureOutputs {Q : Type} (g : GraphicsGL2 Q)
    (v : List (String × FrameBufferTexture)) : GraphicsGL2 Q :=
  { g with texture_outputs := v }

/-- Assign `texture_inputs`. -/
@[simps]
def GraphicsGL2.setTextureInputs {Q : Type} (g : GraphicsGL2 Q)
    (v : List (String × TextureRef)) : GraphicsGL2 Q :=
  { g with texture_inputs := v }

/-- Assign `cameras`. -/
@[simps]
def GraphicsGL2.setCameras {Q : Type} (g : GraphicsGL2 Q)
    (v : List (String × GraphicsCamera Q)) : GraphicsGL2 Q :=
  { g with cameras := v }

/-- Assign `dynamic_drawlist`. -/
@[simps]
def GraphicsGL2.setDynamicDrawlist {Q : Type} (g : GraphicsGL2 Q)
    (v : List (String × List Nat)) : GraphicsGL2 Q :=
  { g with dynamic_drawlist := v }

/-- Assign `culled_static_drawlist`. -/
@[simps]
def GraphicsGL2.setCulled {Q : Type} (g : GraphicsGL2 Q) (v : List (String × List Nat)) :
    GraphicsGL2 Q :=
  { g with culled_static_drawlist := v }

/-- Assign `renderscene`. -/
@[simps]
def GraphicsGL2.setRenderscene {Q : Type} (g : GraphicsGL2 Q) (v : RenderInputScene Q) :
    GraphicsGL2 Q :=
  { g with renderscene := v }

/-- Assign `postprocess`. -/
@[simps]
def GraphicsGL2.setPostprocess {Q : Type} (g : GraphicsGL2 Q) (v : RenderInputPostprocess Q) :
    GraphicsGL2 Q :=
  { g with postprocess := v }

/-- The outcome of a loop body or function body: go on (`next`), `return` from the
enclosing function (`ret`), or stop at a failed assertion or a call that does not return
(`abort`); each carries the state reached. -/
inductive Flow (σ : Type)
  | next (s : σ)
  | ret (s : σ)
  | abort (s : σ)

/-- The state carried by an outcome. -/
def Flow.state {σ : Type} : Flow σ → σ
  | Flow.next s => s
  | Flow.ret s => s
  | Flow.abort s => s

/-- Whether the outcome is a failed assertion. -/
def Flow.aborted {σ : Type} : Flow σ → Bool
  | Flow.abort _ => true
  | _ => false

/-- The outcome of a finished call, seen by the caller: a `return` of the callee lets the
caller go on. -/
def Flow.call {σ : Type} : Flow σ → Flow σ
  | Flow.next s => Flow.next s
  | Flow.ret s => Flow.next s
  | Flow.abort s => Flow.abort s

/-- The outcome of a finished call made right before a `return` of the caller. -/
def Flow.thenReturn {σ : Type} : Flow σ → Flow σ
  | Flow.next s => Flow.ret s
  | Flow.ret s => Flow.ret s
  | Flow.abort s => Flow.abort s

/-- One statement after another: the second runs when the first goes on. -/
def Flow.andThen {σ : Type} (f : Flow σ) (k : σ → Flow σ) : Flow σ :=
  match f with
  | Flow.next s => k s
  | Flow.ret s => Flow.ret s
  | Flow.abort s => Flow.abort s

/-- A `for` loop over a list whose body may go on, `return` or stop. -/
def forLoop {σ α : Type} (body : α → σ → Flow σ) : List α → σ → Flow σ
  | [], s => Flow.next s
  | a :: l, s => (body a s).andThen (forLoop body l)

/-! ### `LoadShader` (lines 660-740) -/

/-- The characters `operator>>` skips between words. -/
def isspace (c : Char) : Bool :=
  c = ' ' || c = '\t' || c = '\n' || c = '\r' || c = Char.ofNat 11 || c = Char.ofNat 12

/-- The words `s >> newdefine` extracts from a stream over the given characters; `cur` is
the word being read. -/
def streamWords : List Char → List Char → List String
  | [], cur => if cur.isEmpty then [] else [String.mk cur]
  | c :: l, cur =>
    if isspace c then
      (if cur.isEmpty then [] else [String.mk cur]) ++ streamWords l []
    else streamWords l (cur ++ [c])

/-- The defines `LoadShader` generates. -/
def shaderDefines {Q : Type} (g : GraphicsGL2 Q) (shader_defines : String) : List String :=
  ["SCREENRESX " ++ toString g.w, "SCREENRESY " ++ toString g.h]
  ++ (match g.reflection_status with
      | ReflectionStatus.REFLECTION_DISABLED => ["_REFLECTIONDISABLED_"]
      | ReflectionStatus.REFLECTION_STATIC => ["_REFLECTIONSTATIC_"]
      | ReflectionStatus.REFLECTION_DYNAMIC => ["_REFLECTIONDYNAMIC_"])
  ++ (if g.shadows then
        ["_SHADOWS_"]
        ++ (if g.shadow_distance > 0 then ["_CSM2_"] else [])
        ++ (if g.shadow_distance > 1 then ["_CSM3_"] else [])
        ++ (if g.shadow_quality = 0 then ["_SHADOWSLOW_"] else [])
        ++ (if g.shadow_quality = 1 then ["_SHADOWSMEDIUM_"] else [])
        ++ (if g.shadow_quality = 2 then ["_SHADOWSHIGH_"] else [])
        ++ (if g.shadow_quality = 3 then ["_SHADOWSVHIGH_"] else [])
        ++ (if g.shadow_quality = 4 then ["_SHADOWSULTRA_"] else [])
      else [])
  ++ (if g.normalmaps then ["_NORMALMAPS_"] else [])
  ++ (if g.lighting = 1 then ["_SSAO_LOW_"] else [])
  ++ (if g.lighting = 2 then ["_SSAO_HIGH_"] else [])
  ++ (if shader_defines.isEmpty then [] else streamWords shader_defines.data [])

/-- The success flag `LoadShader` returns: the result of `shader.Load` on the two paths
and the generated defines. -/
def shaderLoadResult {Q : Type} (env : Collaborators Q) (g : GraphicsGL2 Q)
    (shader_defines shader_path vert_shader_name frag_shader_name : String) : Bool :=
  env.shaderLoad (shader_path ++ "/" ++ vert_shader_name)
    (shader_path ++ "/" ++ frag_shader_name) (shaderDefines g shader_defines)

/-- The method `LoadShader`, as far as it changes the object: the shader is entered in
`shadermap` with the result of its load.  `abort` is the failed `assert(result.second)`
on a shader name already in `shadermap`. -/
def LoadShader {Q : Type} (env : Collaborators Q) (g : GraphicsGL2 Q)
    (shader_name shader_defines shader_path vert_shader_name frag_shader_name : String) :
    Flow (GraphicsGL2 Q) :=
  if mapMem g.shadermap shader_name then Flow.abort g
  else
    Flow.next ((g.setShadermap (g.shadermap ++ [(shader_name,
      shaderLoadResult env g shader_defines shader_path vert_shader_name
        frag_shader_name)])).log (Event.shaderLoad shader_name))

/-! ### `DisableShaders` (lines 941-969) -/

/-- The statement `render_outputs[name].RenderToFramebuffer()`. -/
def RenderToFramebufferAt (m : List (String × RenderOutput)) (name : String) :
    List (String × RenderOutput) :=
  mapSet m name (mapGetD m name RenderOutput.new).RenderToFramebuffer

/-- The path of the non-shader configuration (line 955). -/
def noshadersPath {Q : Type} (g : GraphicsGL2 Q) : String :=
  g.shaderpath ++ "/" ++ "noshaders.conf"

/-- The first part of `DisableShaders` (lines 943-956): the settings are reset and the
non-shader configuration is loaded. -/
def DisableShadersLoad {Q : Type} (env : Collaborators Q) (g : GraphicsGL2 Q) :
    GraphicsGL2 Q :=
  ((((((g.log Event.DisableShaders).setRenderconfigfile "noshaders.conf").setShadermap
    []).setUsingShaders false).setShadows false).setConfig
    (env.configLoad (noshadersPath g)).2).log (Event.configLoad (noshadersPath g))

/-- The last part of `DisableShaders` (lines 962-968): the default framebuffer, the
removal of the sky. -/
def DisableShadersFinish {Q : Type} (g : GraphicsGL2 Q) : GraphicsGL2 Q :=
  if g.sky_dynamic then
    (((g.setRenderOutputs (RenderToFramebufferAt g.render_outputs "framebuffer")).setTextureInputs
      (mapErase g.texture_inputs "sky")).setSky false)
  else g.setRenderOutputs (RenderToFramebufferAt g.render_outputs "framebuffer")

/-- The method `DisableShaders`; `abort` is the `assert(0)` after a failed load of the
non-shader configuration. -/
def DisableShaders {Q : Type} (env : Collaborators Q) (g : GraphicsGL2 Q) :
    Flow (GraphicsGL2 Q) :=
  if (env.configLoad (noshadersPath g)).1 = false then
    Flow.abort ((DisableShadersLoad env g).error
      ("Error loading non-shader render configuration file: " ++ noshadersPath g))
  else Flow.next (DisableShadersFinish (DisableShadersLoad env g))

/-! ### `EnableShaders` (lines 742-939) -/

/-- The loop that reloads the shaders (lines 768-775): `shadernames` is the set of names
seen, `ok` the variable `shader_load_success`, whose `&&` skips `LoadShader` once it is
false; the result pairs the outcome with `shader_load_success`.  `abort` is a failed
assertion on a repeated shader name. -/
def reloadShaders {Q : Type} (env : Collaborators Q) :
    List GraphicsConfigShader → GraphicsGL2 Q → List String → Bool →
      Flow (GraphicsGL2 Q) × Bool
  | [], g, _, ok => (Flow.next g, ok)
  | s :: l, g, shadernames, ok =>
    if shadernames.contains s.name then (Flow.abort g, ok)
    else if ok then
      match LoadShader env g s.name s.defines g.shaderpath s.vertex s.fragment with
      | Flow.next g1 =>
        reloadShaders env l g1 (s.name :: shadernames)
          (shaderLoadResult env g s.defines g.shaderpath s.vertex s.fragment)
      | Flow.ret g1 => (Flow.abort g1, ok)
      | Flow.abort g1 => (Flow.abort g1, ok)
    else reloadShaders env l g (s.name :: shadernames) false

/-- The condition table of `EnableShaders` (lines 797-835): the flags inserted into
`conditions`, in the order of the `ADDCONDITION` lines. -/
def buildConditions {Q : Type} (g : GraphicsGL2 Q) : List String :=
  let ssao := decide (g.lighting > 0)
  let ssao_low := decide (g.lighting = 1)
  let ssao_high := decide (g.lighting = 2)
  let reflection_disabled :=
    decide (g.reflection_status = ReflectionStatus.REFLECTION_DISABLED)
  let reflection_dynamic :=
    decide (g.reflection_status = ReflectionStatus.REFLECTION_DYNAMIC)
  let shadows_near := g.shadows
  let shadows_medium := g.shadows && decide (g.shadow_distance > 0)
  let shadows_far := g.shadows && decide (g.shadow_distance > 1)
  let shadow_quality_low := g.shadows && decide (g.shadow_quality = 0)
  let shadow_quality_medium := g.shadows && decide (g.shadow_quality = 1)
  let shadow_quality_high0 := g.shadows && decide (g.shadow_quality = 2)
  let shadow_quality_vhigh0 := g.shadows && decide (g.shadow_quality = 3)
  let shadow_quality_ultra0 := g.shadows && decide (g.shadow_quality = 4)
  let shadow_quality_high := shadow_quality_high0 || shadow_quality_vhigh0 || shadow_quality_ultra0
  let shadow_quality_vhigh := false
  (if g.fsaa > 1 then ["fsaa"] else [])
  ++ (if g.bloom then ["bloom"] else [])
  ++ (if g.normalmaps then ["normalmaps"] else [])
  ++ (if ssao then ["ssao"] else [])
  ++ (if ssao_low then ["ssao_low"] else [])
  ++ (if ssao_high then ["ssao_high"] else [])
  ++ (if reflection_disabled then ["reflection_disabled"] else [])
  ++ (if reflection_dynamic then ["reflection_dynamic"] else [])
  ++ (if shadows_near then ["shadows_near"] else [])
  ++ (if shadows_medium then ["shadows_medium"] else [])
  ++ (if shadows_far then ["shadows_far"] else [])
  ++ (if shadow_quality_low then ["shadow_quality_low"] else [])
  ++ (if shadow_quality_medium then ["shadow_quality_medium"] else [])
  ++ (if shadow_quality_high then ["shadow_quality_high"] else [])
  ++ (if shadow_quality_vhigh then ["shadow_quality_vhigh"] else [])
  ++ (if g.sky_dynamic then ["sky_dynamic"] else [])

/-- The line reporting a repeated output name. -/
def duplicateOutputWarning (name : String) : String :=
  "Detected duplicate output name in render config: " ++ name ++
    ", only the first output will be constructed."

/-- The line reporting an initialised output. -/
def initializedOutputLine (i : GraphicsConfigOutput) : String :=
  "Initialized render output: " ++ i.name ++
    (if i.type ≠ "framebuffer" then " (FBO)" else " (framebuffer alias)")

/-- Whether floating-point textures are supported (`has_texture_float`, line 842). -/
def hasTextureFloat {Q : Type} (env : Collaborators Q) : Bool :=
  env.GLEW_ARB_texture_float && env.GLEW_ARB_half_float_pixel

/-- The texture target of an output type (lines 861-865). -/
def targetOfType (type : String) : Target :=
  if type = "rectangle" then Target.RECTANGLE
  else if type = "cube" then Target.CUBEMAP else Target.NORMAL

/-- The multisample count handed to the texture of an output (lines 866-868). -/
def outputMultisample {Q : Type} (i : GraphicsConfigOutput) (g : GraphicsGL2 Q) : Int :=
  if i.multisample < 0 then g.fsaa else 0

/-- The texture an output is initialised to (lines 881-884), for the resolved format. -/
def outputTextureInit {Q : Type} (env : Collaborators Q) (i : GraphicsConfigOutput)
    (format : Format) (g : GraphicsGL2 Q) : FrameBufferTexture :=
  FrameBufferTexture.Init (env.GetSize i.width g.w) (env.GetSize i.height g.h)
    (targetOfType i.type) format (i.filter = "nearest") i.mipmap (outputMultisample i g)
    (i.format = "depthshadow")

/-- The initialisation of the texture of an output and its registration as an input
texture (lines 880-887), for the resolved format. -/
def outputInit {Q : Type} (env : Collaborators Q) (i : GraphicsConfigOutput) (format : Format)
    (g : GraphicsGL2 Q) : GraphicsGL2 Q :=
  ((g.setTextureOutputs (mapSet g.texture_outputs i.name
      (outputTextureInit env i format g))).log
    (Event.textureInit i.name (outputTextureInit env i format g))).setTextureInputs
    (mapSet g.texture_inputs i.name (TextureRef.fbtexture i.name))

/-- The failure for a floating-point format without floating-point textures (lines
872-878): two lines on the error stream, `DisableShaders`, `return`. -/
def outputFloatFailure {Q : Type} (env : Collaborators Q) (i : GraphicsConfigOutput)
    (g : GraphicsGL2 Q) : Flow (GraphicsGL2 Q) :=
  (DisableShaders env
    ((g.error "Your video card doesn't support floating point textures.").error
      ("Failed to load render output: " ++ i.name ++ " " ++ i.type))).thenReturn

/-- The construction of a texture output (lines 860-888): the entry of the name is
created in `texture_outputs`, then the format is resolved and checked. -/
def outputTexture {Q : Type} (env : Collaborators Q) (i : GraphicsConfigOutput)
    (g : GraphicsGL2 Q) : Flow (GraphicsGL2 Q) :=
  match TextureFormatFromString i.format with
  | none =>
    Flow.abort (g.setTextureOutputs (mapSet g.texture_outputs i.name FrameBufferTexture.new))
  | some format =>
    if !hasTextureFloat env && (format = Format.RGBA16 || format = Format.RGB16) then
      outputFloatFailure env i
        (g.setTextureOutputs (mapSet g.texture_outputs i.name FrameBufferTexture.new))
    else
      Flow.next (outputInit env i format
        (g.setTextureOutputs (mapSet g.texture_outputs i.name FrameBufferTexture.new)))

/-- The body of the loop over `config.outputs` (lines 844-892).  `Flow.ret` is the
`return` after `DisableShaders`, `abort` a failed assertion. -/
def outputBody {Q : Type} (env : Collaborators Q) (i : GraphicsConfigOutput)
    (g : GraphicsGL2 Q) : Flow (GraphicsGL2 Q) :=
  if i.conditions.Satisfied g.conditions then
    if mapMem g.texture_outputs i.name then
      Flow.next (g.error (duplicateOutputWarning i.name))
    else if i.type = "framebuffer" then
      Flow.next ((g.setRenderOutputs (RenderToFramebufferAt g.render_outputs i.name)).info
        (initializedOutputLine i))
    else
      (outputTexture env i g).andThen (fun g1 => Flow.next (g1.info (initializedOutputLine i)))
  else Flow.next g

/-- The textures collected for a tokenized output list: those of the names that have an
entry in `texture_outputs`, in the listed order. -/
def collectTextures (texture_outputs : List (String × FrameBufferTexture))
    (outputs : List String) : List (String × FrameBufferTexture) :=
  outputs.filterMap (fun o => (mapFind texture_outputs o).map (fun t => (o, t)))

/-- Modelled from the spec: the call `fbo.Init(glstate, fbotex, error_output)`, whose body
is outside the given sources, binds the given textures as one render-target group. -/
def FrameBufferObject.Init (_fbo : FrameBufferObject)
    (fbotex : List (String × FrameBufferTexture)) : FrameBufferObject :=
  { inited := true, textures := fbotex, cube_side := none }

/-- The render output `render_outputs[outname].RenderToFBO()` after its framebuffer object
is initialised with the given textures (lines 927-928). -/
def fboOutput (m : List (String × RenderOutput)) (outname : String)
    (fbotex : List (String × FrameBufferTexture)) : RenderOutput :=
  { target := RenderTarget.RENDER_TO_FBO,
    fbo := (mapGetD m outname RenderOutput.new).fbo.Init fbotex }

/-- The line written for a pass none of whose outputs is active. -/
def noActiveOutputLine {Q : Type} (env : Collaborators Q) : String :=
  "None of these outputs are active: " ++ env.streamText ++
    ", this pass will not have an output."

/-- The construction of the render target of a pass output that has no entry yet (lines
906-928), for the tokens of the output list. -/
def passOutputFbo {Q : Type} (env : Collaborators Q) (outname : String) (outputs : List String)
    (g : GraphicsGL2 Q) : GraphicsGL2 Q :=
  if (collectTextures g.texture_outputs outputs).isEmpty then g.error (noActiveOutputLine env)
  else
    (g.setRenderOutputs (mapSet g.render_outputs outname
      (fboOutput g.render_outputs outname (collectTextures g.texture_outputs outputs)))).log
      (Event.fboInit outname ((collectTextures g.texture_outputs outputs).map Prod.fst))

/-- The body of the loop over `config.passes` (lines 897-931); `abort` is a `Tokenize`
that does not return. -/
def passBody {Q : Type} (env : Collaborators Q) (i : GraphicsConfigPass)
    (g : GraphicsGL2 Q) : Flow (GraphicsGL2 Q) :=
  if i.conditions.Satisfied g.conditions then
    if mapMem g.render_outputs i.output then Flow.next g
    else
      match Tokenize i.output " " with
      | none => Flow.abort g
      | some outputs => Flow.next (passOutputFbo env i.output outputs g)
  else Flow.next g

/-- The input textures registered before the outputs are built (lines 837-840). -/
def commonTextures {Q : Type} (g : GraphicsGL2 Q) : List (String × TextureRef) :=
  if g.reflection_status = ReflectionStatus.REFLECTION_STATIC then
    mapSet (mapSet [] "reflection_cube" TextureRef.static_reflection) "ambient_cube"
      TextureRef.static_ambient
  else mapSet [] "ambient_cube" TextureRef.static_ambient

/-- The state in which the output graph is rebuilt (lines 787-840): shading is on, the
three maps are cleared, the flags are recomputed, the common textures are registered. -/
def buildStart {Q : Type} (g : GraphicsGL2 Q) : GraphicsGL2 Q :=
  ((((((g.info "Successfully enabled shaders").setUsingShaders true).setRenderOutputs
    []).setTextureOutputs []).setConditions (buildConditions g)).setTextureInputs
    (commonTextures g))

/-- The registration of the default framebuffer (line 894). -/
def registerFramebuffer {Q : Type} (g : GraphicsGL2 Q) : GraphicsGL2 Q :=
  g.setRenderOutputs (RenderToFramebufferAt g.render_outputs "framebuffer")

/-- The creation of the sky (lines 933-938). -/
def createSky {Q : Type} (g : GraphicsGL2 Q) : GraphicsGL2 Q :=
  if g.sky_dynamic then
    (g.setSky true).setTextureInputs (mapSet g.texture_inputs "sky" TextureRef.sky)
  else g

/-- The end of `EnableShaders` (lines 894-938), after the loop over the outputs: the
default framebuffer, the render targets of the passes, the sky. -/
def buildPassOutputs {Q : Type} (env : Collaborators Q) (g : GraphicsGL2 Q) :
    Flow (GraphicsGL2 Q) :=
  (forLoop (passBody env) g.config.passes (registerFramebuffer g)).andThen
    (fun g1 => Flow.next (createSky g1))

/-- The part of `EnableShaders` after the shaders are loaded (lines 787-939): the output
graph is rebuilt. -/
def buildOutputGraph {Q : Type} (env : Collaborators Q) (g : GraphicsGL2 Q) :
    Flow (GraphicsGL2 Q) :=
  ((forLoop (outputBody env) g.config.outputs (buildStart g)).andThen
    (buildPassOutputs env)).call

/-- The path of the configuration of the active profile (line 760). -/
def rcpath {Q : Type} (g : GraphicsGL2 Q) : String :=
  g.shaderpath ++ "/" ++ g.renderconfigfile

/-- The first part of `EnableShaders` (lines 744-765): the shaders are unloaded and the
configuration of the active profile is loaded. -/
def configReload {Q : Type} (env : Collaborators Q) (g : GraphicsGL2 Q) : GraphicsGL2 Q :=
  if (env.configLoad (rcpath g)).1 = false then
    ((((g.log Event.EnableShaders).setShadermap []).setConfig (env.configLoad (rcpath g)).2).log
      (Event.configLoad (rcpath g))).error
      ("Error loading render configuration file: " ++ rcpath g)
  else
    (((g.log Event.EnableShaders).setShadermap []).setConfig (env.configLoad (rcpath g)).2).log
      (Event.configLoad (rcpath g))

/-- The part of `EnableShaders` up to the shader loop (lines 744-777): the outcome and the
variable `shader_load_success`. -/
def reloadConfiguration {Q : Type} (env : Collaborators Q) (g : GraphicsGL2 Q) :
    Flow (GraphicsGL2 Q) × Bool :=
  reloadShaders env (env.configLoad (rcpath g)).2.shaders (configReload env g) []
    (env.configLoad (rcpath g)).1

/-- The method `EnableShaders`: `next` when it returns, `abort` at a failed assertion. -/
def EnableShaders {Q : Type} (env : Collaborators Q) (g : GraphicsGL2 Q) :
    Flow (GraphicsGL2 Q) :=
  (reloadConfiguration env g).1.call.andThen (fun g1 =>
    if (reloadConfiguration env g).2 = false then
      DisableShaders env (g1.error "Disabling shaders due to shader loading error")
    else buildOutputGraph env g1)

/-! ### `Init` (lines 225-346) -/

/-- The arguments of `Init` (the two streams are part of the state). -/
structure InitArgs where
  newshaderpath : String
  resx : Nat
  resy : Nat
  bpp : Nat
  depthbpp : Nat
  fullscreen : Bool
  antialiasing : Nat
  enableshadows : Bool
  new_shadow_distance : Int
  new_shadow_quality : Int
  reflection_type : Int
  static_reflectionmap_file : String
  static_ambientmap_file : String
  anisotropy : Int
  texturesize : Int
  lighting_quality : Int
  newbloom : Bool
  newnormalmaps : Bool
  dynamicsky : Bool
  renderconfig : String
  deriving DecidableEq, Repr

/-- Whether framebuffer objects are used (`use_fbos`, line 298, with one required draw
buffer and colour attachment). -/
def useFbos {Q : Type} (env : Collaborators Q) : Bool :=
  env.GLEW_framebuffer_object && decide (env.GL_MAX_DRAW_BUFFERS ≥ 1) &&
    decide (env.GL_MAX_COLOR_ATTACHMENTS ≥ 1)

/-- Whether the shading language is supported (line 310). -/
def shadersSupported {Q : Type} (env : Collaborators Q) : Bool :=
  env.GLEW_VERSION_2_0 && env.GLEW_ARB_shading_language_100 && env.GLEW_ARB_fragment_shader

/-- The assignments at the start of `Init` (lines 241-263), `ChangeDisplay` included as
far as it changes the object (`w`, `h`). -/
@[simps]
def GraphicsGL2.applyInitArgs {Q : Type} (g : GraphicsGL2 Q) (env : Collaborators Q)
    (a : InitArgs) : GraphicsGL2 Q :=
  { g with
    shadows := a.enableshadows
    shadow_distance := a.new_shadow_distance
    shadow_quality := a.new_shadow_quality
    lighting := a.lighting_quality
    bloom := a.newbloom
    normalmaps := a.newnormalmaps
    renderconfigfile := a.renderconfig
    shaderpath := a.newshaderpath
    sky_dynamic := a.dynamicsky
    reflection_status :=
      if a.reflection_type = 1 then ReflectionStatus.REFLECTION_STATIC
      else if a.reflection_type = 2 then ReflectionStatus.REFLECTION_DYNAMIC
      else g.reflection_status
    w := a.resx
    h := a.resy
    fsaa := if a.antialiasing > 1 then (a.antialiasing : Int) else 1
    max_anisotropy :=
      if env.GLEW_EXT_texture_filter_anisotropic then env.GL_MAX_TEXTURE_MAX_ANISOTROPY_EXT
      else g.max_anisotropy }

/-- The first settings of `Init` (lines 241-265). -/
def InitSettings {Q : Type} (env : Collaborators Q) (a : InitArgs) (g : GraphicsGL2 Q) :
    GraphicsGL2 Q :=
  (g.applyInitArgs env a).info
    ("Maximum anisotropy: " ++ toString (g.applyInitArgs env a).max_anisotropy)

/-- The capabilities written to the info stream in the last branch of the cascade of
`Init` (lines 288-295). -/
def InitFboInfo {Q : Type} (env : Collaborators Q) (g : GraphicsGL2 Q) : GraphicsGL2 Q :=
  (g.info ("Maximum color attachments: " ++ toString env.GL_MAX_COLOR_ATTACHMENTS)).info
    ("Maximum draw buffers (1 required): " ++ toString env.GL_MAX_DRAW_BUFFERS)

/-- The fallback to the profile "nofbos.conf" (lines 303-308). -/
def InitFboProfile {Q : Type} (env : Collaborators Q) (g : GraphicsGL2 Q) : GraphicsGL2 Q :=
  if g.renderconfigfile ≠ "nofbos.conf" ∧ useFbos env = false then
    (((InitFboInfo env g).info "Your video card doesn't support framebuffer objects.").info
      "Fall back to nofbos.conf.").setRenderconfigfile "nofbos.conf"
  else InitFboInfo env g

/-- The events of the loads of the static reflection and ambient cube maps (lines
312-332). -/
def staticCubemapLoads {Q : Type} (a : InitArgs) (g : GraphicsGL2 Q) : List Event :=
  (if (g.reflection_status = ReflectionStatus.REFLECTION_STATIC ∨
        g.reflection_status = ReflectionStatus.REFLECTION_DYNAMIC) ∧
        a.static_reflectionmap_file ≠ "" then
      [Event.textureLoad a.static_reflectionmap_file]
    else []) ++
  (if a.static_ambientmap_file ≠ "" then [Event.textureLoad a.static_ambientmap_file]
    else [])

/-- Record several events. -/
@[simps]
def GraphicsGL2.logAll {Q : Type} (g : GraphicsGL2 Q) (es : List Event) : GraphicsGL2 Q :=
  { g with trace := g.trace ++ es }

/-- The capability cascade of `Init` (lines 267-341). -/
def InitCascade {Q : Type} (env : Collaborators Q) (a : InitArgs) (g : GraphicsGL2 Q) :
    Flow (GraphicsGL2 Q) :=
  if g.renderconfigfile = "noshaders.conf" then DisableShaders env g
  else if !env.GLEW_ARB_multitexture then
    DisableShaders env
      (g.info "Your video card doesn't support multitexturing.  Disabling shaders.")
  else if !env.GLEW_ARB_texture_cube_map then
    DisableShaders env
      (g.info "Your video card doesn't support cube maps.  Disabling shaders.")
  else if !env.GLEW_ARB_texture_non_power_of_two then
    DisableShaders env
      (g.info
        "Your video card doesn't support non-power-of-two textures.  Disabling shaders.")
  else if shadersSupported env then
    EnableShaders env ((InitFboProfile env g).logAll (staticCubemapLoads a g))
  else
    DisableShaders env ((InitFboProfile env g).info
      "Your video card doesn't support shaders. Fall back to noshaders.conf.")

/-- The last lines of `Init` (lines 343-345). -/
def InitFinish {Q : Type} (g : GraphicsGL2 Q) : GraphicsGL2 Q :=
  (g.info ("Renderer: " ++ g.shaderpath ++ "/" ++ g.renderconfigfile)).setInitialized true

/-- The method `Init`: `next` is the state when it returns `true`, `abort` a failed
assertion. -/
def Init {Q : Type} (env : Collaborators Q) (a : InitArgs) (g : GraphicsGL2 Q) :
    Flow (GraphicsGL2 Q) :=
  (InitCascade env a (InitSettings env a g)).call.andThen
    (fun g1 => Flow.next (InitFinish g1))

/-! ### `CullScenePass` (lines 971-1082) -/

/-- The name of the camera used for a cube side (lines 1008-1010, 1277-1279). -/
def cubeCameraName (camera : String) (cubeside : Nat) : String :=
  camera ++ "_cubeside" ++ toString cubeside

/-- The camera name of one run of the cube-side loop: the sub-camera of the side for a
cube map, the camera of the pass otherwise. -/
def sideCameraName (pass : GraphicsConfigPass) (cubemap : Bool) (cubeside : Nat) : String :=
  if cubemap then cubeCameraName pass.camera cubeside else pass.camera

/-- Modelled from the spec: the call `container->Query(shape, culled_static_drawlist[key])`
of the spatial index, whose body is outside the given sources, adds to the list stored
under `key` (created empty when missing) the drawables of the container that the shape
intersects; `visible` is the intersection test, constantly true for
`Aabb<float>::IntersectAlways()`. -/
def Query (container : List Nat) (visible : Nat → Bool)
    (culled : List (String × List Nat)) (key : String) : List (String × List Nat) :=
  mapSet culled key (mapGetD culled key [] ++ container.filter visible)

/-- Whether a render output is a cube map (lines 995, 1268). -/
def isCubemap {Q : Type} (env : Collaborators Q) (oi : RenderOutput) : Bool :=
  oi.IsFBO && env.fboIsCubemap oi.fbo

/-- The sub-camera built for a cube side (lines 1002-1033); without a cube map nothing
is done. -/
def cullSubCamera {Q : Type} (env : Collaborators Q) (id : Nat) (pass : GraphicsConfigPass)
    (oi : RenderOutput) (cubemap : Bool) (cubeside : Nat) (g : GraphicsGL2 Q) :
    Flow (GraphicsGL2 Q) :=
  if cubemap then
    match mapFind g.cameras pass.camera with
    | none => Flow.ret (g.Report id ("Camera " ++ pass.camera ++ " couldn't be found"))
    | some bc =>
      match (GetCubeSideOrientation env.Rotate cubeside bc.orient g.error_output).2 with
      | none =>
        Flow.abort (g.setErrorOutput
          (GetCubeSideOrientation env.Rotate cubeside bc.orient g.error_output).1)
      | some orient =>
        if !oi.IsFBO then Flow.abort g
        else
          Flow.next ((g.setCameras (mapSet g.cameras (cubeCameraName pass.camera cubeside)
            (bc.cubeSide orient (env.fboGetWidth oi.fbo) (env.fboGetHeight oi.fbo)))).setErrorOutput
            (GetCubeSideOrientation env.Rotate cubeside bc.orient g.error_output).1)
  else Flow.next g

/-- The query of a culling pass for one camera and layer, when the key has no entry yet
(lines 1049-1064). -/
def cullFrustumQuery {Q : Type} (env : Collaborators Q) (id : Nat) (d cameraname : String)
    (cam : GraphicsCamera Q) (g : GraphicsGL2 Q) : Flow (GraphicsGL2 Q) :=
  match mapFind g.static_drawlist d with
  | none =>
    Flow.ret ((g.setRenderscene (g.renderscene.SetCamera cam)).Report id
      ("Drawable container " ++ d ++ " couldn't be found"))
  | some container =>
    Flow.next (((g.setCulled (Query container
        (env.intersects (cameraFrustum (cameraOrtho cam) cam)) g.culled_static_drawlist
        (BuildKey cameraname d))).log
      (Event.query id d (BuildKey cameraname d) true)).setRenderscene
      (g.renderscene.SetCamera cam).DisableOrtho)

/-- The query of a pass that does not cull, for one camera and layer (lines 1069-1078). -/
def cullAlwaysQuery {Q : Type} (id : Nat) (d cameraname : String) (g : GraphicsGL2 Q) :
    Flow (GraphicsGL2 Q) :=
  match mapFind g.static_drawlist d with
  | none => Flow.ret (g.Report id ("Drawable container " ++ d ++ " couldn't be found"))
  | some container =>
    Flow.next ((g.setCulled (Query container (fun _ => true) g.culled_static_drawlist
      (BuildKey cameraname d))).log (Event.query id d (BuildKey cameraname d) false))

/-- The culling of one camera and layer (lines 1035-1079). -/
def cullQuery {Q : Type} (env : Collaborators Q) (id : Nat) (pass : GraphicsConfigPass)
    (d cameraname : String) (g : GraphicsGL2 Q) : Flow (GraphicsGL2 Q) :=
  if pass.cull then
    match mapFind g.cameras cameraname with
    | none => Flow.ret (g.Report id ("Camera " ++ cameraname ++ " couldn't be found"))
    | some cam =>
      if mapMem g.culled_static_drawlist (BuildKey cameraname d) then Flow.next g
      else cullFrustumQuery env id d cameraname cam g
  else cullAlwaysQuery id d cameraname g

/-- The body of the loop over the cube sides in `CullScenePass` (lines 1000-1080), for the
draw layer `d`, the render output `oi` and the flag `cubemap`. -/
def cullSideBody {Q : Type} (env : Collaborators Q) (id : Nat) (pass : GraphicsConfigPass)
    (d : String) (oi : RenderOutput) (cubemap : Bool) (cubeside : Nat) (g : GraphicsGL2 Q) :
    Flow (GraphicsGL2 Q) :=
  (cullSubCamera env id pass oi cubemap cubeside g).andThen
    (cullQuery env id pass d (sideCameraName pass cubemap cubeside))

/-- The cube sides a loop runs over: six for a cube map, one otherwise. -/
def cubeSides (cubemap : Bool) : List Nat :=
  List.range (if cubemap then 6 else 1)

/-- The body of the loop over the draw layers in `CullScenePass` (lines 984-1081). -/
def cullLayerBody {Q : Type} (env : Collaborators Q) (id : Nat) (pass : GraphicsConfigPass)
    (d : String) (g : GraphicsGL2 Q) : Flow (GraphicsGL2 Q) :=
  match mapFind g.render_outputs pass.output with
  | none =>
    Flow.ret (g.Report id ("Render output " ++ pass.output ++ " couldn't be found"))
  | some oi =>
    forLoop (cullSideBody env id pass d oi (isCubemap env oi)) (cubeSides (isCubemap env oi)) g

/-- The method `CullScenePass` for the pass at position `id`: `next` when it returns,
`abort` at a failed assertion. -/
def CullScenePass {Q : Type} (env : Collaborators Q) (id : Nat) (pass : GraphicsConfigPass)
    (g : GraphicsGL2 Q) : Flow (GraphicsGL2 Q) :=
  if pass.draw.isEmpty then Flow.abort g
  else if pass.draw.getLast? = some "postprocess" ∨
      pass.conditions.Satisfied g.conditions = false then Flow.next g
  else (forLoop (cullLayerBody env id pass) pass.draw g).call

/-! ### `GetScenePassInputTextures` (lines 1186-1215) -/

/-- The method `GetScenePassInputTextures`: the vector `input_textures` after the loop
over the entries of `inputs.tu`; `none` entries are `NULL`. -/
def GetScenePassInputTextures (texture_inputs : List (String × TextureRef)) :
    List (Nat × String) → List (Option TextureRef) → List (Option TextureRef)
  | [], input_textures => input_textures
  | (tuid, texname) :: l, input_textures =>
    let cursize := input_textures.length
    let padded := input_textures ++ List.replicate (tuid - cursize) none
    if mapMem texture_inputs texname then
      GetScenePassInputTextures texture_inputs l (padded ++ [mapFind texture_inputs texname])
    else
      GetScenePassInputTextures texture_inputs l (padded ++ [none])

/-! ### Rendering (lines 1351-1402) -/

/-- The method `Render`: the output is begun, the input rendered, the output ended. -/
def Render {Q : Type} (g : GraphicsGL2 Q) (id : Nat) (post : Bool) (output : String) :
    GraphicsGL2 Q :=
  g.log (Event.render id post output)

/-- The method `RenderDrawlists`, called for the pass `id`, the layer and camera named,
and the render output stored under `output`; the extra textures are bound and unbound
around the draw. -/
def RenderDrawlists {Q : Type} (g : GraphicsGL2 Q) (id : Nat) (layer camera output : String)
    (dynamic_list static_list : List Nat) (extra_textures : List (Option TextureRef)) :
    GraphicsGL2 Q :=
  if dynamic_list.isEmpty && static_list.isEmpty && !g.renderscene.clear.1 &&
      !g.renderscene.clear.2 then
    g.log (Event.renderDrawlists id layer camera output g.renderscene.clear dynamic_list
      static_list extra_textures)
  else
    Render (((g.log (Event.renderDrawlists id layer camera output g.renderscene.clear
      dynamic_list static_list extra_textures)).setRenderscene
      (g.renderscene.SetDrawLists dynamic_list static_list))) id false output

/-- The call `renderscene.DisableOrtho()`. -/
def GraphicsGL2.disableOrtho {Q : Type} (g : GraphicsGL2 Q) : GraphicsGL2 Q :=
  g.setRenderscene g.renderscene.DisableOrtho

/-- The method `RenderPostProcess`; `abort` is the failed `assert` on an unknown shader. -/
def RenderPostProcess {Q : Type} (g : GraphicsGL2 Q) (id : Nat) (shadername : String)
    (textures : List (Option TextureRef)) (output : String) (write_color write_alpha : Bool) :
    Flow (GraphicsGL2 Q) :=
  if !mapMem g.shadermap shadername then
    Flow.abort (g.setPostprocess (g.postprocess.SetWrite write_color write_alpha))
  else
    Flow.next (Render (g.setPostprocess
      ((g.postprocess.SetWrite write_color write_alpha).SetShaderTextures shadername
        textures)) id true output)

/-! ### `DrawScenePassLayer` (lines 1259-1335) -/

/-- The render output `render_output.RenderToFBO()` with the given cube side set. -/
def cubeSideOutput (ro : RenderOutput) (side : CubeSide) : RenderOutput :=
  { target := RenderTarget.RENDER_TO_FBO, fbo := { ro.fbo with cube_side := some side } }

/-- The call of `AttachCubeSide` on the render output of the pass (lines 1274-1283);
without a cube map nothing is done. -/
def attachSide {Q : Type} (id : Nat) (pass : GraphicsConfigPass) (cubemap : Bool)
    (cubeside : Nat) (g : GraphicsGL2 Q) : Flow (GraphicsGL2 Q) :=
  if cubemap then
    match cubeSideOfIndex cubeside with
    | none =>
      Flow.abort ((g.setRenderOutputs (mapSet g.render_outputs pass.output
        (mapGetD g.render_outputs pass.output RenderOutput.new).RenderToFBO)).error
        (cubeAttachError cubeside))
    | some side =>
      Flow.next ((g.setRenderOutputs (mapSet g.render_outputs pass.output
        (cubeSideOutput (mapGetD g.render_outputs pass.output RenderOutput.new) side))).log
        (Event.attachCubeSide id pass.output side))
  else Flow.next g

/-- The drawing of one cube side of a layer once the camera is found (lines 1294-1333). -/
def drawSideRender {Q : Type} (id : Nat) (pass : GraphicsConfigPass) (layer : String)
    (input_textures : List (Option TextureRef)) (cameraname : String) (cam : GraphicsCamera Q)
    (g : GraphicsGL2 Q) : Flow (GraphicsGL2 Q) :=
  match mapFind g.dynamic_drawlist layer with
  | none =>
    Flow.ret ((g.setRenderscene (g.renderscene.SetCamera cam)).Report id
      ("Drawable container " ++ layer ++ " couldn't be found"))
  | some container_dynamic =>
    match mapFind g.culled_static_drawlist (BuildKey cameraname layer) with
    | none =>
      Flow.ret ((g.setRenderscene (g.renderscene.SetCamera cam)).Report id
        ("Couldn't find culled static drawlist for camera/draw combination: " ++
          BuildKey cameraname layer))
    | some container_static =>
      Flow.next (RenderDrawlists
        (g.setRenderscene ((g.renderscene.SetCamera cam).SetCarPaintHack
          (!g.using_shaders && decide (layer = "car_noblend"))))
        id layer cameraname pass.output container_dynamic container_static
        input_textures).disableOrtho

/-- The part of the cube-side loop of `DrawScenePassLayer` after the side is attached
(lines 1285-1333). -/
def drawSideCamera {Q : Type} (id : Nat) (pass : GraphicsConfigPass) (layer : String)
    (input_textures : List (Option TextureRef)) (cameraname : String) (g : GraphicsGL2 Q) :
    Flow (GraphicsGL2 Q) :=
  match mapFind g.cameras cameraname with
  | none => Flow.ret (g.Report id ("Camera " ++ pass.camera ++ " couldn't be found"))
  | some cam => drawSideRender id pass layer input_textures cameraname cam g

/-- The body of the loop over the cube sides in `DrawScenePassLayer`; the render output
is the entry of `pass.output` in `render_outputs`. -/
def drawSideBody {Q : Type} (id : Nat) (pass : GraphicsConfigPass)
    (layer : String) (input_textures : List (Option TextureRef)) (cubemap : Bool)
    (cubeside : Nat) (g : GraphicsGL2 Q) : Flow (GraphicsGL2 Q) :=
  (attachSide id pass cubemap cubeside g).andThen
    (drawSideCamera id pass layer input_textures (sideCameraName pass cubemap cubeside))

/-- The method `DrawScenePassLayer`, for the render output stored under `pass.output`
(which the caller has found); its `return`s end this method only. -/
def DrawScenePassLayer {Q : Type} (env : Collaborators Q) (id : Nat)
    (pass : GraphicsConfigPass) (layer : String) (input_textures : List (Option TextureRef))
    (g : GraphicsGL2 Q) : Flow (GraphicsGL2 Q) :=
  (forLoop (drawSideBody id pass layer input_textures
      (isCubemap env (mapGetD g.render_outputs pass.output RenderOutput.new)))
    (cubeSides (isCubemap env (mapGetD g.render_outputs pass.output RenderOutput.new)))
    g).call

/-! ### `DrawScenePassPost` (lines 1140-1184) and `DrawScenePass` (lines 1084-1138) -/

/-- The end of `DrawScenePassPost` (lines 1172-1183): the shader is looked up and the
post-process is rendered into `render_outputs[pass.output]`. -/
def postRender {Q : Type} (id : Nat) (pass : GraphicsConfigPass) (g : GraphicsGL2 Q) :
    Flow (GraphicsGL2 Q) :=
  if !mapMem g.shadermap pass.shader then
    Flow.next (g.Report id ("Shader " ++ pass.shader ++ " couldn't be found"))
  else
    RenderPostProcess
      (g.setRenderOutputs (mapSet g.render_outputs pass.output
        (mapGetD g.render_outputs pass.output RenderOutput.new)))
      id pass.shader (GetScenePassInputTextures g.texture_inputs pass.inputs.tu [])
      pass.output pass.write_color pass.write_alpha

/-- The set-up of the post-process for a camera that was found (lines 1158-1170). -/
def postSetup {Q : Type} (pass : GraphicsConfigPass) (cam : GraphicsCamera Q)
    (g : GraphicsGL2 Q) : Flow (GraphicsGL2 Q) :=
  match DepthModeFromString pass.depthtest with
  | none =>
    Flow.abort ((g.setRenderscene (g.renderscene.SetCamera cam)).setPostprocess
      (g.postprocess.SetCameraInfo cam))
  | some depthmode =>
    match BlendModeFromString pass.blendmode with
    | none =>
      Flow.abort ((g.setRenderscene (g.renderscene.SetCamera cam)).setPostprocess
        (((g.postprocess.SetCameraInfo cam).SetDepthMode depthmode).SetWriteDepthClear
          pass.write_depth pass.clear_color pass.clear_depth))
    | some blendmode =>
      Flow.next ((g.setRenderscene (g.renderscene.SetCamera cam)).setPostprocess
        ((((g.postprocess.SetCameraInfo cam).SetDepthMode depthmode).SetWriteDepthClear
          pass.write_depth pass.clear_color pass.clear_depth).SetBlendMode blendmode))

/-- The method `DrawScenePassPost`. -/
def DrawScenePassPost {Q : Type} (id : Nat) (pass : GraphicsConfigPass)
    (g : GraphicsGL2 Q) : Flow (GraphicsGL2 Q) :=
  if pass.draw.getLast? ≠ some "postprocess" then Flow.abort g
  else
    match mapFind g.cameras pass.camera with
    | none => Flow.next (g.Report id ("Camera " ++ pass.camera ++ " couldn't be found"))
    | some cam => (postSetup pass cam g).andThen (postRender id pass)

/-- The body of the loop over the draw layers in `DrawScenePass` (lines 1130-1137). -/
def drawLayerBody {Q : Type} (env : Collaborators Q) (id : Nat) (pass : GraphicsConfigPass)
    (input_textures : List (Option TextureRef)) (d : String) (g : GraphicsGL2 Q) :
    Flow (GraphicsGL2 Q) :=
  (DrawScenePassLayer env id pass d input_textures g).andThen
    (fun g1 => Flow.next (g1.setRenderscene (g1.renderscene.SetClear false false)))

/-- The render input after the shader of the pass is set (lines 1103-1112). -/
def passShaderScene {Q : Type} (pass : GraphicsConfigPass) (g : GraphicsGL2 Q) :
    RenderInputScene Q :=
  if g.using_shaders then g.renderscene.SetDefaultShader pass.shader else g.renderscene

/-- The set-up of the render input in `DrawScenePass` (lines 1102-1120); `ret` is the
`return` for an unknown shader, `abort` a failed assertion of the two string tables. -/
def drawPassSetup {Q : Type} (id : Nat) (pass : GraphicsConfigPass) (g : GraphicsGL2 Q) :
    Flow (GraphicsGL2 Q) :=
  if g.using_shaders ∧ mapMem g.shadermap pass.shader = false then
    Flow.ret (g.Report id ("Shader " ++ pass.shader ++ " couldn't be found"))
  else
    match BlendModeFromString pass.blendmode with
    | none => Flow.abort (g.setRenderscene (passShaderScene pass g))
    | some blendmode =>
      match DepthModeFromString pass.depthtest with
      | none =>
        Flow.abort (g.setRenderscene ((passShaderScene pass g).SetBlendMode blendmode))
      | some depthmode =>
        Flow.next (g.setRenderscene
          (((((passShaderScene pass g).SetBlendMode blendmode).SetDepthMode depthmode).SetClear
            pass.clear_color pass.clear_depth).SetWrite pass.write_color pass.write_alpha
            pass.write_depth))

/-- The end of `DrawScenePass` (lines 1122-1137): the render output is looked up and the
layers are drawn. -/
def drawPassLayers {Q : Type} (env : Collaborators Q) (id : Nat) (pass : GraphicsConfigPass)
    (g : GraphicsGL2 Q) : Flow (GraphicsGL2 Q) :=
  if mapMem g.render_outputs pass.output = false then
    Flow.ret (g.Report id ("Render output " ++ pass.output ++ " couldn't be found"))
  else
    forLoop (drawLayerBody env id pass
      (GetScenePassInputTextures g.texture_inputs pass.inputs.tu [])) pass.draw g

/-- The method `DrawScenePass` for the pass at position `id`: `next` when it returns,
`abort` at a failed assertion. -/
def DrawScenePass {Q : Type} (env : Collaborators Q) (id : Nat) (pass : GraphicsConfigPass)
    (g : GraphicsGL2 Q) : Flow (GraphicsGL2 Q) :=
  if pass.conditions.Satisfied g.conditions = false then Flow.next g
  else if pass.draw.isEmpty then Flow.abort g
  else if pass.draw.getLast? = some "postprocess" then DrawScenePassPost id pass g
  else ((drawPassSetup id pass g).andThen (drawPassLayers env id pass)).call

/-! ### `DrawScene` (lines 532-557) -/

/-- The elements of a vector with their positions, counted from `n`. -/
def indexedFrom {α : Type} : Nat → List α → List (Nat × α)
  | _, [] => []
  | n, a :: l => (n, a) :: indexedFrom (n + 1) l

/-- The body of the first loop of `DrawScene`. -/
def cullPassBody {Q : Type} (env : Collaborators Q) (ip : Nat × GraphicsConfigPass)
    (g : GraphicsGL2 Q) : Flow (GraphicsGL2 Q) :=
  CullScenePass env ip.1 ip.2 g

/-- The body of the second loop of `DrawScene`. -/
def drawPassBody {Q : Type} (env : Collaborators Q) (ip : Nat × GraphicsConfigPass)
    (g : GraphicsGL2 Q) : Flow (GraphicsGL2 Q) :=
  DrawScenePass env ip.1 ip.2 g

/-- The two-dimensional draw list after `std::sort` (line 543). -/
def sortedDynamicDrawlist {Q : Type} (env : Collaborators Q) (g : GraphicsGL2 Q) :
    List (String × List Nat) :=
  match mapFind g.dynamic_drawlist "twodim" with
  | some l => mapSet g.dynamic_drawlist "twodim" (env.sortDraworder l)
  | none => g.dynamic_drawlist

/-- The settings `DrawScene` makes before its loops (lines 534-546): the render inputs
receive the current settings, the two-dimensional draw list is sorted, the cull cache
starts empty. -/
def DrawSceneSetup {Q : Type} (env : Collaborators Q) (g : GraphicsGL2 Q) : GraphicsGL2 Q :=
  (((g.setRenderscene (g.renderscene.SetFrame g.using_shaders g.fsaa g.contrast
    g.light_direction)).setPostprocess (g.postprocess.SetFrame g.contrast
    g.light_direction)).setDynamicDrawlist (sortedDynamicDrawlist env g)).setCulled []

/-- The two loops of `DrawScene` (lines 547-556). -/
def DrawSceneLoops {Q : Type} (env : Collaborators Q) (g : GraphicsGL2 Q) :
    Flow (GraphicsGL2 Q) :=
  (forLoop (cullPassBody env) (indexedFrom 0 g.config.passes) g).andThen
    (fun g1 => forLoop (drawPassBody env) (indexedFrom 0 g1.config.passes) g1)

/-- The method `DrawScene`, one frame: `next` when it returns, `abort` at a failed
assertion. -/
def DrawScene {Q : Type} (env : Collaborators Q) (g : GraphicsGL2 Q) :
    Flow (GraphicsGL2 Q) :=
  (DrawSceneLoops env (DrawSceneSetup env g)).call

/-- What the engine hands over between two frames (`SetupScene`, the scene nodes, the
setters): cameras, draw lists, render inputs, light and contrast. -/
structure SceneUpdate (Q : Type) where
  cameras : List (String × GraphicsCamera Q)
  static_drawlist : List (String × List Nat)
  dynamic_drawlist : List (String × List Nat)
  renderscene : RenderInputScene Q
  postprocess : RenderInputPostprocess Q
  light_direction : Vec3
  contrast : Int

/-- The renderer with the scene of the next frame. -/
@[simps]
def SceneUpdate.apply {Q : Type} (u : SceneUpdate Q) (g : GraphicsGL2 Q) : GraphicsGL2 Q :=
  { g with cameras := u.cameras, static_drawlist := u.static_drawlist,
           dynamic_drawlist := u.dynamic_drawlist, renderscene := u.renderscene,
           postprocess := u.postprocess, light_direction := u.light_direction,
           contrast := u.contrast }

/-- The body of a sequence of frames: a scene update followed by `DrawScene`. -/
def frameBody {Q : Type} (env : Collaborators Q) (u : SceneUpdate Q) (g : GraphicsGL2 Q) :
    Flow (GraphicsGL2 Q) :=
  DrawScene env (u.apply g)

/-- A sequence of frames. -/
def DrawFrames {Q : Type} (env : Collaborators Q) (frames : List (SceneUpdate Q))
    (g : GraphicsGL2 Q) : Flow (GraphicsGL2 Q) :=
  forLoop (frameBody env) frames g

/-- The list `b` is `a` with further elements appended. -/
def Grows {α : Type} (a b : List α) : Prop := ∃ t, b = a ++ t

/-- The queries of a frame that fill the cull-cache entry of a key. -/
def queriesOf (key : String) (trace : List Event) : List Event :=
  trace.filter (fun e =>
    match e with
    | Event.query _ _ k _ => k = key
    | _ => false)

/-- The pass an event belongs to: the identity handed to `ReportOnce`, or the pass whose
culling or drawing issued the event. -/
def Event.passId : Event → Option Nat
  | Event.report id _ => some id
  | Event.query id _ _ _ => some id
  | Event.attachCubeSide id _ _ => some id
  | Event.renderDrawlists id _ _ _ _ _ _ _ => some id
  | Event.render id _ _ => some id
  | _ => none

/-- The events of a pass in the record: its reports, cull queries, cube-side attachments
and draws, in order. -/
def eventsOf (id : Nat) (trace : List Event) : List Event :=
  trace.filter (fun e => e.passId = some id)

/-- What the frames keep, relative to the state `b` left by `EnableShaders`, for a pass
`id` and an output name `out`: the configuration, the flags and the shaders are those of
`b`, shading is on, `out` has no entry in the render-output map, the last message
`ReportOnce` holds for the pass is `pm`, and the events of the pass are `R`. -/
def FrameInv {Q : Type} (b : GraphicsGL2 Q) (id : Nat) (out : String) (pm : Option String)
    (R : List Event) (g : GraphicsGL2 Q) : Prop :=
  g.config = b.config ∧ g.conditions = b.conditions ∧ g.shadermap = b.shadermap ∧
    g.using_shaders = true ∧ mapMem g.render_outputs out = false ∧
    mapFind g.prev_messages id = pm ∧ eventsOf id g.trace = R

/-- What the rebuild of the output graph in `EnableShaders` keeps, relative to the state
`b` in which it starts, for a pass `id`, as long as no active output is named
"reflection": the flags, the configuration, the shaders and the static map of
`ReportOnce` are those of `b`, shading is on, the pass has no new event, and
"reflection" has no entry in the three maps. -/
def BuildInv {Q : Type} (b : GraphicsGL2 Q) (id : Nat) (g : GraphicsGL2 Q) : Prop :=
  g.conditions = b.conditions ∧ g.config = b.config ∧ g.using_shaders = true ∧
    g.shadermap = b.shadermap ∧ g.prev_messages = b.prev_messages ∧
    eventsOf id g.trace = eventsOf id b.trace ∧
    mapMem g.render_outputs "reflection" = false ∧
    mapMem g.texture_outputs "reflection" = false ∧
    mapMem g.texture_inputs "reflection" = false

/-! ### Settings and flags -/

/-- The settings from which `EnableShaders` computes the flags: the members `fsaa`,
`bloom`, `normalmaps`, `lighting`, `reflection_status`, `shadows`, `shadow_distance`,
`shadow_quality` and `sky_dynamic`. -/
def GraphicsGL2.settings {Q : Type} (g : GraphicsGL2 Q) :
    Int × Bool × Bool × Int × ReflectionStatus × Bool × Int × Int × Bool :=
  (g.fsaa, g.bloom, g.normalmaps, g.lighting, g.reflection_status, g.shadows,
    g.shadow_distance, g.shadow_quality, g.sky_dynamic)

/-- What holds during `EnableShaders` from the point where the flags are rebuilt: as long
as shading is on, the flags are those computed from the settings `S` and the settings
are still `S`. -/
def FlagsBuilt {Q : Type} (C : List String)
    (S : Int × Bool × Bool × Int × ReflectionStatus × Bool × Int × Int × Bool)
    (g : GraphicsGL2 Q) : Prop :=
  g.using_shaders = true → g.conditions = C ∧ g.settings = S

/-- What holds of the texture initialisations in a list of events, for the output
descriptors `outs` and the global sample count `fsaa`: each is the initialisation of the
texture of one of the descriptors, and the multisample count it was handed is `fsaa` when
the descriptor declares a negative count and 0 otherwise. -/
def TexInits (outs : List GraphicsConfigOutput) (fsaa : Int) (t : List Event) : Prop :=
  ∀ name tex, Event.textureInit name tex ∈ t →
    ∃ o ∈ outs, o.name = name ∧ tex.multisample = (if o.multisample < 0 then fsaa else 0)

/-- What holds during `EnableShaders`, started in the state `g0`: the global sample count is
that of `g0`, and the events recorded since `g0` satisfy `TexInits`. -/
def InitsSince {Q : Type} (g0 : GraphicsGL2 Q) (outs : List GraphicsConfigOutput)
    (g : GraphicsGL2 Q) : Prop :=
  g.fsaa = g0.fsaa ∧ ∃ t, g.trace = g0.trace ++ t ∧ TexInits outs g0.fsaa t

/-! ### Draws and cube sides in the record of events -/

/-- The draws in a list of events: for every call of `RenderDrawlists`, the layer drawn
and the pair of clear flags of the render input at the call. -/
def drawsIn (t : List Event) : List (String × (Bool × Bool)) :=
  t.filterMap (fun e =>
    match e with
    | Event.renderDrawlists _ layer _ _ clear _ _ _ => some (layer, clear)
    | _ => none)

/-- A step of the cube-side loop of `DrawScenePassLayer` as the record shows it: a cube
side attached to the render output, or a call of `RenderDrawlists` for a layer with a
camera. -/
inductive FaceStep
  | attach (side : CubeSide)
  | draw (layer camera : String)
  deriving DecidableEq, Repr

/-- The steps of the cube-side loops in a list of events. -/
def faceSteps (t : List Event) : List FaceStep :=
  t.filterMap (fun e =>
    match e with
    | Event.attachCubeSide _ _ side => some (FaceStep.attach side)
    | Event.renderDrawlists _ layer camera _ _ _ _ _ => some (FaceStep.draw layer camera)
    | _ => none)

/-- The cube side of an index of the cube-side loop (the table of `AttachCubeSide`). -/
def sideOfIndex (cubeside : Nat) : CubeSide :=
  (cubeSideOfIndex cubeside).getD CubeSide.POSX

/-- The steps of one run of the body of the cube-side loop for a layer: the side is
attached for a cube map, then the layer is drawn with the camera of the side. -/
def sideSteps (pass : GraphicsConfigPass) (cubemap : Bool) (layer : String)
    (cubeside : Nat) : List FaceStep :=
  (if cubemap then [FaceStep.attach (sideOfIndex cubeside)] else []) ++
    [FaceStep.draw layer (sideCameraName pass cubemap cubeside)]

/-- The steps of a pass: for every layer in order, for every cube side in order (one run
without a cube map), the steps of the side. -/
def passSteps (pass : GraphicsConfigPass) (cubemap : Bool) : List FaceStep :=
  pass.draw.flatMap (fun layer => (cubeSides cubemap).flatMap (sideSteps pass cubemap layer))

/-- What the drawing of a pass keeps, relative to the state `g` in which `DrawScenePass`
is called and the render output `ro` of the pass in `g`: the cameras, the dynamic draw
lists and the cull cache are those of `g`, and the render output of the pass is `ro` up
to the cube side attached. -/
def DrawInv {Q : Type} (g : GraphicsGL2 Q) (pass : GraphicsConfigPass) (ro : RenderOutput)
    (s : GraphicsGL2 Q) : Prop :=
  s.cameras = g.cameras ∧ s.dynamic_drawlist = g.dynamic_drawlist ∧
    s.culled_static_drawlist = g.culled_static_drawlist ∧
    ∃ r, mapFind s.render_outputs pass.output = some r ∧ r.target = ro.target ∧
      r.fbo.inited = ro.fbo.inited ∧ r.fbo.textures = ro.fbo.textures

/-- The cull-cache keys `CullScenePass` fills for a pass: one for every draw layer and
every side of the render output of the pass. -/
def cullKeys {Q : Type} (env : Collaborators Q) (g : GraphicsGL2 Q)
    (pass : GraphicsConfigPass) : List String :=
  match mapFind g.render_outputs pass.output with
  | none => []
  | some oi =>
    pass.draw.flatMap (fun d => (cubeSides (isCubemap env oi)).map
      (fun n => BuildKey (sideCameraName pass (isCubemap env oi) n) d))

/-- The names of the sub-cameras `CullScenePass` stores for a pass: those of the six
sides when the render output of the pass is a cube map. -/
def cullCameras {Q : Type} (env : Collaborators Q) (g : GraphicsGL2 Q)
    (pass : GraphicsConfigPass) : List String :=
  match mapFind g.render_outputs pass.output with
  | none => []
  | some oi =>
    if isCubemap env oi then (cubeSides true).map (cubeCameraName pass.camera) else []

/-- What the cull phase keeps, relative to the state `g0` it starts in: the static draw
lists, the render outputs and the condition flags are those of `g0`, the camera `cam` is
the one of `g0`, and the cull-cache entry of the key `k` is `e`. -/
def CullKeep {Q : Type} (g0 : GraphicsGL2 Q) (cam k : String) (e : Option (List Nat))
    (s : GraphicsGL2 Q) : Prop :=
  s.static_drawlist = g0.static_drawlist ∧ s.render_outputs = g0.render_outputs ∧
    s.conditions = g0.conditions ∧ mapFind s.cameras cam = mapFind g0.cameras cam ∧
    mapFind s.culled_static_drawlist k = e

/-- The cull cache after the culling of the layer `d` with the camera `camera` of a pass
whose output is not a cube map. -/
def culledAfter {Q : Type} (env : Collaborators Q) (cull : Bool) (camera d : String)
    (cam : GraphicsCamera Q) (container : List Nat) (culled : List (String × List Nat)) :
    List (String × List Nat) :=
  if cull then
    if mapMem culled (BuildKey camera d) then culled
    else Query container (env.intersects (cameraFrustum (cameraOrtho cam) cam)) culled
      (BuildKey camera d)
  else Query container (fun _ => true) culled (BuildKey camera d)

/-- The cull phase of a frame: the first loop of `DrawScene` (lines 547-550), run after the
settings of `DrawSceneSetup`. -/
def cullPhase {Q : Type} (env : Collaborators Q) (g : GraphicsGL2 Q) : Flow (GraphicsGL2 Q) :=
  forLoop (cullPassBody env) (indexedFrom 0 (DrawSceneSetup env g).config.passes)
    (DrawSceneSetup env g)

/-! ### Concrete inputs -/

/-- A render input as the engine may hand it over. -/
def exRenderScene : RenderInputScene Int :=
  { shaders := false, fsaa := 1, contrast := 1, sun_direction := (0, 0, 0),
    default_shader := none, blendmode := BlendMode.DISABLED, depthmode := DepthMode.GL_LEQUAL,
    clear := (false, false), write_color := true, write_alpha := true, write_depth := true,
    ortho := none, camera := none, carpainthack := false, drawlists := ([], []) }

/-- A post-process input as the engine may hand it over. -/
def exPostprocess : RenderInputPostprocess Int :=
  { contrast := 1, sun_direction := (0, 0, 0), camera := none,
    depthmode := DepthMode.GL_LEQUAL, write_depth := true, clear := (false, false),
    blendmode := BlendMode.DISABLED, write_color := true, write_alpha := true, shader := none,
    source_textures := [] }

/-- A video card with every capability, over a file system in which "shaders/render.conf"
and "shaders/nofbos.conf" hold the given configuration and every other file an empty
one; quaternions are read as integers, a rotation adds its angle, every shader loads,
sizes resolve to the screen size, a framebuffer object is a cube map when it wraps a
cube-map texture. -/
def exEnv (config : GraphicsConfig) : Collaborators Int :=
  { Rotate := fun deg _ _ _ q => q + deg,
    configLoad := fun path =>
      if path = "shaders/render.conf" ∨ path = "shaders/nofbos.conf" then (true, config)
      else (true, GraphicsConfig.empty),
    shaderLoad := fun _ _ _ => true,
    GetSize := fun _ n => n,
    fboIsCubemap := fun fbo => fbo.textures.any (fun t => t.2.target = Target.CUBEMAP),
    fboGetWidth := fun _ => 512,
    fboGetHeight := fun _ => 512,
    intersects := fun _ _ => true,
    sortDraworder := fun l => l,
    streamText := "0x1",
    GLEW_EXT_texture_filter_anisotropic := true,
    GL_MAX_TEXTURE_MAX_ANISOTROPY_EXT := 16,
    GLEW_ARB_multitexture := true,
    GLEW_ARB_texture_cube_map := true,
    GLEW_ARB_texture_non_power_of_two := true,
    GL_MAX_COLOR_ATTACHMENTS := 8,
    GL_MAX_DRAW_BUFFERS := 8,
    GLEW_framebuffer_object := true,
    GLEW_VERSION_2_0 := true,
    GLEW_ARB_shading_language_100 := true,
    GLEW_ARB_fragment_shader := true,
    GLEW_ARB_texture_float := true,
    GLEW_ARB_half_float_pixel := true }

/-- The same video card without cube maps. -/
def exEnvNoCubemaps (config : GraphicsConfig) : Collaborators Int :=
  { exEnv config with GLEW_ARB_texture_cube_map := false }

/-- The same video card without floating-point textures. -/
def exEnvNoFloat (config : GraphicsConfig) : Collaborators Int :=
  { exEnv config with GLEW_ARB_texture_float := false }

/-- Arguments of `Init`: shader path "shaders", profile "render.conf", no shadows, the
given reflection type. -/
def exArgs (reflection_type : Int) : InitArgs :=
  { newshaderpath := "shaders", resx := 800, resy := 600, bpp := 32, depthbpp := 24,
    fullscreen := false, antialiasing := 0, enableshadows := false,
    new_shadow_distance := 0, new_shadow_quality := 0, reflection_type := reflection_type,
    static_reflectionmap_file := "", static_ambientmap_file := "", anisotropy := 0,
    texturesize := 0, lighting_quality := 0, newbloom := false, newnormalmaps := false,
    dynamicsky := false, renderconfig := "render.conf" }

/-- A freshly constructed renderer. -/
def exNew : GraphicsGL2 Int := GraphicsGL2.new exRenderScene exPostprocess

/-- A freshly constructed renderer with the settings of `exArgs 0`, as `Init` hands it
to `EnableShaders`. -/
def exStart : GraphicsGL2 Int :=
  exNew.applyInitArgs (exEnv GraphicsConfig.empty) (exArgs 0)

/-- The condition that is always satisfied. -/
def exAlways : GraphicsConfigCondition := ⟨[], []⟩

/-- An output descriptor of the given name, type, format and condition. -/
def exOutput (name type format : String) (c : GraphicsConfigCondition) :
    GraphicsConfigOutput :=
  { name := name, type := type, format := format, width := "1", height := "1",
    mipmap := false, multisample := 0, filter := "linear", conditions := c }

/-- A pass descriptor of the given camera, layers, output, shader, cull flag and
condition. -/
def exPass (camera : String) (draw : List String) (output shader : String) (cull : Bool)
    (c : GraphicsConfigCondition) : GraphicsConfigPass :=
  { camera := camera, draw := draw, output := output, shader := shader, inputs := ⟨[]⟩,
    blendmode := "disabled", depthtest := "lequal", clear_color := false,
    clear_depth := false, write_color := true, write_alpha := true, write_depth := true,
    cull := cull, conditions := c }

/-- The shader descriptor named "s". -/
def exShader : GraphicsConfigShader := ⟨"s", "", "s.vert", "s.frag"⟩

/-- A camera. -/
def exCamera : GraphicsCamera Int :=
  { pos := (0, 0, 0), orient := 0, fov := 45, view_distance := 100, w := 800, h := 600,
    orthomode := false, orthomin := (0, 0, 0), orthomax := (0, 0, 0) }

/-- A scene with the camera "default" and the layer "a" holding the static drawables 1
and 2 and the dynamic drawable 3. -/
def exScene : SceneUpdate Int :=
  { cameras := [("default", exCamera)], static_drawlist := [("a", [1, 2])],
    dynamic_drawlist := [("a", [3])], renderscene := exRenderScene,
    postprocess := exPostprocess, light_direction := (0, 0, 1), contrast := 1 }

/-- C2: a framebuffer alias and a texture output, both named "out" and always active. -/
def dupConfig : GraphicsConfig :=
  { shaders := [exShader],
    outputs := [exOutput "out" "framebuffer" "RGB8" exAlways,
      exOutput "out" "2D" "RGB8" exAlways],
    passes := [] }

/-- C3: two texture outputs and two passes with the output list "rt1 rt2". -/
def mrtConfig : GraphicsConfig :=
  { shaders := [exShader],
    outputs := [exOutput "rt1" "2D" "RGB8" exAlways, exOutput "rt2" "2D" "RGB8" exAlways],
    passes := [exPass "default" ["a"] "rt1 rt2" "s" false exAlways,
      exPass "default" ["a"] "rt1 rt2" "s" true exAlways] }

/-- C4: two passes that do not cull, sharing the camera "default" and the layer "a". -/
def sharedConfig : GraphicsConfig :=
  { shaders := [exShader],
    outputs := [],
    passes := [exPass "default" ["a"] "framebuffer" "s" false exAlways,
      exPass "default" ["a"] "framebuffer" "s" false exAlways] }

/-- C5: the cube-map output "reflection" under the condition `reflection_dynamic`, and a
pass into it whose shader is the given one. -/
def reflectionConfig (shader : String) : GraphicsConfig :=
  { shaders := [exShader],
    outputs := [exOutput "reflection" "cube" "RGB8" ⟨["reflection_dynamic"], []⟩],
    passes := [exPass "default" ["a"] "reflection" shader false exAlways] }

/-- C7: a texture output "a" followed by a texture output "b" of the format RGBA16. -/
def floatConfig : GraphicsConfig :=
  { shaders := [exShader],
    outputs := [exOutput "a" "2D" "RGB8" exAlways, exOutput "b" "2D" "RGBA16" exAlways],
    passes := [] }

/-- C10: a post-process pass into the output "bloom", which no descriptor declares. -/
def postConfig : GraphicsConfig :=
  { shaders := [exShader],
    outputs := [],
    passes := [exPass "default" ["postprocess"] "bloom" "s" false exAlways] }

/-- C5: the pass of `reflectionConfig "s"`. -/
def reflectionPass : GraphicsConfigPass :=
  exPass "default" ["a"] "reflection" "s" false exAlways

/-- C5: the state in which `EnableShaders` starts to rebuild the outputs of
`reflectionConfig "s"`. -/
def reflectionReloaded : GraphicsGL2 Int :=
  (reloadConfiguration (exEnv (reflectionConfig "s")) exStart).1.state

/-- C5: the cube-map output "reflection" under the condition `reflection_dynamic`, an
always active pass into it whose shader "none" is not declared, and a pass into it under
the condition `reflection_dynamic`. -/
def reflectionTwoConfig : GraphicsConfig :=
  { shaders := [exShader],
    outputs := [exOutput "reflection" "cube" "RGB8" ⟨["reflection_dynamic"], []⟩],
    passes := [exPass "default" ["a"] "reflection" "none" false exAlways,
      exPass "default" ["a"] "reflection" "s" false ⟨["reflection_dynamic"], []⟩] }

/-- C7: the state in which `EnableShaders` starts to rebuild the outputs of
`floatConfig`. -/
def floatReloaded : GraphicsGL2 Int :=
  (reloadConfiguration (exEnvNoFloat floatConfig) exStart).1.state

/-- C7: the state in which the loop over the outputs of `floatConfig` reaches the output
"b". -/
def floatBefore : GraphicsGL2 Int :=
  (forLoop (outputBody (exEnvNoFloat floatConfig)) [exOutput "a" "2D" "RGB8" exAlways]
    (buildStart floatReloaded)).state

/-! ### Further concrete inputs -/

/-- Arguments of `Init` as `exArgs 0`, with shadows on and the given shadow quality. -/
def exShadowArgs (quality : Int) : InitArgs :=
  { exArgs 0 with enableshadows := true, new_shadow_quality := quality }

/-- A freshly constructed renderer with the settings of `exShadowArgs quality`, as `Init`
hands it to `EnableShaders`. -/
def exShadowStart (quality : Int) : GraphicsGL2 Int :=
  exNew.applyInitArgs (exEnv GraphicsConfig.empty) (exShadowArgs quality)

/-- A pass under the condition `bloom`. -/
def bloomPass : GraphicsConfigPass :=
  exPass "default" ["a"] "framebuffer" "s" false ⟨["bloom"], []⟩

/-- C18: the texture output "a" declaring the multisample count 4 and the texture output
"b" declaring the count -1. -/
def msConfig : GraphicsConfig :=
  { shaders := [exShader],
    outputs := [{ exOutput "a" "2D" "RGB8" exAlways with multisample := 4 },
      { exOutput "b" "2D" "RGB8" exAlways with multisample := -1 }],
    passes := [] }

/-- A freshly constructed renderer with the settings of `exArgs 0` and fourfold
antialiasing, as `Init` hands it to `EnableShaders`. -/
def exFsaaStart : GraphicsGL2 Int :=
  exNew.applyInitArgs (exEnv GraphicsConfig.empty) { exArgs 0 with antialiasing := 4 }

/-- A scene with the camera "default" and the layers "a" (static drawables 1 and 2,
dynamic drawable 3) and "b" (static drawable 4, dynamic drawable 5). -/
def exScene2 : SceneUpdate Int :=
  { exScene with static_drawlist := [("a", [1, 2]), ("b", [4])],
                 dynamic_drawlist := [("a", [3]), ("b", [5])] }

/-- C13, C14: a pass that draws the layers "a" and "b" into the cube map "cube" and
clears the colour. -/
def cubePass : GraphicsConfigPass :=
  { exPass "default" ["a", "b"] "cube" "s" false exAlways with clear_color := true }

/-- C13, C14: the cube-map output "cube" and the pass `cubePass`. -/
def cubeConfig : GraphicsConfig :=
  { shaders := [exShader],
    outputs := [exOutput "cube" "cube" "RGB8" exAlways],
    passes := [cubePass] }

/-- C13, C14: the renderer after `EnableShaders` for `cubeConfig` and the culling of
`cubePass` in the scene `exScene2`, as `DrawScene` hands it to `DrawScenePass`. -/
def cubeCulled : GraphicsGL2 Int :=
  (CullScenePass (exEnv cubeConfig) 0 cubePass
    (DrawSceneSetup (exEnv cubeConfig)
      (exScene2.apply (EnableShaders (exEnv cubeConfig) exStart).state))).state

/-- C15: the collaborators of `exEnv` with a frustum that only the drawable 1
intersects. -/
def cullEnv (config : GraphicsConfig) : Collaborators Int :=
  { exEnv config with intersects := fun _ d => decide (d = 1) }

/-- C15: a pass that does not cull followed by a culling pass, both with the camera
"default" and the layer "a". -/
def mixConfig : GraphicsConfig :=
  { shaders := [exShader],
    outputs := [],
    passes := [exPass "default" ["a"] "framebuffer" "s" false exAlways,
      exPass "default" ["a"] "framebuffer" "s" true exAlways] }

/-- C15: the renderer after `EnableShaders` for `mixConfig`, with the scene `exScene`. -/
def mixFrame : GraphicsGL2 Int :=
  exScene.apply (EnableShaders (cullEnv mixConfig) exStart).state

/-- C15: a pass that does not cull the layer "b" followed by a culling pass of the layer
"a", both with the camera "default". -/
def soleConfig : GraphicsConfig :=
  { shaders := [exShader],
    outputs := [],
    passes := [exPass "default" ["b"] "framebuffer" "s" false exAlways,
      exPass "default" ["a"] "framebuffer" "s" true exAlways] }

/-- C15: the renderer after `EnableShaders` for `soleConfig`, with the scene `exScene2`. -/
def soleFrame : GraphicsGL2 Int :=
  exScene2.apply (EnableShaders (cullEnv soleConfig) exStart).state

/-! ### Observations for the lookups of the draw -/

/-- The messages of the `ReportOnce` lines recorded in a list of events. -/
def reportsIn (t : List Event) : List String :=
  t.filterMap (fun e => match e with
    | Event.report _ m => some m
    | _ => none)

/-- The camera store and the cull cache of `s1` hold every name, respectively key, that
those of `s` hold. -/
def CullGrows {Q : Type} (s s1 : GraphicsGL2 Q) : Prop :=
  (∀ c, mapMem s.cameras c = true → mapMem s1.cameras c = true) ∧
    ∀ k, mapMem s.culled_static_drawlist k = true → mapMem s1.culled_static_drawlist k = true

/-- What the culling of a pass keeps, relative to the state `g` it starts in: the render
outputs, the static draw lists and the condition flags are those of `g`, and so is the
camera stored under `camera`. -/
def CullBase {Q : Type} (g : GraphicsGL2 Q) (camera : String) (s : GraphicsGL2 Q) : Prop :=
  s.render_outputs = g.render_outputs ∧ s.static_drawlist = g.static_drawlist ∧
    s.conditions = g.conditions ∧ mapFind s.cameras camera = mapFind g.cameras camera

/-- The camera and the cull-cache entry that the draw of the layer `d` looks up for the
side `n` are present in `s`. -/
def LookupPresent {Q : Type} (pass : GraphicsConfigPass) (cubemap : Bool) (d : String)
    (n : Nat) (s : GraphicsGL2 Q) : Prop :=
  mapMem s.cameras (sideCameraName pass cubemap n) = true ∧
    mapMem s.culled_static_drawlist (BuildKey (sideCameraName pass cubemap n) d) = true

/-- C22: the renderer after `EnableShaders` for `cubeConfig` and the settings of
`DrawScene` in the scene `exScene2`, as `DrawScene` hands it to the culling of
`cubePass`. -/
def cubeFrame : GraphicsGL2 Int :=
  DrawSceneSetup (exEnv cubeConfig)
    (exScene2.apply (EnableShaders (exEnv cubeConfig) exStart).state)

/-! ### The specification of `Tokenize` -/

/-- From the words of the specification, "splitting the input at every delimiter
character": the pieces of `l` between the characters that `isDelim` accepts, the empty
pieces included. -/
def splitAtDelims (isDelim : Char → Bool) : List Char → List (List Char)
  | [] => [[]]
  | c :: l =>
    if isDelim c then [] :: splitAtDelims isDelim l
    else
      match splitAtDelims isDelim l with
      | [] => [[c]]
      | p :: ps => (c :: p) :: ps

/-- From the words of the specification, "discarding the empty pieces": the non-empty
pieces of `l`, in their order. -/
def nonEmptyPieces (isDelim : Char → Bool) (l : List Char) : List (List Char) :=
  (splitAtDelims isDelim l).filter (fun p => !p.isEmpty)

/-- From the words of the specification: the input split at every delimiter character,
the empty pieces discarded. -/
def TokenizeSpec (input tokens : String) : List String :=
  (nonEmptyPieces (fun c => tokens.data.contains c) input.data).map String.mk

/-- C21: a string of 2^32 characters: 2^32 - 2 letters, a blank and a letter. -/
def hugeInput : String :=
  String.mk (List.replicate 4294967294 'a' ++ [' ', 'b'])

/-- C21: a string of 2^32 + 1 characters: 2^32 - 1 letters, a blank and a letter. -/
def hugeLoopInput : String :=
  String.mk (List.replicate 4294967295 'a' ++ [' ', 'b'])

/-! ### The frames of a pass whose output is not built -/

/-- The invariant `FrameInv` with the last message and the number of error lines of the
pass left open: the events of the pass are `R0` followed by lines of `ReportOnce`, each
with the message `m1` or the message `m2`. -/
def FrameQuiet {Q : Type} (b : GraphicsGL2 Q) (id : Nat) (out : String) (R0 : List Event)
    (m1 m2 : String) (g : GraphicsGL2 Q) : Prop :=
  ∃ pm X, FrameInv b id out pm (R0 ++ X) g ∧
    ∀ e ∈ X, e = Event.report id m1 ∨ e = Event.report id m2

/-! ### The first query of a cull-cache key -/

/-- The camera `CullScenePass` uses for the side `m` of a pass with the render output
`ro`, in the frame `g`: the camera of the pass, or, for a cube map, the sub-camera of the
side built from it (lines 1002-1033). -/
def sideCameraOf {Q : Type} (env : Collaborators Q) (g : GraphicsGL2 Q)
    (pass : GraphicsConfigPass) (ro : RenderOutput) (m : Nat) : Option (GraphicsCamera Q) :=
  match mapFind g.cameras pass.camera with
  | none => none
  | some bc =>
    if isCubemap env ro then
      match (GetCubeSideOrientation env.Rotate m bc.orient []).2 with
      | none => none
      | some orient =>
        some (bc.cubeSide orient (env.fboGetWidth ro.fbo) (env.fboGetHeight ro.fbo))
    else some bc

/-- What the query of a pass for the layer `d` and the side `m` puts into a cull-cache
entry that does not exist yet, in the frame `g` (lines 1035-1079): the whole static
contents of the layer for a pass that does not cull, and those of them that the frustum
of the camera of the side intersects for a culling pass; `none` when the render output,
the container or the camera is missing. -/
def cullExpected {Q : Type} (env : Collaborators Q) (g : GraphicsGL2 Q)
    (pass : GraphicsConfigPass) (d : String) (m : Nat) : Option (List Nat) :=
  match mapFind g.render_outputs pass.output, mapFind g.static_drawlist d with
  | some ro, some container =>
    if pass.cull then
      (sideCameraOf env g pass ro m).map (fun cam =>
        container.filter (env.intersects (cameraFrustum (cameraOrtho cam) cam)))
    else some container
  | _, _ => none

/-- What the cull phase keeps once the key `k` has the entry `E`, relative to the state
`g0` it starts in: the render outputs and the condition flags are those of `g0`, and the
entry of `k` is `E`. -/
def EntryKeep {Q : Type} (g0 : GraphicsGL2 Q) (k : String) (E : List Nat)
    (s : GraphicsGL2 Q) : Prop :=
  s.render_outputs = g0.render_outputs ∧ s.conditions = g0.conditions ∧
    mapFind s.culled_static_drawlist k = some E

/-- C15: two culling passes with the camera "default" and the layer "a". -/
def shareConfig : GraphicsConfig :=
  { shaders := [exShader],
    outputs := [],
    passes := [exPass "default" ["a"] "framebuffer" "s" true exAlways,
      exPass "default" ["a"] "framebuffer" "s" true exAlways] }

/-- C15: the renderer after `EnableShaders` for `shareConfig`, with the scene `exScene`. -/
def shareFrame : GraphicsGL2 Int :=
  exScene.apply (EnableShaders (cullEnv shareConfig) exStart).state

/-- C15: a culling pass that draws the layers "a" and "b" into the cube map "cube". -/
def cubeCullPass : GraphicsConfigPass :=
  exPass "default" ["a", "b"] "cube" "s" true exAlways

/-- C15: the cube-map output "cube" and the pass `cubeCullPass`. -/
def cubeCullConfig : GraphicsConfig :=
  { shaders := [exShader],
    outputs := [exOutput "cube" "cube" "RGB8" exAlways],
    passes := [cubeCullPass] }

/-- C15: the renderer after `EnableShaders` for `cubeCullConfig`, with the scene
`exScene2`. -/
def cubeCullFrame : GraphicsGL2 Int :=
  exScene2.apply (EnableShaders (cullEnv cubeCullConfig) exStart).state

/-! ## Part 2: theorems -/

/-! ### Association lists -/

theorem mapFind_mapSet_same {K V : Type} [DecidableEq K] (m : List (K × V)) (k : K) (v : V) :
    mapFind (mapSet m k v) k = some v := by
  induction m with
  | nil => simp [mapSet, mapFind]
  | cons p m ih =>
    obtain ⟨k1, v1⟩ := p
    by_cases h : k1 = k
    · simp [mapSet, mapFind, h]
    · simp [mapSet, mapFind, h, ih]

theorem mapFind_mapSet_other {K V : Type} [DecidableEq K] (m : List (K × V)) (k k2 : K)
    (v : V) (h : k ≠ k2) : mapFind (mapSet m k v) k2 = mapFind m k2 := by
  induction m with
  | nil => simp [mapSet, mapFind, h]
  | cons p m ih =>
    obtain ⟨k1, v1⟩ := p
    by_cases h1 : k1 = k
    · subst h1
      simp [mapSet, mapFind, h]
    · simp [mapSet, mapFind, h1, ih]

/-! ### C1: the cube-side orientation table -/

/-- C1: for every orientation `q`, `GetCubeSideOrientation` returns `q` rotated by +90
degrees about Y for face 0, -90 degrees about Y for face 1, +90 degrees about X for
face 2, -90 degrees about X for face 3, `q` itself for face 4 and `q` rotated by 180
degrees about Y for face 5, leaving the error stream alone; for every index outside
0..5 it writes its message and reaches `assert(0)` instead of returning normally. -/
theorem GetCubeSideOrientation_table {Q : Type} (Rotate : Int → Int → Int → Int → Q → Q)
    (q : Q) (eo : List String) :
    GetCubeSideOrientation Rotate 0 q eo = (eo, some (Rotate 90 0 1 0 q)) ∧
    GetCubeSideOrientation Rotate 1 q eo = (eo, some (Rotate (-90) 0 1 0 q)) ∧
    GetCubeSideOrientation Rotate 2 q eo = (eo, some (Rotate 90 1 0 0 q)) ∧
    GetCubeSideOrientation Rotate 3 q eo = (eo, some (Rotate (-90) 1 0 0 q)) ∧
    GetCubeSideOrientation Rotate 4 q eo = (eo, some q) ∧
    GetCubeSideOrientation Rotate 5 q eo = (eo, some (Rotate 180 0 1 0 q)) ∧
    ∀ i : Int, (i < 0 ∨ 5 < i) →
      GetCubeSideOrientation Rotate i q eo = (eo ++ [cubeOrientationError i], none) := by
  refine ⟨rfl, rfl, rfl, rfl, rfl, rfl, ?_⟩
  intro i hi
  have h0 : i ≠ 0 := by omega
  have h1 : i ≠ 1 := by omega
  have h2 : i ≠ 2 := by omega
  have h3 : i ≠ 3 := by omega
  have h4 : i ≠ 4 := by omega
  have h5 : i ≠ 5 := by omega
  simp [GetCubeSideOrientation, h0, h1, h2, h3, h4, h5]

/-- C1, at a concrete input: face 6 of the orientation `7` (quaternions read as integers,
rotation read as adding the angle) reaches the assertion. -/
theorem GetCubeSideOrientation_table_witness :
    ((6 : Int) < 0 ∨ (5 : Int) < 6) ∧
    GetCubeSideOrientation (fun deg _ _ _ (q : Int) => q + deg) 6 7 [] =
      ([cubeOrientationError 6], none) :=
  ⟨by decide,
   (GetCubeSideOrientation_table (fun deg _ _ _ (q : Int) => q + deg) 7 []).2.2.2.2.2.2 6
     (by decide)⟩

/-! ### C9: `ReportOnce` -/

theorem ReportOnceRun_snoc (calls : List (Nat × String)) (c : Nat × String)
    (start : List (Nat × String) × List String) :
    ReportOnceRun (calls ++ [c]) start =
      ReportOnce c.1 c.2 (ReportOnceRun calls start).1 (ReportOnceRun calls start).2 := by
  simp [ReportOnceRun, List.foldl_append]

theorem lastReported_snoc (calls : List (Nat × String)) (c : Nat × String) (id : Nat) :
    lastReported (calls ++ [c]) id = if c.1 = id then some c.2 else lastReported calls id := by
  induction calls with
  | nil => simp [lastReported]
  | cons d calls ih =>
    rw [List.cons_append, lastReported, ih, lastReported]
    by_cases h : c.1 = id
    · simp [h]
    · simp [h]

/-- The static map of `ReportOnce` holds, for every site, the message of its most recent
call. -/
theorem ReportOnceRun_prev (calls : List (Nat × String)) (id : Nat) :
    mapFind (ReportOnceRun calls ([], [])).1 id = lastReported calls id := by
  induction calls using List.reverseRecOn with
  | nil => simp [ReportOnceRun, mapFind, lastReported]
  | append_singleton calls c ih =>
    rw [ReportOnceRun_snoc, lastReported_snoc]
    by_cases h : c.1 = id
    · subst h
      by_cases hw : mapFind (ReportOnceRun calls ([], [])).1 c.1 = some c.2
      · simp [ReportOnce, hw]
      · have hw2 : mapFind (ReportOnceRun calls ([], [])).1 c.1 = none ∨
            mapFind (ReportOnceRun calls ([], [])).1 c.1 ≠ some c.2 := Or.inr hw
        simp only [ReportOnce, hw2, if_true, mapFind_mapSet_same]
    · by_cases hw : mapFind (ReportOnceRun calls ([], [])).1 c.1 = none ∨
          mapFind (ReportOnceRun calls ([], [])).1 c.1 ≠ some c.2
      · simp only [ReportOnce, hw, if_true, if_neg h]
        rw [mapFind_mapSet_other _ _ _ _ h, ih]
      · simp only [ReportOnce, hw, if_false, if_neg h]
        exact ih

/-- C9 (amended): a `ReportOnce` call writes its message exactly when the most recent
earlier call of the same site carried a different message, or the site has not reported
before; it writes nothing exactly when the site's most recent call carried the same
message.  So consecutive repeats of a site are suppressed, the first occurrence of a
pair is always written, and a pair is written again when another message of the same
site came in between. -/
theorem ReportOnce_writes_iff_differs_from_last (calls : List (Nat × String)) (id : Nat)
    (message : String) :
    (ReportOnceRun (calls ++ [(id, message)]) ([], [])).2 =
      (ReportOnceRun calls ([], [])).2 ++
        (if lastReported calls id = some message then [] else [message]) := by
  rw [ReportOnceRun_snoc]
  have hp := ReportOnceRun_prev calls id
  by_cases hw : lastReported calls id = some message
  · simp [ReportOnce, hp, hw]
  · have hw2 : lastReported calls id = none ∨ lastReported calls id ≠ some message :=
      Or.inr hw
    simp only [ReportOnce, hp, hw2, hw, if_true, if_false]

/-- C9, counterexample: in the run `(1,"a")`, `(1,"b")`, `(1,"a")` the pair `(1,"a")` is
written twice, the third call writing although its pair was already reported. -/
theorem ReportOnce_pair_written_twice :
    (ReportOnceRun [(1, "a"), (1, "b"), (1, "a")] ([], [])).2 = ["a", "b", "a"] ∧
    (ReportOnceRun [(1, "a"), (1, "b")] ([], [])).2 = ["a", "b"] := by
  decide

/-! ### `Tokenize` returns -/

theorem findFrom_some (p : Char → Bool) (l : List Char) (i j : Nat)
    (h : findFrom p l i = some j) :
    i ≤ j ∧ j < i + l.length ∧ ∃ c, l.get? (j - i) = some c ∧ p c = true := by
  induction l generalizing i with
  | nil => simp [findFrom] at h
  | cons c l ih =>
    simp only [findFrom] at h
    split_ifs at h with hc
    · cases h
      exact ⟨le_refl _, by simp, c, by simp, hc⟩
    · obtain ⟨h1, h2, d, h3, h4⟩ := ih (i + 1) h
      refine ⟨by omega, by simp only [List.length_cons]; omega, d, ?_, h4⟩
      have : j - i = (j - (i + 1)) + 1 := by omega
      rw [this, List.get?_cons_succ]
      exact h3

theorem find_first_of_cases (input tokens : List Char) (pos : Nat) :
    find_first_of input tokens pos = npos ∨
      (pos ≤ find_first_of input tokens pos ∧ find_first_of input tokens pos < input.length ∧
        ∃ c, input.get? (find_first_of input tokens pos) = some c ∧
          tokens.contains c = true) := by
  unfold find_first_of
  cases h : findFrom (fun c => tokens.contains c) (input.drop pos) pos with
  | none => exact Or.inl rfl
  | some j =>
    obtain ⟨h1, h2, c, h3, h4⟩ := findFrom_some _ _ _ _ h
    right
    simp only [List.length_drop] at h2
    show pos ≤ j ∧ j < input.length ∧ ∃ c, input.get? j = some c ∧ tokens.contains c = true
    refine ⟨h1, by omega, c, ?_, h4⟩
    rw [List.get?_eq_getElem?, List.getElem?_drop, ← List.get?_eq_getElem?] at h3
    have : pos + (j - pos) = j := by omega
    rw [this] at h3
    exact h3

theorem find_first_not_of_cases (input tokens : List Char) (pos : Nat) :
    find_first_not_of input tokens pos = npos ∨
      (pos ≤ find_first_not_of input tokens pos ∧
        find_first_not_of input tokens pos < input.length ∧
        ∃ c, input.get? (find_first_not_of input tokens pos) = some c ∧
          tokens.contains c = false) := by
  unfold find_first_not_of
  cases h : findFrom (fun c => !tokens.contains c) (input.drop pos) pos with
  | none => exact Or.inl rfl
  | some j =>
    obtain ⟨h1, h2, c, h3, h4⟩ := findFrom_some _ _ _ _ h
    right
    simp only [List.length_drop] at h2
    show pos ≤ j ∧ j < input.length ∧ ∃ c, input.get? j = some c ∧ tokens.contains c = false
    refine ⟨h1, by omega, c, ?_, by simpa using h4⟩
    rw [List.get?_eq_getElem?, List.getElem?_drop, ← List.get?_eq_getElem?] at h3
    have : pos + (j - pos) = j := by omega
    rw [this] at h3
    exact h3

theorem TokenizeLoop_isSome (input tokens : List Char) (hlen : input.length < 4294967295)
    (fuel pos lastpos : Nat) (out : List (List Char))
    (hpos : pos ≤ input.length ∨ pos = 4294967295) (hlast : lastpos ≤ input.length)
    (hfuel : input.length + 2 ≤ fuel + pos) (hfuel1 : 1 ≤ fuel) :
    (TokenizeLoop input tokens fuel pos lastpos out).isSome = true := by
  induction fuel generalizing pos lastpos out with
  | zero => omega
  | succ fuel ih =>
    simp only [TokenizeLoop]
    by_cases hend : pos = toUInt npos
    · simp [hend]
    · rw [if_neg hend]
      have hpos1 : pos ≤ input.length := by
        rcases hpos with h | h
        · exact h
        · exact absurd (by rw [h]; rfl) hend
      have hsub : ∀ n, substr input lastpos n = some ((input.drop lastpos).take n) := by
        intro n
        simp only [substr]
        rw [if_neg (by omega)]
      simp only [hsub]
      rcases find_first_of_cases input tokens pos with h1 | ⟨h1, h2, c, h3, h4⟩
      · -- no delimiter left: the next position is npos
        have hp2 : toUInt (find_first_not_of input tokens
            (toUInt (find_first_of input tokens pos))) = 4294967295 := by
          rw [h1]
          have : find_first_not_of input tokens (toUInt npos) = npos := by
            unfold find_first_not_of
            have hd : input.drop (toUInt npos) = [] := by
              apply List.drop_eq_nil_of_le
              have : toUInt npos = 4294967295 := rfl
              omega
            rw [hd]
            rfl
          rw [this]
          rfl
        rw [hp2]
        cases fuel with
        | zero => omega
        | succ fuel =>
          simp only [TokenizeLoop]
          rw [if_pos (show (4294967295 : Nat) = toUInt npos from rfl)]
          rfl
      · have hu1 : toUInt (find_first_of input tokens pos) = find_first_of input tokens pos := by
          unfold toUInt
          exact Nat.mod_eq_of_lt (by omega)
        rw [hu1]
        rcases find_first_not_of_cases input tokens (find_first_of input tokens pos) with
          k1 | ⟨k1, k2, d, k3, k4⟩
        · rw [k1]
          cases fuel with
          | zero => omega
          | succ fuel =>
            simp only [TokenizeLoop]
            rw [if_pos trivial]
            rfl
        · have hu2 : toUInt (find_first_not_of input tokens (find_first_of input tokens pos)) =
              find_first_not_of input tokens (find_first_of input tokens pos) := by
            unfold toUInt
            exact Nat.mod_eq_of_lt (by omega)
          rw [hu2]
          have hne : find_first_not_of input tokens (find_first_of input tokens pos) ≠
              find_first_of input tokens pos := by
            intro he
            rw [he, h3] at k3
            cases k3
            rw [h4] at k4
            cases k4
          apply ih
          · left; omega
          · omega
          · omega
          · omega

/-- `Tokenize` returns on every input shorter than 2^32 - 1 characters. -/
theorem Tokenize_isSome (input tokens : String) (hlen : input.data.length < 4294967295) :
    (Tokenize input tokens).isSome = true := by
  unfold Tokenize
  rw [Option.isSome_map']
  exact TokenizeLoop_isSome input.data tokens.data hlen _ 0 0 [] (Or.inl (by omega)) (by omega)
    (by omega) (by omega)

/-! ### Outcomes and loops -/

theorem Flow.call_state {σ : Type} (f : Flow σ) : f.call.state = f.state := by
  cases f <;> rfl

theorem Flow.call_aborted {σ : Type} (f : Flow σ) : f.call.aborted = f.aborted := by
  cases f <;> rfl

theorem Flow.thenReturn_state {σ : Type} (f : Flow σ) : f.thenReturn.state = f.state := by
  cases f <;> rfl

theorem Flow.call_eq_next {σ : Type} (f : Flow σ) (h : f.aborted = false) :
    f.call = Flow.next f.state := by
  cases f with
  | next s => rfl
  | ret s => rfl
  | abort s => simp [Flow.aborted] at h

/-- What holds of the state a statement ends in, and is kept by the statement after it,
holds of the state the two end in. -/
theorem Flow.andThen_state_inv {σ : Type} (P : σ → Prop) (f : Flow σ) (k : σ → Flow σ)
    (hf : P f.state) (hk : ∀ s, P s → P (k s).state) : P (f.andThen k).state := by
  cases f with
  | next s => exact hk s hf
  | ret s => exact hf
  | abort s => exact hf

theorem Flow.andThen_not_aborted {σ : Type} (P : σ → Prop) (f : Flow σ) (k : σ → Flow σ)
    (hf : f.aborted = false ∧ P f.state)
    (hk : ∀ s, P s → (k s).aborted = false ∧ P (k s).state) :
    (f.andThen k).aborted = false ∧ P (f.andThen k).state := by
  cases f with
  | next s => exact hk s hf.2
  | ret s => exact ⟨rfl, hf.2⟩
  | abort s => exact absurd hf.1 (by simp [Flow.aborted])

theorem forLoop_append_next {σ α : Type} (body : α → σ → Flow σ) (l1 l2 : List α) (s s1 : σ)
    (h : forLoop body l1 s = Flow.next s1) :
    forLoop body (l1 ++ l2) s = forLoop body l2 s1 := by
  induction l1 generalizing s with
  | nil =>
    simp only [forLoop] at h
    cases h
    rfl
  | cons a l ih =>
    simp only [List.cons_append, forLoop] at h ⊢
    cases hb : body a s with
    | next s2 =>
      rw [hb] at h
      simp only [Flow.andThen] at h ⊢
      exact ih s2 h
    | ret s2 => rw [hb] at h; cases h
    | abort s2 => rw [hb] at h; cases h

/-- An invariant of every run of the body is an invariant of the loop. -/
theorem forLoop_state_inv {σ α : Type} (body : α → σ → Flow σ) (P : σ → Prop)
    (hbody : ∀ a s, P s → P (body a s).state) (l : List α) (s : σ) (hs : P s) :
    P (forLoop body l s).state := by
  induction l generalizing s with
  | nil => exact hs
  | cons a l ih =>
    exact Flow.andThen_state_inv P _ _ (hbody a s hs) (fun s1 h1 => ih s1 h1)

/-- A loop whose body never stops at an assertion, from states satisfying an invariant,
does not stop at an assertion. -/
theorem forLoop_not_aborted {σ α : Type} (body : α → σ → Flow σ) (P : σ → Prop)
    (l : List α)
    (hbody : ∀ a ∈ l, ∀ s, P s → (body a s).aborted = false ∧ P (body a s).state)
    (s : σ) (hs : P s) :
    (forLoop body l s).aborted = false ∧ P (forLoop body l s).state := by
  induction l generalizing s with
  | nil => exact ⟨rfl, hs⟩
  | cons a l ih =>
    exact Flow.andThen_not_aborted P _ _ (hbody a (List.mem_cons_self a l) s hs)
      (fun s1 h1 => ih (fun b hb => hbody b (List.mem_cons_of_mem a hb)) s1 h1)

theorem Grows.refl {α : Type} (a : List α) : Grows a a := ⟨[], by simp⟩

theorem Grows.trans {α : Type} {a b c : List α} (h1 : Grows a b) (h2 : Grows b c) :
    Grows a c := by
  obtain ⟨t, rfl⟩ := h1
  obtain ⟨u, rfl⟩ := h2
  exact ⟨t ++ u, by simp⟩

/-! ### `DisableShaders` -/

theorem DisableShaders_loaded {Q : Type} (env : Collaborators Q) (g : GraphicsGL2 Q)
    (hload : (env.configLoad (g.shaderpath ++ "/" ++ "noshaders.conf")).1 = true) :
    DisableShaders env g = Flow.next (DisableShadersFinish (DisableShadersLoad env g)) := by
  simp [DisableShaders, noshadersPath, hload]

theorem DisableShadersFinish_fields {Q : Type} (g : GraphicsGL2 Q) :
    (DisableShadersFinish g).using_shaders = g.using_shaders ∧
    (DisableShadersFinish g).renderconfigfile = g.renderconfigfile ∧
    (DisableShadersFinish g).shadows = g.shadows ∧
    (DisableShadersFinish g).shaderpath = g.shaderpath ∧
    (DisableShadersFinish g).config = g.config ∧
    (DisableShadersFinish g).render_outputs =
      RenderToFramebufferAt g.render_outputs "framebuffer" ∧
    (DisableShadersFinish g).texture_outputs = g.texture_outputs ∧
    (DisableShadersFinish g).texture_inputs =
      (if g.sky_dynamic then mapErase g.texture_inputs "sky" else g.texture_inputs) ∧
    (DisableShadersFinish g).info_output = g.info_output ∧
    (DisableShadersFinish g).error_output = g.error_output ∧
    (DisableShadersFinish g).trace = g.trace := by
  unfold DisableShadersFinish
  split_ifs with h <;> simp [h]

theorem DisableShadersLoad_fields {Q : Type} (env : Collaborators Q) (g : GraphicsGL2 Q) :
    (DisableShadersLoad env g).using_shaders = false ∧
    (DisableShadersLoad env g).renderconfigfile = "noshaders.conf" ∧
    (DisableShadersLoad env g).shadows = false ∧
    (DisableShadersLoad env g).shaderpath = g.shaderpath ∧
    (DisableShadersLoad env g).config =
      (env.configLoad (g.shaderpath ++ "/" ++ "noshaders.conf")).2 ∧
    (DisableShadersLoad env g).render_outputs = g.render_outputs ∧
    (DisableShadersLoad env g).texture_outputs = g.texture_outputs ∧
    (DisableShadersLoad env g).texture_inputs = g.texture_inputs ∧
    (DisableShadersLoad env g).sky_dynamic = g.sky_dynamic ∧
    (DisableShadersLoad env g).info_output = g.info_output ∧
    (DisableShadersLoad env g).error_output = g.error_output ∧
    (DisableShadersLoad env g).trace = g.trace ++ [Event.DisableShaders,
      Event.configLoad (g.shaderpath ++ "/" ++ "noshaders.conf")] := by
  simp [DisableShadersLoad, noshadersPath]

/-! ### C6: `Init` without the basic capabilities -/

theorem InitSettings_fields {Q : Type} (env : Collaborators Q) (a : InitArgs)
    (g : GraphicsGL2 Q) :
    (InitSettings env a g).shaderpath = a.newshaderpath ∧
    (InitSettings env a g).renderconfigfile = a.renderconfig ∧
    (InitSettings env a g).trace = g.trace ∧
    Grows g.info_output (InitSettings env a g).info_output := by
  simp only [InitSettings, GraphicsGL2.info_shaderpath, GraphicsGL2.info_renderconfigfile,
    GraphicsGL2.info_trace, GraphicsGL2.info_info_output,
    GraphicsGL2.applyInitArgs_shaderpath, GraphicsGL2.applyInitArgs_renderconfigfile,
    GraphicsGL2.applyInitArgs_trace, GraphicsGL2.applyInitArgs_info_output, true_and]
  exact ⟨_, rfl⟩

theorem InitCascade_missing_capability {Q : Type} (env : Collaborators Q) (a : InitArgs)
    (g : GraphicsGL2 Q)
    (hcap : env.GLEW_ARB_multitexture = false ∨ env.GLEW_ARB_texture_cube_map = false ∨
      env.GLEW_ARB_texture_non_power_of_two = false) :
    ∃ g1, InitCascade env a g = DisableShaders env g1 ∧ g1.shaderpath = g.shaderpath ∧
      g1.trace = g.trace := by
  unfold InitCascade
  by_cases h0 : g.renderconfigfile = "noshaders.conf"
  · exact ⟨g, by simp [h0], rfl, rfl⟩
  · by_cases h1 : env.GLEW_ARB_multitexture = true
    · by_cases h2 : env.GLEW_ARB_texture_cube_map = true
      · have h3 : env.GLEW_ARB_texture_non_power_of_two = false := by
          rcases hcap with h | h | h
          · rw [h1] at h; cases h
          · rw [h2] at h; cases h
          · exact h
        exact ⟨g.info
          "Your video card doesn't support non-power-of-two textures.  Disabling shaders.",
          by simp [h0, h1, h2, h3], by simp, by simp⟩
      · exact ⟨g.info "Your video card doesn't support cube maps.  Disabling shaders.",
          by simp [h0, h1, h2], by simp, by simp⟩
    · exact ⟨g.info "Your video card doesn't support multitexturing.  Disabling shaders.",
        by simp [h0, h1], by simp, by simp⟩

/-- C6: whatever profile is requested and whatever the other capabilities are, when
multitexturing, cube maps or non-power-of-two textures are missing and the no-shader
configuration file loads, `Init` returns with shading disabled, the profile
"noshaders.conf" active (its configuration loaded) and shadows off; the only events of
the call are `DisableShaders` and its configuration load, so `EnableShaders` is never
invoked. -/
theorem Init_missing_capability_disables_shaders {Q : Type} (env : Collaborators Q)
    (a : InitArgs) (g0 : GraphicsGL2 Q)
    (hcap : env.GLEW_ARB_multitexture = false ∨ env.GLEW_ARB_texture_cube_map = false ∨
      env.GLEW_ARB_texture_non_power_of_two = false)
    (hload : (env.configLoad (a.newshaderpath ++ "/" ++ "noshaders.conf")).1 = true) :
    ∃ g, Init env a g0 = Flow.next g ∧ g.using_shaders = false ∧
      g.renderconfigfile = "noshaders.conf" ∧ g.shadows = false ∧
      g.config = (env.configLoad (a.newshaderpath ++ "/" ++ "noshaders.conf")).2 ∧
      g.trace = g0.trace ++ [Event.DisableShaders,
        Event.configLoad (a.newshaderpath ++ "/" ++ "noshaders.conf")] ∧
      Event.EnableShaders ∉ g.trace.drop g0.trace.length := by
  obtain ⟨hp, -, ht, -⟩ := InitSettings_fields env a g0
  obtain ⟨g1, hc, hp1, ht1⟩ := InitCascade_missing_capability env a (InitSettings env a g0) hcap
  have hload1 : (env.configLoad (g1.shaderpath ++ "/" ++ "noshaders.conf")).1 = true := by
    rw [hp1, hp]; exact hload
  have hd := DisableShaders_loaded env g1 hload1
  obtain ⟨f1, f2, f3, -, f5, -, -, -, -, -, f11⟩ :=
    DisableShadersFinish_fields (DisableShadersLoad env g1)
  obtain ⟨l1, l2, l3, -, l5, -, -, -, -, -, -, l12⟩ := DisableShadersLoad_fields env g1
  have htr : (InitFinish (DisableShadersFinish (DisableShadersLoad env g1))).trace =
      g0.trace ++ [Event.DisableShaders,
        Event.configLoad (a.newshaderpath ++ "/" ++ "noshaders.conf")] := by
    simp only [InitFinish, GraphicsGL2.setInitialized_trace, GraphicsGL2.info_trace, f11, l12,
      ht1, ht, hp1, hp]
  refine ⟨InitFinish (DisableShadersFinish (DisableShadersLoad env g1)), ?_, ?_, ?_, ?_, ?_,
    htr, ?_⟩
  · simp only [Init, hc, hd, Flow.call, Flow.andThen]
  · simp only [InitFinish, GraphicsGL2.setInitialized_using_shaders,
      GraphicsGL2.info_using_shaders, f1, l1]
  · simp only [InitFinish, GraphicsGL2.setInitialized_renderconfigfile,
      GraphicsGL2.info_renderconfigfile, f2, l2]
  · simp only [InitFinish, GraphicsGL2.setInitialized_shadows, GraphicsGL2.info_shadows, f3, l3]
  · simp only [InitFinish, GraphicsGL2.setInitialized_config, GraphicsGL2.info_config, f5, l5,
      hp1, hp]
  · rw [htr, List.drop_left]
    simp

/-! ### What `EnableShaders` keeps -/

theorem outputBody_float_failure {Q : Type} (env : Collaborators Q) (o : GraphicsConfigOutput)
    (gp : GraphicsGL2 Q)
    (hact : o.conditions.Satisfied gp.conditions = true)
    (hnew : mapMem gp.texture_outputs o.name = false)
    (htype : o.type ≠ "framebuffer")
    (hfmt : TextureFormatFromString o.format = some Format.RGBA16 ∨
      TextureFormatFromString o.format = some Format.RGB16)
    (hfloat : hasTextureFloat env = false)
    (hload : (env.configLoad (gp.shaderpath ++ "/" ++ "noshaders.conf")).1 = true) :
    outputBody env o gp = Flow.ret (DisableShadersFinish (DisableShadersLoad env
      (((gp.setTextureOutputs (mapSet gp.texture_outputs o.name FrameBufferTexture.new)).error
        "Your video card doesn't support floating point textures.").error
        ("Failed to load render output: " ++ o.name ++ " " ++ o.type)))) := by
  have hd := DisableShaders_loaded env
    (((gp.setTextureOutputs (mapSet gp.texture_outputs o.name FrameBufferTexture.new)).error
        "Your video card doesn't support floating point textures.").error
        ("Failed to load render output: " ++ o.name ++ " " ++ o.type)) (by simpa using hload)
  unfold outputBody
  rw [if_pos hact, if_neg (by simp [hnew]), if_neg htype]
  unfold outputTexture
  rcases hfmt with hf | hf
  · rw [hf]
    simp only [hfloat, outputFloatFailure, hd, Flow.thenReturn, Flow.andThen]
    simp
  · rw [hf]
    simp only [hfloat, outputFloatFailure, hd, Flow.thenReturn, Flow.andThen]
    simp

/-- C7 (amended): when the loop over the outputs reaches, in the state `gp`, an active
texture output `o` (not a repeated name, not a framebuffer alias) whose format is RGBA16
or RGB16 while floating-point textures are not supported, and the no-shader
configuration loads, then `EnableShaders` returns with shading disabled, the profile
"noshaders.conf" and its configuration; no later output or pass is looked at (the only
further events are `DisableShaders` and its configuration load); and the output graph
built so far is kept: every texture output registered before stays registered together
with a fresh, uninitialised entry for `o`, the input textures stay registered (only
"sky" is erased under a dynamic sky), and the render outputs stay registered together
with the entry "framebuffer". -/
theorem EnableShaders_float_failure_keeps_graph {Q : Type} (env : Collaborators Q)
    (g g1 gp : GraphicsGL2 Q) (pre post : List GraphicsConfigOutput) (o : GraphicsConfigOutput)
    (hreload : reloadConfiguration env g = (Flow.next g1, true))
    (houts : g1.config.outputs = pre ++ o :: post)
    (hpre : forLoop (outputBody env) pre (buildStart g1) = Flow.next gp)
    (hact : o.conditions.Satisfied gp.conditions = true)
    (hnew : mapMem gp.texture_outputs o.name = false)
    (htype : o.type ≠ "framebuffer")
    (hfmt : TextureFormatFromString o.format = some Format.RGBA16 ∨
      TextureFormatFromString o.format = some Format.RGB16)
    (hfloat : hasTextureFloat env = false)
    (hload : (env.configLoad (gp.shaderpath ++ "/" ++ "noshaders.conf")).1 = true) :
    ∃ gF, EnableShaders env g = Flow.next gF ∧ gF.using_shaders = false ∧
      gF.renderconfigfile = "noshaders.conf" ∧
      gF.config = (env.configLoad (gp.shaderpath ++ "/" ++ "noshaders.conf")).2 ∧
      gF.texture_outputs = mapSet gp.texture_outputs o.name FrameBufferTexture.new ∧
      gF.texture_inputs =
        (if gp.sky_dynamic then mapErase gp.texture_inputs "sky" else gp.texture_inputs) ∧
      gF.render_outputs = RenderToFramebufferAt gp.render_outputs "framebuffer" ∧
      gF.trace = gp.trace ++ [Event.DisableShaders,
        Event.configLoad (gp.shaderpath ++ "/" ++ "noshaders.conf")] := by
  have hb := outputBody_float_failure env o gp hact hnew htype hfmt hfloat hload
  obtain ⟨f1, f2, -, -, f5, f6, f7, f8, -, -, f11⟩ := DisableShadersFinish_fields
    (DisableShadersLoad env
      (((gp.setTextureOutputs (mapSet gp.texture_outputs o.name FrameBufferTexture.new)).error
        "Your video card doesn't support floating point textures.").error
        ("Failed to load render output: " ++ o.name ++ " " ++ o.type)))
  obtain ⟨l1, l2, -, -, l5, l6, l7, l8, l9, -, -, l12⟩ := DisableShadersLoad_fields env
      (((gp.setTextureOutputs (mapSet gp.texture_outputs o.name FrameBufferTexture.new)).error
        "Your video card doesn't support floating point textures.").error
        ("Failed to load render output: " ++ o.name ++ " " ++ o.type))
  refine ⟨DisableShadersFinish (DisableShadersLoad env
      (((gp.setTextureOutputs (mapSet gp.texture_outputs o.name FrameBufferTexture.new)).error
        "Your video card doesn't support floating point textures.").error
        ("Failed to load render output: " ++ o.name ++ " " ++ o.type))),
    ?_, ?_, ?_, ?_, ?_, ?_, ?_, ?_⟩
  · unfold EnableShaders
    rw [hreload]
    simp only [Flow.call, Flow.andThen]
    rw [if_neg (by simp)]
    unfold buildOutputGraph
    rw [houts, forLoop_append_next _ _ _ _ _ hpre]
    simp only [forLoop, hb, Flow.andThen, Flow.call]
  · rw [f1, l1]
  · rw [f2, l2]
  · rw [f5, l5]
    simp
  · rw [f7, l7]
    simp
  · rw [f8, l8, l9]
    simp
  · rw [f6, l6]
    simp
  · rw [f11, l12]
    simp

/-- C6, at a concrete input: a video card without cube maps, the profile "render.conf"
requested. -/
theorem Init_missing_capability_disables_shaders_witness :
    ∃ g, Init (exEnvNoCubemaps mrtConfig) (exArgs 0) exNew = Flow.next g ∧
      g.using_shaders = false ∧ g.renderconfigfile = "noshaders.conf" ∧ g.shadows = false ∧
      g.config = ((exEnvNoCubemaps mrtConfig).configLoad
        ((exArgs 0).newshaderpath ++ "/" ++ "noshaders.conf")).2 ∧
      g.trace = exNew.trace ++ [Event.DisableShaders,
        Event.configLoad ((exArgs 0).newshaderpath ++ "/" ++ "noshaders.conf")] ∧
      Event.EnableShaders ∉ g.trace.drop exNew.trace.length :=
  Init_missing_capability_disables_shaders (exEnvNoCubemaps mrtConfig) (exArgs 0) exNew
    (by decide) (by decide)

/-- C7, counterexample: with the outputs "a" (RGB8) and "b" (RGBA16) and no
floating-point textures, `EnableShaders` returns with shading disabled, and the texture
output "a" built before the failure is still registered, as a texture output and as an
input texture, next to the entry of "b". -/
theorem EnableShaders_float_failure_leaves_outputs :
    (EnableShaders (exEnvNoFloat floatConfig) exStart).aborted = false ∧
    (EnableShaders (exEnvNoFloat floatConfig) exStart).state.using_shaders = false ∧
    mapKeys (EnableShaders (exEnvNoFloat floatConfig) exStart).state.texture_outputs =
      ["a", "b"] ∧
    mapKeys (EnableShaders (exEnvNoFloat floatConfig) exStart).state.texture_inputs =
      ["ambient_cube", "a"] ∧
    mapKeys (EnableShaders (exEnvNoFloat floatConfig) exStart).state.render_outputs =
      ["framebuffer"] := by
  decide

/-- C7 (amended), at a concrete input: the outputs "a" (RGB8) and "b" (RGBA16) without
floating-point textures. -/
theorem EnableShaders_float_failure_keeps_graph_witness :
    ∃ gF, EnableShaders (exEnvNoFloat floatConfig) exStart = Flow.next gF ∧
      gF.using_shaders = false ∧ gF.renderconfigfile = "noshaders.conf" ∧
      gF.config = ((exEnvNoFloat floatConfig).configLoad
        (floatBefore.shaderpath ++ "/" ++ "noshaders.conf")).2 ∧
      gF.texture_outputs = mapSet floatBefore.texture_outputs
        (exOutput "b" "2D" "RGBA16" exAlways).name FrameBufferTexture.new ∧
      gF.texture_inputs =
        (if floatBefore.sky_dynamic then mapErase floatBefore.texture_inputs "sky"
          else floatBefore.texture_inputs) ∧
      gF.render_outputs = RenderToFramebufferAt floatBefore.render_outputs "framebuffer" ∧
      gF.trace = floatBefore.trace ++ [Event.DisableShaders,
        Event.configLoad (floatBefore.shaderpath ++ "/" ++ "noshaders.conf")] :=
  EnableShaders_float_failure_keeps_graph (exEnvNoFloat floatConfig) exStart floatReloaded
    floatBefore [exOutput "a" "2D" "RGB8" exAlways] [] (exOutput "b" "2D" "RGBA16" exAlways)
    rfl rfl rfl (by decide) (by decide) (by decide) (by decide) (by decide) (by decide)

/-- C2, at the failing input: a framebuffer alias and a texture output share the name
"out" and are both active.  `EnableShaders` returns with shading on, writes nothing to
the error stream (no duplicate warning), and registers the name three times: as the
framebuffer alias, as a texture output that was initialised, and as an input texture. -/
theorem EnableShaders_alias_duplicate_undetected :
    (EnableShaders (exEnv dupConfig) exStart).aborted = false ∧
    (EnableShaders (exEnv dupConfig) exStart).state.using_shaders = true ∧
    (EnableShaders (exEnv dupConfig) exStart).state.error_output = [] ∧
    mapKeys (EnableShaders (exEnv dupConfig) exStart).state.render_outputs =
      ["out", "framebuffer"] ∧
    (mapFind (EnableShaders (exEnv dupConfig) exStart).state.render_outputs "out").map
      RenderOutput.IsFBO = some false ∧
    mapKeys (EnableShaders (exEnv dupConfig) exStart).state.texture_outputs = ["out"] ∧
    (mapFind (EnableShaders (exEnv dupConfig) exStart).state.texture_outputs "out").map
      FrameBufferTexture.inited = some true ∧
    mapKeys (EnableShaders (exEnv dupConfig) exStart).state.texture_inputs =
      ["ambient_cube", "out"] := by
  decide

/-- C4, at the failing input: two active passes that do not cull share the camera
"default" and the layer "a" (static drawables 1 and 2).  In one frame the query for the
key "default;a" is executed twice, once by each pass, and the list both draws receive
holds every drawable twice. -/
theorem DrawScene_repeats_query_of_shared_key :
    (DrawScene (exEnv sharedConfig)
      (exScene.apply (EnableShaders (exEnv sharedConfig) exStart).state)).aborted = false ∧
    queriesOf "default;a" (DrawScene (exEnv sharedConfig)
      (exScene.apply (EnableShaders (exEnv sharedConfig) exStart).state)).state.trace =
      [Event.query 0 "a" "default;a" false, Event.query 1 "a" "default;a" false] ∧
    (DrawScene (exEnv sharedConfig)
      (exScene.apply (EnableShaders (exEnv sharedConfig) exStart).state)).state.culled_static_drawlist
      = [("default;a", [1, 2, 1, 2])] ∧
    Event.renderDrawlists 0 "a" "default" "framebuffer" (false, false) [3] [1, 2, 1, 2] [] ∈
      (DrawScene (exEnv sharedConfig)
        (exScene.apply (EnableShaders (exEnv sharedConfig) exStart).state)).state.trace := by
  decide

/-- C10, at the failing input: an active post-process pass whose output "bloom" was not
registered by `EnableShaders` (no descriptor declares it).  `DrawScenePass` returns,
registers "bloom" in the render-output map and renders the pass into it. -/
theorem DrawScenePass_post_registers_output :
    mapKeys (exScene.apply (EnableShaders (exEnv postConfig) exStart).state).render_outputs =
      ["framebuffer"] ∧
    (DrawScenePass (exEnv postConfig) 0 (exPass "default" ["postprocess"] "bloom" "s" false
      exAlways) (exScene.apply (EnableShaders (exEnv postConfig) exStart).state)).aborted
      = false ∧
    mapKeys (DrawScenePass (exEnv postConfig) 0 (exPass "default" ["postprocess"] "bloom" "s"
      false exAlways)
      (exScene.apply (EnableShaders (exEnv postConfig) exStart).state)).state.render_outputs =
      ["framebuffer", "bloom"] ∧
    Event.render 0 true "bloom" ∈ (DrawScenePass (exEnv postConfig) 0
      (exPass "default" ["postprocess"] "bloom" "s" false exAlways)
      (exScene.apply (EnableShaders (exEnv postConfig) exStart).state)).state.trace := by
  decide

/-! ### C3: one framebuffer object per output list -/

theorem mapFind_mapSet {K V : Type} [DecidableEq K] (m : List (K × V)) (k k2 : K) (v : V) :
    mapFind (mapSet m k v) k2 = if k = k2 then some v else mapFind m k2 := by
  by_cases h : k = k2
  · subst h
    simp [mapFind_mapSet_same]
  · simp [h, mapFind_mapSet_other m k k2 v h]

theorem mapMem_mapSet {K V : Type} [DecidableEq K] (m : List (K × V)) (k k2 : K) (v : V) :
    mapMem (mapSet m k v) k2 = (decide (k = k2) || mapMem m k2) := by
  unfold mapMem
  rw [mapFind_mapSet]
  by_cases h : k = k2 <;> simp [h]

theorem eventsOf_snoc (id : Nat) (t : List Event) (e : Event) :
    eventsOf id (t ++ [e]) = eventsOf id t ++ (if e.passId = some id then [e] else []) := by
  unfold eventsOf
  rw [List.filter_append]
  by_cases h : e.passId = some id <;> simp [List.filter, h]

theorem FrameInv.same_fields {Q : Type} {b : GraphicsGL2 Q} {id : Nat} {out : String}
    {pm : Option String} {R : List Event} {g g1 : GraphicsGL2 Q}
    (h : FrameInv b id out pm R g) (h1 : g1.config = g.config)
    (h2 : g1.conditions = g.conditions) (h3 : g1.shadermap = g.shadermap)
    (h4 : g1.using_shaders = g.using_shaders) (h5 : g1.render_outputs = g.render_outputs)
    (h6 : g1.prev_messages = g.prev_messages) (h7 : g1.trace = g.trace) :
    FrameInv b id out pm R g1 := by
  unfold FrameInv at h ⊢
  rw [h1, h2, h3, h4, h5, h6, h7]
  exact h

theorem FrameInv.log_event {Q : Type} {b : GraphicsGL2 Q} {id : Nat} {out : String}
    {pm : Option String} {R : List Event} {g : GraphicsGL2 Q}
    (h : FrameInv b id out pm R g) (e : Event) (he : e.passId ≠ some id) :
    FrameInv b id out pm R (g.log e) := by
  obtain ⟨h1, h2, h3, h4, h5, h6, h7⟩ := h
  refine ⟨by simpa using h1, by simpa using h2, by simpa using h3, by simpa using h4,
    by simpa using h5, by simpa using h6, ?_⟩
  simp only [GraphicsGL2.log_trace]
  rw [eventsOf_snoc, if_neg he, List.append_nil]
  exact h7

theorem FrameInv.report_other {Q : Type} {b : GraphicsGL2 Q} {id : Nat} {out : String}
    {pm : Option String} {R : List Event} {g : GraphicsGL2 Q}
    (h : FrameInv b id out pm R g) (j : Nat) (m : String) (hj : j ≠ id) :
    FrameInv b id out pm R (g.Report j m) := by
  obtain ⟨h1, h2, h3, h4, h5, h6, h7⟩ := h
  refine ⟨by simpa using h1, by simpa using h2, by simpa using h3, by simpa using h4,
    by simpa using h5, ?_, ?_⟩
  · simp only [GraphicsGL2.Report_prev_messages, ReportOnce]
    split_ifs
    · rw [mapFind_mapSet_other _ _ _ _ hj]
      exact h6
    · exact h6
  · simp only [GraphicsGL2.Report_trace]
    split_ifs
    · exact h7
    · rw [eventsOf_snoc, if_neg (by simp [Event.passId, hj]), List.append_nil]
      exact h7

theorem FrameInv.report_new {Q : Type} {b : GraphicsGL2 Q} {id : Nat} {out : String}
    {pm : Option String} {R : List Event} {g : GraphicsGL2 Q}
    (h : FrameInv b id out pm R g) (m : String) (hpm : pm ≠ some m) :
    FrameInv b id out (some m) (R ++ [Event.report id m]) (g.Report id m) := by
  obtain ⟨h1, h2, h3, h4, h5, h6, h7⟩ := h
  have hw : mapFind g.prev_messages id = none ∨ mapFind g.prev_messages id ≠ some m := by
    right
    rw [h6]
    exact hpm
  have he : ReportOnce id m g.prev_messages g.error_output =
      (mapSet g.prev_messages id m, g.error_output ++ [m]) := by
    unfold ReportOnce
    exact if_pos hw
  refine ⟨by simpa using h1, by simpa using h2, by simpa using h3, by simpa using h4,
    by simpa using h5, ?_, ?_⟩
  · rw [GraphicsGL2.Report_prev_messages, he]
    exact mapFind_mapSet_same _ _ _
  · rw [GraphicsGL2.Report_trace, he, if_neg (by simp), eventsOf_snoc,
      if_pos (by simp [Event.passId]), h7]

theorem FrameInv.report_again {Q : Type} {b : GraphicsGL2 Q} {id : Nat} {out : String}
    {R : List Event} {g : GraphicsGL2 Q} (m : String)
    (h : FrameInv b id out (some m) R g) :
    FrameInv b id out (some m) R (g.Report id m) := by
  obtain ⟨h1, h2, h3, h4, h5, h6, h7⟩ := h
  have hw : ¬ (mapFind g.prev_messages id = none ∨ mapFind g.prev_messages id ≠ some m) := by
    rw [h6]
    simp
  have he : ReportOnce id m g.prev_messages g.error_output =
      (g.prev_messages, g.error_output) := by
    unfold ReportOnce
    exact if_neg hw
  refine ⟨by simpa using h1, by simpa using h2, by simpa using h3, by simpa using h4,
    by simpa using h5, ?_, ?_⟩
  · rw [GraphicsGL2.Report_prev_messages, he]
    exact h6
  · rw [GraphicsGL2.Report_trace, he, if_pos rfl]
    exact h7

theorem FrameInv.set_output {Q : Type} {b : GraphicsGL2 Q} {id : Nat} {out : String}
    {pm : Option String} {R : List Event} {g : GraphicsGL2 Q}
    (h : FrameInv b id out pm R g) (key : String) (v : RenderOutput) (hk : key ≠ out) :
    FrameInv b id out pm R (g.setRenderOutputs (mapSet g.render_outputs key v)) := by
  obtain ⟨h1, h2, h3, h4, h5, h6, h7⟩ := h
  refine ⟨by simpa using h1, by simpa using h2, by simpa using h3, by simpa using h4, ?_,
    by simpa using h6, by simpa using h7⟩
  simp only [GraphicsGL2.setRenderOutputs_render_outputs, mapMem_mapSet, h5, hk,
    decide_False, Bool.or_self]

theorem FrameInv.of_fields {Q : Type} {b : GraphicsGL2 Q} {id : Nat} {out : String}
    {pm : Option String} {R : List Event} {g : GraphicsGL2 Q}
    (h : FrameInv b id out pm R g) (g1 : GraphicsGL2 Q)
    (hf : g1.config = g.config ∧ g1.conditions = g.conditions ∧ g1.shadermap = g.shadermap ∧
      g1.using_shaders = g.using_shaders ∧ g1.render_outputs = g.render_outputs ∧
      g1.prev_messages = g.prev_messages ∧ g1.trace = g.trace) :
    FrameInv b id out pm R g1 :=
  h.same_fields hf.1 hf.2.1 hf.2.2.1 hf.2.2.2.1 hf.2.2.2.2.1 hf.2.2.2.2.2.1 hf.2.2.2.2.2.2

/-! #### The passes other than the one observed -/

theorem cullSubCamera_inv {Q : Type} (env : Collaborators Q) {b : GraphicsGL2 Q} {id : Nat}
    {out : String} {pm : Option String} {R : List Event} (j : Nat) (hj : j ≠ id)
    (pass : GraphicsConfigPass) (oi : RenderOutput) (cubemap : Bool) (cubeside : Nat)
    (g : GraphicsGL2 Q) (h : FrameInv b id out pm R g) :
    FrameInv b id out pm R (cullSubCamera env j pass oi cubemap cubeside g).state := by
  unfold cullSubCamera
  repeat' split
  all_goals first
    | exact h
    | exact h.report_other _ _ hj

theorem cullQuery_inv {Q : Type} (env : Collaborators Q) {b : GraphicsGL2 Q} {id : Nat}
    {out : String} {pm : Option String} {R : List Event} (j : Nat) (hj : j ≠ id)
    (pass : GraphicsConfigPass) (d cameraname : String)
    (g : GraphicsGL2 Q) (h : FrameInv b id out pm R g) :
    FrameInv b id out pm R (cullQuery env j pass d cameraname g).state := by
  have hq : ∀ k c, (Event.query j d k c).passId ≠ some id := by
    intro k c
    simp [Event.passId, hj]
  unfold cullQuery cullFrustumQuery cullAlwaysQuery
  repeat' split
  all_goals first
    | exact h
    | exact h.report_other _ _ hj
    | exact (h.of_fields (g.setRenderscene _) (by simp)).report_other _ _ hj
    | exact ((h.of_fields (g.setCulled _) (by simp)).log_event _ (hq _ _)).of_fields _
        (by simp [Flow.state])
    | exact (h.of_fields (g.setCulled _) (by simp)).log_event _ (hq _ _)

theorem CullScenePass_inv {Q : Type} (env : Collaborators Q) {b : GraphicsGL2 Q} {id : Nat}
    {out : String} {pm : Option String} {R : List Event} (j : Nat) (hj : j ≠ id)
    (pass : GraphicsConfigPass) (g : GraphicsGL2 Q) (h : FrameInv b id out pm R g) :
    FrameInv b id out pm R (CullScenePass env j pass g).state := by
  unfold CullScenePass
  split
  · exact h
  split
  · exact h
  · rw [Flow.call_state]
    apply forLoop_state_inv _ _ _ _ _ h
    intro d s hs
    unfold cullLayerBody
    split
    · exact hs.report_other _ _ hj
    · apply forLoop_state_inv _ _ _ _ _ hs
      intro side s1 hs1
      unfold cullSideBody
      exact Flow.andThen_state_inv _ _ _ (cullSubCamera_inv env j hj _ _ _ _ _ hs1)
        (fun s2 hs2 => cullQuery_inv env j hj _ _ _ _ hs2)

theorem RenderDrawlists_inv {Q : Type} {b : GraphicsGL2 Q} {id : Nat}
    {out : String} {pm : Option String} {R : List Event} (j : Nat) (hj : j ≠ id)
    (layer camera output : String) (dl sl : List Nat) (tex : List (Option TextureRef))
    (g : GraphicsGL2 Q) (h : FrameInv b id out pm R g) :
    FrameInv b id out pm R (RenderDrawlists g j layer camera output dl sl tex) := by
  have hd : ∀ c, (Event.renderDrawlists j layer camera output c dl sl tex).passId ≠ some id := by
    intro c
    simp [Event.passId, hj]
  have hr : ∀ p o, (Event.render j p o).passId ≠ some id := by
    intro p o
    simp [Event.passId, hj]
  unfold RenderDrawlists
  split
  · exact h.log_event _ (hd _)
  · unfold Render
    refine FrameInv.log_event ?_ _ (hr _ _)
    exact h.log_event _ (hd _)

theorem attachSide_inv {Q : Type} {b : GraphicsGL2 Q} {id : Nat}
    {out : String} {pm : Option String} {R : List Event} (j : Nat) (hj : j ≠ id)
    (pass : GraphicsConfigPass) (hout : pass.output ≠ out) (cubemap : Bool) (cubeside : Nat)
    (g : GraphicsGL2 Q) (h : FrameInv b id out pm R g) :
    FrameInv b id out pm R (attachSide j pass cubemap cubeside g).state := by
  unfold attachSide
  split
  · split
    · exact h.set_output pass.output
        (mapGetD g.render_outputs pass.output RenderOutput.new).RenderToFBO hout
    · rename_i side _
      refine FrameInv.log_event ?_ _ (by simp [Event.passId, hj])
      exact h.set_output pass.output
        (cubeSideOutput (mapGetD g.render_outputs pass.output RenderOutput.new) side) hout
  · exact h

theorem drawSideCamera_inv {Q : Type} {b : GraphicsGL2 Q} {id : Nat}
    {out : String} {pm : Option String} {R : List Event} (j : Nat) (hj : j ≠ id)
    (pass : GraphicsConfigPass) (layer : String)
    (tex : List (Option TextureRef)) (cameraname : String)
    (g : GraphicsGL2 Q) (h : FrameInv b id out pm R g) :
    FrameInv b id out pm R (drawSideCamera j pass layer tex cameraname g).state := by
  unfold drawSideCamera
  split
  · exact h.report_other _ _ hj
  · rename_i cam _
    unfold drawSideRender
    have hc : FrameInv b id out pm R (g.setRenderscene (g.renderscene.SetCamera cam)) := h
    split
    · exact hc.report_other _ _ hj
    · split
      · exact hc.report_other _ _ hj
      · exact RenderDrawlists_inv j hj _ _ _ _ _ _
          (g.setRenderscene ((g.renderscene.SetCamera cam).SetCarPaintHack
            (!g.using_shaders && decide (layer = "car_noblend")))) h

theorem drawSideBody_inv {Q : Type} {b : GraphicsGL2 Q} {id : Nat}
    {out : String} {pm : Option String} {R : List Event} (j : Nat) (hj : j ≠ id)
    (pass : GraphicsConfigPass) (hout : pass.output ≠ out) (layer : String)
    (tex : List (Option TextureRef)) (cubemap : Bool) (cubeside : Nat)
    (g : GraphicsGL2 Q) (h : FrameInv b id out pm R g) :
    FrameInv b id out pm R (drawSideBody j pass layer tex cubemap cubeside g).state := by
  unfold drawSideBody
  exact Flow.andThen_state_inv _ _ _ (attachSide_inv j hj pass hout _ _ _ h)
    (fun s hs => drawSideCamera_inv j hj pass _ _ _ _ hs)

theorem drawPassLayers_inv {Q : Type} (env : Collaborators Q) {b : GraphicsGL2 Q} {id : Nat}
    {out : String} {pm : Option String} {R : List Event} (j : Nat) (hj : j ≠ id)
    (pass : GraphicsConfigPass) (g : GraphicsGL2 Q) (h : FrameInv b id out pm R g) :
    FrameInv b id out pm R (drawPassLayers env j pass g).state := by
  unfold drawPassLayers
  split
  · exact h.report_other _ _ hj
  · rename_i hmem
    have hout : pass.output ≠ out := by
      intro he
      rw [he, h.2.2.2.2.1] at hmem
      exact hmem rfl
    apply forLoop_state_inv _ _ _ _ _ h
    intro d s hs
    unfold drawLayerBody
    apply Flow.andThen_state_inv
    · unfold DrawScenePassLayer
      rw [Flow.call_state]
      apply forLoop_state_inv _ _ _ _ _ hs
      intro side s1 hs1
      exact drawSideBody_inv j hj pass hout _ _ _ _ _ hs1
    · intro s1 hs1
      exact hs1

theorem drawPassSetup_inv {Q : Type} {b : GraphicsGL2 Q} {id : Nat}
    {out : String} {pm : Option String} {R : List Event} (j : Nat) (hj : j ≠ id)
    (pass : GraphicsConfigPass) (g : GraphicsGL2 Q) (h : FrameInv b id out pm R g) :
    FrameInv b id out pm R (drawPassSetup j pass g).state := by
  unfold drawPassSetup
  repeat' split
  all_goals first
    | exact h
    | exact h.report_other _ _ hj

theorem postRender_inv {Q : Type} {b : GraphicsGL2 Q} {id : Nat}
    {out : String} {pm : Option String} {R : List Event} (j : Nat) (hj : j ≠ id)
    (pass : GraphicsConfigPass) (hout : pass.output ≠ out)
    (g : GraphicsGL2 Q) (h : FrameInv b id out pm R g) :
    FrameInv b id out pm R (postRender j pass g).state := by
  have ho : FrameInv b id out pm R (g.setRenderOutputs (mapSet g.render_outputs pass.output
      (mapGetD g.render_outputs pass.output RenderOutput.new))) :=
    h.set_output pass.output _ hout
  unfold postRender
  split
  · exact h.report_other _ _ hj
  · unfold RenderPostProcess
    split
    · exact ho
    · unfold Render
      refine FrameInv.log_event ?_ _ (by simp [Event.passId, hj])
      exact ho

theorem DrawScenePassPost_inv {Q : Type} {b : GraphicsGL2 Q} {id : Nat}
    {out : String} {pm : Option String} {R : List Event} (j : Nat) (hj : j ≠ id)
    (pass : GraphicsConfigPass) (hout : pass.output ≠ out)
    (g : GraphicsGL2 Q) (h : FrameInv b id out pm R g) :
    FrameInv b id out pm R (DrawScenePassPost j pass g).state := by
  unfold DrawScenePassPost
  split
  · exact h
  · split
    · exact h.report_other _ _ hj
    · apply Flow.andThen_state_inv
      · unfold postSetup
        repeat' split
        all_goals exact h
      · intro s hs
        exact postRender_inv j hj pass hout s hs

theorem DrawScenePass_inv {Q : Type} (env : Collaborators Q) {b : GraphicsGL2 Q} {id : Nat}
    {out : String} {pm : Option String} {R : List Event} (j : Nat) (hj : j ≠ id)
    (pass : GraphicsConfigPass)
    (hpost : pass.conditions.Satisfied b.conditions = true →
      pass.draw.getLast? = some "postprocess" → pass.output ≠ out)
    (g : GraphicsGL2 Q) (h : FrameInv b id out pm R g) :
    FrameInv b id out pm R (DrawScenePass env j pass g).state := by
  unfold DrawScenePass
  split
  · exact h
  · rename_i hact
    split
    · exact h
    · split
      · rename_i hp
        rw [h.2.1] at hact
        exact DrawScenePassPost_inv j hj pass (hpost (by simpa using hact) hp) g h
      · rw [Flow.call_state]
        exact Flow.andThen_state_inv _ _ _ (drawPassSetup_inv j hj pass g h)
          (fun s hs => drawPassLayers_inv env j hj pass s hs)

/-! #### The cull loop returns -/

theorem GetCubeSideOrientation_side {Q : Type} (Rotate : Int → Int → Int → Int → Q → Q)
    (n : Nat) (hn : n < 6) (q : Q) (eo : List String) :
    (GetCubeSideOrientation Rotate n q eo).2 ≠ none := by
  interval_cases n <;> simp [GetCubeSideOrientation]

theorem cubeSides_lt (cubemap : Bool) (n : Nat) (h : n ∈ cubeSides cubemap) : n < 6 := by
  unfold cubeSides at h
  rw [List.mem_range] at h
  split_ifs at h <;> omega

theorem cullSideBody_not_aborted {Q : Type} (env : Collaborators Q) (j : Nat)
    (pass : GraphicsConfigPass) (d : String) (oi : RenderOutput) (cubeside : Nat)
    (hside : cubeside < 6) (g : GraphicsGL2 Q) :
    (cullSideBody env j pass d oi (isCubemap env oi) cubeside g).aborted = false := by
  unfold cullSideBody
  have hq : ∀ c s, (cullQuery env j pass d c s).aborted = false := by
    intro c s
    unfold cullQuery cullFrustumQuery cullAlwaysQuery
    repeat' split
    all_goals rfl
  unfold cullSubCamera
  split
  · rename_i hc
    split
    · rfl
    · split
      · rename_i bc _ _ hnone
        exact absurd hnone (GetCubeSideOrientation_side env.Rotate cubeside hside _ _)
      · split
        · rename_i hfbo
          unfold isCubemap at hc
          simp only [Bool.and_eq_true] at hc
          rw [hc.1] at hfbo
          cases hfbo
        · exact hq _ _
  · exact hq _ _

/-- The method `CullScenePass` returns for every pass with a draw layer. -/
theorem CullScenePass_returns {Q : Type} (env : Collaborators Q) (j : Nat)
    (pass : GraphicsConfigPass) (hdraw : pass.draw ≠ []) (g : GraphicsGL2 Q) :
    CullScenePass env j pass g = Flow.next (CullScenePass env j pass g).state := by
  have hl : (forLoop (cullLayerBody env j pass) pass.draw g).aborted = false := by
    refine (forLoop_not_aborted _ (fun _ => True) _ ?_ g trivial).1
    intro d _ s _
    refine ⟨?_, trivial⟩
    unfold cullLayerBody
    split
    · rfl
    · rename_i oi _
      refine (forLoop_not_aborted _ (fun _ => True) _ ?_ s trivial).1
      intro side hside s1 _
      exact ⟨cullSideBody_not_aborted env j pass d oi side (cubeSides_lt _ _ hside) s1, trivial⟩
  unfold CullScenePass
  split
  · rename_i he
    exact absurd (List.isEmpty_iff.mp he) hdraw
  · split
    · rfl
    · rw [Flow.call_eq_next _ hl]
      rfl

/-! #### The pass observed -/

/-- The message of a pass whose output has no entry in the render-output map. -/
theorem CullScenePass_missing_output {Q : Type} (env : Collaborators Q) (id : Nat)
    (P : GraphicsConfigPass) (g : GraphicsGL2 Q) (hdraw : P.draw ≠ [])
    (hpost : P.draw.getLast? ≠ some "postprocess")
    (hact : P.conditions.Satisfied g.conditions = true)
    (hout : mapMem g.render_outputs P.output = false) :
    CullScenePass env id P g =
      Flow.next (g.Report id ("Render output " ++ P.output ++ " couldn't be found")) := by
  have hnone : mapFind g.render_outputs P.output = none := by
    unfold mapMem at hout
    simpa using hout
  unfold CullScenePass
  rw [if_neg (by simpa [List.isEmpty_iff] using hdraw), if_neg (by simp [hpost, hact])]
  cases hd : P.draw with
  | nil => exact absurd hd hdraw
  | cons d ds =>
    simp only [forLoop, cullLayerBody, hnone, Flow.andThen, Flow.call]

theorem DrawScenePass_missing_output {Q : Type} (env : Collaborators Q) {b : GraphicsGL2 Q}
    {id : Nat} {R : List Event} (P : GraphicsConfigPass) (g : GraphicsGL2 Q)
    (hpost : P.draw.getLast? ≠ some "postprocess")
    (hshader : mapMem b.shadermap P.shader = true)
    (h : FrameInv b id P.output
      (some ("Render output " ++ P.output ++ " couldn't be found")) R g) :
    FrameInv b id P.output (some ("Render output " ++ P.output ++ " couldn't be found")) R
      (DrawScenePass env id P g).state := by
  unfold DrawScenePass
  split
  · exact h
  · split
    · exact h
    · rw [Flow.call_state]
      apply Flow.andThen_state_inv
      · unfold drawPassSetup
        rw [if_neg (by rw [h.2.2.1, hshader]; simp)]
        repeat' split
        all_goals exact h
      · intro s hs
        unfold drawPassLayers
        rw [if_pos hs.2.2.2.2.1]
        exact hs.report_again _

/-! #### Loops over the passes -/

theorem forLoop_state_inv_mem {σ α : Type} (body : α → σ → Flow σ) (P : σ → Prop)
    (l : List α) (hbody : ∀ a ∈ l, ∀ s, P s → P (body a s).state) (s : σ) (hs : P s) :
    P (forLoop body l s).state := by
  induction l generalizing s with
  | nil => exact hs
  | cons a l ih =>
    exact Flow.andThen_state_inv P _ _ (hbody a (by simp) s hs)
      (fun s1 h1 => ih (fun c hc => hbody c (by simp [hc])) s1 h1)

theorem forLoop_next_inv {σ α : Type} (body : α → σ → Flow σ) (P : σ → Prop)
    (l : List α) (hbody : ∀ a ∈ l, ∀ s, P s → ∃ s1, body a s = Flow.next s1 ∧ P s1)
    (s : σ) (hs : P s) : ∃ s1, forLoop body l s = Flow.next s1 ∧ P s1 := by
  induction l generalizing s with
  | nil => exact ⟨s, rfl, hs⟩
  | cons a l ih =>
    obtain ⟨s1, e1, p1⟩ := hbody a (by simp) s hs
    obtain ⟨s2, e2, p2⟩ := ih (fun c hc => hbody c (by simp [hc])) s1 p1
    exact ⟨s2, by simp only [forLoop, e1, Flow.andThen]; exact e2, p2⟩

theorem indexedFrom_mem {α : Type} (l : List α) (n j : Nat) (p : α)
    (h : (j, p) ∈ indexedFrom n l) : p ∈ l ∧ n ≤ j ∧ l[j - n]? = some p := by
  induction l generalizing n with
  | nil => simp [indexedFrom] at h
  | cons a l ih =>
    simp only [indexedFrom, List.mem_cons, Prod.mk.injEq] at h
    rcases h with ⟨h1, h2⟩ | h
    · subst h1
      subst h2
      simp
    · obtain ⟨m1, m2, m3⟩ := ih (n + 1) h
      refine ⟨by simp [m1], by omega, ?_⟩
      have : j - n = (j - (n + 1)) + 1 := by omega
      rw [this, List.getElem?_cons_succ]
      exact m3

theorem indexedFrom_of_getElem {α : Type} (l : List α) (n k : Nat) (p : α)
    (h : l[k]? = some p) : (n + k, p) ∈ indexedFrom n l := by
  induction l generalizing n k with
  | nil => simp at h
  | cons a l ih =>
    cases k with
    | zero =>
      simp only [List.getElem?_cons_zero, Option.some.injEq] at h
      subst h
      simp [indexedFrom]
    | succ k =>
      simp only [List.getElem?_cons_succ] at h
      have := ih (n + 1) k h
      simp only [indexedFrom, List.mem_cons]
      right
      have e : n + (k + 1) = n + 1 + k := by omega
      rw [e]
      exact this

/-! #### One frame -/

theorem DrawSceneSetup_inv {Q : Type} (env : Collaborators Q) {b : GraphicsGL2 Q} {id : Nat}
    {out : String} {pm : Option String} {R : List Event} (u : SceneUpdate Q)
    (g : GraphicsGL2 Q) (h : FrameInv b id out pm R g) :
    FrameInv b id out pm R (DrawSceneSetup env (u.apply g)) :=
  h

/-- A frame in which the observed pass is inactive keeps the invariant. -/
theorem frameBody_inactive {Q : Type} (env : Collaborators Q) {b : GraphicsGL2 Q} {i : Nat}
    {pm : Option String} {R : List Event} (P : GraphicsConfigPass)
    (hpost : ∀ p ∈ b.config.passes, p.conditions.Satisfied b.conditions = true →
      p.draw.getLast? = some "postprocess" → p.output ≠ P.output)
    (hP : b.config.passes[i]? = some P)
    (hact : P.conditions.Satisfied b.conditions = false)
    (u : SceneUpdate Q) (g : GraphicsGL2 Q) (h : FrameInv b i P.output pm R g) :
    FrameInv b i P.output pm R (frameBody env u g).state := by
  have hself : ∀ j p, (j, p) ∈ indexedFrom 0 b.config.passes → j = i → p = P := by
    intro j p hm hj
    obtain ⟨-, -, m3⟩ := indexedFrom_mem _ _ _ _ hm
    rw [hj, Nat.sub_zero, hP] at m3
    exact (Option.some.inj m3).symm
  unfold frameBody DrawScene DrawSceneLoops
  rw [Flow.call_state]
  have h0 := DrawSceneSetup_inv env u g h
  apply Flow.andThen_state_inv (FrameInv b i P.output pm R)
  · rw [h0.1]
    apply forLoop_state_inv_mem _ _ _ _ _ h0
    rintro ⟨j, p⟩ hm s hs
    by_cases hj : j = i
    · rw [hself j p hm hj]
      unfold cullPassBody CullScenePass
      simp only
      split
      · exact hs
      · rw [if_pos (Or.inr (by rw [hs.2.1]; exact hact))]
        exact hs
    · exact CullScenePass_inv env j hj p s hs
  · intro s1 hs1
    rw [hs1.1]
    apply forLoop_state_inv_mem _ _ _ _ _ hs1
    rintro ⟨j, p⟩ hm s hs
    by_cases hj : j = i
    · rw [hself j p hm hj]
      unfold drawPassBody DrawScenePass
      simp only
      rw [if_pos (by rw [hs.2.1]; exact hact)]
      exact hs
    · exact DrawScenePass_inv env j hj p (hpost p (indexedFrom_mem _ _ _ _ hm).1) s hs

/-- A frame in which the observed pass is active and its output has no entry: after the
frame the pass has reported the missing output exactly once, whether or not it had at
the start of the frame. -/
theorem frameBody_active {Q : Type} (env : Collaborators Q) {b : GraphicsGL2 Q} {i : Nat}
    {pm : Option String} {R : List Event} (P : GraphicsConfigPass)
    (hdraw : ∀ p ∈ b.config.passes, p.draw ≠ [])
    (hpost : ∀ p ∈ b.config.passes, p.conditions.Satisfied b.conditions = true →
      p.draw.getLast? = some "postprocess" → p.output ≠ P.output)
    (hP : b.config.passes[i]? = some P)
    (hact : P.conditions.Satisfied b.conditions = true)
    (hshader : mapMem b.shadermap P.shader = true)
    (hpm : pm ≠ some ("Render output " ++ P.output ++ " couldn't be found"))
    (u : SceneUpdate Q) (g : GraphicsGL2 Q)
    (h : FrameInv b i P.output pm R g ∨
      FrameInv b i P.output (some ("Render output " ++ P.output ++ " couldn't be found"))
        (R ++ [Event.report i ("Render output " ++ P.output ++ " couldn't be found")]) g) :
    FrameInv b i P.output (some ("Render output " ++ P.output ++ " couldn't be found"))
      (R ++ [Event.report i ("Render output " ++ P.output ++ " couldn't be found")])
      (frameBody env u g).state := by
  have hPmem : P ∈ b.config.passes :=
    (indexedFrom_mem _ _ _ _ (indexedFrom_of_getElem b.config.passes 0 i P hP)).1
  have hPpost : P.draw.getLast? ≠ some "postprocess" :=
    fun hp => hpost P hPmem hact hp rfl
  have hself : ∀ j p, (j, p) ∈ indexedFrom 0 b.config.passes → j = i → p = P := by
    intro j p hm hj
    obtain ⟨-, -, m3⟩ := indexedFrom_mem _ _ _ _ hm
    rw [hj, Nat.sub_zero, hP] at m3
    exact (Option.some.inj m3).symm
  -- one run of the body of the cull loop
  have hcull : ∀ a ∈ indexedFrom 0 b.config.passes, ∀ s : GraphicsGL2 Q,
      (FrameInv b i P.output pm R s ∨
        FrameInv b i P.output (some ("Render output " ++ P.output ++ " couldn't be found"))
          (R ++ [Event.report i ("Render output " ++ P.output ++ " couldn't be found")]) s) →
      ∃ s1, cullPassBody env a s = Flow.next s1 ∧
        (FrameInv b i P.output pm R s1 ∨
          FrameInv b i P.output (some ("Render output " ++ P.output ++ " couldn't be found"))
            (R ++ [Event.report i ("Render output " ++ P.output ++ " couldn't be found")])
            s1) ∧
        ((FrameInv b i P.output (some ("Render output " ++ P.output ++ " couldn't be found"))
            (R ++ [Event.report i ("Render output " ++ P.output ++ " couldn't be found")])
            s ∨ a.1 = i) →
          FrameInv b i P.output (some ("Render output " ++ P.output ++ " couldn't be found"))
            (R ++ [Event.report i ("Render output " ++ P.output ++ " couldn't be found")])
            s1) := by
    rintro ⟨j, p⟩ hm s hs
    by_cases hj : j = i
    · have hp := hself j p hm hj
      subst hp
      subst hj
      have hrun : cullPassBody env (j, p) s =
          Flow.next (s.Report j ("Render output " ++ p.output ++ " couldn't be found")) := by
        unfold cullPassBody
        rcases hs with hs | hs
        · exact CullScenePass_missing_output env j p s (hdraw p hPmem) hPpost
            (by rw [hs.2.1]; exact hact) hs.2.2.2.2.1
        · exact CullScenePass_missing_output env j p s (hdraw p hPmem) hPpost
            (by rw [hs.2.1]; exact hact) hs.2.2.2.2.1
      have hnew : FrameInv b j p.output
          (some ("Render output " ++ p.output ++ " couldn't be found"))
          (R ++ [Event.report j ("Render output " ++ p.output ++ " couldn't be found")])
          (s.Report j ("Render output " ++ p.output ++ " couldn't be found")) := by
        rcases hs with hs | hs
        · exact hs.report_new _ hpm
        · exact hs.report_again _
      exact ⟨_, hrun, Or.inr hnew, fun _ => hnew⟩
    · refine ⟨_, CullScenePass_returns env j p (hdraw p (indexedFrom_mem _ _ _ _ hm).1) s,
        ?_, ?_⟩
      · rcases hs with hs | hs
        · exact Or.inl (CullScenePass_inv env j hj p s hs)
        · exact Or.inr (CullScenePass_inv env j hj p s hs)
      · intro h1
        rcases h1 with h1 | h1
        · exact CullScenePass_inv env j hj p s h1
        · exact absurd h1 hj
  -- the cull loop
  obtain ⟨L1, L2, hL⟩ := List.append_of_mem
    (by simpa using indexedFrom_of_getElem b.config.passes 0 i P hP :
      (i, P) ∈ indexedFrom 0 b.config.passes)
  have h0 : FrameInv b i P.output pm R (DrawSceneSetup env (u.apply g)) ∨
      FrameInv b i P.output (some ("Render output " ++ P.output ++ " couldn't be found"))
        (R ++ [Event.report i ("Render output " ++ P.output ++ " couldn't be found")])
        (DrawSceneSetup env (u.apply g)) := by
    rcases h with h | h
    · exact Or.inl (DrawSceneSetup_inv env u g h)
    · exact Or.inr (DrawSceneSetup_inv env u g h)
  have hcfg : (DrawSceneSetup env (u.apply g)).config = b.config := by
    rcases h0 with h0 | h0 <;> exact h0.1
  obtain ⟨s1, e1, p1⟩ := forLoop_next_inv (cullPassBody env) _ L1
    (fun a ha s hs => by
      obtain ⟨s1, e, q, -⟩ := hcull a (by rw [hL]; simp [ha]) s hs
      exact ⟨s1, e, q⟩) _ h0
  obtain ⟨s2, e2, -, p2⟩ := hcull (i, P) (by rw [hL]; simp) s1 p1
  have p2 := p2 (Or.inr rfl)
  obtain ⟨s3, e3, p3⟩ := forLoop_next_inv (cullPassBody env) _ L2
    (fun a ha s hs => by
      obtain ⟨s1, e, -, q⟩ := hcull a (by rw [hL]; simp [ha]) s (Or.inr hs)
      exact ⟨s1, e, q (Or.inl hs)⟩) _ p2
  have hloop : forLoop (cullPassBody env) (indexedFrom 0 b.config.passes)
      (DrawSceneSetup env (u.apply g)) = Flow.next s3 := by
    rw [hL, forLoop_append_next _ _ _ _ _ e1]
    simp only [forLoop, e2, Flow.andThen]
    exact e3
  -- the draw loop
  unfold frameBody DrawScene DrawSceneLoops
  rw [Flow.call_state, hcfg, hloop]
  simp only [Flow.andThen]
  rw [p3.1]
  apply forLoop_state_inv_mem _ _ _ _ _ p3
  rintro ⟨j, p⟩ hm s hs
  by_cases hj : j = i
  · have hp := hself j p hm hj
    subst hp
    subst hj
    exact DrawScenePass_missing_output env p s hPpost hshader hs
  · exact DrawScenePass_inv env j hj p (hpost p (indexedFrom_mem _ _ _ _ hm).1) s hs

/-! #### A sequence of frames -/

theorem DrawFrames_inactive {Q : Type} (env : Collaborators Q) {b : GraphicsGL2 Q} {i : Nat}
    {pm : Option String} {R : List Event} (P : GraphicsConfigPass)
    (hpost : ∀ p ∈ b.config.passes, p.conditions.Satisfied b.conditions = true →
      p.draw.getLast? = some "postprocess" → p.output ≠ P.output)
    (hP : b.config.passes[i]? = some P)
    (hact : P.conditions.Satisfied b.conditions = false)
    (frames : List (SceneUpdate Q)) (g : GraphicsGL2 Q) (h : FrameInv b i P.output pm R g) :
    FrameInv b i P.output pm R (DrawFrames env frames g).state := by
  unfold DrawFrames
  exact forLoop_state_inv _ _
    (fun u s hs => frameBody_inactive env P hpost hP hact u s hs) frames g h

theorem DrawFrames_active {Q : Type} (env : Collaborators Q) {b : GraphicsGL2 Q} {i : Nat}
    {pm : Option String} {R : List Event} (P : GraphicsConfigPass)
    (hdraw : ∀ p ∈ b.config.passes, p.draw ≠ [])
    (hpost : ∀ p ∈ b.config.passes, p.conditions.Satisfied b.conditions = true →
      p.draw.getLast? = some "postprocess" → p.output ≠ P.output)
    (hP : b.config.passes[i]? = some P)
    (hact : P.conditions.Satisfied b.conditions = true)
    (hshader : mapMem b.shadermap P.shader = true)
    (hpm : pm ≠ some ("Render output " ++ P.output ++ " couldn't be found"))
    (frames : List (SceneUpdate Q)) (hframes : frames ≠ []) (g : GraphicsGL2 Q)
    (h : FrameInv b i P.output pm R g) :
    FrameInv b i P.output (some ("Render output " ++ P.output ++ " couldn't be found"))
      (R ++ [Event.report i ("Render output " ++ P.output ++ " couldn't be found")])
      (DrawFrames env frames g).state := by
  cases frames with
  | nil => exact absurd rfl hframes
  | cons u rest =>
    unfold DrawFrames
    simp only [forLoop]
    refine Flow.andThen_state_inv _ _ _
      (frameBody_active env P hdraw hpost hP hact hshader hpm u g (Or.inl h)) ?_
    intro s hs
    exact forLoop_state_inv _ _
      (fun u1 s1 hs1 => frameBody_active env P hdraw hpost hP hact hshader hpm u1 s1
        (Or.inr hs1)) rest s hs

/-! #### `EnableShaders` when no active output is named "reflection" -/

theorem eventsOf_snoc_none (id : Nat) (t : List Event) (e : Event) (h : e.passId = none) :
    eventsOf id (t ++ [e]) = eventsOf id t := by
  rw [eventsOf_snoc, if_neg (by rw [h]; simp), List.append_nil]

theorem outputBody_build {Q : Type} (env : Collaborators Q) (b : GraphicsGL2 Q) (id : Nat)
    (o : GraphicsConfigOutput) (s : GraphicsGL2 Q) (h : BuildInv b id s)
    (hfmt : o.conditions.Satisfied b.conditions = true → o.type ≠ "framebuffer" →
      ∃ f, TextureFormatFromString o.format = some f ∧
        (hasTextureFloat env = true ∨ (f ≠ Format.RGBA16 ∧ f ≠ Format.RGB16)))
    (hname : o.name = "reflection" → o.conditions.Satisfied b.conditions = false) :
    ∃ s1, outputBody env o s = Flow.next s1 ∧ BuildInv b id s1 := by
  obtain ⟨h1, h2, h3, h4, h5, h6, h7, h8, h9⟩ := h
  unfold outputBody
  by_cases hact : o.conditions.Satisfied s.conditions = true
  · have hactb : o.conditions.Satisfied b.conditions = true := by
      rw [← h1]
      exact hact
    have hne : o.name ≠ "reflection" := by
      intro he
      rw [hname he] at hactb
      cases hactb
    rw [if_pos hact]
    by_cases hdup : mapMem s.texture_outputs o.name = true
    · rw [if_pos hdup]
      exact ⟨_, rfl, h1, h2, h3, h4, h5, h6, h7, h8, h9⟩
    · rw [if_neg hdup]
      by_cases hfb : o.type = "framebuffer"
      · rw [if_pos hfb]
        refine ⟨_, rfl, h1, h2, h3, h4, h5, h6, ?_, h8, h9⟩
        simp only [GraphicsGL2.info_render_outputs, GraphicsGL2.setRenderOutputs_render_outputs,
          RenderToFramebufferAt, mapMem_mapSet, h7, hne, decide_False, Bool.or_self]
      · rw [if_neg hfb]
        obtain ⟨f, hf, hfl⟩ := hfmt hactb hfb
        have hcond : (!hasTextureFloat env && (f = Format.RGBA16 || f = Format.RGB16)) = false := by
          rcases hfl with h | ⟨h1, h2⟩
          · simp [h]
          · simp [h1, h2]
        unfold outputTexture
        rw [hf]
        simp only [hcond]
        refine ⟨_, rfl, ?_⟩
        simp only [outputInit, Flow.andThen]
        refine ⟨by simpa using h1, by simpa using h2, by simpa using h3, by simpa using h4,
          by simpa using h5, ?_, by simpa using h7, ?_, ?_⟩
        · simp only [GraphicsGL2.info_trace, GraphicsGL2.setTextureInputs_trace,
            GraphicsGL2.log_trace, GraphicsGL2.setTextureOutputs_trace]
          rw [eventsOf_snoc, if_neg (by simp [Event.passId]), List.append_nil]
          exact h6
        · simp [mapMem_mapSet, h8, hne]
        · simp [mapMem_mapSet, h9, hne]
  · rw [if_neg hact]
    exact ⟨_, rfl, h1, h2, h3, h4, h5, h6, h7, h8, h9⟩

theorem collectTextures_unregistered (m : List (String × FrameBufferTexture)) (t : String)
    (h : mapMem m t = false) : collectTextures m [t] = [] := by
  unfold mapMem at h
  have hn : mapFind m t = none := by simpa using h
  simp [collectTextures, hn]

theorem passBody_build {Q : Type} (env : Collaborators Q) (b : GraphicsGL2 Q) (id : Nat)
    (p : GraphicsConfigPass) (s : GraphicsGL2 Q) (h : BuildInv b id s)
    (htok : (Tokenize p.output " ").isSome = true) :
    ∃ s1, passBody env p s = Flow.next s1 ∧ BuildInv b id s1 := by
  obtain ⟨h1, h2, h3, h4, h5, h6, h7, h8, h9⟩ := h
  unfold passBody
  split
  · split
    · exact ⟨_, rfl, h1, h2, h3, h4, h5, h6, h7, h8, h9⟩
    · obtain ⟨toks, ht⟩ := Option.isSome_iff_exists.mp htok
      rw [ht]
      refine ⟨_, rfl, ?_⟩
      unfold passOutputFbo
      split
      · exact ⟨h1, h2, h3, h4, h5, h6, h7, h8, h9⟩
      · rename_i hne
        have hout : p.output ≠ "reflection" := by
          intro he
          rw [he] at ht
          have ht2 : toks = ["reflection"] := by
            have : Tokenize "reflection" " " = some ["reflection"] := by decide
            rw [this] at ht
            exact (Option.some.inj ht).symm
          rw [ht2, collectTextures_unregistered _ _ h8] at hne
          exact hne rfl
        refine ⟨by simpa using h1, by simpa using h2, by simpa using h3, by simpa using h4,
          by simpa using h5, ?_, ?_, by simpa using h8, by simpa using h9⟩
        · simp only [GraphicsGL2.log_trace, GraphicsGL2.setRenderOutputs_trace]
          rw [eventsOf_snoc, if_neg (by simp [Event.passId]), List.append_nil]
          exact h6
        · simp [mapMem_mapSet, h7, hout]
  · exact ⟨_, rfl, h1, h2, h3, h4, h5, h6, h7, h8, h9⟩

theorem LoadShader_quiet {Q : Type} (env : Collaborators Q) (g : GraphicsGL2 Q) (id : Nat)
    (n d p v f : String) :
    (LoadShader env g n d p v f).state.prev_messages = g.prev_messages ∧
      eventsOf id (LoadShader env g n d p v f).state.trace = eventsOf id g.trace := by
  unfold LoadShader
  split
  · exact ⟨rfl, rfl⟩
  · refine ⟨rfl, ?_⟩
    simp only [Flow.state, GraphicsGL2.log_trace, GraphicsGL2.setShadermap_trace]
    rw [eventsOf_snoc, if_neg (by simp [Event.passId]), List.append_nil]

theorem reloadShaders_quiet {Q : Type} (env : Collaborators Q) (id : Nat)
    (l : List GraphicsConfigShader) (g : GraphicsGL2 Q) (names : List String) (ok : Bool) :
    (reloadShaders env l g names ok).1.state.prev_messages = g.prev_messages ∧
      eventsOf id (reloadShaders env l g names ok).1.state.trace = eventsOf id g.trace := by
  induction l generalizing g names ok with
  | nil => exact ⟨rfl, rfl⟩
  | cons s l ih =>
    simp only [reloadShaders]
    have hl := LoadShader_quiet env g id s.name s.defines g.shaderpath s.vertex s.fragment
    split_ifs with h1 h2
    · exact ⟨rfl, rfl⟩
    · cases hc : LoadShader env g s.name s.defines g.shaderpath s.vertex s.fragment with
      | next g1 =>
        rw [hc] at hl
        simp only
        obtain ⟨i1, i2⟩ := ih g1 (s.name :: names)
          (shaderLoadResult env g s.defines g.shaderpath s.vertex s.fragment)
        exact ⟨i1.trans hl.1, i2.trans hl.2⟩
      | ret g1 =>
        rw [hc] at hl
        exact hl
      | abort g1 =>
        rw [hc] at hl
        exact hl
    · exact ih g (s.name :: names) false

theorem reloadConfiguration_quiet {Q : Type} (env : Collaborators Q) (id : Nat)
    (g : GraphicsGL2 Q) :
    (reloadConfiguration env g).1.state.prev_messages = g.prev_messages ∧
      eventsOf id (reloadConfiguration env g).1.state.trace = eventsOf id g.trace := by
  unfold reloadConfiguration
  obtain ⟨h1, h2⟩ := reloadShaders_quiet env id (env.configLoad (rcpath g)).2.shaders
    (configReload env g) [] (env.configLoad (rcpath g)).1
  rw [h1, h2]
  unfold configReload
  split <;> simp [eventsOf, List.filter_append, Event.passId]

/-- The rebuild of the output graph when the configuration and its shaders have loaded,
the formats of the active texture outputs are accepted, the pass output strings are
shorter than 2^32 - 1 characters and no active output is named "reflection":
`EnableShaders` returns with shading on and "reflection" has no entry in the three
maps. -/
theorem EnableShaders_build {Q : Type} (env : Collaborators Q) (g0 g1 : GraphicsGL2 Q)
    (id : Nat)
    (hreload : reloadConfiguration env g0 = (Flow.next g1, true))
    (hfmt : ∀ o ∈ g1.config.outputs, o.conditions.Satisfied (buildConditions g1) = true →
      o.type ≠ "framebuffer" → ∃ f, TextureFormatFromString o.format = some f ∧
        (hasTextureFloat env = true ∨ (f ≠ Format.RGBA16 ∧ f ≠ Format.RGB16)))
    (hlen : ∀ p ∈ g1.config.passes, p.output.data.length < 4294967295)
    (hname : ∀ o ∈ g1.config.outputs, o.name = "reflection" →
      o.conditions.Satisfied (buildConditions g1) = false) :
    ∃ gE, EnableShaders env g0 = Flow.next gE ∧ gE.config = g1.config ∧
      gE.conditions = buildConditions g1 ∧ gE.shadermap = g1.shadermap ∧
      gE.using_shaders = true ∧ gE.prev_messages = g0.prev_messages ∧
      eventsOf id gE.trace = eventsOf id g0.trace ∧
      mapMem gE.render_outputs "reflection" = false ∧
      mapMem gE.texture_outputs "reflection" = false ∧
      mapMem gE.texture_inputs "reflection" = false := by
  have hq := reloadConfiguration_quiet env id g0
  rw [hreload] at hq
  obtain ⟨q1, q2⟩ := hq
  have hstart : BuildInv (buildStart g1) id (buildStart g1) := by
    refine ⟨rfl, rfl, by simp [buildStart], rfl, rfl, rfl, by simp [buildStart, mapMem, mapFind],
      by simp [buildStart, mapMem, mapFind], ?_⟩
    simp only [buildStart, GraphicsGL2.setTextureInputs_texture_inputs, commonTextures]
    split <;> simp [mapMem_mapSet, mapMem, mapFind]
  have hc : (buildStart g1).conditions = buildConditions g1 := by simp [buildStart]
  have hk : (buildStart g1).config = g1.config := by simp [buildStart]
  obtain ⟨s1, e1, p1⟩ := forLoop_next_inv (outputBody env) (BuildInv (buildStart g1) id)
    g1.config.outputs
    (fun o ho s hs => outputBody_build env _ id o s hs (by rw [hc]; exact hfmt o ho)
      (by rw [hc]; exact hname o ho)) _ hstart
  have p1r : BuildInv (buildStart g1) id (registerFramebuffer s1) := by
    obtain ⟨h1, h2, h3, h4, h5, h6, h7, h8, h9⟩ := p1
    refine ⟨h1, h2, h3, h4, h5, h6, ?_, h8, h9⟩
    simp [registerFramebuffer, RenderToFramebufferAt, mapMem_mapSet, h7]
  obtain ⟨s2, e2, p2⟩ := forLoop_next_inv (passBody env) (BuildInv (buildStart g1) id)
    s1.config.passes
    (fun p hp s hs => passBody_build env _ id p s hs
      (Tokenize_isSome p.output " " (hlen p (by rw [← hk, ← p1.2.1]; exact hp)))) _ p1r
  have p3 : BuildInv (buildStart g1) id (createSky s2) := by
    obtain ⟨h1, h2, h3, h4, h5, h6, h7, h8, h9⟩ := p2
    unfold createSky
    split
    · refine ⟨h1, h2, h3, h4, h5, h6, h7, h8, ?_⟩
      simp [mapMem_mapSet, h9]
    · exact ⟨h1, h2, h3, h4, h5, h6, h7, h8, h9⟩
  have hrun : EnableShaders env g0 = Flow.next (createSky s2) := by
    unfold EnableShaders
    rw [hreload]
    simp only [Flow.call, Flow.andThen]
    rw [if_neg (by simp)]
    unfold buildOutputGraph
    rw [e1]
    simp only [Flow.andThen, buildPassOutputs, e2, Flow.call]
  obtain ⟨h1, h2, h3, h4, h5, h6, h7, h8, h9⟩ := p3
  refine ⟨createSky s2, hrun, h2.trans hk, h1.trans hc, ?_, h3, ?_, ?_, h7, h8, h9⟩
  · rw [h4]
    simp [buildStart]
  · rw [h5]
    simpa [buildStart] using q1
  · rw [h6]
    simpa [buildStart] using q2

/-! ### C5: the events of a pass whose output is not built -/

theorem FrameQuiet.of_inv {Q : Type} {b : GraphicsGL2 Q} {id : Nat} {out : String}
    {pm : Option String} {R0 : List Event} {g : GraphicsGL2 Q} (m1 m2 : String)
    (h : FrameInv b id out pm R0 g) : FrameQuiet b id out R0 m1 m2 g :=
  ⟨pm, [], by simpa using h, by simp⟩

theorem FrameQuiet.step {Q : Type} {b : GraphicsGL2 Q} {id : Nat} {out : String}
    {R0 : List Event} {m1 m2 : String} {g : GraphicsGL2 Q}
    (h : FrameQuiet b id out R0 m1 m2 g) (g1 : GraphicsGL2 Q)
    (hstep : ∀ pm R, FrameInv b id out pm R g → FrameInv b id out pm R g1) :
    FrameQuiet b id out R0 m1 m2 g1 := by
  obtain ⟨pm, X, h1, h2⟩ := h
  exact ⟨pm, X, hstep pm _ h1, h2⟩

/-- A line of the pass itself with one of the two messages. -/
theorem FrameQuiet.report_self {Q : Type} {b : GraphicsGL2 Q} {id : Nat} {out : String}
    {R0 : List Event} {m1 m2 : String} {g : GraphicsGL2 Q}
    (h : FrameQuiet b id out R0 m1 m2 g) (m : String) (hm : m = m1 ∨ m = m2) :
    FrameQuiet b id out R0 m1 m2 (g.Report id m) := by
  obtain ⟨pm, X, h1, h2⟩ := h
  by_cases hpm : pm = some m
  · subst hpm
    exact ⟨some m, X, h1.report_again m, h2⟩
  · refine ⟨some m, X ++ [Event.report id m], ?_, ?_⟩
    · rw [← List.append_assoc]
      exact h1.report_new m hpm
    · intro e he
      rcases List.mem_append.mp he with h | h
      · exact h2 e h
      · simp only [List.mem_singleton] at h
        rw [h]
        rcases hm with hm | hm
        · exact Or.inl (by rw [hm])
        · exact Or.inr (by rw [hm])

/-- The culling of the observed pass, whose output has no entry: at most its
missing-output line. -/
theorem CullScenePass_quiet_self {Q : Type} (env : Collaborators Q) {b : GraphicsGL2 Q}
    {i : Nat} {R0 : List Event} {m2 : String} (P : GraphicsConfigPass) (s : GraphicsGL2 Q)
    (h : FrameQuiet b i P.output R0 ("Render output " ++ P.output ++ " couldn't be found")
      m2 s) :
    FrameQuiet b i P.output R0 ("Render output " ++ P.output ++ " couldn't be found") m2
      (CullScenePass env i P s).state := by
  unfold CullScenePass
  split
  · exact h
  split
  · exact h
  · rw [Flow.call_state]
    apply forLoop_state_inv _ _ _ _ _ h
    intro d s1 hs1
    unfold cullLayerBody
    split
    · exact hs1.report_self _ (Or.inl rfl)
    · rename_i oi hoi
      obtain ⟨pm, X, hinv, -⟩ := hs1
      have hmem := hinv.2.2.2.2.1
      unfold mapMem at hmem
      rw [hoi] at hmem
      simp at hmem

/-- The draw of the observed pass, whose output has no entry and which is not an active
post-process: at most its missing-shader line or its missing-output line. -/
theorem DrawScenePass_quiet_self {Q : Type} (env : Collaborators Q) {b : GraphicsGL2 Q}
    {i : Nat} {R0 : List Event} (P : GraphicsConfigPass)
    (hpost : P.conditions.Satisfied b.conditions = true →
      P.draw.getLast? ≠ some "postprocess")
    (s : GraphicsGL2 Q)
    (h : FrameQuiet b i P.output R0 ("Render output " ++ P.output ++ " couldn't be found")
      ("Shader " ++ P.shader ++ " couldn't be found") s) :
    FrameQuiet b i P.output R0 ("Render output " ++ P.output ++ " couldn't be found")
      ("Shader " ++ P.shader ++ " couldn't be found") (DrawScenePass env i P s).state := by
  have hcond : s.conditions = b.conditions := by
    obtain ⟨pm, X, hinv, -⟩ := h
    exact hinv.2.1
  unfold DrawScenePass
  split
  · exact h
  · rename_i hact
    split
    · exact h
    · split
      · rename_i hp
        rw [hcond] at hact
        exact absurd hp (hpost (by simpa using hact))
      · rw [Flow.call_state]
        refine Flow.andThen_state_inv _ _ _ ?_ ?_
        · unfold drawPassSetup
          split
          · exact h.report_self _ (Or.inr rfl)
          · split
            · exact h.step _ (fun pm R hi => hi.of_fields _ (by simp [Flow.state]))
            · split
              · exact h.step _ (fun pm R hi => hi.of_fields _ (by simp [Flow.state]))
              · exact h.step _ (fun pm R hi => hi.of_fields _ (by simp [Flow.state]))
        · intro s1 hs1
          have hmem : mapMem s1.render_outputs P.output = false := by
            obtain ⟨pm, X, hinv, -⟩ := hs1
            exact hinv.2.2.2.2.1
          unfold drawPassLayers
          rw [if_pos hmem]
          exact hs1.report_self _ (Or.inl rfl)

/-- A frame keeps the events of the observed pass to its two error lines. -/
theorem frameBody_quiet {Q : Type} (env : Collaborators Q) {b : GraphicsGL2 Q} {i : Nat}
    {R0 : List Event} (P : GraphicsConfigPass)
    (hpost : ∀ p ∈ b.config.passes, p.conditions.Satisfied b.conditions = true →
      p.draw.getLast? = some "postprocess" → p.output ≠ P.output)
    (hP : b.config.passes[i]? = some P)
    (u : SceneUpdate Q) (g : GraphicsGL2 Q)
    (h : FrameQuiet b i P.output R0 ("Render output " ++ P.output ++ " couldn't be found")
      ("Shader " ++ P.shader ++ " couldn't be found") g) :
    FrameQuiet b i P.output R0 ("Render output " ++ P.output ++ " couldn't be found")
      ("Shader " ++ P.shader ++ " couldn't be found") (frameBody env u g).state := by
  have hPmem : P ∈ b.config.passes :=
    (indexedFrom_mem _ _ _ _ (indexedFrom_of_getElem b.config.passes 0 i P hP)).1
  have hPpost : P.conditions.Satisfied b.conditions = true →
      P.draw.getLast? ≠ some "postprocess" :=
    fun hact hp => hpost P hPmem hact hp rfl
  have hself : ∀ j p, (j, p) ∈ indexedFrom 0 b.config.passes → j = i → p = P := by
    intro j p hm hj
    obtain ⟨-, -, m3⟩ := indexedFrom_mem _ _ _ _ hm
    rw [hj, Nat.sub_zero, hP] at m3
    exact (Option.some.inj m3).symm
  have hcfg : ∀ s : GraphicsGL2 Q,
      FrameQuiet b i P.output R0 ("Render output " ++ P.output ++ " couldn't be found")
        ("Shader " ++ P.shader ++ " couldn't be found") s → s.config = b.config := by
    intro s hs
    obtain ⟨pm, X, hinv, -⟩ := hs
    exact hinv.1
  unfold frameBody DrawScene DrawSceneLoops
  rw [Flow.call_state]
  have h0 : FrameQuiet b i P.output R0
      ("Render output " ++ P.output ++ " couldn't be found")
      ("Shader " ++ P.shader ++ " couldn't be found") (DrawSceneSetup env (u.apply g)) :=
    h.step _ (fun pm R hi => DrawSceneSetup_inv env u g hi)
  refine Flow.andThen_state_inv (FrameQuiet b i P.output R0
    ("Render output " ++ P.output ++ " couldn't be found")
    ("Shader " ++ P.shader ++ " couldn't be found")) _ _ ?_ ?_
  · rw [hcfg _ h0]
    apply forLoop_state_inv_mem _ _ _ _ _ h0
    rintro ⟨j, p⟩ hm s hs
    by_cases hj : j = i
    · rw [hself j p hm hj, hj]
      exact CullScenePass_quiet_self env P s hs
    · exact hs.step _ (fun pm R hi => CullScenePass_inv env j hj p s hi)
  · intro s1 hs1
    rw [hcfg _ hs1]
    apply forLoop_state_inv_mem _ _ _ _ _ hs1
    rintro ⟨j, p⟩ hm s hs
    by_cases hj : j = i
    · rw [hself j p hm hj, hj]
      exact DrawScenePass_quiet_self env P hPpost s hs
    · exact hs.step _ (fun pm R hi =>
        DrawScenePass_inv env j hj p (hpost p (indexedFrom_mem _ _ _ _ hm).1) s hi)

/-- A sequence of frames keeps the events of the observed pass to its two error
lines. -/
theorem DrawFrames_quiet {Q : Type} (env : Collaborators Q) {b : GraphicsGL2 Q} {i : Nat}
    {R0 : List Event} (P : GraphicsConfigPass)
    (hpost : ∀ p ∈ b.config.passes, p.conditions.Satisfied b.conditions = true →
      p.draw.getLast? = some "postprocess" → p.output ≠ P.output)
    (hP : b.config.passes[i]? = some P)
    (frames : List (SceneUpdate Q)) (g : GraphicsGL2 Q)
    (h : FrameQuiet b i P.output R0 ("Render output " ++ P.output ++ " couldn't be found")
      ("Shader " ++ P.shader ++ " couldn't be found") g) :
    FrameQuiet b i P.output R0 ("Render output " ++ P.output ++ " couldn't be found")
      ("Shader " ++ P.shader ++ " couldn't be found") (DrawFrames env frames g).state := by
  unfold DrawFrames
  exact forLoop_state_inv _ _ (fun u s hs => frameBody_quiet env P hpost hP u s hs) frames g h

theorem Satisfied_missing_flag (c : GraphicsConfigCondition) (flags : List String)
    (f : String) (hf : f ∈ c.positive_conditions) (hflag : f ∉ flags) :
    c.Satisfied flags = false := by
  unfold GraphicsConfigCondition.Satisfied
  have h : c.positive_conditions.all (fun f => flags.contains f) = false := by
    rw [List.all_eq_false]
    exact ⟨f, hf, by simpa using hflag⟩
  rw [h]
  rfl

/-- C5 (amended): for every configuration that loads with its shaders (the formats of
its active texture outputs accepted, its pass output strings shorter than 2^32 - 1
characters, every pass with a draw layer) whose declarations of the output "reflection"
are cube-map texture outputs gated by the condition `reflection_dynamic`, and every flag
set that does not contain `reflection_dynamic`: `EnableShaders` returns and no render
target, texture output or input texture is registered under "reflection"; and when no
active post-process pass has the output "reflection", every pass `P` (at position `i`)
naming "reflection" as its output issues no cull query, cube-side attachment or draw in
any sequence of frames: the only events of the pass are lines of `ReportOnce` with its
missing-output error or its missing-shader error.  When the conditions of the pass are
not satisfied no line is written at all; when the pass is active, its shader is loaded,
there is at least one frame and the last message `ReportOnce` holds for the pass is not
the missing-output error already, that error is written exactly once across all the
frames and is the only event of the pass. -/
theorem DrawFrames_reflection_output_not_built {Q : Type} (env : Collaborators Q)
    (g0 g1 : GraphicsGL2 Q) (i : Nat) (P : GraphicsConfigPass)
    (frames : List (SceneUpdate Q))
    (hreload : reloadConfiguration env g0 = (Flow.next g1, true))
    (hfmt : ∀ o ∈ g1.config.outputs, o.conditions.Satisfied (buildConditions g1) = true →
      o.type ≠ "framebuffer" → ∃ f, TextureFormatFromString o.format = some f ∧
        (hasTextureFloat env = true ∨ (f ≠ Format.RGBA16 ∧ f ≠ Format.RGB16)))
    (hlen : ∀ p ∈ g1.config.passes, p.output.data.length < 4294967295)
    (hdecl : ∀ o ∈ g1.config.outputs, o.name = "reflection" →
      o.type = "cube" ∧ "reflection_dynamic" ∈ o.conditions.positive_conditions)
    (hflag : "reflection_dynamic" ∉ buildConditions g1)
    (hdraw : ∀ p ∈ g1.config.passes, p.draw ≠ [])
    (hpost : ∀ p ∈ g1.config.passes, p.conditions.Satisfied (buildConditions g1) = true →
      p.draw.getLast? = some "postprocess" → p.output ≠ "reflection")
    (hP : g1.config.passes[i]? = some P) (hout : P.output = "reflection") :
    ∃ gE, EnableShaders env g0 = Flow.next gE ∧
      mapMem gE.render_outputs "reflection" = false ∧
      mapMem gE.texture_outputs "reflection" = false ∧
      mapMem gE.texture_inputs "reflection" = false ∧
      (∃ X, eventsOf i (DrawFrames env frames gE).state.trace = eventsOf i g0.trace ++ X ∧
        ∀ e ∈ X, e = Event.report i "Render output reflection couldn't be found" ∨
          e = Event.report i ("Shader " ++ P.shader ++ " couldn't be found")) ∧
      (P.conditions.Satisfied (buildConditions g1) = false →
        eventsOf i (DrawFrames env frames gE).state.trace = eventsOf i g0.trace) ∧
      (P.conditions.Satisfied (buildConditions g1) = true →
        mapMem g1.shadermap P.shader = true →
        mapFind g0.prev_messages i ≠ some "Render output reflection couldn't be found" →
        frames ≠ [] →
        eventsOf i (DrawFrames env frames gE).state.trace =
          eventsOf i g0.trace ++
            [Event.report i "Render output reflection couldn't be found"]) := by
  obtain ⟨gE, hrun, k1, k2, k3, k4, k5, k6, k7, k8, k9⟩ := EnableShaders_build env g0 g1 i
    hreload hfmt hlen
    (fun o ho hn => Satisfied_missing_flag _ _ _ (hdecl o ho hn).2 hflag)
  have hmsg : "Render output " ++ P.output ++ " couldn't be found" =
      "Render output reflection couldn't be found" := by
    rw [hout]
    decide
  have hinv : FrameInv gE i P.output (mapFind g0.prev_messages i) (eventsOf i g0.trace) gE := by
    refine ⟨rfl, rfl, rfl, k4, ?_, ?_, k6⟩
    · rw [hout]
      exact k7
    · rw [k5]
  have hpostE : ∀ p ∈ gE.config.passes, p.conditions.Satisfied gE.conditions = true →
      p.draw.getLast? = some "postprocess" → p.output ≠ P.output := by
    rw [k1, k2, hout]
    exact hpost
  refine ⟨gE, hrun, k7, k8, k9, ?_, ?_, ?_⟩
  · obtain ⟨pm, X, hq, hX⟩ := DrawFrames_quiet env P hpostE (by rw [k1]; exact hP) frames gE
      (FrameQuiet.of_inv _ _ hinv)
    refine ⟨X, hq.2.2.2.2.2.2, ?_⟩
    intro e he
    rw [← hmsg]
    exact hX e he
  · intro hact
    exact (DrawFrames_inactive env P hpostE (by rw [k1]; exact hP)
      (by rw [k2]; exact hact) frames gE hinv).2.2.2.2.2.2
  · intro hact hshader hprev hframes
    have h := DrawFrames_active env P (by rw [k1]; exact hdraw) hpostE
      (by rw [k1]; exact hP) (by rw [k2]; exact hact) (by rw [k3]; exact hshader)
      (by rw [hmsg]; exact hprev) frames hframes gE hinv
    rw [← hmsg]
    exact h.2.2.2.2.2.2

/-- C5, counterexample: the only declaration of "reflection" is a cube-map output under
the condition `reflection_dynamic`, and the flags do not contain `reflection_dynamic`.
Over two frames the always active pass 0 into "reflection", whose shader is not loaded,
writes its missing-output error twice (it alternates with the missing-shader error of
the same pass), and pass 1 into "reflection", whose condition is not satisfied, never
writes it. -/
theorem DrawFrames_reflection_error_not_once :
    "reflection_dynamic" ∉ (EnableShaders (exEnv reflectionTwoConfig) exStart).state.conditions ∧
    mapMem (EnableShaders (exEnv reflectionTwoConfig) exStart).state.render_outputs
      "reflection" = false ∧
    eventsOf 0 (DrawFrames (exEnv reflectionTwoConfig) [exScene, exScene]
      (EnableShaders (exEnv reflectionTwoConfig) exStart).state).state.trace =
      [Event.report 0 "Render output reflection couldn't be found",
        Event.report 0 "Shader none couldn't be found",
        Event.report 0 "Render output reflection couldn't be found",
        Event.report 0 "Shader none couldn't be found"] ∧
    eventsOf 1 (DrawFrames (exEnv reflectionTwoConfig) [exScene, exScene]
      (EnableShaders (exEnv reflectionTwoConfig) exStart).state).state.trace = [] := by
  decide

/-- C5 (amended), at a concrete input: the cube-map output "reflection" under the
condition `reflection_dynamic`, an always active pass into it with a loaded shader, and
two frames. -/
theorem DrawFrames_reflection_output_not_built_witness :
    ∃ gE, EnableShaders (exEnv (reflectionConfig "s")) exStart = Flow.next gE ∧
      mapMem gE.render_outputs "reflection" = false ∧
      mapMem gE.texture_outputs "reflection" = false ∧
      mapMem gE.texture_inputs "reflection" = false ∧
      (∃ X, eventsOf 0 (DrawFrames (exEnv (reflectionConfig "s")) [exScene, exScene]
          gE).state.trace = eventsOf 0 exStart.trace ++ X ∧
        ∀ e ∈ X, e = Event.report 0 "Render output reflection couldn't be found" ∨
          e = Event.report 0 ("Shader " ++ reflectionPass.shader ++ " couldn't be found")) ∧
      eventsOf 0 (DrawFrames (exEnv (reflectionConfig "s")) [exScene, exScene]
          gE).state.trace =
        eventsOf 0 exStart.trace ++
          [Event.report 0 "Render output reflection couldn't be found"] := by
  obtain ⟨gE, h1, h2, h3, h4, h5, -, h7⟩ :=
    DrawFrames_reflection_output_not_built (exEnv (reflectionConfig "s")) exStart
      reflectionReloaded 0 reflectionPass [exScene, exScene] rfl
      (fun o ho _ _ => by
        have h : o ∈ [exOutput "reflection" "cube" "RGB8" ⟨["reflection_dynamic"], []⟩] := ho
        simp only [List.mem_singleton] at h
        subst h
        exact ⟨Format.RGB8, by decide, Or.inr (by decide)⟩)
      (by decide) (by decide) (by decide) (by decide) (by decide) rfl rfl
  exact ⟨gE, h1, h2, h3, h4, h5, h7 (by decide) (by decide) (by decide) (List.cons_ne_nil _ _)⟩

/-! ### C11: a pass whose condition is not satisfied -/

/-- C11: for every pass whose condition is not satisfied by the active flag set,
`CullScenePass` (called, as its assertion requires, for a pass with a draw layer) and
`DrawScenePass` return and leave the whole renderer state as it was: the cull cache, the
cameras, the render-output map and the render inputs are unchanged, no draw is issued
and nothing is written to the error stream. -/
theorem inactive_pass_is_skipped {Q : Type} (env : Collaborators Q) (id : Nat)
    (pass : GraphicsConfigPass) (g : GraphicsGL2 Q)
    (hinactive : pass.conditions.Satisfied g.conditions = false) :
    (pass.draw ≠ [] → CullScenePass env id pass g = Flow.next g) ∧
      DrawScenePass env id pass g = Flow.next g := by
  constructor
  · intro hdraw
    unfold CullScenePass
    rw [if_neg (by simpa [List.isEmpty_iff] using hdraw), if_pos (Or.inr hinactive)]
  · unfold DrawScenePass
    rw [if_pos hinactive]

/-! ### C12: the entry "framebuffer" -/

theorem RenderToFramebufferAt_entry (m : List (String × RenderOutput)) (name : String) :
    (mapFind (RenderToFramebufferAt m name) name).map RenderOutput.IsFBO = some false := by
  unfold RenderToFramebufferAt
  rw [mapFind_mapSet_same]
  rfl

theorem DisableShaders_framebuffer {Q : Type} (env : Collaborators Q) (g gF : GraphicsGL2 Q)
    (h : DisableShaders env g = Flow.next gF) :
    (mapFind gF.render_outputs "framebuffer").map RenderOutput.IsFBO = some false := by
  unfold DisableShaders at h
  split at h
  · cases h
  · cases h
    rw [(DisableShadersFinish_fields _).2.2.2.2.2.1]
    exact RenderToFramebufferAt_entry _ _

theorem forLoop_ret_of {σ α : Type} (body : α → σ → Flow σ) (R : σ → Prop)
    (hbody : ∀ a s s1, body a s = Flow.ret s1 → R s1) (l : List α) (s s1 : σ)
    (h : forLoop body l s = Flow.ret s1) : R s1 := by
  induction l generalizing s with
  | nil => cases h
  | cons a l ih =>
    simp only [forLoop] at h
    cases hb : body a s with
    | next s2 =>
      rw [hb] at h
      exact ih s2 h
    | ret s2 =>
      rw [hb] at h
      have he : s2 = s1 := by simpa [Flow.andThen] using h
      rw [← he]
      exact hbody a s s2 hb
    | abort s2 =>
      rw [hb] at h
      cases h

theorem outputBody_ret_framebuffer {Q : Type} (env : Collaborators Q)
    (o : GraphicsConfigOutput) (s s1 : GraphicsGL2 Q) (h : outputBody env o s = Flow.ret s1) :
    (mapFind s1.render_outputs "framebuffer").map RenderOutput.IsFBO = some false := by
  unfold outputBody at h
  split at h
  · split at h
    · cases h
    · split at h
      · cases h
      · unfold outputTexture at h
        split at h
        · cases h
        · split at h
          · unfold outputFloatFailure at h
            simp only [Flow.andThen] at h
            cases hd : DisableShaders env
                (((s.setTextureOutputs (mapSet s.texture_outputs o.name
                  FrameBufferTexture.new)).error
                  "Your video card doesn't support floating point textures.").error
                  ("Failed to load render output: " ++ o.name ++ " " ++ o.type)) with
            | next s2 =>
              rw [hd] at h
              simp only [Flow.thenReturn] at h
              cases h
              exact DisableShaders_framebuffer env _ _ hd
            | ret s2 =>
              unfold DisableShaders at hd
              split at hd <;> cases hd
            | abort s2 =>
              rw [hd] at h
              cases h
          · cases h
  · cases h

theorem passBody_framebuffer {Q : Type} (env : Collaborators Q) (p : GraphicsConfigPass)
    (s : GraphicsGL2 Q)
    (h : (mapFind s.render_outputs "framebuffer").map RenderOutput.IsFBO = some false) :
    (mapFind (passBody env p s).state.render_outputs "framebuffer").map RenderOutput.IsFBO =
      some false := by
  unfold passBody
  split
  · split
    · exact h
    · rename_i hmem
      split
      · exact h
      · unfold passOutputFbo
        split
        · exact h
        · have hne : p.output ≠ "framebuffer" := by
            intro he
            rw [he] at hmem
            unfold mapMem at hmem
            cases hf : mapFind s.render_outputs "framebuffer" with
            | none => rw [hf] at h; cases h
            | some v => rw [hf] at hmem; exact hmem rfl
          simp only [Flow.state, GraphicsGL2.log_render_outputs,
            GraphicsGL2.setRenderOutputs_render_outputs]
          rw [mapFind_mapSet_other _ _ _ _ hne]
          exact h
  · exact h

theorem buildPassOutputs_framebuffer {Q : Type} (env : Collaborators Q) (s : GraphicsGL2 Q) :
    (mapFind (buildPassOutputs env s).state.render_outputs "framebuffer").map
      RenderOutput.IsFBO = some false := by
  unfold buildPassOutputs
  refine Flow.andThen_state_inv
    (fun s : GraphicsGL2 Q =>
      (mapFind s.render_outputs "framebuffer").map RenderOutput.IsFBO = some false)
    (forLoop (passBody env) s.config.passes (registerFramebuffer s))
    (fun g1 => Flow.next (createSky g1)) ?_ ?_
  · refine forLoop_state_inv (passBody env)
      (fun s : GraphicsGL2 Q =>
        (mapFind s.render_outputs "framebuffer").map RenderOutput.IsFBO = some false)
      (fun p s1 h1 => passBody_framebuffer env p s1 h1) _ _ ?_
    simp only [registerFramebuffer, GraphicsGL2.setRenderOutputs_render_outputs]
    exact RenderToFramebufferAt_entry _ _
  · intro s1 h1
    have hc : (createSky s1).render_outputs = s1.render_outputs := by
      unfold createSky
      split <;> simp
    show (mapFind (createSky s1).render_outputs "framebuffer").map RenderOutput.IsFBO =
      some false
    rw [hc]
    exact h1

theorem EnableShaders_framebuffer {Q : Type} (env : Collaborators Q) (g gF : GraphicsGL2 Q)
    (h : EnableShaders env g = Flow.next gF) :
    (mapFind gF.render_outputs "framebuffer").map RenderOutput.IsFBO = some false := by
  have hbuild : ∀ g1, buildOutputGraph env g1 = Flow.next gF →
      (mapFind gF.render_outputs "framebuffer").map RenderOutput.IsFBO = some false := by
    intro g1 hb
    unfold buildOutputGraph at hb
    cases ho : forLoop (outputBody env) g1.config.outputs (buildStart g1) with
    | next s1 =>
      rw [ho] at hb
      simp only [Flow.andThen] at hb
      have hs : gF = (buildPassOutputs env s1).state := by
        have := congrArg Flow.state hb
        rw [Flow.call_state] at this
        exact this.symm
      rw [hs]
      exact buildPassOutputs_framebuffer env s1
    | ret s1 =>
      rw [ho] at hb
      simp only [Flow.andThen, Flow.call] at hb
      cases hb
      exact forLoop_ret_of _ _ (outputBody_ret_framebuffer env) _ _ _ ho
    | abort s1 =>
      rw [ho] at hb
      cases hb
  have hrest : ∀ g1, (if (reloadConfiguration env g).2 = false then
        DisableShaders env (g1.error "Disabling shaders due to shader loading error")
      else buildOutputGraph env g1) = Flow.next gF →
      (mapFind gF.render_outputs "framebuffer").map RenderOutput.IsFBO = some false := by
    intro g1 h1
    split at h1
    · exact DisableShaders_framebuffer env _ _ h1
    · exact hbuild g1 h1
  unfold EnableShaders at h
  cases hr : (reloadConfiguration env g).1 with
  | next g1 =>
    rw [hr] at h
    exact hrest g1 h
  | ret g1 =>
    rw [hr] at h
    exact hrest g1 h
  | abort g1 =>
    rw [hr] at h
    cases h

/-- C12: after every completed call of `EnableShaders` or `DisableShaders`, whatever path
it took (success, a configuration or shader that did not load, a floating-point format
without support) and whatever the flags and the configuration, the render-output map
holds the entry "framebuffer" and the entry targets the default framebuffer. -/
theorem framebuffer_entry_after_switch {Q : Type} (env : Collaborators Q)
    (g gF : GraphicsGL2 Q)
    (h : EnableShaders env g = Flow.next gF ∨ DisableShaders env g = Flow.next gF) :
    (mapFind gF.render_outputs "framebuffer").map RenderOutput.IsFBO = some false := by
  rcases h with h | h
  · exact EnableShaders_framebuffer env g gF h
  · exact DisableShaders_framebuffer env g gF h

/-! ### The flags after `EnableShaders` (C16, C17, C19) -/

theorem buildConditions_settings {Q : Type} (a b : GraphicsGL2 Q)
    (h : a.settings = b.settings) : buildConditions a = buildConditions b := by
  simp only [GraphicsGL2.settings, Prod.mk.injEq] at h
  obtain ⟨h1, h2, h3, h4, h5, h6, h7, h8, h9⟩ := h
  simp only [buildConditions, h1, h2, h3, h4, h5, h6, h7, h8, h9]

theorem DisableShaders_off {Q : Type} (env : Collaborators Q) (g : GraphicsGL2 Q) :
    (DisableShaders env g).state.using_shaders = false ∧
      (DisableShaders env g).state.shadows = false ∧
      (DisableShaders env g).state.conditions = g.conditions := by
  unfold DisableShaders
  split
  · simp [Flow.state, DisableShadersLoad]
  · unfold DisableShadersFinish
    split <;> simp [Flow.state, DisableShadersLoad]

theorem Flow.thenReturn_andThen {σ : Type} (f : Flow σ) (k : σ → Flow σ) :
    f.thenReturn.andThen k = f.thenReturn := by
  cases f <;> rfl

theorem FlagsBuilt.keep_flags {Q : Type} {C : List String}
    {S : Int × Bool × Bool × Int × ReflectionStatus × Bool × Int × Int × Bool}
    {g : GraphicsGL2 Q} (h : FlagsBuilt C S g) (g1 : GraphicsGL2 Q)
    (hc : g1.conditions = g.conditions) (hs : g1.settings = g.settings)
    (hu : g1.using_shaders = g.using_shaders) : FlagsBuilt C S g1 := by
  intro h1
  rw [hc, hs]
  exact h (by rw [← hu]; exact h1)

theorem outputBody_flags {Q : Type} (env : Collaborators Q) (C : List String)
    (S : Int × Bool × Bool × Int × ReflectionStatus × Bool × Int × Int × Bool)
    (o : GraphicsConfigOutput) (s : GraphicsGL2 Q) (h : FlagsBuilt C S s) :
    FlagsBuilt C S (outputBody env o s).state := by
  unfold outputBody
  split
  · split
    · exact h.keep_flags _ (by simp [Flow.state]) (by simp [Flow.state, GraphicsGL2.settings])
        (by simp [Flow.state])
    · split
      · exact h.keep_flags _ (by simp [Flow.state]) (by simp [Flow.state, GraphicsGL2.settings])
          (by simp [Flow.state])
      · unfold outputTexture
        split
        · exact h.keep_flags _ (by simp [Flow.state, Flow.andThen])
            (by simp [Flow.state, Flow.andThen, GraphicsGL2.settings])
            (by simp [Flow.state, Flow.andThen])
        · split
          · unfold outputFloatFailure
            rw [Flow.thenReturn_andThen, Flow.thenReturn_state]
            intro hu
            rw [(DisableShaders_off env _).1] at hu
            cases hu
          · exact h.keep_flags _ (by simp [Flow.state, Flow.andThen, outputInit])
              (by simp [Flow.state, Flow.andThen, outputInit, GraphicsGL2.settings])
              (by simp [Flow.state, Flow.andThen, outputInit])
  · exact h

theorem passBody_flags {Q : Type} (env : Collaborators Q) (C : List String)
    (S : Int × Bool × Bool × Int × ReflectionStatus × Bool × Int × Int × Bool)
    (p : GraphicsConfigPass) (s : GraphicsGL2 Q) (h : FlagsBuilt C S s) :
    FlagsBuilt C S (passBody env p s).state := by
  unfold passBody
  split
  · split
    · exact h
    · split
      · exact h
      · unfold passOutputFbo
        split
        · exact h.keep_flags _ (by simp [Flow.state]) (by simp [Flow.state, GraphicsGL2.settings])
            (by simp [Flow.state])
        · exact h.keep_flags _ (by simp [Flow.state]) (by simp [Flow.state, GraphicsGL2.settings])
            (by simp [Flow.state])
  · exact h

theorem buildOutputGraph_flags {Q : Type} (env : Collaborators Q) (g1 : GraphicsGL2 Q) :
    FlagsBuilt (buildConditions g1) g1.settings (buildOutputGraph env g1).state := by
  have hstart : FlagsBuilt (buildConditions g1) g1.settings (buildStart g1) := by
    intro _
    exact ⟨by simp [buildStart], by simp [buildStart, GraphicsGL2.settings]⟩
  unfold buildOutputGraph
  rw [Flow.call_state]
  refine Flow.andThen_state_inv (FlagsBuilt (buildConditions g1) g1.settings) _ _ ?_ ?_
  · exact forLoop_state_inv _ _ (fun o s hs => outputBody_flags env _ _ o s hs) _ _ hstart
  · intro s hs
    unfold buildPassOutputs
    refine Flow.andThen_state_inv (FlagsBuilt (buildConditions g1) g1.settings) _ _ ?_ ?_
    · refine forLoop_state_inv _ _ (fun p s1 h1 => passBody_flags env _ _ p s1 h1) _ _ ?_
      exact hs.keep_flags _ (by simp [registerFramebuffer])
        (by simp [registerFramebuffer, GraphicsGL2.settings]) (by simp [registerFramebuffer])
    · intro s1 h1
      have hc : (createSky s1).conditions = s1.conditions ∧
          (createSky s1).settings = s1.settings ∧
          (createSky s1).using_shaders = s1.using_shaders := by
        unfold createSky
        split <;> simp [GraphicsGL2.settings]
      exact h1.keep_flags _ hc.1 hc.2.1 hc.2.2

theorem LoadShader_settings {Q : Type} (env : Collaborators Q) (g : GraphicsGL2 Q)
    (n d p v f : String) : (LoadShader env g n d p v f).state.settings = g.settings := by
  unfold LoadShader
  split <;> simp [Flow.state, GraphicsGL2.settings]

theorem reloadShaders_settings {Q : Type} (env : Collaborators Q)
    (l : List GraphicsConfigShader) (g : GraphicsGL2 Q) (names : List String) (ok : Bool) :
    (reloadShaders env l g names ok).1.state.settings = g.settings := by
  induction l generalizing g names ok with
  | nil => rfl
  | cons s l ih =>
    simp only [reloadShaders]
    have hl := LoadShader_settings env g s.name s.defines g.shaderpath s.vertex s.fragment
    split_ifs with h1 h2
    · rfl
    · cases hc : LoadShader env g s.name s.defines g.shaderpath s.vertex s.fragment with
      | next g1 =>
        rw [hc] at hl
        simp only
        rw [ih]
        exact hl
      | ret g1 =>
        rw [hc] at hl
        exact hl
      | abort g1 =>
        rw [hc] at hl
        exact hl
    · rw [ih]

theorem reloadConfiguration_settings {Q : Type} (env : Collaborators Q) (g : GraphicsGL2 Q) :
    (reloadConfiguration env g).1.state.settings = g.settings := by
  unfold reloadConfiguration
  rw [reloadShaders_settings]
  unfold configReload
  split <;> simp [GraphicsGL2.settings]

/-- After an `EnableShaders` call that ends with shading on, the flags are those computed
from the settings, and the settings are those of the start of the call. -/
theorem EnableShaders_flags {Q : Type} (env : Collaborators Q) (g : GraphicsGL2 Q)
    (hna : (EnableShaders env g).aborted = false)
    (hu : (EnableShaders env g).state.using_shaders = true) :
    (EnableShaders env g).state.conditions = buildConditions (EnableShaders env g).state ∧
      (EnableShaders env g).state.settings = g.settings := by
  have hset := reloadConfiguration_settings env g
  have hrest : ∀ g1, g1.settings = g.settings →
      (if (reloadConfiguration env g).2 = false then
          DisableShaders env (g1.error "Disabling shaders due to shader loading error")
        else buildOutputGraph env g1).state.using_shaders = true →
      (if (reloadConfiguration env g).2 = false then
          DisableShaders env (g1.error "Disabling shaders due to shader loading error")
        else buildOutputGraph env g1).state.conditions =
        buildConditions (if (reloadConfiguration env g).2 = false then
          DisableShaders env (g1.error "Disabling shaders due to shader loading error")
        else buildOutputGraph env g1).state ∧
      (if (reloadConfiguration env g).2 = false then
          DisableShaders env (g1.error "Disabling shaders due to shader loading error")
        else buildOutputGraph env g1).state.settings = g.settings := by
    intro g1 hs1 hu1
    split at hu1
    · rw [(DisableShaders_off env _).1] at hu1
      cases hu1
    · rename_i hok
      rw [if_neg hok]
      obtain ⟨c1, c2⟩ := buildOutputGraph_flags env g1 hu1
      exact ⟨c1.trans (buildConditions_settings _ _ c2.symm), c2.trans hs1⟩
  unfold EnableShaders at hna hu ⊢
  cases hr : (reloadConfiguration env g).1 with
  | next g1 =>
    rw [hr] at hu hset
    exact hrest g1 hset hu
  | ret g1 =>
    rw [hr] at hu hset
    exact hrest g1 hset hu
  | abort g1 =>
    rw [hr] at hna
    simp [Flow.call, Flow.andThen, Flow.aborted] at hna

theorem buildConditions_shadow_flags {Q : Type} (g : GraphicsGL2 Q) :
    "shadow_quality_ultra" ∉ buildConditions g ∧
    "shadow_quality_vhigh" ∉ buildConditions g ∧
    ("shadow_quality_high" ∈ buildConditions g ↔
      g.shadows = true ∧ (g.shadow_quality = 2 ∨ g.shadow_quality = 3 ∨ g.shadow_quality = 4)) ∧
    ("shadow_quality_low" ∈ buildConditions g ↔ g.shadows = true ∧ g.shadow_quality = 0) ∧
    ("shadow_quality_medium" ∈ buildConditions g ↔ g.shadows = true ∧ g.shadow_quality = 1) ∧
    ("shadows_near" ∈ buildConditions g ↔ g.shadows = true) := by
  refine ⟨?_, ?_, ?_, ?_, ?_, ?_⟩ <;>
    simp [buildConditions, List.mem_append, List.mem_ite_nil_right]
  tauto

/-! ### C16: the flag "shadow_quality_ultra" -/

/-- C16, counterexample: `EnableShaders` with shadows on and the shadow quality 4 (ultra)
returns with shading and shadows on, the flag "shadow_quality_high" is active, and the
flag "shadow_quality_ultra" is not in the flag set. -/
theorem EnableShaders_ultra_flag_absent :
    (EnableShaders (exEnv mrtConfig) (exShadowStart 4)).aborted = false ∧
    (EnableShaders (exEnv mrtConfig) (exShadowStart 4)).state.using_shaders = true ∧
    (EnableShaders (exEnv mrtConfig) (exShadowStart 4)).state.shadows = true ∧
    "shadow_quality_high" ∈ (EnableShaders (exEnv mrtConfig) (exShadowStart 4)).state.conditions ∧
    "shadow_quality_ultra" ∉
      (EnableShaders (exEnv mrtConfig) (exShadowStart 4)).state.conditions := by
  decide

/-- C16 (amended): after every `EnableShaders` run that returns with shading on, whatever
the shadows setting and the shadow quality, the flag set does not contain the flag
"shadow_quality_ultra": the variable is set but never inserted. -/
theorem EnableShaders_never_sets_ultra {Q : Type} (env : Collaborators Q)
    (g gF : GraphicsGL2 Q) (h : EnableShaders env g = Flow.next gF)
    (hu : gF.using_shaders = true) : "shadow_quality_ultra" ∉ gF.conditions := by
  have hs : (EnableShaders env g).state = gF := by rw [h]; rfl
  obtain ⟨c1, -⟩ := EnableShaders_flags env g (by rw [h]; rfl) (by rw [hs]; exact hu)
  rw [hs] at c1
  rw [c1]
  exact (buildConditions_shadow_flags gF).1

/-- C16 (amended), at a concrete input: shadows on, shadow quality 4. -/
theorem EnableShaders_never_sets_ultra_witness :
    (EnableShaders (exEnv mrtConfig) (exShadowStart 4)).state.using_shaders = true ∧
    "shadow_quality_ultra" ∉
      (EnableShaders (exEnv mrtConfig) (exShadowStart 4)).state.conditions :=
  ⟨by decide, EnableShaders_never_sets_ultra (exEnv mrtConfig) (exShadowStart 4)
    (EnableShaders (exEnv mrtConfig) (exShadowStart 4)).state rfl (by decide)⟩

/-! ### C17: the shadow-quality flags -/

/-- C17: after every `EnableShaders` run that returns with shading on, the flag
"shadow_quality_high" is active exactly when shadows are on and the shadow quality is 2,
3 or 4, the flag "shadow_quality_vhigh" is not active, the flags "shadow_quality_low" and
"shadow_quality_medium" are active exactly when shadows are on and the quality is 0 and 1
respectively, so no two of the low, medium and high flags are active together; the
shadows setting and the quality are those with which the run started. -/
theorem EnableShaders_shadow_quality_flags {Q : Type} (env : Collaborators Q)
    (g gF : GraphicsGL2 Q) (h : EnableShaders env g = Flow.next gF)
    (hu : gF.using_shaders = true) :
    gF.shadows = g.shadows ∧ gF.shadow_quality = g.shadow_quality ∧
    ("shadow_quality_high" ∈ gF.conditions ↔
      gF.shadows = true ∧
        (gF.shadow_quality = 2 ∨ gF.shadow_quality = 3 ∨ gF.shadow_quality = 4)) ∧
    "shadow_quality_vhigh" ∉ gF.conditions ∧
    ("shadow_quality_low" ∈ gF.conditions ↔ gF.shadows = true ∧ gF.shadow_quality = 0) ∧
    ("shadow_quality_medium" ∈ gF.conditions ↔ gF.shadows = true ∧ gF.shadow_quality = 1) ∧
    ¬ ("shadow_quality_low" ∈ gF.conditions ∧ "shadow_quality_medium" ∈ gF.conditions) ∧
    ¬ ("shadow_quality_low" ∈ gF.conditions ∧ "shadow_quality_high" ∈ gF.conditions) ∧
    ¬ ("shadow_quality_medium" ∈ gF.conditions ∧ "shadow_quality_high" ∈ gF.conditions) := by
  have hs : (EnableShaders env g).state = gF := by rw [h]; rfl
  obtain ⟨c1, c2⟩ := EnableShaders_flags env g (by rw [h]; rfl) (by rw [hs]; exact hu)
  rw [hs] at c1 c2
  simp only [GraphicsGL2.settings, Prod.mk.injEq] at c2
  obtain ⟨-, f2, f3, f4, f5, f6⟩ := buildConditions_shadow_flags gF
  rw [← c1] at f2 f3 f4 f5
  refine ⟨c2.2.2.2.2.2.1, c2.2.2.2.2.2.2.2.1, f3, f2, f4, f5, ?_, ?_, ?_⟩
  · rw [f4, f5]
    omega
  · rw [f4, f3]
    omega
  · rw [f5, f3]
    omega

/-- C17, at a concrete input: shadows on, shadow quality 3. -/
theorem EnableShaders_shadow_quality_flags_witness :
    (EnableShaders (exEnv mrtConfig) (exShadowStart 3)).state.using_shaders = true ∧
    "shadow_quality_high" ∈ (EnableShaders (exEnv mrtConfig) (exShadowStart 3)).state.conditions ∧
    "shadow_quality_vhigh" ∉
      (EnableShaders (exEnv mrtConfig) (exShadowStart 3)).state.conditions :=
  ⟨by decide,
    ((EnableShaders_shadow_quality_flags (exEnv mrtConfig) (exShadowStart 3)
      (EnableShaders (exEnv mrtConfig) (exShadowStart 3)).state rfl (by decide)).2.2.1).mpr
      (by decide),
    (EnableShaders_shadow_quality_flags (exEnv mrtConfig) (exShadowStart 3)
      (EnableShaders (exEnv mrtConfig) (exShadowStart 3)).state rfl (by decide)).2.2.2.1⟩

/-! ### C19: when the flags are rebuilt -/

theorem DisableShaders_next_off {Q : Type} (env : Collaborators Q) (g gF : GraphicsGL2 Q)
    (h : DisableShaders env g = Flow.next gF) :
    gF.using_shaders = false ∧ gF.shadows = false ∧ gF.conditions = g.conditions := by
  have hs : (DisableShaders env g).state = gF := by rw [h]; rfl
  rw [← hs]
  exact DisableShaders_off env g

theorem EnableShaders_next_flags {Q : Type} (env : Collaborators Q) (g gF : GraphicsGL2 Q)
    (h : EnableShaders env g = Flow.next gF) (hu : gF.using_shaders = true) :
    gF.conditions = buildConditions gF := by
  have hs : (EnableShaders env g).state = gF := by rw [h]; rfl
  obtain ⟨c1, -⟩ := EnableShaders_flags env g (by rw [h]; rfl) (by rw [hs]; exact hu)
  rw [hs] at c1
  exact c1

theorem Init_next_flags {Q : Type} (env : Collaborators Q) (a : InitArgs)
    (g gF : GraphicsGL2 Q) (h : Init env a g = Flow.next gF) (hu : gF.using_shaders = true) :
    gF.conditions = buildConditions gF := by
  unfold Init at h
  cases hc : InitCascade env a (InitSettings env a g) with
  | next s =>
    rw [hc] at h
    simp only [Flow.call, Flow.andThen] at h
    have hF : gF = InitFinish s := by
      have := congrArg Flow.state h
      exact this.symm
    have hus : s.using_shaders = true := by
      rw [hF] at hu
      simpa [InitFinish] using hu
    have hcond : s.conditions = buildConditions s := by
      unfold InitCascade at hc
      repeat' split at hc
      all_goals first
        | exact EnableShaders_next_flags env _ s hc hus
        | (rw [(DisableShaders_next_off env _ s hc).1] at hus; cases hus)
    rw [hF]
    have h1 : (InitFinish s).conditions = s.conditions := by simp [InitFinish]
    have h2 : (InitFinish s).settings = s.settings := by
      simp [InitFinish, GraphicsGL2.settings]
    rw [h1, buildConditions_settings _ _ h2]
    exact hcond
  | ret s =>
    unfold InitCascade at hc
    repeat' split at hc
    all_goals first
      | (unfold DisableShaders at hc; split at hc <;> cases hc)
      | (unfold EnableShaders at hc
         cases hr : (reloadConfiguration env
            ((InitFboProfile env (InitSettings env a g)).logAll
              (staticCubemapLoads a (InitSettings env a g)))).1 with
         | next g1 =>
           rw [hr] at hc
           simp only [Flow.call, Flow.andThen] at hc
           split at hc
           · unfold DisableShaders at hc
             split at hc <;> cases hc
           · unfold buildOutputGraph at hc
             cases hb : (forLoop (outputBody env) g1.config.outputs (buildStart g1)).andThen
                 (buildPassOutputs env) with
             | next x => rw [hb] at hc; cases hc
             | ret x => rw [hb] at hc; cases hc
             | abort x => rw [hb] at hc; cases hc
         | ret g1 =>
           rw [hr] at hc
           simp only [Flow.call, Flow.andThen] at hc
           split at hc
           · unfold DisableShaders at hc
             split at hc <;> cases hc
           · unfold buildOutputGraph at hc
             cases hb : (forLoop (outputBody env) g1.config.outputs (buildStart g1)).andThen
                 (buildPassOutputs env) with
             | next x => rw [hb] at hc; cases hc
             | ret x => rw [hb] at hc; cases hc
             | abort x => rw [hb] at hc; cases hc
         | abort g1 =>
           rw [hr] at hc
           cases hc)
  | abort s =>
    rw [hc] at h
    cases h

/-- C19, counterexample: `EnableShaders` with shadows on meets the output "b" of the
format RGBA16 without floating-point textures and falls back to the no-shader profile.
The call completes with shading and shadows off, and the flag "shadows_near", computed
before the fallback, is still in the flag set. -/
theorem EnableShaders_fallback_keeps_flags :
    (EnableShaders (exEnvNoFloat floatConfig) (exShadowStart 0)).aborted = false ∧
    (EnableShaders (exEnvNoFloat floatConfig) (exShadowStart 0)).state.using_shaders = false ∧
    (EnableShaders (exEnvNoFloat floatConfig) (exShadowStart 0)).state.shadows = false ∧
    "shadows_near" ∈
      (EnableShaders (exEnvNoFloat floatConfig) (exShadowStart 0)).state.conditions ∧
    (EnableShaders (exEnvNoFloat floatConfig) (exShadowStart 0)).state.conditions ≠
      buildConditions (EnableShaders (exEnvNoFloat floatConfig) (exShadowStart 0)).state := by
  decide

/-- C19 (amended): the flag set is rebuilt from the current settings by the runs of
`EnableShaders` that end with shading on, and by nothing else.  After every completed call
of `EnableShaders` or `Init` that ends with shading on, the flag set is the one derived
from the current settings, and "shadows_near" is active exactly when the shadows setting
is on.  After every completed call of `DisableShaders`, shading and shadows are off and
the flag set is the one held before the call. -/
theorem flags_rebuilt_when_shading_is_enabled {Q : Type} (env : Collaborators Q)
    (a : InitArgs) (g gF : GraphicsGL2 Q) :
    ((EnableShaders env g = Flow.next gF ∨ Init env a g = Flow.next gF) →
      gF.using_shaders = true →
      gF.conditions = buildConditions gF ∧
        ("shadows_near" ∈ gF.conditions ↔ gF.shadows = true)) ∧
    (DisableShaders env g = Flow.next gF →
      gF.using_shaders = false ∧ gF.shadows = false ∧ gF.conditions = g.conditions) := by
  constructor
  · intro h hu
    have hc : gF.conditions = buildConditions gF := by
      rcases h with h | h
      · exact EnableShaders_next_flags env g gF h hu
      · exact Init_next_flags env a g gF h hu
    refine ⟨hc, ?_⟩
    rw [hc]
    exact (buildConditions_shadow_flags gF).2.2.2.2.2
  · intro h
    exact DisableShaders_next_off env g gF h

/-- C19 (amended), at concrete inputs: `EnableShaders` with shadows on for the profile
`mrtConfig`, and `DisableShaders` from the same state. -/
theorem flags_rebuilt_when_shading_is_enabled_witness :
    ((EnableShaders (exEnv mrtConfig) (exShadowStart 0)).state.conditions =
        buildConditions (EnableShaders (exEnv mrtConfig) (exShadowStart 0)).state ∧
      ("shadows_near" ∈ (EnableShaders (exEnv mrtConfig) (exShadowStart 0)).state.conditions ↔
        (EnableShaders (exEnv mrtConfig) (exShadowStart 0)).state.shadows = true)) ∧
    ((DisableShaders (exEnv mrtConfig) (exShadowStart 0)).state.using_shaders = false ∧
      (DisableShaders (exEnv mrtConfig) (exShadowStart 0)).state.shadows = false ∧
      (DisableShaders (exEnv mrtConfig) (exShadowStart 0)).state.conditions =
        (exShadowStart 0).conditions) :=
  ⟨(flags_rebuilt_when_shading_is_enabled (exEnv mrtConfig) (exArgs 0) (exShadowStart 0)
      (EnableShaders (exEnv mrtConfig) (exShadowStart 0)).state).1 (Or.inl rfl) (by decide),
    (flags_rebuilt_when_shading_is_enabled (exEnv mrtConfig) (exArgs 0) (exShadowStart 0)
      (DisableShaders (exEnv mrtConfig) (exShadowStart 0)).state).2 rfl⟩

/-! ### C18: the multisample count of a texture output -/

theorem InitsSince.start {Q : Type} (g0 : GraphicsGL2 Q) (outs : List GraphicsConfigOutput) :
    InitsSince g0 outs g0 :=
  ⟨rfl, [], by simp, fun _ _ h => by simp at h⟩

theorem InitsSince.extend {Q : Type} {g0 : GraphicsGL2 Q} {outs : List GraphicsConfigOutput}
    {g : GraphicsGL2 Q} (h : InitsSince g0 outs g) (g1 : GraphicsGL2 Q) (es : List Event)
    (hf : g1.fsaa = g.fsaa) (ht : g1.trace = g.trace ++ es)
    (hes : ∀ e ∈ es, ∀ name tex, e = Event.textureInit name tex →
      ∃ o ∈ outs, o.name = name ∧ tex.multisample = (if o.multisample < 0 then g0.fsaa else 0)) :
    InitsSince g0 outs g1 := by
  obtain ⟨h1, t, h2, h3⟩ := h
  refine ⟨hf.trans h1, t ++ es, by rw [ht, h2, List.append_assoc], ?_⟩
  intro name tex hm
  rcases List.mem_append.mp hm with hm | hm
  · exact h3 name tex hm
  · exact hes _ hm name tex rfl

theorem InitsSince.keep_inits {Q : Type} {g0 : GraphicsGL2 Q} {outs : List GraphicsConfigOutput}
    {g : GraphicsGL2 Q} (h : InitsSince g0 outs g) (g1 : GraphicsGL2 Q)
    (hf : g1.fsaa = g.fsaa) (ht : g1.trace = g.trace) : InitsSince g0 outs g1 :=
  h.extend g1 [] hf (by simp [ht]) (fun _ he => by simp at he)

theorem DisableShaders_inits {Q : Type} (env : Collaborators Q) {g0 : GraphicsGL2 Q}
    {outs : List GraphicsConfigOutput} (g : GraphicsGL2 Q) (h : InitsSince g0 outs g) :
    InitsSince g0 outs (DisableShaders env g).state := by
  have hl : InitsSince g0 outs (DisableShadersLoad env g) :=
    h.extend _ [Event.DisableShaders, Event.configLoad (noshadersPath g)]
      (by simp [DisableShadersLoad]) (by simp [DisableShadersLoad])
      (by
        intro e he name tex hn
        subst hn
        simp at he)
  unfold DisableShaders
  split
  · exact hl.keep_inits _ (by simp [Flow.state]) (by simp [Flow.state])
  · refine hl.keep_inits _ ?_ ?_
    · unfold DisableShadersFinish
      split <;> simp [Flow.state]
    · unfold DisableShadersFinish
      split <;> simp [Flow.state]

theorem outputBody_inits {Q : Type} (env : Collaborators Q) {g0 : GraphicsGL2 Q}
    {outs : List GraphicsConfigOutput} (o : GraphicsConfigOutput) (ho : o ∈ outs)
    (s : GraphicsGL2 Q) (h : InitsSince g0 outs s) :
    InitsSince g0 outs (outputBody env o s).state := by
  unfold outputBody
  split
  · split
    · exact h.keep_inits _ (by simp [Flow.state]) (by simp [Flow.state])
    · split
      · exact h.keep_inits _ (by simp [Flow.state]) (by simp [Flow.state])
      · unfold outputTexture
        split
        · exact h.keep_inits _ (by simp [Flow.state, Flow.andThen])
            (by simp [Flow.state, Flow.andThen])
        · split
          · unfold outputFloatFailure
            rw [Flow.thenReturn_andThen, Flow.thenReturn_state]
            exact DisableShaders_inits env _
              (h.keep_inits _ (by simp) (by simp))
          · rename_i format _ _
            refine h.extend _ [Event.textureInit o.name (outputTextureInit env o format
              (s.setTextureOutputs (mapSet s.texture_outputs o.name FrameBufferTexture.new)))]
              (by simp [Flow.state, Flow.andThen, outputInit])
              (by simp [Flow.state, Flow.andThen, outputInit]) ?_
            intro e he name tex hn
            subst hn
            simp only [List.mem_singleton, Event.textureInit.injEq] at he
            obtain ⟨h1, h2⟩ := he
            refine ⟨o, ho, h1.symm, ?_⟩
            rw [h2]
            simp only [outputTextureInit, FrameBufferTexture.Init, outputMultisample,
              GraphicsGL2.setTextureOutputs_fsaa]
            rw [h.1]
  · exact h

theorem passBody_inits {Q : Type} (env : Collaborators Q) {g0 : GraphicsGL2 Q}
    {outs : List GraphicsConfigOutput} (p : GraphicsConfigPass)
    (s : GraphicsGL2 Q) (h : InitsSince g0 outs s) :
    InitsSince g0 outs (passBody env p s).state := by
  unfold passBody
  split
  · split
    · exact h
    · split
      · exact h
      · unfold passOutputFbo
        split
        · exact h.keep_inits _ (by simp [Flow.state]) (by simp [Flow.state])
        · rename_i outputs _ _
          refine h.extend _ [Event.fboInit p.output
            ((collectTextures s.texture_outputs outputs).map Prod.fst)]
            (by simp [Flow.state]) (by simp [Flow.state]) ?_
          intro e he name tex hn
          subst hn
          simp at he
  · exact h

theorem LoadShader_inits {Q : Type} (env : Collaborators Q) {g0 : GraphicsGL2 Q}
    {outs : List GraphicsConfigOutput} (g : GraphicsGL2 Q) (n d p v f : String)
    (h : InitsSince g0 outs g) :
    InitsSince g0 outs (LoadShader env g n d p v f).state ∧
      (LoadShader env g n d p v f).state.config = g.config := by
  unfold LoadShader
  split
  · exact ⟨h, rfl⟩
  · refine ⟨h.extend _ [Event.shaderLoad n] (by simp [Flow.state]) (by simp [Flow.state]) ?_,
      by simp [Flow.state]⟩
    intro e he name tex hn
    subst hn
    simp at he

theorem reloadShaders_inits {Q : Type} (env : Collaborators Q) {g0 : GraphicsGL2 Q}
    {outs : List GraphicsConfigOutput} (l : List GraphicsConfigShader) (g : GraphicsGL2 Q)
    (names : List String) (ok : Bool) (h : InitsSince g0 outs g) :
    InitsSince g0 outs (reloadShaders env l g names ok).1.state ∧
      (reloadShaders env l g names ok).1.state.config = g.config := by
  induction l generalizing g names ok with
  | nil => exact ⟨h, rfl⟩
  | cons s l ih =>
    simp only [reloadShaders]
    have hl := LoadShader_inits env g s.name s.defines g.shaderpath s.vertex s.fragment h
    split_ifs with h1 h2
    · exact ⟨h, rfl⟩
    · cases hc : LoadShader env g s.name s.defines g.shaderpath s.vertex s.fragment with
      | next g1 =>
        rw [hc] at hl
        simp only
        obtain ⟨i1, i2⟩ := ih g1 (s.name :: names)
          (shaderLoadResult env g s.defines g.shaderpath s.vertex s.fragment) hl.1
        exact ⟨i1, i2.trans hl.2⟩
      | ret g1 =>
        rw [hc] at hl
        exact hl
      | abort g1 =>
        rw [hc] at hl
        exact hl
    · exact ih g (s.name :: names) false h

theorem reloadConfiguration_inits {Q : Type} (env : Collaborators Q)
    (outs : List GraphicsConfigOutput) (g : GraphicsGL2 Q) :
    InitsSince g outs (reloadConfiguration env g).1.state ∧
      (reloadConfiguration env g).1.state.config = (env.configLoad (rcpath g)).2 := by
  have hc : InitsSince g outs (configReload env g) ∧
      (configReload env g).config = (env.configLoad (rcpath g)).2 := by
    unfold configReload
    split
    · exact ⟨(InitsSince.start g outs).extend _
        [Event.EnableShaders, Event.configLoad (rcpath g)] (by simp) (by simp)
        (by
          intro e he name tex hn
          subst hn
          simp at he), by simp⟩
    · exact ⟨(InitsSince.start g outs).extend _
        [Event.EnableShaders, Event.configLoad (rcpath g)] (by simp) (by simp)
        (by
          intro e he name tex hn
          subst hn
          simp at he), by simp⟩
  unfold reloadConfiguration
  obtain ⟨i1, i2⟩ := reloadShaders_inits env (env.configLoad (rcpath g)).2.shaders
    (configReload env g) [] (env.configLoad (rcpath g)).1 hc.1
  exact ⟨i1, i2.trans hc.2⟩

theorem buildOutputGraph_inits {Q : Type} (env : Collaborators Q) {g0 : GraphicsGL2 Q}
    (g1 : GraphicsGL2 Q) (h : InitsSince g0 g1.config.outputs g1) :
    InitsSince g0 g1.config.outputs (buildOutputGraph env g1).state := by
  unfold buildOutputGraph
  rw [Flow.call_state]
  refine Flow.andThen_state_inv (InitsSince g0 g1.config.outputs) _ _ ?_ ?_
  · exact forLoop_state_inv_mem _ _ _ (fun o ho s hs => outputBody_inits env o ho s hs) _
      (h.keep_inits _ (by simp [buildStart]) (by simp [buildStart]))
  · intro s hs
    unfold buildPassOutputs
    refine Flow.andThen_state_inv (InitsSince g0 g1.config.outputs) _ _ ?_ ?_
    · exact forLoop_state_inv _ _ (fun p s1 h1 => passBody_inits env p s1 h1) _ _
        (hs.keep_inits _ (by simp [registerFramebuffer]) (by simp [registerFramebuffer]))
    · intro s1 h1
      have hc : (createSky s1).fsaa = s1.fsaa ∧ (createSky s1).trace = s1.trace := by
        unfold createSky
        split <;> simp
      exact h1.keep_inits _ hc.1 hc.2

/-- The texture initialisations of an `EnableShaders` call: each belongs to an output
descriptor of the configuration it loaded, and the multisample count it was handed is
the global sample count for a negative declared count and 0 otherwise. -/
theorem EnableShaders_inits {Q : Type} (env : Collaborators Q) (g : GraphicsGL2 Q) :
    InitsSince g (env.configLoad (rcpath g)).2.outputs (EnableShaders env g).state := by
  obtain ⟨h1, h2⟩ := reloadConfiguration_inits env (env.configLoad (rcpath g)).2.outputs g
  have hrest : ∀ g1, InitsSince g (env.configLoad (rcpath g)).2.outputs g1 →
      g1.config = (env.configLoad (rcpath g)).2 →
      InitsSince g (env.configLoad (rcpath g)).2.outputs
        (if (reloadConfiguration env g).2 = false then
          DisableShaders env (g1.error "Disabling shaders due to shader loading error")
        else buildOutputGraph env g1).state := by
    intro g1 hi hc
    split
    · exact DisableShaders_inits env _ (hi.keep_inits _ (by simp) (by simp))
    · have := buildOutputGraph_inits env g1 (by rw [hc]; exact hi)
      rw [hc] at this
      exact this
  unfold EnableShaders
  cases hr : (reloadConfiguration env g).1 with
  | next g1 =>
    rw [hr] at h1 h2
    exact hrest g1 h1 h2
  | ret g1 =>
    rw [hr] at h1 h2
    exact hrest g1 h1 h2
  | abort g1 =>
    rw [hr] at h1
    exact h1

/-- C18, counterexample: with the global sample count 4, the active texture output "a"
declares the multisample count 4 and its texture is initialised with the count 0, not
with the declared value; the output "b", which declares -1, receives the global count. -/
theorem EnableShaders_ignores_declared_multisample :
    (EnableShaders (exEnv msConfig) exFsaaStart).aborted = false ∧
    (EnableShaders (exEnv msConfig) exFsaaStart).state.fsaa = 4 ∧
    msConfig.outputs.map (fun o => (o.name, o.multisample)) = [("a", 4), ("b", -1)] ∧
    (mapFind (EnableShaders (exEnv msConfig) exFsaaStart).state.texture_outputs "a").map
      (fun t => (t.inited, t.multisample)) = some (true, 0) ∧
    (mapFind (EnableShaders (exEnv msConfig) exFsaaStart).state.texture_outputs "b").map
      (fun t => (t.inited, t.multisample)) = some (true, 4) := by
  decide

/-- C18 (amended): every texture initialisation of an `EnableShaders` call is the one of
an output descriptor of the configuration the call loaded, and the multisample count
passed to it is the global sample count when the descriptor declares a negative count
and 0 when it declares a non-negative one. -/
theorem EnableShaders_texture_multisample {Q : Type} (env : Collaborators Q)
    (g : GraphicsGL2 Q) (name : String) (tex : FrameBufferTexture)
    (h : Event.textureInit name tex ∈ (EnableShaders env g).state.trace.drop g.trace.length) :
    ∃ o ∈ (env.configLoad (g.shaderpath ++ "/" ++ g.renderconfigfile)).2.outputs,
      o.name = name ∧ tex.multisample = (if o.multisample < 0 then g.fsaa else 0) := by
  obtain ⟨-, t, h1, h2⟩ := EnableShaders_inits env g
  rw [h1, List.drop_left] at h
  exact h2 name tex h

/-- C18 (amended), at a concrete input: the initialisation of the texture of the output
"a" of `msConfig`. -/
theorem EnableShaders_texture_multisample_witness :
    ∃ o ∈ ((exEnv msConfig).configLoad
        (exFsaaStart.shaderpath ++ "/" ++ exFsaaStart.renderconfigfile)).2.outputs,
      o.name = "a" ∧
        (FrameBufferTexture.Init 800 600 Target.NORMAL Format.RGB8 false false 0
          false).multisample = (if o.multisample < 0 then exFsaaStart.fsaa else 0) :=
  EnableShaders_texture_multisample (exEnv msConfig) exFsaaStart "a"
    (FrameBufferTexture.Init 800 600 Target.NORMAL Format.RGB8 false false 0 false)
    (by decide)

/-! ### C20: the input textures of a pass -/

theorem GetScenePassInputTextures_cons (ti : List (String × TextureRef)) (tuid : Nat)
    (texname : String) (l : List (Nat × String)) (acc : List (Option TextureRef)) :
    GetScenePassInputTextures ti ((tuid, texname) :: l) acc =
      GetScenePassInputTextures ti l
        (acc ++ List.replicate (tuid - acc.length) none ++ [mapFind ti texname]) := by
  simp only [GetScenePassInputTextures]
  split
  · rfl
  · rename_i h
    have hn : mapFind ti texname = none := by
      unfold mapMem at h
      simpa using h
    rw [hn]

theorem mapFind_some_key {K V : Type} [DecidableEq K] (m : List (K × V)) (k : K) (v : V)
    (h : mapFind m k = some v) : ∃ q ∈ m, q.1 = k := by
  induction m with
  | nil => simp [mapFind] at h
  | cons q m ih =>
    obtain ⟨a, b⟩ := q
    simp only [mapFind] at h
    split at h
    · rename_i hab
      exact ⟨(a, b), by simp, hab⟩
    · obtain ⟨q2, hq2, hq3⟩ := ih h
      exact ⟨q2, by simp [hq2], hq3⟩

theorem GetScenePassInputTextures_acc (ti : List (String × TextureRef))
    (tu : List (Nat × String)) :
    ∀ acc : List (Option TextureRef), tu.Pairwise (fun a b => a.1 < b.1) →
      (∀ p ∈ tu, acc.length ≤ p.1) →
      (GetScenePassInputTextures ti tu acc).length =
          (match tu.getLast? with
            | none => acc.length
            | some p => p.1 + 1) ∧
        (∀ u, u < acc.length → (GetScenePassInputTextures ti tu acc)[u]? = acc[u]?) ∧
        (∀ u, acc.length ≤ u → u < (GetScenePassInputTextures ti tu acc).length →
          (GetScenePassInputTextures ti tu acc)[u]? =
            some ((mapFind tu u).bind (mapFind ti))) := by
  induction tu with
  | nil =>
    intro acc _ _
    refine ⟨rfl, fun _ _ => rfl, ?_⟩
    intro u h1 h2
    simp only [GetScenePassInputTextures] at h2
    omega
  | cons p rest ih =>
    intro acc hs hge
    obtain ⟨k, name⟩ := p
    have hk : acc.length ≤ k := hge (k, name) (by simp)
    rw [List.pairwise_cons] at hs
    obtain ⟨hlt, hs2⟩ := hs
    have hlen : (acc ++ List.replicate (k - acc.length) none ++ [mapFind ti name]).length =
        k + 1 := by
      simp only [List.length_append, List.length_replicate, List.length_singleton]
      omega
    obtain ⟨i1, i2, i3⟩ := ih (acc ++ List.replicate (k - acc.length) none ++
      [mapFind ti name]) hs2 (by
        intro q hq
        rw [hlen]
        exact hlt q hq)
    rw [GetScenePassInputTextures_cons]
    refine ⟨?_, ?_, ?_⟩
    · rw [i1]
      clear i1 i2 i3 ih
      cases rest with
      | nil =>
        simp only [List.getLast?_nil, List.getLast?_singleton]
        exact hlen
      | cons q rest2 =>
        rw [List.getLast?_cons_cons]
        cases hq : (q :: rest2).getLast? with
        | none => simp at hq
        | some p => rfl
    · intro u hu
      rw [i2 u (by rw [hlen]; omega)]
      rw [List.append_assoc, List.getElem?_append_left hu]
    · intro u hu1 hu2
      by_cases hcase : u < k + 1
      · rw [i2 u (by rw [hlen]; exact hcase)]
        by_cases huk : u = k
        · subst huk
          have h1 : (acc ++ List.replicate (u - acc.length) none).length = u := by
            simp only [List.length_append, List.length_replicate]
            omega
          rw [List.getElem?_append_right (by rw [h1]), h1]
          simp [mapFind]
        · have hu3 : u < k := by omega
          have hnone : mapFind rest u = none := by
            cases hf : mapFind rest u with
            | none => rfl
            | some v =>
              exfalso
              have : ∃ q ∈ rest, q.1 = u := mapFind_some_key rest u v hf
              obtain ⟨q, hq, hqu⟩ := this
              have := hlt q hq
              simp only at this
              omega
          have hm : mapFind ((k, name) :: rest) u = none := by
            simp only [mapFind]
            rw [if_neg (by omega), hnone]
          rw [hm]
          rw [List.getElem?_append_left (by
            simp only [List.length_append, List.length_replicate]
            omega)]
          rw [List.getElem?_append_right hu1]
          rw [List.getElem?_replicate]
          rw [if_pos (by omega)]
          rfl
      · rw [i3 u (by rw [hlen]; omega) hu2]
        have hm : mapFind ((k, name) :: rest) u = mapFind rest u := by
          simp only [mapFind]
          rw [if_neg (by omega)]
        rw [hm]

/-- C20: for every input mapping of a pass (its entries in ascending order of the texture
unit, each unit declared once, as the `std::map` holds them) and every input-texture
registry, `GetScenePassInputTextures` called on an empty vector returns a vector whose
length is the largest declared unit plus one (empty when no unit is declared) and whose
entry at every position `u` is the registered texture of the name declared for the unit
`u`, and null when the unit is not declared or its name is not registered. -/
theorem GetScenePassInputTextures_spec (ti : List (String × TextureRef))
    (tu : List (Nat × String)) (hsorted : tu.Pairwise (fun a b => a.1 < b.1)) :
    (GetScenePassInputTextures ti tu []).length =
        (match tu.getLast? with
          | none => 0
          | some p => p.1 + 1) ∧
      (∀ p ∈ tu, ∀ q, tu.getLast? = some q → p.1 ≤ q.1) ∧
      (∀ u, u < (GetScenePassInputTextures ti tu []).length →
        (GetScenePassInputTextures ti tu [])[u]? = some ((mapFind tu u).bind (mapFind ti))) := by
  obtain ⟨h1, -, h3⟩ := GetScenePassInputTextures_acc ti tu [] hsorted (by simp)
  refine ⟨h1, ?_, fun u hu => h3 u (by simp) hu⟩
  intro p hp q hq
  rw [List.getLast?_eq_getLast _ (List.ne_nil_of_mem hp)] at hq
  have hq2 := Option.some.inj hq
  by_cases hpq : p = q
  · rw [hpq]
  · have hsub : [p, q].Sublist tu := by
      have hmem := List.getLast_mem (List.ne_nil_of_mem hp)
      rw [hq2] at hmem
      have htu : tu = tu.dropLast ++ [q] := by
        rw [← hq2]
        exact (List.dropLast_append_getLast (List.ne_nil_of_mem hp)).symm
      have hpd : p ∈ tu.dropLast := by
        rw [htu] at hp
        rcases List.mem_append.mp hp with h | h
        · exact h
        · simp only [List.mem_singleton] at h
          exact absurd h hpq
      rw [htu]
      exact List.Sublist.append (List.singleton_sublist.mpr hpd) (List.Sublist.refl [q])
    have := hsorted.sublist hsub
    simp only [List.pairwise_cons, List.mem_singleton, forall_eq] at this
    omega

/-- C20, at a concrete input: the units 0 and 2 are declared, the name of the unit 0 is
registered, the name of the unit 2 is not. -/
theorem GetScenePassInputTextures_spec_witness :
    (GetScenePassInputTextures [("a", TextureRef.fbtexture "a")] [(0, "a"), (2, "b")]
        []).length =
        (match [((0 : Nat), "a"), (2, "b")].getLast? with
          | none => 0
          | some p => p.1 + 1) ∧
      (∀ p ∈ [((0 : Nat), "a"), (2, "b")], ∀ q,
        [((0 : Nat), "a"), (2, "b")].getLast? = some q → p.1 ≤ q.1) ∧
      (∀ u, u < (GetScenePassInputTextures [("a", TextureRef.fbtexture "a")]
          [(0, "a"), (2, "b")] []).length →
        (GetScenePassInputTextures [("a", TextureRef.fbtexture "a")] [(0, "a"), (2, "b")]
          [])[u]? =
          some ((mapFind [((0 : Nat), "a"), (2, "b")] u).bind
            (mapFind [("a", TextureRef.fbtexture "a")]))) :=
  GetScenePassInputTextures_spec [("a", TextureRef.fbtexture "a")] [(0, "a"), (2, "b")]
    (by decide)

/-- C11, at a concrete input: a pass under the condition `bloom`, which is not among the
flags. -/
theorem inactive_pass_is_skipped_witness :
    bloomPass.conditions.Satisfied exStart.conditions = false ∧
    ((bloomPass.draw ≠ [] →
        CullScenePass (exEnv sharedConfig) 0 bloomPass exStart = Flow.next exStart) ∧
      DrawScenePass (exEnv sharedConfig) 0 bloomPass exStart = Flow.next exStart) :=
  ⟨by decide, inactive_pass_is_skipped (exEnv sharedConfig) 0 bloomPass exStart (by decide)⟩

/-- C12, at concrete inputs: an `EnableShaders` call that falls back to the no-shader
profile at a floating-point output. -/
theorem framebuffer_entry_after_switch_witness :
    (mapFind (EnableShaders (exEnvNoFloat floatConfig) exStart).state.render_outputs
      "framebuffer").map RenderOutput.IsFBO = some false :=
  framebuffer_entry_after_switch (exEnvNoFloat floatConfig) exStart
    (EnableShaders (exEnvNoFloat floatConfig) exStart).state (Or.inl rfl)

/-! ### C13: the clear flags of the draws of a pass -/

theorem drawsIn_append (a b : List Event) : drawsIn (a ++ b) = drawsIn a ++ drawsIn b := by
  simp [drawsIn, List.filterMap_append]

/-- One call of `RenderDrawlists` records one draw with the clear flags of the render
input and leaves the flags as they are. -/
theorem RenderDrawlists_draw {Q : Type} (g : GraphicsGL2 Q) (id : Nat)
    (layer camera output : String) (dl sl : List Nat) (tex : List (Option TextureRef)) :
    (RenderDrawlists g id layer camera output dl sl tex).renderscene.clear =
        g.renderscene.clear ∧
      ∃ E, (RenderDrawlists g id layer camera output dl sl tex).trace = g.trace ++ E ∧
        drawsIn E = [(layer, g.renderscene.clear)] := by
  unfold RenderDrawlists
  split
  · exact ⟨by simp, [Event.renderDrawlists id layer camera output g.renderscene.clear dl sl
      tex], by simp, rfl⟩
  · unfold Render
    exact ⟨by simp, [Event.renderDrawlists id layer camera output g.renderscene.clear dl sl
      tex, Event.render id false output], by simp, rfl⟩

/-- A call of `ReportOnce` records no draw and leaves the render input as it is. -/
theorem Report_no_draw {Q : Type} (g : GraphicsGL2 Q) (id : Nat) (m : String) :
    (g.Report id m).renderscene = g.renderscene ∧
      ∃ E, (g.Report id m).trace = g.trace ++ E ∧ drawsIn E = [] ∧ faceSteps E = [] := by
  refine ⟨by simp, ?_⟩
  simp only [GraphicsGL2.Report_trace]
  split
  · exact ⟨[], by simp, rfl, rfl⟩
  · exact ⟨[Event.report id m], rfl, rfl, rfl⟩

/-- One run of the body of the cube-side loop of `DrawScenePassLayer` records at most one
draw, of the layer, with the clear flags of the render input, and leaves the flags as
they are. -/
theorem drawSideBody_draws {Q : Type} (id : Nat) (pass : GraphicsConfigPass)
    (layer : String) (tex : List (Option TextureRef)) (cubemap : Bool) (cubeside : Nat)
    (s : GraphicsGL2 Q) :
    (drawSideBody id pass layer tex cubemap cubeside s).state.renderscene.clear =
        s.renderscene.clear ∧
      ∃ E n, n ≤ 1 ∧
        (drawSideBody id pass layer tex cubemap cubeside s).state.trace = s.trace ++ E ∧
        drawsIn E = List.replicate n (layer, s.renderscene.clear) := by
  have hcam : ∀ (cameraname : String) (s1 : GraphicsGL2 Q),
      (drawSideCamera id pass layer tex cameraname s1).state.renderscene.clear =
          s1.renderscene.clear ∧
        ∃ E n, n ≤ 1 ∧
          (drawSideCamera id pass layer tex cameraname s1).state.trace = s1.trace ++ E ∧
          drawsIn E = List.replicate n (layer, s1.renderscene.clear) := by
    intro cameraname s1
    unfold drawSideCamera
    split
    · obtain ⟨r1, E, r2, r3, -⟩ := Report_no_draw s1 id
        ("Camera " ++ pass.camera ++ " couldn't be found")
      exact ⟨by simp [Flow.state], E, 0, by omega, r2, r3⟩
    · rename_i cam _
      unfold drawSideRender
      split
      · obtain ⟨r1, E, r2, r3, -⟩ := Report_no_draw
          (s1.setRenderscene (s1.renderscene.SetCamera cam)) id
          ("Drawable container " ++ layer ++ " couldn't be found")
        exact ⟨by simp [Flow.state], E, 0, by omega, by simpa using r2, r3⟩
      · split
        · obtain ⟨r1, E, r2, r3, -⟩ := Report_no_draw
            (s1.setRenderscene (s1.renderscene.SetCamera cam)) id
            ("Couldn't find culled static drawlist for camera/draw combination: " ++
              BuildKey cameraname layer)
          exact ⟨by simp [Flow.state], E, 0, by omega, by simpa using r2, r3⟩
        · rename_i _ cd _ _ cs _
          obtain ⟨r1, E, r2, r3⟩ := RenderDrawlists_draw
            (s1.setRenderscene ((s1.renderscene.SetCamera cam).SetCarPaintHack
              (!s1.using_shaders && decide (layer = "car_noblend"))))
            id layer cameraname pass.output cd cs tex
          refine ⟨?_, E, 1, le_refl 1, ?_, ?_⟩
          · simp only [Flow.state, GraphicsGL2.disableOrtho,
              GraphicsGL2.setRenderscene_renderscene, RenderInputScene.DisableOrtho_clear]
            rw [r1]
            simp
          · simp only [Flow.state, GraphicsGL2.disableOrtho, GraphicsGL2.setRenderscene_trace]
            rw [r2]
            simp
          · rw [r3]
            simp
  unfold drawSideBody attachSide
  split
  · split
    · exact ⟨by simp [Flow.state, Flow.andThen], [], 0, by omega,
        by simp [Flow.state, Flow.andThen], rfl⟩
    · rename_i side _
      obtain ⟨c1, E, n, c2, c3, c4⟩ := hcam (sideCameraName pass cubemap cubeside)
        ((s.setRenderOutputs (mapSet s.render_outputs pass.output
          (cubeSideOutput (mapGetD s.render_outputs pass.output RenderOutput.new) side))).log
          (Event.attachCubeSide id pass.output side))
      refine ⟨?_, Event.attachCubeSide id pass.output side :: E, n, c2, ?_, ?_⟩
      · simp only [Flow.andThen]
        rw [c1]
        simp
      · simp only [Flow.andThen]
        rw [c3]
        simp
      · have : drawsIn (Event.attachCubeSide id pass.output side :: E) = drawsIn E := rfl
        rw [this, c4]
        simp
  · exact hcam _ s

/-- The cube-side loop of `DrawScenePassLayer` over a list of sides records at most one
draw per side, each of the layer with the clear flags of the render input at the start
of the loop. -/
theorem sideLoop_draws {Q : Type} (id : Nat) (pass : GraphicsConfigPass)
    (layer : String) (tex : List (Option TextureRef)) (cubemap : Bool) (sides : List Nat) :
    ∀ s : GraphicsGL2 Q,
      (forLoop (drawSideBody id pass layer tex cubemap) sides s).state.renderscene.clear =
          s.renderscene.clear ∧
        ∃ E n, n ≤ sides.length ∧
          (forLoop (drawSideBody id pass layer tex cubemap) sides s).state.trace =
            s.trace ++ E ∧
          drawsIn E = List.replicate n (layer, s.renderscene.clear) := by
  induction sides with
  | nil =>
    intro s
    exact ⟨rfl, [], 0, by simp, by simp [forLoop, Flow.state], rfl⟩
  | cons k sides ih =>
    intro s
    obtain ⟨c1, E1, n1, c2, c3, c4⟩ := drawSideBody_draws id pass layer tex cubemap k s
    simp only [forLoop]
    cases hb : drawSideBody id pass layer tex cubemap k s with
    | next s1 =>
      rw [hb] at c1 c3
      simp only [Flow.state] at c1 c3
      obtain ⟨d1, E2, n2, d2, d3, d4⟩ := ih s1
      simp only [Flow.andThen]
      refine ⟨d1.trans c1, E1 ++ E2, n1 + n2, by simp only [List.length_cons]; omega, ?_, ?_⟩
      · rw [d3, c3, List.append_assoc]
      · rw [drawsIn_append, c4, d4, c1, List.replicate_add]
    | ret s1 =>
      rw [hb] at c1 c3
      exact ⟨c1, E1, n1, by simp only [List.length_cons]; omega, c3, c4⟩
    | abort s1 =>
      rw [hb] at c1 c3
      exact ⟨c1, E1, n1, by simp only [List.length_cons]; omega, c3, c4⟩

/-- One run of the body of the layer loop of `DrawScenePass`: the draws it records are
at most six for a cube map and at most one otherwise, each of the layer with the clear
flags of the render input at its start; when the loop goes on, both clear flags are
off. -/
theorem drawLayerBody_draws {Q : Type} (env : Collaborators Q) (id : Nat)
    (pass : GraphicsConfigPass) (tex : List (Option TextureRef)) (layer : String)
    (s : GraphicsGL2 Q) :
    (∀ s1, drawLayerBody env id pass tex layer s = Flow.next s1 →
        s1.renderscene.clear = (false, false)) ∧
      (drawLayerBody env id pass tex layer s).state.renderscene.clear ∈
        [s.renderscene.clear, (false, false)] ∧
      ∃ E n, n ≤ (if isCubemap env (mapGetD s.render_outputs pass.output RenderOutput.new)
          then 6 else 1) ∧
        (drawLayerBody env id pass tex layer s).state.trace = s.trace ++ E ∧
        drawsIn E = List.replicate n (layer, s.renderscene.clear) := by
  obtain ⟨c1, E, n, c2, c3, c4⟩ := sideLoop_draws id pass layer tex
    (isCubemap env (mapGetD s.render_outputs pass.output RenderOutput.new))
    (cubeSides (isCubemap env (mapGetD s.render_outputs pass.output RenderOutput.new))) s
  have hlen : (cubeSides (isCubemap env (mapGetD s.render_outputs pass.output
      RenderOutput.new))).length =
      (if isCubemap env (mapGetD s.render_outputs pass.output RenderOutput.new)
        then 6 else 1) := by
    unfold cubeSides
    simp
  rw [hlen] at c2
  unfold drawLayerBody DrawScenePassLayer
  cases hb : forLoop (drawSideBody id pass layer tex
      (isCubemap env (mapGetD s.render_outputs pass.output RenderOutput.new)))
      (cubeSides (isCubemap env (mapGetD s.render_outputs pass.output RenderOutput.new)))
      s with
  | next s1 =>
    rw [hb] at c1 c3
    simp only [Flow.state] at c1 c3
    simp only [Flow.call, Flow.andThen, Flow.state]
    refine ⟨?_, by simp, E, n, c2, by simpa using c3, c4⟩
    intro s2 h2
    cases h2
    simp
  | ret s1 =>
    rw [hb] at c1 c3
    simp only [Flow.state] at c1 c3
    simp only [Flow.call, Flow.andThen, Flow.state]
    refine ⟨?_, by simp, E, n, c2, by simpa using c3, c4⟩
    intro s2 h2
    cases h2
    simp
  | abort s1 =>
    rw [hb] at c1 c3
    simp only [Flow.state] at c1 c3
    simp only [Flow.call, Flow.andThen, Flow.state]
    refine ⟨?_, by simp [c1], E, n, c2, c3, c4⟩
    intro s2 h2
    cases h2

/-- The layer loop of `DrawScenePass` from a render input with both clear flags off: every
draw it records is of one of the layers and runs with both clear flags off. -/
theorem layerLoop_no_clear {Q : Type} (env : Collaborators Q) (id : Nat)
    (pass : GraphicsConfigPass) (tex : List (Option TextureRef)) (layers : List String) :
    ∀ s : GraphicsGL2 Q, s.renderscene.clear = (false, false) →
      ∃ E, (forLoop (drawLayerBody env id pass tex) layers s).state.trace = s.trace ++ E ∧
        ∀ x ∈ drawsIn E, x.1 ∈ layers ∧ x.2 = (false, false) := by
  induction layers with
  | nil =>
    intro s _
    exact ⟨[], by simp [forLoop, Flow.state], by simp [drawsIn]⟩
  | cons d layers ih =>
    intro s hs
    obtain ⟨c0, c1, E1, n, -, c3, c4⟩ := drawLayerBody_draws env id pass tex d s
    have hE1 : ∀ x ∈ drawsIn E1, x.1 ∈ d :: layers ∧ x.2 = (false, false) := by
      intro x hx
      rw [c4, hs] at hx
      rw [List.eq_of_mem_replicate hx]
      simp
    simp only [forLoop]
    cases hb : drawLayerBody env id pass tex d s with
    | next s1 =>
      rw [hb] at c3
      simp only [Flow.state] at c3
      obtain ⟨E2, d1, d2⟩ := ih s1 (c0 s1 hb)
      simp only [Flow.andThen]
      refine ⟨E1 ++ E2, by rw [d1, c3, List.append_assoc], ?_⟩
      intro x hx
      rw [drawsIn_append] at hx
      rcases List.mem_append.mp hx with h | h
      · exact hE1 x h
      · obtain ⟨e1, e2⟩ := d2 x h
        exact ⟨by simp [e1], e2⟩
    | ret s1 =>
      rw [hb] at c3
      exact ⟨E1, c3, hE1⟩
    | abort s1 =>
      rw [hb] at c3
      exact ⟨E1, c3, hE1⟩

/-- C13 (amended): for every active pass that is not a post-process, with the first layer
`d` and the later layers `ds`, the events `DrawScenePass` records split into those of
the first layer and those of the later layers: every draw of the first layer runs with
the clear flags of the pass, and there are at most six of them when the output is a
cube map and at most one otherwise; every draw of a later layer runs with both clear
flags off. -/
theorem DrawScenePass_clears_first_layer_only {Q : Type} (env : Collaborators Q) (id : Nat)
    (pass : GraphicsConfigPass) (g : GraphicsGL2 Q) (d : String) (ds : List String)
    (hactive : pass.conditions.Satisfied g.conditions = true)
    (hdraw : pass.draw = d :: ds)
    (hpost : pass.draw.getLast? ≠ some "postprocess") :
    ∃ E1 E2 n,
      n ≤ (if isCubemap env (mapGetD g.render_outputs pass.output RenderOutput.new)
        then 6 else 1) ∧
      (DrawScenePass env id pass g).state.trace = g.trace ++ E1 ++ E2 ∧
      drawsIn E1 = List.replicate n (d, (pass.clear_color, pass.clear_depth)) ∧
      ∀ x ∈ drawsIn E2, x.1 ∈ ds ∧ x.2 = (false, false) := by
  obtain ⟨N, hN⟩ : ∃ N, N = (if isCubemap env (mapGetD g.render_outputs pass.output
      RenderOutput.new) then 6 else 1) := ⟨_, rfl⟩
  rw [← hN]
  have hquiet : ∀ s : GraphicsGL2 Q, s.trace = g.trace → ∀ m,
      ∃ E1 E2 n,
        n ≤ N ∧
        (s.Report id m).trace = g.trace ++ E1 ++ E2 ∧
        drawsIn E1 = List.replicate n (d, (pass.clear_color, pass.clear_depth)) ∧
        ∀ x ∈ drawsIn E2, x.1 ∈ ds ∧ x.2 = (false, false) := by
    intro s hs m
    obtain ⟨-, E, r2, r3, -⟩ := Report_no_draw s id m
    refine ⟨E, [], 0, Nat.zero_le N, by rw [r2, hs]; simp, by rw [r3]; rfl, ?_⟩
    intro x hx
    simp [drawsIn] at hx
  have hnone : ∀ s : GraphicsGL2 Q, s.trace = g.trace →
      ∃ E1 E2 n,
        n ≤ N ∧
        s.trace = g.trace ++ E1 ++ E2 ∧
        drawsIn E1 = List.replicate n (d, (pass.clear_color, pass.clear_depth)) ∧
        ∀ x ∈ drawsIn E2, x.1 ∈ ds ∧ x.2 = (false, false) := by
    intro s hs
    refine ⟨[], [], 0, Nat.zero_le N, by rw [hs]; simp, rfl, ?_⟩
    intro x hx
    simp [drawsIn] at hx
  -- the layers, from the state the set-up leaves
  have hlayers : ∀ s0 : GraphicsGL2 Q, s0.trace = g.trace →
      s0.render_outputs = g.render_outputs →
      s0.renderscene.clear = (pass.clear_color, pass.clear_depth) →
      ∃ E1 E2 n,
        n ≤ N ∧
        (drawPassLayers env id pass s0).state.trace = g.trace ++ E1 ++ E2 ∧
        drawsIn E1 = List.replicate n (d, (pass.clear_color, pass.clear_depth)) ∧
        ∀ x ∈ drawsIn E2, x.1 ∈ ds ∧ x.2 = (false, false) := by
    intro s0 ht ho hc
    unfold drawPassLayers
    split
    · exact hquiet s0 ht _
    · rw [hdraw]
      simp only [forLoop]
      obtain ⟨c0, -, E1, n, c2, c3, c4⟩ := drawLayerBody_draws env id pass
        (GetScenePassInputTextures s0.texture_inputs pass.inputs.tu []) d s0
      rw [ho, ← hN] at c2
      rw [hc] at c4
      rw [ht] at c3
      cases hb : drawLayerBody env id pass
          (GetScenePassInputTextures s0.texture_inputs pass.inputs.tu []) d s0 with
      | next s1 =>
        rw [hb] at c3
        simp only [Flow.state] at c3
        obtain ⟨E2, d1, d2⟩ := layerLoop_no_clear env id pass
          (GetScenePassInputTextures s0.texture_inputs pass.inputs.tu []) ds s1 (c0 s1 hb)
        simp only [Flow.andThen]
        exact ⟨E1, E2, n, c2, by rw [d1, c3], c4, d2⟩
      | ret s1 =>
        rw [hb] at c3
        refine ⟨E1, [], n, c2, by simpa [Flow.andThen] using c3, c4, ?_⟩
        intro x hx
        simp [drawsIn] at hx
      | abort s1 =>
        rw [hb] at c3
        refine ⟨E1, [], n, c2, by simpa [Flow.andThen] using c3, c4, ?_⟩
        intro x hx
        simp [drawsIn] at hx
  unfold DrawScenePass
  rw [if_neg (by simp [hactive]), if_neg (by simp [hdraw]), if_neg hpost, Flow.call_state]
  unfold drawPassSetup
  split
  · exact hquiet g rfl _
  · split
    · exact hnone _ rfl
    · split
      · exact hnone _ rfl
      · simp only [Flow.andThen]
        exact hlayers _ (by simp) (by simp) (by simp)

/-- C13, counterexample: the active pass `cubePass` has the clear-colour flag set and
draws the layers "a" and "b" into a cube map.  `DrawScenePass` issues twelve draws for
it, and six of them, the six faces of the first layer, run with the clear flag on. -/
theorem DrawScenePass_clears_six_faces :
    cubePass.conditions.Satisfied cubeCulled.conditions = true ∧
    cubePass.clear_color = true ∧
    (DrawScenePass (exEnv cubeConfig) 0 cubePass cubeCulled).aborted = false ∧
    drawsIn ((DrawScenePass (exEnv cubeConfig) 0 cubePass cubeCulled).state.trace.drop
        cubeCulled.trace.length) =
      List.replicate 6 ("a", (true, false)) ++ List.replicate 6 ("b", (false, false)) := by
  decide

/-- C13 (amended), at a concrete input: the pass `cubePass` after its culling. -/
theorem DrawScenePass_clears_first_layer_only_witness :
    ∃ E1 E2 n,
      n ≤ (if isCubemap (exEnv cubeConfig)
          (mapGetD cubeCulled.render_outputs cubePass.output RenderOutput.new)
        then 6 else 1) ∧
      (DrawScenePass (exEnv cubeConfig) 0 cubePass cubeCulled).state.trace =
        cubeCulled.trace ++ E1 ++ E2 ∧
      drawsIn E1 = List.replicate n ("a", (cubePass.clear_color, cubePass.clear_depth)) ∧
      ∀ x ∈ drawsIn E2, x.1 ∈ ["b"] ∧ x.2 = (false, false) :=
  DrawScenePass_clears_first_layer_only (exEnv cubeConfig) 0 cubePass cubeCulled "a" ["b"]
    (by decide) rfl (by decide)

/-! ### C14: the face executions of a pass -/

theorem faceSteps_append (a b : List Event) :
    faceSteps (a ++ b) = faceSteps a ++ faceSteps b := by
  simp [faceSteps, List.filterMap_append]

theorem forLoop_trace_steps {Q α : Type}
    (body : α → GraphicsGL2 Q → Flow (GraphicsGL2 Q)) (I : GraphicsGL2 Q → Prop)
    (f : α → List FaceStep) (l : List α)
    (hbody : ∀ a ∈ l, ∀ s, I s → ∃ s1 E, body a s = Flow.next s1 ∧ I s1 ∧
      s1.trace = s.trace ++ E ∧ faceSteps E = f a) :
    ∀ s, I s → ∃ s1 E, forLoop body l s = Flow.next s1 ∧ I s1 ∧
      s1.trace = s.trace ++ E ∧ faceSteps E = l.flatMap f := by
  induction l with
  | nil =>
    intro s hs
    exact ⟨s, [], rfl, hs, by simp, rfl⟩
  | cons a l ih =>
    intro s hs
    obtain ⟨s1, E1, e1, i1, t1, f1⟩ := hbody a (by simp) s hs
    obtain ⟨s2, E2, e2, i2, t2, f2⟩ := ih (fun c hc => hbody c (by simp [hc])) s1 i1
    refine ⟨s2, E1 ++ E2, ?_, i2, by rw [t2, t1, List.append_assoc], ?_⟩
    · simp only [forLoop, e1, Flow.andThen]
      exact e2
    · rw [faceSteps_append, f1, f2]
      simp [List.flatMap_cons]

theorem cubeSideOfIndex_side (k : Nat) (hk : k < 6) :
    cubeSideOfIndex (k : Int) = some (sideOfIndex k) := by
  interval_cases k <;> rfl

/-- One call of `RenderDrawlists` records one draw of the layer with the camera and
leaves the cameras, the draw lists, the cull cache and the render outputs as they are. -/
theorem RenderDrawlists_steps {Q : Type} (g : GraphicsGL2 Q) (id : Nat)
    (layer camera output : String) (dl sl : List Nat) (tex : List (Option TextureRef)) :
    ∃ E, (RenderDrawlists g id layer camera output dl sl tex).trace = g.trace ++ E ∧
      faceSteps E = [FaceStep.draw layer camera] ∧
      (RenderDrawlists g id layer camera output dl sl tex).cameras = g.cameras ∧
      (RenderDrawlists g id layer camera output dl sl tex).dynamic_drawlist =
        g.dynamic_drawlist ∧
      (RenderDrawlists g id layer camera output dl sl tex).culled_static_drawlist =
        g.culled_static_drawlist ∧
      (RenderDrawlists g id layer camera output dl sl tex).render_outputs =
        g.render_outputs := by
  unfold RenderDrawlists
  split
  · exact ⟨[Event.renderDrawlists id layer camera output g.renderscene.clear dl sl tex],
      by simp, rfl, by simp, by simp, by simp, by simp⟩
  · unfold Render
    exact ⟨[Event.renderDrawlists id layer camera output g.renderscene.clear dl sl tex,
      Event.render id false output], by simp, rfl, by simp, by simp, by simp, by simp⟩

/-- One run of the body of the cube-side loop when the camera of the side, the dynamic
draw list of the layer and the cull-cache entry of the side and layer exist: the side is
attached for a cube map and the layer is drawn with the camera of the side. -/
theorem drawSideBody_steps {Q : Type} (env : Collaborators Q) (id : Nat)
    (pass : GraphicsConfigPass) (g : GraphicsGL2 Q) (ro : RenderOutput)
    (layer : String) (tex : List (Option TextureRef)) (k : Nat) (hk : k < 6)
    (hfbo : isCubemap env ro = true → ro.target = RenderTarget.RENDER_TO_FBO)
    (hcam : (mapFind g.cameras (sideCameraName pass (isCubemap env ro) k)).isSome = true)
    (hdyn : (mapFind g.dynamic_drawlist layer).isSome = true)
    (hcull : (mapFind g.culled_static_drawlist
      (BuildKey (sideCameraName pass (isCubemap env ro) k) layer)).isSome = true)
    (s : GraphicsGL2 Q) (hs : DrawInv g pass ro s) :
    ∃ s1 E, drawSideBody id pass layer tex (isCubemap env ro) k s = Flow.next s1 ∧
      DrawInv g pass ro s1 ∧ s1.trace = s.trace ++ E ∧
      faceSteps E = sideSteps pass (isCubemap env ro) layer k := by
  obtain ⟨cam, hcam⟩ := Option.isSome_iff_exists.mp hcam
  obtain ⟨dyn, hdyn⟩ := Option.isSome_iff_exists.mp hdyn
  obtain ⟨sta, hcull⟩ := Option.isSome_iff_exists.mp hcull
  -- the part after the side is attached
  have hrest : ∀ s0 : GraphicsGL2 Q, DrawInv g pass ro s0 →
      ∃ s1 E, drawSideCamera id pass layer tex (sideCameraName pass (isCubemap env ro) k)
          s0 = Flow.next s1 ∧
        DrawInv g pass ro s1 ∧ s1.trace = s0.trace ++ E ∧
        faceSteps E = [FaceStep.draw layer (sideCameraName pass (isCubemap env ro) k)] := by
    intro s0 h0
    obtain ⟨i1, i2, i3, i4⟩ := h0
    unfold drawSideCamera
    rw [i1, hcam]
    simp only
    unfold drawSideRender
    rw [i2, hdyn]
    simp only
    rw [i3, hcull]
    simp only
    obtain ⟨E, e1, e2, e3, e4, e5, e6⟩ := RenderDrawlists_steps
      (s0.setRenderscene ((s0.renderscene.SetCamera cam).SetCarPaintHack
        (!s0.using_shaders && decide (layer = "car_noblend")))) id layer
      (sideCameraName pass (isCubemap env ro) k) pass.output dyn sta tex
    refine ⟨_, E, rfl, ⟨?_, ?_, ?_, ?_⟩, ?_, e2⟩
    · simpa [GraphicsGL2.disableOrtho, e3] using i1
    · simpa [GraphicsGL2.disableOrtho, e4] using i2
    · simpa [GraphicsGL2.disableOrtho, e5] using i3
    · simpa [GraphicsGL2.disableOrtho, e6] using i4
    · simpa [GraphicsGL2.disableOrtho] using e1
  unfold drawSideBody attachSide sideSteps
  by_cases hc : isCubemap env ro = true
  · rw [if_pos hc, cubeSideOfIndex_side k hk]
    simp only [Flow.andThen]
    obtain ⟨i1, i2, i3, r, i4, i5, i6, i7⟩ := hs
    obtain ⟨s1, E, e1, j1, j2, j3⟩ := hrest
      ((s.setRenderOutputs (mapSet s.render_outputs pass.output
        (cubeSideOutput (mapGetD s.render_outputs pass.output RenderOutput.new)
          (sideOfIndex k)))).log (Event.attachCubeSide id pass.output (sideOfIndex k)))
      ⟨by simpa using i1, by simpa using i2, by simpa using i3,
        cubeSideOutput (mapGetD s.render_outputs pass.output RenderOutput.new) (sideOfIndex k),
        by simpa using mapFind_mapSet_same _ _ _,
        by simp [cubeSideOutput, hfbo hc],
        by simp [cubeSideOutput, mapGetD, i4, i6],
        by simp [cubeSideOutput, mapGetD, i4, i7]⟩
    refine ⟨s1, Event.attachCubeSide id pass.output (sideOfIndex k) :: E, e1, j1, ?_, ?_⟩
    · rw [j2]
      simp
    · rw [if_pos hc]
      have : faceSteps (Event.attachCubeSide id pass.output (sideOfIndex k) :: E) =
          FaceStep.attach (sideOfIndex k) :: faceSteps E := rfl
      rw [this, j3]
      rfl
  · rw [if_neg hc, if_neg hc]
    simp only [Flow.andThen, List.nil_append]
    exact hrest s hs

theorem isCubemap_of_fields {Q : Type} (env : Collaborators Q) (ro r : RenderOutput)
    (hside : ∀ side, env.fboIsCubemap
        { inited := ro.fbo.inited, textures := ro.fbo.textures, cube_side := side } =
      env.fboIsCubemap ro.fbo)
    (h1 : r.target = ro.target) (h2 : r.fbo.inited = ro.fbo.inited)
    (h3 : r.fbo.textures = ro.fbo.textures) : isCubemap env r = isCubemap env ro := by
  have hf : r.fbo = FrameBufferObject.mk ro.fbo.inited ro.fbo.textures
      r.fbo.cube_side := by
    cases hr : r.fbo with
    | mk a b c =>
      rw [hr] at h2 h3
      simp only at h2 h3
      simp [h2, h3]
  unfold isCubemap RenderOutput.IsFBO
  rw [h1, hf, hside]

/-- The drawing of one layer when everything it looks up exists: the steps of the sides,
in the order of the side index. -/
theorem DrawScenePassLayer_steps {Q : Type} (env : Collaborators Q) (id : Nat)
    (pass : GraphicsConfigPass) (g : GraphicsGL2 Q) (ro : RenderOutput)
    (layer : String) (tex : List (Option TextureRef))
    (hside : ∀ side, env.fboIsCubemap
        { inited := ro.fbo.inited, textures := ro.fbo.textures, cube_side := side } =
      env.fboIsCubemap ro.fbo)
    (hcams : ∀ k ∈ cubeSides (isCubemap env ro),
      (mapFind g.cameras (sideCameraName pass (isCubemap env ro) k)).isSome = true)
    (hdyn : (mapFind g.dynamic_drawlist layer).isSome = true)
    (hcull : ∀ k ∈ cubeSides (isCubemap env ro), (mapFind g.culled_static_drawlist
      (BuildKey (sideCameraName pass (isCubemap env ro) k) layer)).isSome = true)
    (s : GraphicsGL2 Q) (hs : DrawInv g pass ro s) :
    ∃ s1 E, DrawScenePassLayer env id pass layer tex s = Flow.next s1 ∧
      DrawInv g pass ro s1 ∧ s1.trace = s.trace ++ E ∧
      faceSteps E = (cubeSides (isCubemap env ro)).flatMap
        (sideSteps pass (isCubemap env ro) layer) := by
  have hcm : isCubemap env (mapGetD s.render_outputs pass.output RenderOutput.new) =
      isCubemap env ro := by
    obtain ⟨-, -, -, r, i4, i5, i6, i7⟩ := hs
    have : mapGetD s.render_outputs pass.output RenderOutput.new = r := by
      simp [mapGetD, i4]
    rw [this]
    exact isCubemap_of_fields env ro r hside i5 i6 i7
  have hfbo : isCubemap env ro = true → ro.target = RenderTarget.RENDER_TO_FBO := by
    intro h
    unfold isCubemap RenderOutput.IsFBO at h
    simp only [Bool.and_eq_true, decide_eq_true_eq] at h
    exact h.1
  obtain ⟨s1, E, e1, e2, e3, e4⟩ := forLoop_trace_steps
    (drawSideBody id pass layer tex (isCubemap env ro)) (DrawInv g pass ro)
    (sideSteps pass (isCubemap env ro) layer) (cubeSides (isCubemap env ro))
    (fun k hk s0 h0 => drawSideBody_steps env id pass g ro layer tex k
      (cubeSides_lt _ k hk) hfbo (hcams k hk) hdyn (hcull k hk) s0 h0) s hs
  refine ⟨s1, E, ?_, e2, e3, e4⟩
  unfold DrawScenePassLayer
  rw [hcm, e1]
  rfl

/-- The loop over the layers of a pass when everything it looks up exists. -/
theorem drawPassLayers_steps {Q : Type} (env : Collaborators Q) (id : Nat)
    (pass : GraphicsConfigPass) (g : GraphicsGL2 Q) (ro : RenderOutput)
    (hside : ∀ side, env.fboIsCubemap
        { inited := ro.fbo.inited, textures := ro.fbo.textures, cube_side := side } =
      env.fboIsCubemap ro.fbo)
    (hcams : ∀ k ∈ cubeSides (isCubemap env ro),
      (mapFind g.cameras (sideCameraName pass (isCubemap env ro) k)).isSome = true)
    (hlayers : ∀ d ∈ pass.draw, (mapFind g.dynamic_drawlist d).isSome = true ∧
      ∀ k ∈ cubeSides (isCubemap env ro), (mapFind g.culled_static_drawlist
        (BuildKey (sideCameraName pass (isCubemap env ro) k) d)).isSome = true)
    (s : GraphicsGL2 Q) (hs : DrawInv g pass ro s) :
    ∃ s1 E, drawPassLayers env id pass s = Flow.next s1 ∧ s1.trace = s.trace ++ E ∧
      faceSteps E = passSteps pass (isCubemap env ro) := by
  obtain ⟨s1, E, e1, -, e3, e4⟩ := forLoop_trace_steps
    (drawLayerBody env id pass (GetScenePassInputTextures s.texture_inputs pass.inputs.tu []))
    (DrawInv g pass ro)
    (fun layer => (cubeSides (isCubemap env ro)).flatMap
      (sideSteps pass (isCubemap env ro) layer)) pass.draw
    (fun d hd s0 h0 => by
      obtain ⟨s2, E, e1, e2, e3, e4⟩ := DrawScenePassLayer_steps env id pass g ro d
        (GetScenePassInputTextures s.texture_inputs pass.inputs.tu []) hside hcams
        (hlayers d hd).1 (hlayers d hd).2 s0 h0
      refine ⟨s2.setRenderscene (s2.renderscene.SetClear false false), E, ?_, ?_, ?_, e4⟩
      · unfold drawLayerBody
        rw [e1]
        rfl
      · obtain ⟨i1, i2, i3, i4⟩ := e2
        exact ⟨by simpa using i1, by simpa using i2, by simpa using i3, by simpa using i4⟩
      · simpa using e3) s hs
  refine ⟨s1, E, ?_, e3, e4⟩
  unfold drawPassLayers
  obtain ⟨-, -, -, r, i4, -⟩ := hs
  have hm : mapMem s.render_outputs pass.output = true := by
    simp [mapMem, i4]
  rw [if_neg (by simp [hm])]
  exact e1

/-- C14, counterexample: the active pass `cubePass` draws the layers "a" and "b" into a
cube map, and its cameras, shader and layers all exist.  One execution of `DrawScenePass`
performs twelve face executions for it, the faces 0 to 5 for the layer "a" and then the
faces 0 to 5 again for the layer "b". -/
theorem DrawScenePass_cube_map_twelve_faces :
    cubePass.conditions.Satisfied cubeCulled.conditions = true ∧
    cubePass.draw = ["a", "b"] ∧
    isCubemap (exEnv cubeConfig)
      (mapGetD cubeCulled.render_outputs cubePass.output RenderOutput.new) = true ∧
    (DrawScenePass (exEnv cubeConfig) 0 cubePass cubeCulled).aborted = false ∧
    faceSteps ((DrawScenePass (exEnv cubeConfig) 0 cubePass cubeCulled).state.trace.drop
        cubeCulled.trace.length) =
      [FaceStep.attach CubeSide.POSX, FaceStep.draw "a" "default_cubeside0",
       FaceStep.attach CubeSide.NEGX, FaceStep.draw "a" "default_cubeside1",
       FaceStep.attach CubeSide.POSY, FaceStep.draw "a" "default_cubeside2",
       FaceStep.attach CubeSide.NEGY, FaceStep.draw "a" "default_cubeside3",
       FaceStep.attach CubeSide.POSZ, FaceStep.draw "a" "default_cubeside4",
       FaceStep.attach CubeSide.NEGZ, FaceStep.draw "a" "default_cubeside5",
       FaceStep.attach CubeSide.POSX, FaceStep.draw "b" "default_cubeside0",
       FaceStep.attach CubeSide.NEGX, FaceStep.draw "b" "default_cubeside1",
       FaceStep.attach CubeSide.POSY, FaceStep.draw "b" "default_cubeside2",
       FaceStep.attach CubeSide.NEGY, FaceStep.draw "b" "default_cubeside3",
       FaceStep.attach CubeSide.POSZ, FaceStep.draw "b" "default_cubeside4",
       FaceStep.attach CubeSide.NEGZ, FaceStep.draw "b" "default_cubeside5"] := by
  decide

/-- C14 (amended): for an active non-postprocess pass whose shader, blend and depth
modes, render output `ro`, side cameras, dynamic draw lists and cull-cache entries all
exist, one execution of `DrawScenePass` returns, and the face executions it performs are
those of `passSteps`: for each layer of the pass in turn, when `ro` is a cube map the six
faces 0 to 5 in increasing order, each preceded by the attachment of its cube side (POSX,
NEGX, POSY, NEGY, POSZ, NEGZ) and drawn with the camera of the face, and otherwise a
single execution with the camera of the pass. -/
theorem DrawScenePass_face_executions {Q : Type} (env : Collaborators Q) (id : Nat)
    (pass : GraphicsConfigPass) (g : GraphicsGL2 Q) (ro : RenderOutput)
    (hactive : pass.conditions.Satisfied g.conditions = true)
    (hdraw : pass.draw ≠ [])
    (hpost : pass.draw.getLast? ≠ some "postprocess")
    (hshader : g.using_shaders = true → mapMem g.shadermap pass.shader = true)
    (hblend : (BlendModeFromString pass.blendmode).isSome = true)
    (hdepth : (DepthModeFromString pass.depthtest).isSome = true)
    (hout : mapFind g.render_outputs pass.output = some ro)
    (hside : ∀ side, env.fboIsCubemap
        { inited := ro.fbo.inited, textures := ro.fbo.textures, cube_side := side } =
      env.fboIsCubemap ro.fbo)
    (hcams : ∀ k ∈ cubeSides (isCubemap env ro),
      (mapFind g.cameras (sideCameraName pass (isCubemap env ro) k)).isSome = true)
    (hlayers : ∀ d ∈ pass.draw, (mapFind g.dynamic_drawlist d).isSome = true ∧
      ∀ k ∈ cubeSides (isCubemap env ro), (mapFind g.culled_static_drawlist
        (BuildKey (sideCameraName pass (isCubemap env ro) k) d)).isSome = true) :
    (∃ gF E, DrawScenePass env id pass g = Flow.next gF ∧ gF.trace = g.trace ++ E ∧
      faceSteps E = passSteps pass (isCubemap env ro)) ∧
    (passSteps pass true = pass.draw.flatMap (fun layer =>
      [FaceStep.attach CubeSide.POSX, FaceStep.draw layer (cubeCameraName pass.camera 0),
       FaceStep.attach CubeSide.NEGX, FaceStep.draw layer (cubeCameraName pass.camera 1),
       FaceStep.attach CubeSide.POSY, FaceStep.draw layer (cubeCameraName pass.camera 2),
       FaceStep.attach CubeSide.NEGY, FaceStep.draw layer (cubeCameraName pass.camera 3),
       FaceStep.attach CubeSide.POSZ, FaceStep.draw layer (cubeCameraName pass.camera 4),
       FaceStep.attach CubeSide.NEGZ, FaceStep.draw layer (cubeCameraName pass.camera 5)])) ∧
    passSteps pass false = pass.draw.map (fun layer => FaceStep.draw layer pass.camera) := by
  refine ⟨?_, ?_, ?_⟩
  · obtain ⟨bm, hbm⟩ := Option.isSome_iff_exists.mp hblend
    obtain ⟨dm, hdm⟩ := Option.isSome_iff_exists.mp hdepth
    have hsetup : drawPassSetup id pass g = Flow.next (g.setRenderscene
        (((((passShaderScene pass g).SetBlendMode bm).SetDepthMode dm).SetClear
          pass.clear_color pass.clear_depth).SetWrite pass.write_color pass.write_alpha
          pass.write_depth)) := by
      unfold drawPassSetup
      rw [if_neg (by
        rintro ⟨h1, h2⟩
        rw [hshader h1] at h2
        exact Bool.noConfusion h2), hbm]
      simp only
      rw [hdm]
    obtain ⟨s1, E, e1, e2, e3⟩ := drawPassLayers_steps env id pass g ro hside hcams hlayers
      (g.setRenderscene
        (((((passShaderScene pass g).SetBlendMode bm).SetDepthMode dm).SetClear
          pass.clear_color pass.clear_depth).SetWrite pass.write_color pass.write_alpha
          pass.write_depth))
      ⟨by simp, by simp, by simp, ro, by simpa using hout, rfl, rfl, rfl⟩
    refine ⟨s1, E, ?_, by simpa using e2, e3⟩
    unfold DrawScenePass
    rw [if_neg (by simp [hactive]), if_neg (by simpa using hdraw), if_neg hpost, hsetup]
    simp only [Flow.andThen]
    rw [e1]
    rfl
  · simp [passSteps, cubeSides, sideSteps, sideCameraName, sideOfIndex, cubeSideOfIndex,
      List.range_succ, List.flatMap]
  · simp only [passSteps]
    generalize pass.draw = l
    induction l with
    | nil => rfl
    | cons a l ih =>
      rw [List.flatMap_cons, ih]
      rfl

/-- C14 (amended), at a concrete input: the pass `cubePass`, which draws two layers into
a cube map, after its culling. -/
theorem DrawScenePass_face_executions_witness :
    isCubemap (exEnv cubeConfig)
      (mapGetD cubeCulled.render_outputs cubePass.output RenderOutput.new) = true ∧
    ∃ gF E, DrawScenePass (exEnv cubeConfig) 0 cubePass cubeCulled = Flow.next gF ∧
      gF.trace = cubeCulled.trace ++ E ∧
      faceSteps E = passSteps cubePass (isCubemap (exEnv cubeConfig)
        (mapGetD cubeCulled.render_outputs cubePass.output RenderOutput.new)) :=
  ⟨by decide,
    (DrawScenePass_face_executions (exEnv cubeConfig) 0 cubePass cubeCulled
      (mapGetD cubeCulled.render_outputs cubePass.output RenderOutput.new)
      (by decide) (by decide) (by decide) (by decide) (by decide) (by decide) (by decide)
      (fun _ => rfl) (by decide) (by decide)).1⟩

/-! ### C15: the cull-cache entry a pass reads -/

theorem forLoop_pivot {σ α : Type} (body : α → σ → Flow σ) (I0 I1 : σ → Prop)
    (pre post : List α) (a : α)
    (hpre : ∀ b ∈ pre, ∀ s, I0 s → ∃ s1, body b s = Flow.next s1 ∧ I0 s1)
    (ha : ∀ s, I0 s → ∃ s1, body a s = Flow.next s1 ∧ I1 s1)
    (hpost : ∀ b ∈ post, ∀ s, I1 s → ∃ s1, body b s = Flow.next s1 ∧ I1 s1)
    (s : σ) (hs : I0 s) :
    ∃ s1, forLoop body (pre ++ a :: post) s = Flow.next s1 ∧ I1 s1 := by
  obtain ⟨s1, e1, i1⟩ := forLoop_next_inv body I0 pre hpre s hs
  obtain ⟨s2, e2, i2⟩ := ha s1 i1
  obtain ⟨s3, e3, i3⟩ := forLoop_next_inv body I1 post hpost s2 i2
  refine ⟨s3, ?_, i3⟩
  rw [forLoop_append_next body pre (a :: post) s s1 e1]
  simp only [forLoop, e2, Flow.andThen]
  exact e3

theorem indexedFrom_append {α : Type} (l1 l2 : List α) (n : Nat) :
    indexedFrom n (l1 ++ l2) = indexedFrom n l1 ++ indexedFrom (n + l1.length) l2 := by
  induction l1 generalizing n with
  | nil => simp [indexedFrom]
  | cons a l ih =>
    have h := ih (n + 1)
    rw [show n + 1 + l.length = n + (l.length + 1) by omega] at h
    show (n, a) :: indexedFrom (n + 1) (l ++ l2) = _
    rw [h]
    rfl

theorem BuildKey_layer (camera d1 d2 : String) (h : BuildKey camera d1 = BuildKey camera d2) :
    d1 = d2 := by
  unfold BuildKey at h
  have h1 := congrArg String.data h
  simp only [String.data_append, List.append_assoc] at h1
  exact String.ext (List.append_cancel_left (List.append_cancel_left h1))

/-- One run of the body of the cube-side loop of `CullScenePass` for a key other than `k`
and a sub-camera other than `cam`. -/
theorem cullSideBody_keep {Q : Type} (env : Collaborators Q) (j : Nat)
    (pass : GraphicsConfigPass) (d : String) (oi : RenderOutput) (cubemap : Bool) (n : Nat)
    (g0 : GraphicsGL2 Q) (cam k : String) (e : Option (List Nat))
    (hk : BuildKey (sideCameraName pass cubemap n) d ≠ k)
    (hc : cubemap = true → cubeCameraName pass.camera n ≠ cam)
    (s : GraphicsGL2 Q) (hs : CullKeep g0 cam k e s) :
    CullKeep g0 cam k e (cullSideBody env j pass d oi cubemap n s).state := by
  unfold cullSideBody
  refine Flow.andThen_state_inv (CullKeep g0 cam k e) _ _ ?_ ?_
  · obtain ⟨i1, i2, i3, i4, i5⟩ := hs
    unfold cullSubCamera
    split
    · rename_i hcm
      split
      · exact ⟨by simpa [Flow.state] using i1, by simpa [Flow.state] using i2,
          by simpa [Flow.state] using i3, by simpa [Flow.state] using i4,
          by simpa [Flow.state] using i5⟩
      · split
        · exact ⟨by simpa [Flow.state] using i1, by simpa [Flow.state] using i2,
            by simpa [Flow.state] using i3, by simpa [Flow.state] using i4,
            by simpa [Flow.state] using i5⟩
        · split
          · exact ⟨i1, i2, i3, i4, i5⟩
          · refine ⟨by simpa [Flow.state] using i1, by simpa [Flow.state] using i2,
              by simpa [Flow.state] using i3, ?_, by simpa [Flow.state] using i5⟩
            simp only [Flow.state, GraphicsGL2.setErrorOutput_cameras,
              GraphicsGL2.setCameras_cameras]
            rw [mapFind_mapSet_other _ _ _ _ (hc hcm)]
            exact i4
    · exact ⟨i1, i2, i3, i4, i5⟩
  · intro s1 h1
    obtain ⟨i1, i2, i3, i4, i5⟩ := h1
    unfold cullQuery cullFrustumQuery cullAlwaysQuery
    repeat' split
    all_goals first
      | exact ⟨i1, i2, i3, i4, i5⟩
      | exact ⟨by simpa [Flow.state] using i1, by simpa [Flow.state] using i2,
          by simpa [Flow.state] using i3, by simpa [Flow.state] using i4,
          by simpa [Flow.state] using i5⟩
      | exact ⟨by simpa [Flow.state] using i1, by simpa [Flow.state] using i2,
          by simpa [Flow.state] using i3, by simpa [Flow.state] using i4,
          by simpa [Flow.state, Query, mapFind_mapSet_other _ _ _ _ hk] using i5⟩

/-- The culling of one layer of a pass that fills neither the key `k` nor the camera
`cam`. -/
theorem cullLayerBody_keep {Q : Type} (env : Collaborators Q) (j : Nat)
    (pass : GraphicsConfigPass) (d : String) (g0 : GraphicsGL2 Q) (cam k : String)
    (e : Option (List Nat))
    (hk : ∀ oi, mapFind g0.render_outputs pass.output = some oi →
      ∀ n ∈ cubeSides (isCubemap env oi),
        BuildKey (sideCameraName pass (isCubemap env oi) n) d ≠ k)
    (hc : cam ∉ cullCameras env g0 pass)
    (s : GraphicsGL2 Q) (hs : CullKeep g0 cam k e s) :
    CullKeep g0 cam k e (cullLayerBody env j pass d s).state := by
  unfold cullLayerBody
  have hro := hs.2.1
  split
  · obtain ⟨i1, i2, i3, i4, i5⟩ := hs
    exact ⟨by simpa [Flow.state] using i1, by simpa [Flow.state] using i2,
      by simpa [Flow.state] using i3, by simpa [Flow.state] using i4,
      by simpa [Flow.state] using i5⟩
  · rename_i oi hoi
    rw [hro] at hoi
    refine forLoop_state_inv_mem _ (CullKeep g0 cam k e) _ ?_ s hs
    intro n hn s1 h1
    refine cullSideBody_keep env j pass d oi _ n g0 cam k e (hk oi hoi n hn) ?_ s1 h1
    intro hcm hcam
    apply hc
    unfold cullCameras
    rw [hoi]
    simp only [hcm, if_true]
    rw [hcm] at hn
    exact List.mem_map.mpr ⟨n, hn, hcam⟩

/-- The culling of a pass that fills neither the key `k` nor the camera `cam`. -/
theorem CullScenePass_keep {Q : Type} (env : Collaborators Q) (j : Nat)
    (pass : GraphicsConfigPass) (g0 : GraphicsGL2 Q) (cam k : String)
    (e : Option (List Nat)) (hdraw : pass.draw ≠ [])
    (hother : pass.conditions.Satisfied g0.conditions = true →
      pass.draw.getLast? ≠ some "postprocess" →
      k ∉ cullKeys env g0 pass ∧ cam ∉ cullCameras env g0 pass)
    (s : GraphicsGL2 Q) (hs : CullKeep g0 cam k e s) :
    ∃ s1, CullScenePass env j pass s = Flow.next s1 ∧ CullKeep g0 cam k e s1 := by
  refine ⟨_, CullScenePass_returns env j pass hdraw s, ?_⟩
  unfold CullScenePass
  split
  · exact hs
  · split
    · exact hs
    · rename_i hcond
      rw [not_or] at hcond
      have hact : pass.conditions.Satisfied g0.conditions = true := by
        rw [← hs.2.2.1]
        simpa using hcond.2
      obtain ⟨hk, hc⟩ := hother hact hcond.1
      rw [Flow.call_state]
      refine forLoop_state_inv_mem _ (CullKeep g0 cam k e) _ ?_ s hs
      intro d hd s1 h1
      refine cullLayerBody_keep env j pass d g0 cam k e ?_ hc s1 h1
      intro oi hoi n hn hkey
      apply hk
      unfold cullKeys
      rw [hoi]
      exact List.mem_flatMap.mpr ⟨d, hd, List.mem_map.mpr ⟨n, hn, hkey⟩⟩

/-- The culling of one layer of a pass whose output is not a cube map, when the layer
has a static container and, for a culling pass, the camera exists. -/
theorem cullLayerBody_flat {Q : Type} (env : Collaborators Q) (j : Nat)
    (P : GraphicsConfigPass) (d : String) (g0 : GraphicsGL2 Q) (ro : RenderOutput)
    (cam : GraphicsCamera Q) (container : List Nat) (k : String) (e : Option (List Nat))
    (hout : mapFind g0.render_outputs P.output = some ro)
    (hflat : isCubemap env ro = false)
    (hcont : mapFind g0.static_drawlist d = some container)
    (hcam : P.cull = true → mapFind g0.cameras P.camera = some cam)
    (s : GraphicsGL2 Q) (hs : CullKeep g0 P.camera k e s) :
    ∃ s1, cullLayerBody env j P d s = Flow.next s1 ∧
      CullKeep g0 P.camera k
        (mapFind (culledAfter env P.cull P.camera d cam container s.culled_static_drawlist) k)
        s1 := by
  obtain ⟨i1, i2, i3, i4, i5⟩ := hs
  unfold cullLayerBody
  rw [i2, hout]
  simp only [hflat, cubeSides, Bool.false_eq_true, if_false,
    show List.range 1 = [0] from rfl, forLoop, cullSideBody, cullSubCamera, Flow.andThen,
    sideCameraName]
  unfold cullQuery culledAfter
  by_cases hc : P.cull = true
  · rw [if_pos hc, if_pos hc, i4, hcam hc]
    simp only
    by_cases hm : mapMem s.culled_static_drawlist (BuildKey P.camera d) = true
    · rw [if_pos hm, if_pos hm]
      exact ⟨s, rfl, i1, i2, i3, i4, rfl⟩
    · rw [if_neg hm, if_neg hm]
      unfold cullFrustumQuery
      rw [i1, hcont]
      exact ⟨_, rfl, by simpa using i1, by simpa using i2, by simpa using i3,
        by simpa using i4, by simp⟩
  · rw [if_neg hc, if_neg hc]
    unfold cullAlwaysQuery
    rw [i1, hcont]
    exact ⟨_, rfl, by simpa using i1, by simpa using i2, by simpa using i3,
      by simpa using i4, by simp⟩

theorem culledAfter_other {Q : Type} (env : Collaborators Q) (cull : Bool)
    (camera d : String) (cam : GraphicsCamera Q) (container : List Nat)
    (culled : List (String × List Nat)) (k : String) (h : BuildKey camera d ≠ k) :
    mapFind (culledAfter env cull camera d cam container culled) k = mapFind culled k := by
  unfold culledAfter Query
  split
  · split
    · rfl
    · exact mapFind_mapSet_other _ _ _ _ h
  · exact mapFind_mapSet_other _ _ _ _ h

theorem culledAfter_new {Q : Type} (env : Collaborators Q) (cull : Bool)
    (camera d : String) (cam : GraphicsCamera Q) (container : List Nat)
    (culled : List (String × List Nat)) (h : mapFind culled (BuildKey camera d) = none) :
    mapFind (culledAfter env cull camera d cam container culled) (BuildKey camera d) =
      some (if cull then container.filter (env.intersects (cameraFrustum (cameraOrtho cam) cam))
        else container) := by
  unfold culledAfter Query
  have hm : mapMem culled (BuildKey camera d) = false := by
    simp [mapMem, h]
  cases cull with
  | true =>
    simp only [if_true, hm, Bool.false_eq_true, if_false]
    rw [mapFind_mapSet_same]
    simp [mapGetD, h]
  | false =>
    simp only [Bool.false_eq_true, if_false]
    rw [mapFind_mapSet_same]
    simp [mapGetD, h]

/-- The culling of an active pass whose output is not a cube map, for a layer `L` it
draws once and whose key has no entry yet: the entry is the query of the pass. -/
theorem CullScenePass_fills {Q : Type} (env : Collaborators Q) (j : Nat)
    (P : GraphicsConfigPass) (L : String) (pre post : List String) (g0 : GraphicsGL2 Q)
    (ro : RenderOutput) (cam : GraphicsCamera Q) (container : List Nat)
    (hactive : P.conditions.Satisfied g0.conditions = true)
    (hpost : P.draw.getLast? ≠ some "postprocess")
    (hlayers : P.draw = pre ++ L :: post) (hpre : L ∉ pre) (hpst : L ∉ post)
    (hout : mapFind g0.render_outputs P.output = some ro)
    (hflat : isCubemap env ro = false)
    (hconts : ∀ d ∈ P.draw, (mapFind g0.static_drawlist d).isSome = true)
    (hcont : mapFind g0.static_drawlist L = some container)
    (hcam : P.cull = true → mapFind g0.cameras P.camera = some cam)
    (s : GraphicsGL2 Q) (hs : CullKeep g0 P.camera (BuildKey P.camera L) none s) :
    ∃ s1, CullScenePass env j P s = Flow.next s1 ∧
      CullKeep g0 P.camera (BuildKey P.camera L)
        (some (if P.cull then
          container.filter (env.intersects (cameraFrustum (cameraOrtho cam) cam))
          else container)) s1 := by
  have hstep : ∀ (e : Option (List Nat)) (d : String), d ∈ P.draw → d ≠ L →
      ∀ s0, CullKeep g0 P.camera (BuildKey P.camera L) e s0 →
        ∃ s1, cullLayerBody env j P d s0 = Flow.next s1 ∧
          CullKeep g0 P.camera (BuildKey P.camera L) e s1 := by
    intro e d hd hne s0 h0
    obtain ⟨c, hc⟩ := Option.isSome_iff_exists.mp (hconts d hd)
    obtain ⟨s1, e1, k1⟩ := cullLayerBody_flat env j P d g0 ro cam c (BuildKey P.camera L) e
      hout hflat hc hcam s0 h0
    refine ⟨s1, e1, ?_⟩
    rw [culledAfter_other env P.cull P.camera d cam c _ _
      (fun h => hne (BuildKey_layer _ _ _ h)), h0.2.2.2.2] at k1
    exact k1
  obtain ⟨s1, e1, k1⟩ := forLoop_pivot (cullLayerBody env j P)
    (CullKeep g0 P.camera (BuildKey P.camera L) none)
    (CullKeep g0 P.camera (BuildKey P.camera L)
      (some (if P.cull then
        container.filter (env.intersects (cameraFrustum (cameraOrtho cam) cam))
        else container))) pre post L
    (fun b hb => hstep none b (by rw [hlayers]; simp [hb])
      (fun h => hpre (h ▸ hb)))
    (fun s0 h0 => by
      obtain ⟨s1, e1, k1⟩ := cullLayerBody_flat env j P L g0 ro cam container
        (BuildKey P.camera L) none hout hflat hcont hcam s0 h0
      rw [culledAfter_new env P.cull P.camera L cam container _ h0.2.2.2.2] at k1
      exact ⟨s1, e1, k1⟩)
    (fun b hb => hstep _ b (by rw [hlayers]; simp [hb])
      (fun h => hpst (h ▸ hb))) s hs
  refine ⟨s1, ?_, k1⟩
  unfold CullScenePass
  rw [if_neg (by simp [hlayers]), if_neg (by
    rw [not_or]
    refine ⟨hpost, ?_⟩
    rw [hs.2.2.1, hactive]
    simp), hlayers, e1]
  rfl

/-- The loop over the passes of the cull phase, started in a state `g0` whose cull cache
has no entry for the key of the camera of `P` and the layer `L`. -/
theorem cullLoop_entry {Q : Type} (env : Collaborators Q) (g0 : GraphicsGL2 Q)
    (before after : List GraphicsConfigPass) (P : GraphicsConfigPass) (L : String)
    (pre post : List String) (ro : RenderOutput) (cam : GraphicsCamera Q)
    (container : List Nat)
    (hdraws : ∀ p ∈ before ++ after, p.draw ≠ [])
    (hactive : P.conditions.Satisfied g0.conditions = true)
    (hpost : P.draw.getLast? ≠ some "postprocess")
    (hlayers : P.draw = pre ++ L :: post) (hpre : L ∉ pre) (hpst : L ∉ post)
    (hout : mapFind g0.render_outputs P.output = some ro)
    (hflat : isCubemap env ro = false)
    (hconts : ∀ d ∈ P.draw, (mapFind g0.static_drawlist d).isSome = true)
    (hcont : mapFind g0.static_drawlist L = some container)
    (hcam : P.cull = true → mapFind g0.cameras P.camera = some cam)
    (hothers : ∀ p ∈ before ++ after, p.conditions.Satisfied g0.conditions = true →
      p.draw.getLast? ≠ some "postprocess" →
      BuildKey P.camera L ∉ cullKeys env g0 p ∧ P.camera ∉ cullCameras env g0 p)
    (hnew : mapFind g0.culled_static_drawlist (BuildKey P.camera L) = none) :
    ∃ s, forLoop (cullPassBody env) (indexedFrom 0 (before ++ P :: after)) g0 =
        Flow.next s ∧
      mapFind s.culled_static_drawlist (BuildKey P.camera L) =
        some (if P.cull then
          container.filter (env.intersects (cameraFrustum (cameraOrtho cam) cam))
          else container) := by
  have hbase : CullKeep g0 P.camera (BuildKey P.camera L) none g0 :=
    ⟨rfl, rfl, rfl, rfl, hnew⟩
  have hkeep : ∀ (e : Option (List Nat)) (ip : Nat × GraphicsConfigPass),
      ip.2 ∈ before ++ after → ∀ s,
      CullKeep g0 P.camera (BuildKey P.camera L) e s →
      ∃ s1, cullPassBody env ip s = Flow.next s1 ∧
        CullKeep g0 P.camera (BuildKey P.camera L) e s1 := by
    intro e ip hip s hs
    exact CullScenePass_keep env ip.1 ip.2 g0 P.camera
      (BuildKey P.camera L) e (hdraws ip.2 hip) (fun h1 h2 => hothers ip.2 hip h1 h2) s hs
  obtain ⟨s1, e1, k1⟩ := forLoop_pivot (cullPassBody env)
    (CullKeep g0 P.camera (BuildKey P.camera L) none)
    (CullKeep g0 P.camera (BuildKey P.camera L)
      (some (if P.cull then
        container.filter (env.intersects (cameraFrustum (cameraOrtho cam) cam))
        else container)))
    (indexedFrom 0 before) (indexedFrom (0 + before.length + 1) after) (0 + before.length, P)
    (fun ip hip => hkeep none ip
      (List.mem_append.mpr (Or.inl (indexedFrom_mem before 0 ip.1 ip.2 hip).1)))
    (fun s hs => CullScenePass_fills env _ P L pre post g0 ro cam
      container hactive hpost hlayers hpre hpst hout hflat hconts hcont hcam s hs)
    (fun ip hip => hkeep _ ip
      (List.mem_append.mpr (Or.inr (indexedFrom_mem after _ ip.1 ip.2 hip).1)))
    g0 hbase
  refine ⟨s1, ?_, k1.2.2.2.2⟩
  rw [indexedFrom_append]
  exact e1

theorem cullKeys_setup {Q : Type} (env : Collaborators Q) (g : GraphicsGL2 Q)
    (p : GraphicsConfigPass) :
    cullKeys env (DrawSceneSetup env g) p = cullKeys env g p ∧
      cullCameras env (DrawSceneSetup env g) p = cullCameras env g p := by
  unfold cullKeys cullCameras
  have h : (DrawSceneSetup env g).render_outputs = g.render_outputs := by
    simp [DrawSceneSetup]
  rw [h]
  exact ⟨rfl, rfl⟩

/-- C15, counterexample: in `mixConfig` the second pass is an active culling pass with
the camera "default" and the layer "a", whose frustum only the drawable 1 intersects; the
first pass, which does not cull, has the same camera and layer.  At the end of the cull
phase the entry of the key "default;a" is the whole static contents [1, 2] of the layer,
not the result [1] of the frustum query, and the draw of the second pass receives it. -/
theorem cullPhase_culling_pass_reads_unfiltered :
    mixFrame.config.passes = [exPass "default" ["a"] "framebuffer" "s" false exAlways,
      exPass "default" ["a"] "framebuffer" "s" true exAlways] ∧
    (exPass "default" ["a"] "framebuffer" "s" true exAlways).conditions.Satisfied
      mixFrame.conditions = true ∧
    mapMem mixFrame.render_outputs "framebuffer" = true ∧
    mapFind mixFrame.static_drawlist "a" = some [1, 2] ∧
    mapFind mixFrame.cameras "default" = some exCamera ∧
    [1, 2].filter ((cullEnv mixConfig).intersects
      (cameraFrustum (cameraOrtho exCamera) exCamera)) = [1] ∧
    (cullPhase (cullEnv mixConfig) mixFrame).aborted = false ∧
    mapFind (cullPhase (cullEnv mixConfig) mixFrame).state.culled_static_drawlist
      (BuildKey "default" "a") = some [1, 2] ∧
    Event.renderDrawlists 1 "a" "default" "framebuffer" (false, false) [3] [1, 2] [] ∈
      (DrawScene (cullEnv mixConfig) mixFrame).state.trace := by
  decide

/-! ### C22: what the culling of a pass leaves for its draw -/

theorem CullGrows.rfl_grows {Q : Type} (s : GraphicsGL2 Q) : CullGrows s s :=
  ⟨fun _ h => h, fun _ h => h⟩

theorem CullGrows.trans_grows {Q : Type} {s s1 s2 : GraphicsGL2 Q} (h1 : CullGrows s s1)
    (h2 : CullGrows s1 s2) : CullGrows s s2 :=
  ⟨fun c h => h2.1 c (h1.1 c h), fun k h => h2.2 k (h1.2 k h)⟩

theorem LookupPresent.mono {Q : Type} {pass : GraphicsConfigPass} {cubemap : Bool}
    {d : String} {n : Nat} {s s1 : GraphicsGL2 Q} (h : LookupPresent pass cubemap d n s)
    (hg : CullGrows s s1) : LookupPresent pass cubemap d n s1 :=
  ⟨hg.1 _ h.1, hg.2 _ h.2⟩

/-- A loop whose runs all go on, keep `I`, grow the state in the order `le` and establish
`Post` for their element, establishes `Post` for every element. -/
theorem forLoop_grows {σ α : Type} (body : α → σ → Flow σ) (I : σ → Prop)
    (le : σ → σ → Prop) (hrefl : ∀ s, le s s)
    (htrans : ∀ s s1 s2, le s s1 → le s1 s2 → le s s2)
    (Post : α → σ → Prop) (hmono : ∀ a s s1, le s s1 → Post a s → Post a s1)
    (l : List α)
    (hbody : ∀ a ∈ l, ∀ s, I s → ∃ s1, body a s = Flow.next s1 ∧ I s1 ∧ le s s1 ∧ Post a s1) :
    ∀ s, I s → ∃ s1, forLoop body l s = Flow.next s1 ∧ I s1 ∧ le s s1 ∧
      ∀ a ∈ l, Post a s1 := by
  induction l with
  | nil =>
    intro s hs
    exact ⟨s, rfl, hs, hrefl s, by simp⟩
  | cons a l ih =>
    intro s hs
    obtain ⟨s1, e1, i1, l1, p1⟩ := hbody a (by simp) s hs
    obtain ⟨s2, e2, i2, l2, p2⟩ := ih (fun c hc => hbody c (by simp [hc])) s1 i1
    refine ⟨s2, ?_, i2, htrans _ _ _ l1 l2, ?_⟩
    · simp only [forLoop, e1, Flow.andThen]
      exact e2
    · intro b hb
      rcases List.mem_cons.mp hb with h | h
      · rw [h]
        exact hmono a s1 s2 l2 p1
      · exact p2 b h

theorem cubeCameraName_ne (camera : String) (n : Nat) : cubeCameraName camera n ≠ camera := by
  intro h
  have h1 := congrArg String.length h
  unfold cubeCameraName at h1
  simp only [String.length_append] at h1
  have h2 : "_cubeside".length = 9 := rfl
  omega

/-- The query of one camera and layer when the camera and the static container exist:
it goes on and the key has an entry afterwards. -/
theorem cullQuery_present {Q : Type} (env : Collaborators Q) (id : Nat)
    (pass : GraphicsConfigPass) (d name : String) (container : List Nat)
    (s : GraphicsGL2 Q) (hcam : mapMem s.cameras name = true)
    (hcont : mapFind s.static_drawlist d = some container) :
    ∃ s1, cullQuery env id pass d name s = Flow.next s1 ∧
      s1.render_outputs = s.render_outputs ∧ s1.static_drawlist = s.static_drawlist ∧
      s1.conditions = s.conditions ∧ s1.cameras = s.cameras ∧
      (∀ k, mapMem s.culled_static_drawlist k = true →
        mapMem s1.culled_static_drawlist k = true) ∧
      mapMem s1.culled_static_drawlist (BuildKey name d) = true := by
  unfold cullQuery
  by_cases hc : pass.cull = true
  · rw [if_pos hc]
    obtain ⟨cam, hcam1⟩ := Option.isSome_iff_exists.mp hcam
    rw [hcam1]
    simp only
    by_cases hm : mapMem s.culled_static_drawlist (BuildKey name d) = true
    · rw [if_pos hm]
      exact ⟨s, rfl, rfl, rfl, rfl, rfl, fun _ h => h, hm⟩
    · rw [if_neg hm]
      unfold cullFrustumQuery
      rw [hcont]
      refine ⟨_, rfl, by simp, by simp, by simp, by simp, ?_, ?_⟩
      · intro k hk
        simp [Query, mapMem_mapSet, hk]
      · simp [Query, mapMem_mapSet]
  · rw [if_neg hc]
    unfold cullAlwaysQuery
    rw [hcont]
    refine ⟨_, rfl, by simp, by simp, by simp, by simp, ?_, ?_⟩
    · intro k hk
      simp [Query, mapMem_mapSet, hk]
    · simp [Query, mapMem_mapSet]

/-- One run of the body of the cube-side loop of `CullScenePass` when the base camera and
the static container of the layer exist: it goes on, and the camera of the side and the
key of the side and layer are present afterwards. -/
theorem cullSideBody_present {Q : Type} (env : Collaborators Q) (id : Nat)
    (pass : GraphicsConfigPass) (d : String) (ro : RenderOutput) (n : Nat) (hn : n < 6)
    (g : GraphicsGL2 Q) (bc : GraphicsCamera Q) (container : List Nat)
    (hcam : mapFind g.cameras pass.camera = some bc)
    (hcont : mapFind g.static_drawlist d = some container)
    (s : GraphicsGL2 Q) (hs : CullBase g pass.camera s) :
    ∃ s1, cullSideBody env id pass d ro (isCubemap env ro) n s = Flow.next s1 ∧
      CullBase g pass.camera s1 ∧ CullGrows s s1 ∧
      LookupPresent pass (isCubemap env ro) d n s1 := by
  obtain ⟨i1, i2, i3, i4⟩ := hs
  unfold cullSideBody
  by_cases hc : isCubemap env ro = true
  · -- the sub-camera is stored, then the query runs
    have hfbo : ro.IsFBO = true := by
      unfold isCubemap at hc
      simp only [Bool.and_eq_true] at hc
      exact hc.1
    obtain ⟨orient, horient⟩ := Option.ne_none_iff_exists'.mp
      (GetCubeSideOrientation_side env.Rotate n hn bc.orient s.error_output)
    have hsub : cullSubCamera env id pass ro (isCubemap env ro) n s =
        Flow.next ((s.setCameras (mapSet s.cameras (cubeCameraName pass.camera n)
          (bc.cubeSide orient (env.fboGetWidth ro.fbo) (env.fboGetHeight ro.fbo)))).setErrorOutput
          (GetCubeSideOrientation env.Rotate n bc.orient s.error_output).1) := by
      unfold cullSubCamera
      rw [if_pos hc, i4, hcam]
      simp only
      rw [horient]
      simp only [hfbo, Bool.not_true, Bool.false_eq_true, if_false]
    rw [hsub]
    simp only [Flow.andThen]
    obtain ⟨s1, e1, r1, r2, r3, r4, r5, r6⟩ := cullQuery_present env id pass d
      (sideCameraName pass (isCubemap env ro) n) container
      ((s.setCameras (mapSet s.cameras (cubeCameraName pass.camera n)
        (bc.cubeSide orient (env.fboGetWidth ro.fbo) (env.fboGetHeight ro.fbo)))).setErrorOutput
        (GetCubeSideOrientation env.Rotate n bc.orient s.error_output).1)
      (by simp [sideCameraName, hc, mapMem_mapSet])
      (by simpa [i2] using hcont)
    refine ⟨s1, e1, ⟨?_, ?_, ?_, ?_⟩, ⟨?_, ?_⟩, ⟨?_, r6⟩⟩
    · rw [r1]
      simpa using i1
    · rw [r2]
      simpa using i2
    · rw [r3]
      simpa using i3
    · rw [r4]
      simp only [GraphicsGL2.setErrorOutput_cameras, GraphicsGL2.setCameras_cameras]
      rw [mapFind_mapSet_other _ _ _ _ (cubeCameraName_ne pass.camera n)]
      exact i4
    · intro c hcm
      rw [r4]
      simp [mapMem_mapSet, hcm]
    · intro k hk
      exact r5 k (by simpa using hk)
    · rw [r4]
      simp [sideCameraName, hc, mapMem_mapSet]
  · have hsub : cullSubCamera env id pass ro (isCubemap env ro) n s = Flow.next s := by
      unfold cullSubCamera
      rw [if_neg hc]
    rw [hsub]
    simp only [Flow.andThen]
    have hbase : mapMem s.cameras pass.camera = true := by
      simp [mapMem, i4, hcam]
    obtain ⟨s1, e1, r1, r2, r3, r4, r5, r6⟩ := cullQuery_present env id pass d
      (sideCameraName pass (isCubemap env ro) n) container s
      (by simpa [sideCameraName, hc] using hbase) (by rw [i2]; exact hcont)
    refine ⟨s1, e1, ⟨r1.trans i1, r2.trans i2, r3.trans i3, by rw [r4]; exact i4⟩,
      ⟨fun c h => by rw [r4]; exact h, r5⟩, ⟨?_, r6⟩⟩
    rw [r4]
    simpa [sideCameraName, hc] using hbase

/-- The culling of one layer when the render output, the base camera and the static
container of the layer exist: it goes on, and every lookup of the draw of the layer is
present afterwards. -/
theorem cullLayerBody_present {Q : Type} (env : Collaborators Q) (id : Nat)
    (pass : GraphicsConfigPass) (d : String) (ro : RenderOutput)
    (g : GraphicsGL2 Q) (bc : GraphicsCamera Q)
    (hout : mapFind g.render_outputs pass.output = some ro)
    (hcam : mapFind g.cameras pass.camera = some bc)
    (hcont : (mapFind g.static_drawlist d).isSome = true)
    (s : GraphicsGL2 Q) (hs : CullBase g pass.camera s) :
    ∃ s1, cullLayerBody env id pass d s = Flow.next s1 ∧
      CullBase g pass.camera s1 ∧ CullGrows s s1 ∧
      ∀ n ∈ cubeSides (isCubemap env ro), LookupPresent pass (isCubemap env ro) d n s1 := by
  obtain ⟨container, hcont⟩ := Option.isSome_iff_exists.mp hcont
  unfold cullLayerBody
  rw [hs.1, hout]
  exact forLoop_grows (cullSideBody env id pass d ro (isCubemap env ro))
    (CullBase g pass.camera) CullGrows CullGrows.rfl_grows
    (fun _ _ _ h1 h2 => h1.trans_grows h2)
    (LookupPresent pass (isCubemap env ro) d) (fun _ _ _ hg hp => hp.mono hg)
    (cubeSides (isCubemap env ro))
    (fun n hn s0 h0 => cullSideBody_present env id pass d ro n (cubeSides_lt _ n hn) g bc
      container hcam hcont s0 h0) s hs

/-- The culling of an active pass that is not a post-process, when its render output, its
base camera and the static containers of its layers exist: `CullScenePass` returns, and
every camera and cull-cache entry that the draw of the pass looks up is present
afterwards. -/
theorem CullScenePass_present {Q : Type} (env : Collaborators Q) (id : Nat)
    (pass : GraphicsConfigPass) (ro : RenderOutput) (g : GraphicsGL2 Q)
    (bc : GraphicsCamera Q) (hdraw : pass.draw ≠ [])
    (hactive : pass.conditions.Satisfied g.conditions = true)
    (hpost : pass.draw.getLast? ≠ some "postprocess")
    (hout : mapFind g.render_outputs pass.output = some ro)
    (hcam : mapFind g.cameras pass.camera = some bc)
    (hconts : ∀ d ∈ pass.draw, (mapFind g.static_drawlist d).isSome = true) :
    ∃ s, CullScenePass env id pass g = Flow.next s ∧ CullBase g pass.camera s ∧
      CullGrows g s ∧
      ∀ d ∈ pass.draw, ∀ n ∈ cubeSides (isCubemap env ro),
        LookupPresent pass (isCubemap env ro) d n s := by
  obtain ⟨s, e1, i1, l1, p1⟩ := forLoop_grows (cullLayerBody env id pass)
    (CullBase g pass.camera) CullGrows CullGrows.rfl_grows
    (fun _ _ _ h1 h2 => h1.trans_grows h2)
    (fun d s => ∀ n ∈ cubeSides (isCubemap env ro), LookupPresent pass (isCubemap env ro) d n s)
    (fun _ _ _ hg hp n hn => (hp n hn).mono hg) pass.draw
    (fun d hd s0 h0 => cullLayerBody_present env id pass d ro g bc hout hcam (hconts d hd)
      s0 h0) g ⟨rfl, rfl, rfl, rfl⟩
  refine ⟨s, ?_, i1, l1, p1⟩
  unfold CullScenePass
  rw [if_neg (by simpa using hdraw), if_neg (by
    rw [not_or]
    exact ⟨hpost, by simp [hactive]⟩), e1]
  rfl

/-! ### C22: the error lines of the draw of a pass -/

theorem reportsIn_append (a b : List Event) :
    reportsIn (a ++ b) = reportsIn a ++ reportsIn b := by
  simp [reportsIn, List.filterMap_append]

/-- A call of `ReportOnce` records at most its own message. -/
theorem Report_reports {Q : Type} (g : GraphicsGL2 Q) (id : Nat) (m : String) :
    ∃ E, (g.Report id m).trace = g.trace ++ E ∧ ∀ x ∈ reportsIn E, x = m := by
  simp only [GraphicsGL2.Report_trace]
  split
  · exact ⟨[], by simp, by simp [reportsIn]⟩
  · exact ⟨[Event.report id m], rfl, by simp [reportsIn]⟩

/-- A call of `RenderDrawlists` records no error line and leaves the cameras, the draw
lists, the cull cache and the render outputs as they are. -/
theorem RenderDrawlists_quiet {Q : Type} (g : GraphicsGL2 Q) (id : Nat)
    (layer camera output : String) (dl sl : List Nat) (tex : List (Option TextureRef)) :
    ∃ E, (RenderDrawlists g id layer camera output dl sl tex).trace = g.trace ++ E ∧
      reportsIn E = [] ∧
      (RenderDrawlists g id layer camera output dl sl tex).cameras = g.cameras ∧
      (RenderDrawlists g id layer camera output dl sl tex).dynamic_drawlist =
        g.dynamic_drawlist ∧
      (RenderDrawlists g id layer camera output dl sl tex).culled_static_drawlist =
        g.culled_static_drawlist ∧
      (RenderDrawlists g id layer camera output dl sl tex).render_outputs =
        g.render_outputs := by
  unfold RenderDrawlists
  split
  · exact ⟨[Event.renderDrawlists id layer camera output g.renderscene.clear dl sl tex],
      by simp, rfl, by simp, by simp, by simp, by simp⟩
  · unfold Render
    exact ⟨[Event.renderDrawlists id layer camera output g.renderscene.clear dl sl tex,
      Event.render id false output], by simp, rfl, by simp, by simp, by simp, by simp⟩

/-- A loop whose runs keep `I` and record only events that `R` allows records only such
events, however it ends. -/
theorem forLoop_state_trace {Q α : Type} (body : α → GraphicsGL2 Q → Flow (GraphicsGL2 Q))
    (I : GraphicsGL2 Q → Prop) (R : List Event → Prop) (hnil : R [])
    (happ : ∀ a b, R a → R b → R (a ++ b)) (l : List α)
    (hbody : ∀ a ∈ l, ∀ s, I s → I (body a s).state ∧
      ∃ E, (body a s).state.trace = s.trace ++ E ∧ R E) :
    ∀ s, I s → I (forLoop body l s).state ∧
      ∃ E, (forLoop body l s).state.trace = s.trace ++ E ∧ R E := by
  induction l with
  | nil =>
    intro s hs
    exact ⟨hs, [], by simp [forLoop, Flow.state], hnil⟩
  | cons a l ih =>
    intro s hs
    obtain ⟨i1, E1, t1, r1⟩ := hbody a (by simp) s hs
    simp only [forLoop]
    cases hb : body a s with
    | next s1 =>
      rw [hb] at i1 t1
      simp only [Flow.state] at i1 t1
      obtain ⟨i2, E2, t2, r2⟩ := ih (fun c hc => hbody c (by simp [hc])) s1 i1
      simp only [Flow.andThen]
      exact ⟨i2, E1 ++ E2, by rw [t2, t1, List.append_assoc], happ _ _ r1 r2⟩
    | ret s1 =>
      rw [hb] at i1 t1
      exact ⟨i1, E1, t1, r1⟩
    | abort s1 =>
      rw [hb] at i1 t1
      exact ⟨i1, E1, t1, r1⟩

/-- One run of the body of the cube-side loop of `DrawScenePassLayer` when the camera of
the side and the cull-cache entry of the side and layer exist: the only error line it can
record is the one of a missing dynamic container. -/
theorem drawSideBody_reports {Q : Type} (env : Collaborators Q) (id : Nat)
    (pass : GraphicsConfigPass) (g : GraphicsGL2 Q) (ro : RenderOutput)
    (layer : String) (tex : List (Option TextureRef)) (k : Nat) (hk : k < 6)
    (hfbo : isCubemap env ro = true → ro.target = RenderTarget.RENDER_TO_FBO)
    (hp : LookupPresent pass (isCubemap env ro) layer k g)
    (s : GraphicsGL2 Q) (hs : DrawInv g pass ro s) :
    DrawInv g pass ro (drawSideBody id pass layer tex (isCubemap env ro) k s).state ∧
      ∃ E, (drawSideBody id pass layer tex (isCubemap env ro) k s).state.trace =
          s.trace ++ E ∧
        ∀ m ∈ reportsIn E, m = "Drawable container " ++ layer ++ " couldn't be found" := by
  obtain ⟨cam, hcam⟩ := Option.isSome_iff_exists.mp hp.1
  obtain ⟨sta, hcull⟩ := Option.isSome_iff_exists.mp hp.2
  -- the part after the side is attached
  have hrest : ∀ s0 : GraphicsGL2 Q, DrawInv g pass ro s0 →
      DrawInv g pass ro (drawSideCamera id pass layer tex
          (sideCameraName pass (isCubemap env ro) k) s0).state ∧
        ∃ E, (drawSideCamera id pass layer tex
            (sideCameraName pass (isCubemap env ro) k) s0).state.trace = s0.trace ++ E ∧
          ∀ m ∈ reportsIn E, m = "Drawable container " ++ layer ++ " couldn't be found" := by
    intro s0 h0
    obtain ⟨i1, i2, i3, i4⟩ := h0
    unfold drawSideCamera
    rw [i1, hcam]
    simp only
    unfold drawSideRender
    cases hdyn : mapFind s0.dynamic_drawlist layer with
    | none =>
      simp only
      obtain ⟨E, e1, e2⟩ := Report_reports (s0.setRenderscene (s0.renderscene.SetCamera cam))
        id ("Drawable container " ++ layer ++ " couldn't be found")
      refine ⟨⟨by simpa [Flow.state] using i1, by simpa [Flow.state] using i2,
        by simpa [Flow.state] using i3, by simpa [Flow.state] using i4⟩, E, ?_, e2⟩
      simpa [Flow.state] using e1
    | some dyn =>
      simp only
      rw [i3, hcull]
      simp only
      obtain ⟨E, e1, e2, e3, e4, e5, e6⟩ := RenderDrawlists_quiet
        (s0.setRenderscene ((s0.renderscene.SetCamera cam).SetCarPaintHack
          (!s0.using_shaders && decide (layer = "car_noblend")))) id layer
        (sideCameraName pass (isCubemap env ro) k) pass.output dyn sta tex
      refine ⟨⟨?_, ?_, ?_, ?_⟩, E, ?_, ?_⟩
      · simpa [Flow.state, GraphicsGL2.disableOrtho, e3] using i1
      · simpa [Flow.state, GraphicsGL2.disableOrtho, e4] using i2
      · simpa [Flow.state, GraphicsGL2.disableOrtho, e5] using i3
      · simpa [Flow.state, GraphicsGL2.disableOrtho, e6] using i4
      · simpa [Flow.state, GraphicsGL2.disableOrtho] using e1
      · rw [e2]
        simp
  unfold drawSideBody attachSide
  by_cases hc : isCubemap env ro = true
  · rw [if_pos hc, cubeSideOfIndex_side k hk]
    simp only [Flow.andThen]
    obtain ⟨i1, i2, i3, r, i4, i5, i6, i7⟩ := hs
    obtain ⟨j1, E, j2, j3⟩ := hrest
      ((s.setRenderOutputs (mapSet s.render_outputs pass.output
        (cubeSideOutput (mapGetD s.render_outputs pass.output RenderOutput.new)
          (sideOfIndex k)))).log (Event.attachCubeSide id pass.output (sideOfIndex k)))
      ⟨by simpa using i1, by simpa using i2, by simpa using i3,
        cubeSideOutput (mapGetD s.render_outputs pass.output RenderOutput.new) (sideOfIndex k),
        by simpa using mapFind_mapSet_same _ _ _,
        by simp [cubeSideOutput, hfbo hc],
        by simp [cubeSideOutput, mapGetD, i4, i6],
        by simp [cubeSideOutput, mapGetD, i4, i7]⟩
    refine ⟨j1, Event.attachCubeSide id pass.output (sideOfIndex k) :: E, ?_, ?_⟩
    · rw [j2]
      simp
    · intro m hm
      exact j3 m (by simpa [reportsIn] using hm)
  · rw [if_neg hc]
    simp only [Flow.andThen]
    exact hrest s hs

/-- The error lines the draw of a pass may record when every camera and cull-cache entry
it looks up exists: the one of a missing shader and those of missing dynamic
containers. -/
theorem drawPassLayers_reports {Q : Type} (env : Collaborators Q) (id : Nat)
    (pass : GraphicsConfigPass) (g : GraphicsGL2 Q) (ro : RenderOutput)
    (hside : ∀ side, env.fboIsCubemap
        { inited := ro.fbo.inited, textures := ro.fbo.textures, cube_side := side } =
      env.fboIsCubemap ro.fbo)
    (hp : ∀ d ∈ pass.draw, ∀ n ∈ cubeSides (isCubemap env ro),
      LookupPresent pass (isCubemap env ro) d n g)
    (s : GraphicsGL2 Q) (hs : DrawInv g pass ro s) :
    ∃ E, (drawPassLayers env id pass s).state.trace = s.trace ++ E ∧
      ∀ m ∈ reportsIn E, ∃ d ∈ pass.draw,
        m = "Drawable container " ++ d ++ " couldn't be found" := by
  have hfbo : isCubemap env ro = true → ro.target = RenderTarget.RENDER_TO_FBO := by
    intro h
    unfold isCubemap RenderOutput.IsFBO at h
    simp only [Bool.and_eq_true, decide_eq_true_eq] at h
    exact h.1
  have hlayer : ∀ d ∈ pass.draw, ∀ (tex : List (Option TextureRef)) (s0 : GraphicsGL2 Q),
      DrawInv g pass ro s0 →
      DrawInv g pass ro (drawLayerBody env id pass tex d s0).state ∧
        ∃ E, (drawLayerBody env id pass tex d s0).state.trace = s0.trace ++ E ∧
          ∀ m ∈ reportsIn E, ∃ d ∈ pass.draw,
            m = "Drawable container " ++ d ++ " couldn't be found" := by
    intro d hd tex s0 h0
    have hcm : isCubemap env (mapGetD s0.render_outputs pass.output RenderOutput.new) =
        isCubemap env ro := by
      obtain ⟨-, -, -, r, i4, i5, i6, i7⟩ := h0
      have : mapGetD s0.render_outputs pass.output RenderOutput.new = r := by
        simp [mapGetD, i4]
      rw [this]
      exact isCubemap_of_fields env ro r hside i5 i6 i7
    obtain ⟨j1, E, j2, j3⟩ := forLoop_state_trace
      (drawSideBody id pass d tex (isCubemap env ro)) (DrawInv g pass ro)
      (fun E => ∀ m ∈ reportsIn E, m = "Drawable container " ++ d ++ " couldn't be found")
      (by simp [reportsIn])
      (fun a b ha hb m hm => by
        rw [reportsIn_append] at hm
        rcases List.mem_append.mp hm with h | h
        · exact ha m h
        · exact hb m h)
      (cubeSides (isCubemap env ro))
      (fun n hn s1 h1 => drawSideBody_reports env id pass g ro d tex n (cubeSides_lt _ n hn)
        hfbo (hp d hd n hn) s1 h1) s0 h0
    unfold drawLayerBody DrawScenePassLayer
    rw [hcm]
    cases hb : forLoop (drawSideBody id pass d tex (isCubemap env ro))
        (cubeSides (isCubemap env ro)) s0 with
    | next s1 =>
      rw [hb] at j1 j2
      simp only [Flow.state] at j1 j2
      obtain ⟨i1, i2, i3, i4⟩ := j1
      exact ⟨⟨by simpa [Flow.call, Flow.andThen, Flow.state] using i1,
        by simpa [Flow.call, Flow.andThen, Flow.state] using i2,
        by simpa [Flow.call, Flow.andThen, Flow.state] using i3,
        by simpa [Flow.call, Flow.andThen, Flow.state] using i4⟩, E,
        by simpa [Flow.call, Flow.andThen, Flow.state] using j2,
        fun m hm => ⟨d, hd, j3 m hm⟩⟩
    | ret s1 =>
      rw [hb] at j1 j2
      simp only [Flow.state] at j1 j2
      obtain ⟨i1, i2, i3, i4⟩ := j1
      exact ⟨⟨by simpa [Flow.call, Flow.andThen, Flow.state] using i1,
        by simpa [Flow.call, Flow.andThen, Flow.state] using i2,
        by simpa [Flow.call, Flow.andThen, Flow.state] using i3,
        by simpa [Flow.call, Flow.andThen, Flow.state] using i4⟩, E,
        by simpa [Flow.call, Flow.andThen, Flow.state] using j2,
        fun m hm => ⟨d, hd, j3 m hm⟩⟩
    | abort s1 =>
      rw [hb] at j1 j2
      exact ⟨j1, E, j2, fun m hm => ⟨d, hd, j3 m hm⟩⟩
  unfold drawPassLayers
  have hs1 := hs
  obtain ⟨-, -, -, r, i4, -⟩ := hs1
  have hm : mapMem s.render_outputs pass.output = true := by
    simp [mapMem, i4]
  rw [if_neg (by simp [hm])]
  exact (forLoop_state_trace
    (drawLayerBody env id pass (GetScenePassInputTextures s.texture_inputs pass.inputs.tu []))
    (DrawInv g pass ro)
    (fun E => ∀ m ∈ reportsIn E, ∃ d ∈ pass.draw,
      m = "Drawable container " ++ d ++ " couldn't be found")
    (by simp [reportsIn])
    (fun a b ha hb m hm => by
      rw [reportsIn_append] at hm
      rcases List.mem_append.mp hm with h | h
      · exact ha m h
      · exact hb m h)
    pass.draw (fun d hd s0 h0 => hlayer d hd _ s0 h0) s hs).2

/-- Two strings that begin with different characters differ. -/
theorem ne_of_first_char (m1 m2 : String) (c1 c2 : Char) (l1 l2 : List Char)
    (h1 : m1.data = c1 :: l1) (h2 : m2.data = c2 :: l2) (hne : c1 ≠ c2) : m1 ≠ m2 := by
  intro h
  rw [h, h2] at h1
  exact hne (List.cons.inj h1).1.symm

/-- The error lines of `DrawScenePass` for an active pass that is not a post-process,
when every camera and cull-cache entry its draw looks up exists. -/
theorem DrawScenePass_reports {Q : Type} (env : Collaborators Q) (id : Nat)
    (pass : GraphicsConfigPass) (s : GraphicsGL2 Q) (ro : RenderOutput)
    (hpost : pass.draw.getLast? ≠ some "postprocess")
    (hout : mapFind s.render_outputs pass.output = some ro)
    (hside : ∀ side, env.fboIsCubemap
        { inited := ro.fbo.inited, textures := ro.fbo.textures, cube_side := side } =
      env.fboIsCubemap ro.fbo)
    (hp : ∀ d ∈ pass.draw, ∀ n ∈ cubeSides (isCubemap env ro),
      LookupPresent pass (isCubemap env ro) d n s) :
    ∃ E, (DrawScenePass env id pass s).state.trace = s.trace ++ E ∧
      ∀ m ∈ reportsIn E, m = "Shader " ++ pass.shader ++ " couldn't be found" ∨
        ∃ d ∈ pass.draw, m = "Drawable container " ++ d ++ " couldn't be found" := by
  unfold DrawScenePass
  split
  · exact ⟨[], by simp [Flow.state], by simp [reportsIn]⟩
  split
  · exact ⟨[], by simp [Flow.state], by simp [reportsIn]⟩
  rw [Flow.call_state]
  have hlayers : ∀ s0 : GraphicsGL2 Q, s0.cameras = s.cameras →
      s0.dynamic_drawlist = s.dynamic_drawlist →
      s0.culled_static_drawlist = s.culled_static_drawlist →
      s0.render_outputs = s.render_outputs → s0.trace = s.trace →
      ∃ E, (drawPassLayers env id pass s0).state.trace = s.trace ++ E ∧
        ∀ m ∈ reportsIn E, m = "Shader " ++ pass.shader ++ " couldn't be found" ∨
          ∃ d ∈ pass.draw, m = "Drawable container " ++ d ++ " couldn't be found" := by
    intro s0 c1 c2 c3 c4 c5
    obtain ⟨E, e1, e2⟩ := drawPassLayers_reports env id pass s ro hside hp s0
      ⟨c1, c2, c3, ro, by rw [c4]; exact hout, rfl, rfl, rfl⟩
    exact ⟨E, by rw [e1, c5], fun m hm => Or.inr (e2 m hm)⟩
  unfold drawPassSetup
  split
  · obtain ⟨E, e1, e2⟩ := Report_reports s id ("Shader " ++ pass.shader ++ " couldn't be found")
    exact ⟨E, by simpa [Flow.andThen, Flow.state] using e1, fun m hm => Or.inl (e2 m hm)⟩
  · split
    · exact ⟨[], by simp [Flow.andThen, Flow.state], by simp [reportsIn]⟩
    · split
      · exact ⟨[], by simp [Flow.andThen, Flow.state], by simp [reportsIn]⟩
      · simp only [Flow.andThen]
        exact hlayers _ (by simp) (by simp) (by simp) (by simp) (by simp)

/-- C22: for an active pass that is not a post-process, whose render output is
registered, whose base camera exists and whose layers all have a static container,
`CullScenePass` returns, and in the state it leaves every camera name and every
cull-cache key that `DrawScenePassLayer` looks up for the pass (the base camera, or the
sub-camera of each of the six sides when the output is a cube map, paired with each
layer) is present; the draw of the pass run in that state then records no "Camera ...
couldn't be found" and no "Couldn't find culled static drawlist ..." error line (the
cube-map property of the framebuffer object not depending on the attached side). -/
theorem CullScenePass_provides_draw_lookups {Q : Type} (env : Collaborators Q) (id : Nat)
    (pass : GraphicsConfigPass) (ro : RenderOutput) (g : GraphicsGL2 Q)
    (bc : GraphicsCamera Q) (hdraw : pass.draw ≠ [])
    (hactive : pass.conditions.Satisfied g.conditions = true)
    (hpost : pass.draw.getLast? ≠ some "postprocess")
    (hout : mapFind g.render_outputs pass.output = some ro)
    (hcam : mapFind g.cameras pass.camera = some bc)
    (hconts : ∀ d ∈ pass.draw, (mapFind g.static_drawlist d).isSome = true) :
    ∃ s, CullScenePass env id pass g = Flow.next s ∧
      mapFind s.render_outputs pass.output = some ro ∧
      (∀ d ∈ pass.draw, ∀ n ∈ cubeSides (isCubemap env ro),
        mapMem s.cameras (sideCameraName pass (isCubemap env ro) n) = true ∧
        mapMem s.culled_static_drawlist
          (BuildKey (sideCameraName pass (isCubemap env ro) n) d) = true) ∧
      ((∀ side, env.fboIsCubemap
          { inited := ro.fbo.inited, textures := ro.fbo.textures, cube_side := side } =
        env.fboIsCubemap ro.fbo) →
        ∃ E, (DrawScenePass env id pass s).state.trace = s.trace ++ E ∧
          ∀ m ∈ reportsIn E, ∀ x,
            m ≠ "Camera " ++ x ∧
            m ≠ "Couldn't find culled static drawlist for camera/draw combination: " ++ x) := by
  obtain ⟨s, e1, b1, -, p1⟩ := CullScenePass_present env id pass ro g bc hdraw hactive hpost
    hout hcam hconts
  have hout1 : mapFind s.render_outputs pass.output = some ro := by
    rw [b1.1]
    exact hout
  refine ⟨s, e1, hout1, p1, ?_⟩
  intro hside
  obtain ⟨E, t1, r1⟩ := DrawScenePass_reports env id pass s ro hpost hout1 hside p1
  refine ⟨E, t1, ?_⟩
  intro m hm x
  rcases r1 m hm with h | ⟨d, -, h⟩
  · rw [h]
    exact ⟨ne_of_first_char _ _ 'S' 'C' _ _
        (by simp only [String.data_append]; rfl) (by simp only [String.data_append]; rfl)
        (by decide),
      ne_of_first_char _ _ 'S' 'C' _ _
        (by simp only [String.data_append]; rfl) (by simp only [String.data_append]; rfl)
        (by decide)⟩
  · rw [h]
    exact ⟨ne_of_first_char _ _ 'D' 'C' _ _
        (by simp only [String.data_append]; rfl) (by simp only [String.data_append]; rfl)
        (by decide),
      ne_of_first_char _ _ 'D' 'C' _ _
        (by simp only [String.data_append]; rfl) (by simp only [String.data_append]; rfl)
        (by decide)⟩

/-- C22, at a concrete input: the pass `cubePass`, which draws the layers "a" and "b"
into a cube map, in the frame `cubeFrame`. -/
theorem CullScenePass_provides_draw_lookups_witness :
    isCubemap (exEnv cubeConfig)
      (mapGetD cubeFrame.render_outputs cubePass.output RenderOutput.new) = true ∧
    ∃ s, CullScenePass (exEnv cubeConfig) 0 cubePass cubeFrame = Flow.next s ∧
      mapFind s.render_outputs cubePass.output =
        some (mapGetD cubeFrame.render_outputs cubePass.output RenderOutput.new) ∧
      (∀ d ∈ cubePass.draw, ∀ n ∈ cubeSides (isCubemap (exEnv cubeConfig)
          (mapGetD cubeFrame.render_outputs cubePass.output RenderOutput.new)),
        mapMem s.cameras (sideCameraName cubePass (isCubemap (exEnv cubeConfig)
          (mapGetD cubeFrame.render_outputs cubePass.output RenderOutput.new)) n) = true ∧
        mapMem s.culled_static_drawlist
          (BuildKey (sideCameraName cubePass (isCubemap (exEnv cubeConfig)
            (mapGetD cubeFrame.render_outputs cubePass.output RenderOutput.new)) n) d) =
            true) ∧
      ∃ E, (DrawScenePass (exEnv cubeConfig) 0 cubePass s).state.trace = s.trace ++ E ∧
        ∀ m ∈ reportsIn E, ∀ x,
          m ≠ "Camera " ++ x ∧
          m ≠ "Couldn't find culled static drawlist for camera/draw combination: " ++ x := by
  refine ⟨by decide, ?_⟩
  obtain ⟨s, h1, h2, h3, h4⟩ := CullScenePass_provides_draw_lookups (exEnv cubeConfig) 0
    cubePass (mapGetD cubeFrame.render_outputs cubePass.output RenderOutput.new) cubeFrame
    exCamera (by decide) (by decide) (by decide) (by decide) (by decide) (by decide)
  exact ⟨s, h1, h2, h3, h4 (fun _ => rfl)⟩

/-! ### C21: `Tokenize` against its specification -/

/-- The search of `findFrom` in terms of the longest run that avoids `p`. -/
theorem findFrom_takeWhile (p : Char → Bool) (l : List Char) (i : Nat) :
    findFrom p l i =
      if (l.takeWhile (fun c => !p c)).length < l.length then
        some (i + (l.takeWhile (fun c => !p c)).length)
      else none := by
  induction l generalizing i with
  | nil => simp [findFrom]
  | cons c l ih =>
    simp only [findFrom]
    by_cases hc : p c = true
    · simp [hc, List.takeWhile]
    · have hc1 : p c = false := by simpa using hc
      rw [if_neg hc, ih (i + 1)]
      simp only [List.takeWhile, hc1, Bool.not_false, List.length_cons, add_lt_add_iff_right]
      split_ifs
      · congr 1
        omega
      · rfl

theorem splitAtDelims_ne_nil (isDelim : Char → Bool) (l : List Char) :
    splitAtDelims isDelim l ≠ [] := by
  induction l with
  | nil => simp [splitAtDelims]
  | cons c l ih =>
    simp only [splitAtDelims]
    split_ifs
    · simp
    · split
      · simp
      · simp

/-- The split of a run without delimiters followed by a rest: the run is joined to the
first piece of the rest. -/
theorem splitAtDelims_run (isDelim : Char → Bool) (w rest : List Char)
    (hw : ∀ c ∈ w, isDelim c = false) :
    splitAtDelims isDelim (w ++ rest) =
      (w ++ (splitAtDelims isDelim rest).headD []) :: (splitAtDelims isDelim rest).tail := by
  induction w with
  | nil =>
    cases h : splitAtDelims isDelim rest with
    | nil => exact absurd h (splitAtDelims_ne_nil isDelim rest)
    | cons p ps => simpa using h
  | cons c w ih =>
    have hc : isDelim c = false := hw c (by simp)
    have ih1 := ih (fun d hd => hw d (by simp [hd]))
    show splitAtDelims isDelim (c :: (w ++ rest)) = _
    simp only [splitAtDelims, hc, Bool.false_eq_true, if_false]
    rw [ih1]
    rfl

theorem nonEmptyPieces_nil (isDelim : Char → Bool) : nonEmptyPieces isDelim [] = [] := by
  simp [nonEmptyPieces, splitAtDelims]

/-- A run without delimiters is its own single piece. -/
theorem nonEmptyPieces_run (isDelim : Char → Bool) (w : List Char)
    (hw : ∀ c ∈ w, isDelim c = false) :
    nonEmptyPieces isDelim w = if w.isEmpty then [] else [w] := by
  have h := splitAtDelims_run isDelim w [] hw
  rw [List.append_nil] at h
  unfold nonEmptyPieces
  rw [h]
  cases w with
  | nil => simp [splitAtDelims]
  | cons c w => simp [splitAtDelims]

/-- A run without delimiters, a delimiter and a rest: the run, when it is not empty, and
the pieces of the rest. -/
theorem nonEmptyPieces_run_delim (isDelim : Char → Bool) (w r : List Char) (c : Char)
    (hw : ∀ c ∈ w, isDelim c = false) (hc : isDelim c = true) :
    nonEmptyPieces isDelim (w ++ c :: r) =
      (if w.isEmpty then [] else [w]) ++ nonEmptyPieces isDelim r := by
  have h := splitAtDelims_run isDelim w (c :: r) hw
  unfold nonEmptyPieces
  rw [h]
  simp only [splitAtDelims, hc, if_true, List.headD_cons, List.tail_cons, List.append_nil]
  cases w with
  | nil => simp
  | cons a w => simp

/-- Leading delimiters contribute no piece. -/
theorem nonEmptyPieces_delims (isDelim : Char → Bool) (ds r : List Char)
    (hd : ∀ c ∈ ds, isDelim c = true) :
    nonEmptyPieces isDelim (ds ++ r) = nonEmptyPieces isDelim r := by
  induction ds with
  | nil => rfl
  | cons c ds ih =>
    have hc : isDelim c = true := hd c (by simp)
    have ih1 := ih (fun d h => hd d (by simp [h]))
    unfold nonEmptyPieces at ih1 ⊢
    show List.filter _ (splitAtDelims isDelim (c :: (ds ++ r))) = _
    simp only [splitAtDelims, hc, if_true]
    rw [← ih1]
    simp

theorem takeWhile_all (p : Char → Bool) (l : List Char) :
    ∀ c ∈ l.takeWhile p, p c = true := by
  induction l with
  | nil => simp
  | cons a l ih =>
    intro c hc
    by_cases ha : p a = true
    · simp only [List.takeWhile, ha, List.mem_cons] at hc
      rcases hc with h | h
      · rw [h]
        exact ha
      · exact ih c h
    · have ha1 : p a = false := by simpa using ha
      simp [List.takeWhile, ha1] at hc

theorem dropWhile_head (p : Char → Bool) (l r : List Char) (c : Char)
    (h : l.dropWhile p = c :: r) : p c = false := by
  induction l with
  | nil => simp at h
  | cons a l ih =>
    by_cases ha : p a = true
    · simp only [List.dropWhile, ha] at h
      exact ih h
    · have ha1 : p a = false := by simpa using ha
      simp only [List.dropWhile, ha1] at h
      rw [← (List.cons.inj h).1]
      exact ha1

theorem find_first_of_eq (input tokens : List Char) (pos : Nat) :
    find_first_of input tokens pos =
      if ((input.drop pos).takeWhile (fun c => !tokens.contains c)).length <
          (input.drop pos).length then
        pos + ((input.drop pos).takeWhile (fun c => !tokens.contains c)).length
      else npos := by
  unfold find_first_of
  rw [findFrom_takeWhile]
  split_ifs <;> rfl

theorem find_first_not_of_eq (input tokens : List Char) (pos : Nat) :
    find_first_not_of input tokens pos =
      if ((input.drop pos).takeWhile (fun c => tokens.contains c)).length <
          (input.drop pos).length then
        pos + ((input.drop pos).takeWhile (fun c => tokens.contains c)).length
      else npos := by
  unfold find_first_not_of
  rw [findFrom_takeWhile]
  have hf : (fun c => !(fun c => !tokens.contains c) c) = fun c => tokens.contains c := by
    funext c
    simp
  rw [hf]
  split_ifs <;> rfl

theorem take_takeWhile_length (p : Char → Bool) (l : List Char) :
    l.take (l.takeWhile p).length = l.takeWhile p := by
  induction l with
  | nil => rfl
  | cons a l ih =>
    by_cases ha : p a = true
    · simp [List.takeWhile, ha, ih]
    · have ha1 : p a = false := by simpa using ha
      simp [List.takeWhile, ha1]

theorem drop_takeWhile_length (p : Char → Bool) (l : List Char) :
    l.drop (l.takeWhile p).length = l.dropWhile p := by
  induction l with
  | nil => rfl
  | cons a l ih =>
    by_cases ha : p a = true
    · simp [List.takeWhile, List.dropWhile, ha, ih]
    · have ha1 : p a = false := by simpa using ha
      simp [List.takeWhile, List.dropWhile, ha1]

/-- The pieces of a list, by its longest leading run without delimiters and what follows
the delimiters after it. -/
theorem nonEmptyPieces_unfold (isDelim : Char → Bool) (l : List Char) :
    nonEmptyPieces isDelim l =
      (if (l.takeWhile (fun c => !isDelim c)).isEmpty then []
        else [l.takeWhile (fun c => !isDelim c)]) ++
      nonEmptyPieces isDelim ((l.dropWhile (fun c => !isDelim c)).dropWhile isDelim) := by
  have hw : ∀ c ∈ l.takeWhile (fun c => !isDelim c), isDelim c = false := by
    intro c hc
    simpa using takeWhile_all (fun c => !isDelim c) l c hc
  have h2 : nonEmptyPieces isDelim (l.dropWhile (fun c => !isDelim c)) =
      nonEmptyPieces isDelim ((l.dropWhile (fun c => !isDelim c)).dropWhile isDelim) := by
    conv_lhs => rw [← List.takeWhile_append_dropWhile isDelim
      (l.dropWhile (fun c => !isDelim c))]
    exact nonEmptyPieces_delims isDelim _ _ (takeWhile_all isDelim _)
  conv_lhs => rw [← List.takeWhile_append_dropWhile (fun c => !isDelim c) l]
  cases hr : l.dropWhile (fun c => !isDelim c) with
  | nil =>
    rw [List.append_nil, nonEmptyPieces_run isDelim _ hw]
    simp [nonEmptyPieces_nil]
  | cons c r =>
    have hc : isDelim c = true := by
      simpa using dropWhile_head (fun c => !isDelim c) l r c hr
    rw [nonEmptyPieces_run_delim isDelim _ r c hw hc, ← hr, ← h2, hr]
    congr 1
    exact (nonEmptyPieces_delims isDelim [c] r (by simpa using hc)).symm

/-- One iteration of the loop of `Tokenize` on an input shorter than 2^32 - 1 characters,
started at a position inside the input: the longest run without delimiters at the
position is appended when it is not empty, and the loop goes on behind the delimiters
that follow it, or at `(unsigned int) npos` when nothing is left. -/
theorem TokenizeLoop_iter (input tokens : List Char) (hlen : input.length < 4294967295)
    (fuel p : Nat) (out : List (List Char)) (hp : p ≤ input.length) :
    ∃ pos2, TokenizeLoop input tokens (fuel + 1) p p out =
        TokenizeLoop input tokens fuel pos2 pos2
          (out ++ if ((input.drop p).takeWhile (fun c => !tokens.contains c)).isEmpty then []
            else [(input.drop p).takeWhile (fun c => !tokens.contains c)]) ∧
      ((((input.drop p).dropWhile (fun c => !tokens.contains c)).dropWhile
          (fun c => tokens.contains c) = [] ∧ pos2 = 4294967295) ∨
        (p < pos2 ∧ pos2 ≤ input.length ∧
          input.drop pos2 = ((input.drop p).dropWhile (fun c => !tokens.contains c)).dropWhile
            (fun c => tokens.contains c))) := by
  have hne : p ≠ toUInt npos := by
    have : toUInt npos = 4294967295 := rfl
    omega
  have hsub : ∀ n, substr input p n = some ((input.drop p).take n) := by
    intro n
    simp only [substr]
    rw [if_neg (by omega)]
  have hout : ∀ (w : List Char), (if w.isEmpty = true then out else out ++ [w]) =
      out ++ if w.isEmpty = true then [] else [w] := by
    intro w
    split_ifs <;> simp
  have hdl : (input.drop p).length = input.length - p := List.length_drop p input
  have hsplit := List.takeWhile_append_dropWhile (fun c => !tokens.contains c) (input.drop p)
  have hlens : ((input.drop p).takeWhile (fun c => !tokens.contains c)).length +
      ((input.drop p).dropWhile (fun c => !tokens.contains c)).length = input.length - p := by
    rw [← hdl, ← List.length_append, hsplit]
  simp only [TokenizeLoop]
  rw [if_neg hne]
  simp only [hsub, hout]
  rw [find_first_of_eq]
  by_cases h1 : ((input.drop p).takeWhile (fun c => !tokens.contains c)).length <
      (input.drop p).length
  · -- a delimiter follows the run
    rw [if_pos h1]
    have hu1 : toUInt (p + ((input.drop p).takeWhile (fun c => !tokens.contains c)).length) =
        p + ((input.drop p).takeWhile (fun c => !tokens.contains c)).length := by
      unfold toUInt
      omega
    have hu2 : toUInt (p + ((input.drop p).takeWhile (fun c => !tokens.contains c)).length +
        4294967296 - p) =
        ((input.drop p).takeWhile (fun c => !tokens.contains c)).length := by
      unfold toUInt
      omega
    have htake : (input.drop p).take
        ((input.drop p).takeWhile (fun c => !tokens.contains c)).length =
        (input.drop p).takeWhile (fun c => !tokens.contains c) := by
      exact take_takeWhile_length _ _
    have hdrop : input.drop (p +
        ((input.drop p).takeWhile (fun c => !tokens.contains c)).length) =
        (input.drop p).dropWhile (fun c => !tokens.contains c) := by
      rw [← List.drop_drop]
      exact drop_takeWhile_length _ _
    rw [hu1, hu2, htake, find_first_not_of_eq, hdrop]
    have hsplit2 := List.takeWhile_append_dropWhile (fun c => tokens.contains c)
      ((input.drop p).dropWhile (fun c => !tokens.contains c))
    have hlens2 : (((input.drop p).dropWhile (fun c => !tokens.contains c)).takeWhile
        (fun c => tokens.contains c)).length +
        (((input.drop p).dropWhile (fun c => !tokens.contains c)).dropWhile
        (fun c => tokens.contains c)).length =
        ((input.drop p).dropWhile (fun c => !tokens.contains c)).length := by
      rw [← List.length_append, hsplit2]
    by_cases h2 : (((input.drop p).dropWhile (fun c => !tokens.contains c)).takeWhile
        (fun c => tokens.contains c)).length <
        ((input.drop p).dropWhile (fun c => !tokens.contains c)).length
    · rw [if_pos h2]
      have hu3 : toUInt (p + ((input.drop p).takeWhile (fun c => !tokens.contains c)).length +
          (((input.drop p).dropWhile (fun c => !tokens.contains c)).takeWhile
            (fun c => tokens.contains c)).length) =
          p + ((input.drop p).takeWhile (fun c => !tokens.contains c)).length +
          (((input.drop p).dropWhile (fun c => !tokens.contains c)).takeWhile
            (fun c => tokens.contains c)).length := by
        unfold toUInt
        omega
      rw [hu3]
      refine ⟨_, rfl, Or.inr ⟨?_, by omega, ?_⟩⟩
      · -- the delimiters are at least one
        cases hr : (input.drop p).dropWhile (fun c => !tokens.contains c) with
        | nil =>
          rw [hr] at h2
          simp at h2
        | cons c r =>
          have hc : tokens.contains c = true := by
            simpa using dropWhile_head (fun c => !tokens.contains c) _ r c hr
          simp only [List.takeWhile, hc, List.length_cons]
          omega
      · rw [← List.drop_drop, hdrop]
        exact drop_takeWhile_length _ _
    · rw [if_neg h2]
      refine ⟨toUInt npos, rfl, Or.inl ⟨?_, rfl⟩⟩
      apply List.eq_nil_of_length_eq_zero
      omega
  · -- the run reaches the end of the input
    rw [if_neg h1]
    have hu1 : toUInt npos = 4294967295 := rfl
    have hu2 : toUInt (toUInt npos + 4294967296 - p) = 4294967295 - p := by
      rw [hu1]
      unfold toUInt
      omega
    have hnil : (input.drop p).dropWhile (fun c => !tokens.contains c) = [] := by
      apply List.eq_nil_of_length_eq_zero
      omega
    have htake : (input.drop p).take (4294967295 - p) =
        (input.drop p).takeWhile (fun c => !tokens.contains c) := by
      rw [List.take_of_length_le (by omega)]
      conv_lhs => rw [← hsplit, hnil, List.append_nil]
    have hnot : find_first_not_of input tokens (toUInt npos) = npos := by
      rw [find_first_not_of_eq, hu1, List.drop_eq_nil_of_le (by omega)]
      rfl
    rw [hu2, htake, hnot]
    refine ⟨toUInt npos, rfl, Or.inl ⟨?_, rfl⟩⟩
    rw [hnil]
    rfl

/-- The loop of `Tokenize` on an input shorter than 2^32 - 1 characters, started at a
position of the input with enough iterations left: it returns, and appends the non-empty
pieces of the input from the position on. -/
theorem TokenizeLoop_spec (input tokens : List Char) (hlen : input.length < 4294967295)
    (fuel p : Nat) (out : List (List Char)) (hp : p ≤ input.length)
    (hfuel : input.length + 2 ≤ fuel + p) :
    TokenizeLoop input tokens fuel p p out =
      some (out ++ nonEmptyPieces (fun c => tokens.contains c) (input.drop p)) := by
  induction fuel generalizing p out with
  | zero => omega
  | succ fuel ih =>
    obtain ⟨pos2, e1, h⟩ := TokenizeLoop_iter input tokens hlen fuel p out hp
    rw [e1, nonEmptyPieces_unfold (fun c => tokens.contains c) (input.drop p)]
    rcases h with ⟨h1, h2⟩ | ⟨h1, h2, h3⟩
    · rw [h1, h2, nonEmptyPieces_nil, List.append_nil]
      cases fuel with
      | zero => omega
      | succ fuel =>
        simp only [TokenizeLoop]
        rw [if_pos (show (4294967295 : Nat) = toUInt npos from rfl)]
    · rw [ih pos2 _ h2 (by omega), h3, List.append_assoc]

/-- `Tokenize` on an input shorter than 2^32 - 1 characters returns the tokens of the
specification. -/
theorem Tokenize_eq_spec (input tokens : String) (hlen : input.data.length < 4294967295) :
    Tokenize input tokens = some (TokenizeSpec input tokens) := by
  unfold Tokenize TokenizeSpec
  rw [TokenizeLoop_spec input.data tokens.data hlen _ 0 [] (by omega) (by omega)]
  simp

/-! ### C21: inputs of 2^32 characters and more -/

theorem takeWhile_replicate_blank (n : Nat) (r : List Char) :
    (List.replicate n 'a' ++ ' ' :: r).takeWhile (fun c => !([' '].contains c)) =
      List.replicate n 'a' := by
  induction n with
  | zero => simp [List.takeWhile]
  | succ n ih =>
    rw [List.replicate_succ, List.cons_append, List.takeWhile_cons, if_pos (by decide), ih]

theorem drop_replicate_blank (n : Nat) (r : List Char) :
    (List.replicate n 'a' ++ r).drop n = r :=
  List.drop_left' (List.length_replicate n 'a')

/-- The first iteration of the loop of `Tokenize` on `n` letters, a blank and a letter:
the letters are appended as a token and the loop goes on at `(unsigned int) (n + 1)`. -/
theorem TokenizeLoop_letters (n fuel : Nat) (out : List (List Char)) (hn0 : 0 < n)
    (hn : n < 4294967296) :
    TokenizeLoop (List.replicate n 'a' ++ [' ', 'b']) [' '] (fuel + 1) 0 0 out =
      TokenizeLoop (List.replicate n 'a' ++ [' ', 'b']) [' '] fuel (toUInt (n + 1))
        (toUInt (n + 1)) (out ++ [List.replicate n 'a']) := by
  have h0 : (0 : Nat) ≠ toUInt npos := by
    have : toUInt npos = 4294967295 := rfl
    omega
  have hff : find_first_of (List.replicate n 'a' ++ [' ', 'b']) [' '] 0 = n := by
    rw [find_first_of_eq, List.drop_zero, takeWhile_replicate_blank]
    simp
  have hu1 : toUInt n = n := by
    unfold toUInt
    omega
  have hu2 : toUInt (n + 4294967296 - 0) = n := by
    unfold toUInt
    omega
  have hsub : substr (List.replicate n 'a' ++ [' ', 'b']) 0 n = some (List.replicate n 'a') := by
    unfold substr
    rw [if_neg (by omega), List.drop_zero]
    exact congrArg some (List.take_left' (List.length_replicate n 'a'))
  have hne : (List.replicate n 'a').isEmpty = false := by
    cases n with
    | zero => omega
    | succ n => rfl
  have hfn : find_first_not_of (List.replicate n 'a' ++ [' ', 'b']) [' '] n = n + 1 := by
    rw [find_first_not_of_eq, drop_replicate_blank]
    rfl
  simp only [TokenizeLoop]
  rw [if_neg h0, hff, hu1, hu2, hsub]
  simp only [hne, Bool.false_eq_true, if_false]
  rw [hfn]

/-- `Tokenize` on 2^32 - 2 letters, a blank and a letter, in general form. -/
theorem Tokenize_letters (n : Nat) (hn : n = 4294967294) (s : String)
    (hs : s = String.mk (List.replicate n 'a' ++ [' ', 'b'])) :
    s.data.length = n + 2 ∧
    Tokenize s " " = some [String.mk (List.replicate n 'a')] ∧
    TokenizeSpec s " " = [String.mk (List.replicate n 'a'), "b"] := by
  have hd : s.data = List.replicate n 'a' ++ [' ', 'b'] := by rw [hs]
  have hl : s.data.length = n + 2 := by
    rw [hd, List.length_append, List.length_replicate]
    rfl
  have ht : (" " : String).data = [' '] := rfl
  refine ⟨hl, ?_, ?_⟩
  · unfold Tokenize
    rw [hl, hd, ht, TokenizeLoop_letters n (n + 2 + 1) [] (by omega) (by omega)]
    have hu : toUInt (n + 1) = toUInt npos := by
      rw [hn]
      rfl
    rw [hu]
    simp only [TokenizeLoop, if_true, List.nil_append, Option.map_some', List.map_cons,
      List.map_nil]
  · unfold TokenizeSpec
    rw [hd, ht, nonEmptyPieces_run_delim (fun c => [' '].contains c) (List.replicate n 'a')
      ['b'] ' ' (fun c hc => by rw [List.eq_of_mem_replicate hc]; rfl) rfl]
    have hne : (List.replicate n 'a').isEmpty = false := by
      cases n with
      | zero => omega
      | succ n => rfl
    rw [hne]
    rfl

/-- The loop of `Tokenize` on 2^32 - 1 letters, a blank and a letter starts again at
position 0 after every iteration: it has not returned after any number of iterations. -/
theorem TokenizeLoop_restarts (n : Nat) (hn : n = 4294967295) (fuel : Nat) :
    ∀ out, TokenizeLoop (List.replicate n 'a' ++ [' ', 'b']) [' '] fuel 0 0 out = none := by
  induction fuel with
  | zero =>
    intro out
    rfl
  | succ fuel ih =>
    intro out
    rw [TokenizeLoop_letters n fuel out (by omega) (by omega)]
    have hu : toUInt (n + 1) = 0 := by
      rw [hn]
      rfl
    rw [hu]
    exact ih _

/-- On the input `hugeLoopInput` of 2^32 + 1 characters the loop of `Tokenize` never
returns: whatever the bound on its iterations, it is exhausted. -/
theorem Tokenize_never_returns_on_hugeLoopInput (fuel : Nat) :
    TokenizeLoop hugeLoopInput.data (" " : String).data fuel 0 0 [] = none :=
  TokenizeLoop_restarts 4294967295 rfl fuel []

/-- C21, at the failing input: `hugeInput` has 2^32 characters, 2^32 - 2 letters followed
by a blank and the letter "b".  `Tokenize` returns the run of letters only; the second
maximal run "b", which the specification lists, is missing: its position 2^32 - 1 is
`(unsigned int) std::string::npos`, at which the loop stops. -/
theorem Tokenize_drops_token_at_uint_npos :
    hugeInput.data.length = 4294967296 ∧
    Tokenize hugeInput " " = some [String.mk (List.replicate 4294967294 'a')] ∧
    TokenizeSpec hugeInput " " = [String.mk (List.replicate 4294967294 'a'), "b"] :=
  Tokenize_letters 4294967294 rfl hugeInput rfl

/-- No piece of a split contains a delimiter. -/
theorem splitAtDelims_no_delim (isDelim : Char → Bool) (l : List Char) :
    ∀ p ∈ splitAtDelims isDelim l, ∀ c ∈ p, isDelim c = false := by
  induction l with
  | nil => simp [splitAtDelims]
  | cons a l ih =>
    intro p hp c hc
    simp only [splitAtDelims] at hp
    by_cases ha : isDelim a = true
    · rw [if_pos ha] at hp
      rcases List.mem_cons.mp hp with h | h
      · rw [h] at hc
        simp at hc
      · exact ih p h c hc
    · have ha1 : isDelim a = false := by simpa using ha
      rw [if_neg ha] at hp
      cases hs : splitAtDelims isDelim l with
      | nil => exact absurd hs (splitAtDelims_ne_nil isDelim l)
      | cons q qs =>
        rw [hs] at hp ih
        simp only [List.mem_cons] at hp
        rcases hp with h | h
        · rw [h] at hc
          rcases List.mem_cons.mp hc with h1 | h1
          · rw [h1]
            exact ha1
          · exact ih q (by simp) c h1
        · exact ih p (by simp [h]) c hc

/-- The tokens of the specification are not empty and contain no delimiter. -/
theorem TokenizeSpec_tokens (input tokens : String) :
    ∀ t ∈ TokenizeSpec input tokens,
      t ≠ "" ∧ ∀ c ∈ t.data, tokens.data.contains c = false := by
  intro t ht
  unfold TokenizeSpec nonEmptyPieces at ht
  obtain ⟨p, hp, rfl⟩ := List.mem_map.mp ht
  obtain ⟨hp1, hp2⟩ := List.mem_filter.mp hp
  refine ⟨?_, fun c hc => splitAtDelims_no_delim _ _ p hp1 c hc⟩
  intro h
  have h1 := congrArg String.data h
  have h2 : p = [] := h1
  rw [h2] at hp2
  simp at hp2

/-- An input made of delimiters only, the empty input included, has no token. -/
theorem TokenizeSpec_only_delims (input tokens : String)
    (h : ∀ c ∈ input.data, tokens.data.contains c = true) : TokenizeSpec input tokens = [] := by
  unfold TokenizeSpec
  have h1 := nonEmptyPieces_delims (fun c => tokens.data.contains c) input.data [] h
  rw [List.append_nil] at h1
  rw [h1, nonEmptyPieces_nil]
  rfl

/-- `Tokenize` and its specification on the output list "rt1  rt2 ". -/
theorem Tokenize_eq_spec_example :
    Tokenize "rt1  rt2 " " " = some ["rt1", "rt2"] ∧
      TokenizeSpec "rt1  rt2 " " " = ["rt1", "rt2"] := by
  decide

/-! ### C15: the first query of a key and the passes after it -/

/-- A loop whose runs before the element `a` go on and keep `I0`, whose run for `a` turns
`I0` into `I1`, and whose later runs keep `I1`, ends in a state with `I1`. -/
theorem forLoop_pivot_state {σ α : Type} (body : α → σ → Flow σ) (I0 I1 : σ → Prop)
    (pre post : List α) (a : α)
    (hpre : ∀ b ∈ pre, ∀ s, I0 s → ∃ s1, body b s = Flow.next s1 ∧ I0 s1)
    (ha : ∀ s, I0 s → I1 (body a s).state)
    (hpost : ∀ b ∈ post, ∀ s, I1 s → I1 (body b s).state)
    (s : σ) (hs : I0 s) : I1 (forLoop body (pre ++ a :: post) s).state := by
  obtain ⟨s1, e1, i1⟩ := forLoop_next_inv body I0 pre hpre s hs
  rw [forLoop_append_next body pre (a :: post) s s1 e1]
  simp only [forLoop]
  exact Flow.andThen_state_inv I1 _ _ (ha s1 i1)
    (fun s2 h2 => forLoop_state_inv_mem body I1 post hpost s2 h2)

theorem BuildKey_camera (c1 c2 d : String) (h : BuildKey c1 d = BuildKey c2 d) : c1 = c2 := by
  unfold BuildKey at h
  have h1 := congrArg String.data h
  simp only [String.data_append] at h1
  exact String.ext (List.append_cancel_right (List.append_cancel_right h1))

theorem cubeCameraName_side (camera : String) (m m0 : Nat) (hm : m < 6) (hm0 : m0 < 6)
    (h : cubeCameraName camera m = cubeCameraName camera m0) : m = m0 := by
  unfold cubeCameraName at h
  have h1 := congrArg String.data h
  simp only [String.data_append] at h1
  have h2 := congrArg String.mk (List.append_cancel_left h1)
  interval_cases m <;> interval_cases m0 <;> first
    | rfl
    | exact absurd h2 (by decide)

/-- The keys of two sides of a layer differ. -/
theorem sideKey_ne (pass : GraphicsConfigPass) (cubemap : Bool) (d : String) (m m0 : Nat)
    (hm : m ∈ cubeSides cubemap) (hm0 : m0 ∈ cubeSides cubemap) (hne : m ≠ m0) :
    BuildKey (sideCameraName pass cubemap m) d ≠ BuildKey (sideCameraName pass cubemap m0) d := by
  intro h
  have h1 := BuildKey_camera _ _ _ h
  cases cubemap with
  | false =>
    simp only [cubeSides, Bool.false_eq_true, if_false, List.mem_range] at hm hm0
    omega
  | true =>
    simp only [sideCameraName, if_true] at h1
    exact hne (cubeCameraName_side pass.camera m m0 (cubeSides_lt _ _ hm) (cubeSides_lt _ _ hm0)
      h1)

theorem GetCubeSideOrientation_snd {Q : Type} (Rotate : Int → Int → Int → Int → Q → Q)
    (i : Int) (q : Q) (eo : List String) :
    (GetCubeSideOrientation Rotate i q eo).2 = (GetCubeSideOrientation Rotate i q []).2 := by
  unfold GetCubeSideOrientation
  simp only
  split_ifs <;> rfl

/-- One run of the body of the cube-side loop of `CullScenePass` keeps an existing entry
of the key `k`, when the pass culls or the run is for another key. -/
theorem cullSideBody_entry {Q : Type} (env : Collaborators Q) (j : Nat)
    (pass : GraphicsConfigPass) (d : String) (oi : RenderOutput) (cubemap : Bool) (m : Nat)
    (g0 : GraphicsGL2 Q) (k : String) (E : List Nat)
    (hk : pass.cull = true ∨ BuildKey (sideCameraName pass cubemap m) d ≠ k)
    (s : GraphicsGL2 Q) (hs : EntryKeep g0 k E s) :
    EntryKeep g0 k E (cullSideBody env j pass d oi cubemap m s).state := by
  unfold cullSideBody
  refine Flow.andThen_state_inv (EntryKeep g0 k E) _ _ ?_ ?_
  · obtain ⟨i1, i2, i3⟩ := hs
    unfold cullSubCamera
    repeat' split
    all_goals exact ⟨i1, i2, i3⟩
  · intro s1 h1
    obtain ⟨i1, i2, i3⟩ := h1
    unfold cullQuery
    by_cases hc : pass.cull = true
    · rw [if_pos hc]
      split
      · exact ⟨by simpa [Flow.state] using i1, by simpa [Flow.state] using i2,
          by simpa [Flow.state] using i3⟩
      · split
        · exact ⟨i1, i2, i3⟩
        · rename_i hm
          have hne : BuildKey (sideCameraName pass cubemap m) d ≠ k := by
            intro he
            rw [he] at hm
            unfold mapMem at hm
            rw [i3] at hm
            simp at hm
          unfold cullFrustumQuery
          split
          · exact ⟨by simpa [Flow.state] using i1, by simpa [Flow.state] using i2,
              by simpa [Flow.state] using i3⟩
          · exact ⟨by simpa [Flow.state] using i1, by simpa [Flow.state] using i2,
              by simpa [Flow.state, Query, mapFind_mapSet_other _ _ _ _ hne] using i3⟩
    · rw [if_neg hc]
      have hne : BuildKey (sideCameraName pass cubemap m) d ≠ k := by
        rcases hk with h | h
        · exact absurd h hc
        · exact h
      unfold cullAlwaysQuery
      split
      · exact ⟨by simpa [Flow.state] using i1, by simpa [Flow.state] using i2,
          by simpa [Flow.state] using i3⟩
      · exact ⟨by simpa [Flow.state] using i1, by simpa [Flow.state] using i2,
          by simpa [Flow.state, Query, mapFind_mapSet_other _ _ _ _ hne] using i3⟩

/-- The culling of one layer keeps an existing entry of the key `k`, when the pass culls
or the layer has no side with that key. -/
theorem cullLayerBody_entry {Q : Type} (env : Collaborators Q) (j : Nat)
    (pass : GraphicsConfigPass) (d : String) (g0 : GraphicsGL2 Q) (k : String)
    (E : List Nat)
    (hk : pass.cull = true ∨ ∀ oi, mapFind g0.render_outputs pass.output = some oi →
      ∀ m ∈ cubeSides (isCubemap env oi),
        BuildKey (sideCameraName pass (isCubemap env oi) m) d ≠ k)
    (s : GraphicsGL2 Q) (hs : EntryKeep g0 k E s) :
    EntryKeep g0 k E (cullLayerBody env j pass d s).state := by
  unfold cullLayerBody
  have hro := hs.1
  split
  · obtain ⟨i1, i2, i3⟩ := hs
    exact ⟨by simpa [Flow.state] using i1, by simpa [Flow.state] using i2,
      by simpa [Flow.state] using i3⟩
  · rename_i oi hoi
    rw [hro] at hoi
    refine forLoop_state_inv_mem _ (EntryKeep g0 k E) _ ?_ s hs
    intro m hm s1 h1
    refine cullSideBody_entry env j pass d oi _ m g0 k E ?_ s1 h1
    rcases hk with h | h
    · exact Or.inl h
    · exact Or.inr (h oi hoi m hm)

/-- The culling of a pass keeps an existing entry of the key `k`, when the pass culls or
does not fill that key. -/
theorem CullScenePass_entry {Q : Type} (env : Collaborators Q) (j : Nat)
    (pass : GraphicsConfigPass) (g0 : GraphicsGL2 Q) (k : String) (E : List Nat)
    (hdraw : pass.draw ≠ [])
    (hk : pass.conditions.Satisfied g0.conditions = true →
      pass.draw.getLast? ≠ some "postprocess" → pass.cull = false →
      k ∉ cullKeys env g0 pass)
    (s : GraphicsGL2 Q) (hs : EntryKeep g0 k E s) :
    ∃ s1, CullScenePass env j pass s = Flow.next s1 ∧ EntryKeep g0 k E s1 := by
  refine ⟨_, CullScenePass_returns env j pass hdraw s, ?_⟩
  unfold CullScenePass
  split
  · exact hs
  · split
    · exact hs
    · rename_i hcond
      rw [not_or] at hcond
      have hact : pass.conditions.Satisfied g0.conditions = true := by
        rw [← hs.2.1]
        simpa using hcond.2
      rw [Flow.call_state]
      refine forLoop_state_inv_mem _ (EntryKeep g0 k E) _ ?_ s hs
      intro d hd s1 h1
      refine cullLayerBody_entry env j pass d g0 k E ?_ s1 h1
      by_cases hc : pass.cull = true
      · exact Or.inl hc
      · right
        intro oi hoi m hm hkey
        apply hk hact hcond.1 (by simpa using hc)
        unfold cullKeys
        rw [hoi]
        exact List.mem_flatMap.mpr ⟨d, hd, List.mem_map.mpr ⟨m, hm, hkey⟩⟩

/-- The run of the body of the cube-side loop of `CullScenePass` that meets the key of
the side `m0` and the layer `d0` without an entry: the entry becomes what `cullExpected`
gives for the pass, the layer and the side. -/
theorem cullSideBody_fill {Q : Type} (env : Collaborators Q) (j : Nat)
    (F : GraphicsConfigPass) (d0 : String) (ro : RenderOutput) (m0 : Nat) (hm0 : m0 < 6)
    (g0 : GraphicsGL2 Q) (bc : GraphicsCamera Q) (container : List Nat)
    (hout : mapFind g0.render_outputs F.output = some ro)
    (hcam : mapFind g0.cameras F.camera = some bc)
    (hcont : mapFind g0.static_drawlist d0 = some container)
    (s : GraphicsGL2 Q)
    (hs : CullKeep g0 F.camera (BuildKey (sideCameraName F (isCubemap env ro) m0) d0) none s) :
    ∃ E, cullExpected env g0 F d0 m0 = some E ∧
      EntryKeep g0 (BuildKey (sideCameraName F (isCubemap env ro) m0) d0) E
        (cullSideBody env j F d0 ro (isCubemap env ro) m0 s).state := by
  obtain ⟨i1, i2, i3, i4, i5⟩ := hs
  have hmem : mapMem s.culled_static_drawlist
      (BuildKey (sideCameraName F (isCubemap env ro) m0) d0) = false := by
    simp [mapMem, i5]
  -- the query, for the camera `cam` stored under the name of the side
  have hquery : ∀ (s1 : GraphicsGL2 Q) (cam : GraphicsCamera Q),
      s1.render_outputs = g0.render_outputs → s1.conditions = g0.conditions →
      s1.static_drawlist = g0.static_drawlist →
      s1.culled_static_drawlist = s.culled_static_drawlist →
      mapFind s1.cameras (sideCameraName F (isCubemap env ro) m0) = some cam →
      EntryKeep g0 (BuildKey (sideCameraName F (isCubemap env ro) m0) d0)
        (if F.cull then container.filter (env.intersects (cameraFrustum (cameraOrtho cam) cam))
          else container)
        (cullQuery env j F d0 (sideCameraName F (isCubemap env ro) m0) s1).state := by
    intro s1 cam c1 c2 c3 c4 c5
    unfold cullQuery
    by_cases hc : F.cull = true
    · simp only [hc, if_true]
      rw [c5]
      simp only
      rw [c4, if_neg (by simp [hmem])]
      unfold cullFrustumQuery
      rw [c3, hcont]
      refine ⟨by simpa [Flow.state] using c1, by simpa [Flow.state] using c2, ?_⟩
      simp only [Flow.state, GraphicsGL2.setRenderscene_culled_static_drawlist,
        GraphicsGL2.log_culled_static_drawlist, GraphicsGL2.setCulled_culled_static_drawlist,
        Query, c4]
      rw [mapFind_mapSet_same]
      simp [mapGetD, i5]
    · have hc1 : F.cull = false := by simpa using hc
      simp only [hc1, Bool.false_eq_true, if_false]
      unfold cullAlwaysQuery
      rw [c3, hcont]
      refine ⟨by simpa [Flow.state] using c1, by simpa [Flow.state] using c2, ?_⟩
      simp only [Flow.state, GraphicsGL2.log_culled_static_drawlist,
        GraphicsGL2.setCulled_culled_static_drawlist, Query, c4]
      rw [mapFind_mapSet_same]
      simp [mapGetD, i5]
  unfold cullSideBody
  by_cases hcm : isCubemap env ro = true
  · have hfbo : ro.IsFBO = true := by
      unfold isCubemap at hcm
      simp only [Bool.and_eq_true] at hcm
      exact hcm.1
    obtain ⟨orient, horient⟩ := Option.ne_none_iff_exists'.mp
      (GetCubeSideOrientation_side env.Rotate m0 hm0 bc.orient s.error_output)
    have horient0 : (GetCubeSideOrientation env.Rotate m0 bc.orient []).2 = some orient := by
      rw [← GetCubeSideOrientation_snd env.Rotate m0 bc.orient s.error_output]
      exact horient
    have hsub : cullSubCamera env j F ro (isCubemap env ro) m0 s =
        Flow.next ((s.setCameras (mapSet s.cameras (cubeCameraName F.camera m0)
          (bc.cubeSide orient (env.fboGetWidth ro.fbo) (env.fboGetHeight ro.fbo)))).setErrorOutput
          (GetCubeSideOrientation env.Rotate m0 bc.orient s.error_output).1) := by
      unfold cullSubCamera
      rw [if_pos hcm, i4, hcam]
      simp only
      rw [horient]
      simp only [hfbo, Bool.not_true, Bool.false_eq_true, if_false]
    rw [hsub]
    simp only [Flow.andThen]
    refine ⟨_, ?_, hquery _ (bc.cubeSide orient (env.fboGetWidth ro.fbo)
      (env.fboGetHeight ro.fbo)) (by simpa using i2) (by simpa using i3) (by simpa using i1)
      (by simp) (by simp [sideCameraName, hcm, mapFind_mapSet_same])⟩
    unfold cullExpected sideCameraOf
    rw [hout, hcont, hcam]
    simp only [hcm, if_true, horient0]
    split_ifs <;> rfl
  · have hsub : cullSubCamera env j F ro (isCubemap env ro) m0 s = Flow.next s := by
      unfold cullSubCamera
      rw [if_neg hcm]
    rw [hsub]
    simp only [Flow.andThen]
    refine ⟨_, ?_, hquery s bc i2 i3 i1 rfl (by
      simp only [sideCameraName, hcm, Bool.false_eq_true, if_false]
      rw [i4, hcam])⟩
    unfold cullExpected sideCameraOf
    rw [hout, hcont, hcam]
    simp only [hcm, Bool.false_eq_true, if_false]
    split_ifs <;> rfl

theorem CullKeep.base {Q : Type} {g0 : GraphicsGL2 Q} {cam k : String}
    {e : Option (List Nat)} {s : GraphicsGL2 Q} (h : CullKeep g0 cam k e s) :
    CullBase g0 cam s :=
  ⟨h.2.1, h.1, h.2.2.1, h.2.2.2.1⟩

theorem cullCameras_self {Q : Type} (env : Collaborators Q) (g0 : GraphicsGL2 Q)
    (F : GraphicsConfigPass) : F.camera ∉ cullCameras env g0 F := by
  unfold cullCameras
  split
  · simp
  · split_ifs
    · intro h
      obtain ⟨m, -, hm⟩ := List.mem_map.mp h
      exact cubeCameraName_ne F.camera m hm
    · simp

/-- The culling of the layer `d0` by the first pass that meets the key of the side `m0`
and `d0`: the entry of the key becomes what `cullExpected` gives. -/
theorem cullLayerBody_fill {Q : Type} (env : Collaborators Q) (j : Nat)
    (F : GraphicsConfigPass) (d0 : String) (ro : RenderOutput) (m0 : Nat)
    (hm0 : m0 ∈ cubeSides (isCubemap env ro))
    (g0 : GraphicsGL2 Q) (bc : GraphicsCamera Q) (container : List Nat) (E : List Nat)
    (hout : mapFind g0.render_outputs F.output = some ro)
    (hcam : mapFind g0.cameras F.camera = some bc)
    (hcont : mapFind g0.static_drawlist d0 = some container)
    (hE : cullExpected env g0 F d0 m0 = some E)
    (s : GraphicsGL2 Q)
    (hs : CullKeep g0 F.camera (BuildKey (sideCameraName F (isCubemap env ro) m0) d0) none s) :
    EntryKeep g0 (BuildKey (sideCameraName F (isCubemap env ro) m0) d0) E
      (cullLayerBody env j F d0 s).state := by
  obtain ⟨sp, st, hsplit⟩ := List.append_of_mem hm0
  have hnd : (sp ++ m0 :: st).Nodup := by
    rw [← hsplit]
    exact List.nodup_range _
  have hsp : ∀ m ∈ sp, m ∈ cubeSides (isCubemap env ro) ∧ m ≠ m0 := by
    intro m hm
    refine ⟨by rw [hsplit]; simp [hm], ?_⟩
    intro he
    rw [he] at hm
    have := (List.nodup_append.mp hnd).2.2
    exact this hm (by simp)
  have hst : ∀ m ∈ st, m ∈ cubeSides (isCubemap env ro) ∧ m ≠ m0 := by
    intro m hm
    refine ⟨by rw [hsplit]; simp [hm], ?_⟩
    intro he
    rw [he] at hm
    have := (List.nodup_cons.mp (List.nodup_append.mp hnd).2.1).1
    exact this hm
  unfold cullLayerBody
  rw [hs.2.1, hout]
  simp only
  rw [hsplit]
  refine forLoop_pivot_state (cullSideBody env j F d0 ro (isCubemap env ro))
    (CullKeep g0 F.camera (BuildKey (sideCameraName F (isCubemap env ro) m0) d0) none)
    (EntryKeep g0 (BuildKey (sideCameraName F (isCubemap env ro) m0) d0) E) sp st m0
    ?_ ?_ ?_ s hs
  · intro m hm s0 h0
    obtain ⟨s1, e1, -⟩ := cullSideBody_present env j F d0 ro m (cubeSides_lt _ m (hsp m hm).1)
      g0 bc container hcam hcont s0 h0.base
    refine ⟨s1, e1, ?_⟩
    have h := cullSideBody_keep env j F d0 ro (isCubemap env ro) m g0 F.camera
      (BuildKey (sideCameraName F (isCubemap env ro) m0) d0) none
      (sideKey_ne F _ d0 m m0 (hsp m hm).1 hm0 (hsp m hm).2)
      (fun _ => cubeCameraName_ne F.camera m) s0 h0
    rw [e1] at h
    exact h
  · intro s0 h0
    obtain ⟨E1, e1, k1⟩ := cullSideBody_fill env j F d0 ro m0 (cubeSides_lt _ m0 hm0) g0 bc
      container hout hcam hcont s0 h0
    rw [hE] at e1
    rw [Option.some.inj e1]
    exact k1
  · intro m hm s0 h0
    exact cullSideBody_entry env j F d0 ro (isCubemap env ro) m g0 _ E
      (Or.inr (sideKey_ne F _ d0 m m0 (hst m hm).1 hm0 (hst m hm).2)) s0 h0

/-- The culling of the first pass that meets the key of its side `m0` and its layer `d0`
without an entry: `CullScenePass` returns and the entry of the key is what `cullExpected`
gives, when the pass culls or fills the key only once. -/
theorem CullScenePass_first_fill {Q : Type} (env : Collaborators Q) (j : Nat)
    (F : GraphicsConfigPass) (pre post : List String) (d0 : String) (m0 : Nat)
    (ro : RenderOutput) (g0 : GraphicsGL2 Q) (bc : GraphicsCamera Q)
    (hactive : F.conditions.Satisfied g0.conditions = true)
    (hpost : F.draw.getLast? ≠ some "postprocess")
    (hlayers : F.draw = pre ++ d0 :: post)
    (hm0 : m0 ∈ cubeSides (isCubemap env ro))
    (hout : mapFind g0.render_outputs F.output = some ro)
    (hcam : mapFind g0.cameras F.camera = some bc)
    (hconts : ∀ d ∈ pre ++ [d0], (mapFind g0.static_drawlist d).isSome = true)
    (hpre : ∀ d ∈ pre, ∀ m ∈ cubeSides (isCubemap env ro),
      BuildKey (sideCameraName F (isCubemap env ro) m) d ≠
        BuildKey (sideCameraName F (isCubemap env ro) m0) d0)
    (hlater : F.cull = false → ∀ d ∈ post, ∀ m ∈ cubeSides (isCubemap env ro),
      BuildKey (sideCameraName F (isCubemap env ro) m) d ≠
        BuildKey (sideCameraName F (isCubemap env ro) m0) d0)
    (s : GraphicsGL2 Q)
    (hs : CullKeep g0 F.camera (BuildKey (sideCameraName F (isCubemap env ro) m0) d0) none s) :
    ∃ E s1, cullExpected env g0 F d0 m0 = some E ∧
      CullScenePass env j F s = Flow.next s1 ∧
      EntryKeep g0 (BuildKey (sideCameraName F (isCubemap env ro) m0) d0) E s1 := by
  obtain ⟨container, hcont⟩ := Option.isSome_iff_exists.mp (hconts d0 (by simp))
  obtain ⟨E, hE, -⟩ := cullSideBody_fill env j F d0 ro m0 (cubeSides_lt _ m0 hm0) g0 bc
    container hout hcam hcont s hs
  have hdraw : F.draw ≠ [] := by
    rw [hlayers]
    simp
  refine ⟨E, _, hE, CullScenePass_returns env j F hdraw s, ?_⟩
  unfold CullScenePass
  rw [if_neg (by simpa using hdraw), if_neg (by
    rw [not_or]
    refine ⟨hpost, ?_⟩
    rw [hs.2.2.1, hactive]
    simp), Flow.call_state, hlayers]
  refine forLoop_pivot_state (cullLayerBody env j F)
    (CullKeep g0 F.camera (BuildKey (sideCameraName F (isCubemap env ro) m0) d0) none)
    (EntryKeep g0 (BuildKey (sideCameraName F (isCubemap env ro) m0) d0) E) pre post d0
    ?_ ?_ ?_ s hs
  · intro d hd s0 h0
    obtain ⟨s1, e1, -⟩ := cullLayerBody_present env j F d ro g0 bc hout hcam
      (hconts d (by simp [hd])) s0 h0.base
    refine ⟨s1, e1, ?_⟩
    have h := cullLayerBody_keep env j F d g0 F.camera
      (BuildKey (sideCameraName F (isCubemap env ro) m0) d0) none
      (fun oi hoi m hm => by
        rw [hout] at hoi
        rw [← Option.some.inj hoi] at hm ⊢
        exact hpre d hd m hm)
      (cullCameras_self env g0 F) s0 h0
    rw [e1] at h
    exact h
  · intro s0 h0
    exact cullLayerBody_fill env j F d0 ro m0 hm0 g0 bc container E hout hcam hcont hE s0 h0
  · intro d hd s0 h0
    refine cullLayerBody_entry env j F d g0 _ E ?_ s0 h0
    by_cases hc : F.cull = true
    · exact Or.inl hc
    · right
      intro oi hoi m hm
      rw [hout] at hoi
      rw [← Option.some.inj hoi] at hm ⊢
      exact hlater (by simpa using hc) d hd m hm

/-- The loop over the passes of the cull phase, started in a state `g0` whose cull cache
has no entry for the key of the side `m0` and the layer `d0` of the pass `F`, the first
pass of the list that fills the key, when no pass that does not cull fills the key after
the first query. -/
theorem cullLoop_first_query {Q : Type} (env : Collaborators Q) (g0 : GraphicsGL2 Q)
    (before after : List GraphicsConfigPass) (F : GraphicsConfigPass)
    (pre post : List String) (d0 : String) (m0 : Nat) (ro : RenderOutput)
    (bc : GraphicsCamera Q)
    (hdraws : ∀ p ∈ before ++ after, p.draw ≠ [])
    (hactive : F.conditions.Satisfied g0.conditions = true)
    (hpost : F.draw.getLast? ≠ some "postprocess")
    (hlayers : F.draw = pre ++ d0 :: post)
    (hm0 : m0 ∈ cubeSides (isCubemap env ro))
    (hout : mapFind g0.render_outputs F.output = some ro)
    (hcam : mapFind g0.cameras F.camera = some bc)
    (hconts : ∀ d ∈ pre ++ [d0], (mapFind g0.static_drawlist d).isSome = true)
    (hbefore : ∀ p ∈ before, p.conditions.Satisfied g0.conditions = true →
      p.draw.getLast? ≠ some "postprocess" →
      BuildKey (sideCameraName F (isCubemap env ro) m0) d0 ∉ cullKeys env g0 p ∧
        F.camera ∉ cullCameras env g0 p)
    (hpre : ∀ d ∈ pre, ∀ m ∈ cubeSides (isCubemap env ro),
      BuildKey (sideCameraName F (isCubemap env ro) m) d ≠
        BuildKey (sideCameraName F (isCubemap env ro) m0) d0)
    (hlater : F.cull = false → ∀ d ∈ post, ∀ m ∈ cubeSides (isCubemap env ro),
      BuildKey (sideCameraName F (isCubemap env ro) m) d ≠
        BuildKey (sideCameraName F (isCubemap env ro) m0) d0)
    (hafter : ∀ p ∈ after, p.conditions.Satisfied g0.conditions = true →
      p.draw.getLast? ≠ some "postprocess" → p.cull = false →
      BuildKey (sideCameraName F (isCubemap env ro) m0) d0 ∉ cullKeys env g0 p)
    (hnew : mapFind g0.culled_static_drawlist
      (BuildKey (sideCameraName F (isCubemap env ro) m0) d0) = none) :
    ∃ E s, cullExpected env g0 F d0 m0 = some E ∧
      forLoop (cullPassBody env) (indexedFrom 0 (before ++ F :: after)) g0 = Flow.next s ∧
      mapFind s.culled_static_drawlist
        (BuildKey (sideCameraName F (isCubemap env ro) m0) d0) = some E := by
  have hbase : CullKeep g0 F.camera (BuildKey (sideCameraName F (isCubemap env ro) m0) d0)
      none g0 := ⟨rfl, rfl, rfl, rfl, hnew⟩
  obtain ⟨E, -, hE, -, -⟩ := CullScenePass_first_fill env 0 F pre post d0 m0 ro g0 bc hactive
    hpost hlayers hm0 hout hcam hconts hpre hlater g0 hbase
  obtain ⟨s1, e1, k1⟩ := forLoop_pivot (cullPassBody env)
    (CullKeep g0 F.camera (BuildKey (sideCameraName F (isCubemap env ro) m0) d0) none)
    (EntryKeep g0 (BuildKey (sideCameraName F (isCubemap env ro) m0) d0) E)
    (indexedFrom 0 before) (indexedFrom (0 + before.length + 1) after) (0 + before.length, F)
    (fun ip hip s hs =>
      CullScenePass_keep env ip.1 ip.2 g0 F.camera _ none
        (hdraws ip.2 (List.mem_append.mpr (Or.inl (indexedFrom_mem before 0 ip.1 ip.2 hip).1)))
        (fun h1 h2 => hbefore ip.2 (indexedFrom_mem before 0 ip.1 ip.2 hip).1 h1 h2) s hs)
    (fun s hs => by
      obtain ⟨E1, s1, e1, r1, k1⟩ := CullScenePass_first_fill env (0 + before.length) F pre
        post d0 m0 ro g0 bc hactive hpost hlayers hm0 hout hcam hconts hpre hlater s hs
      rw [hE] at e1
      rw [← Option.some.inj e1] at k1
      exact ⟨s1, r1, k1⟩)
    (fun ip hip s hs =>
      CullScenePass_entry env ip.1 ip.2 g0 _ E
        (hdraws ip.2 (List.mem_append.mpr (Or.inr (indexedFrom_mem after _ ip.1 ip.2 hip).1)))
        (fun h1 h2 h3 => hafter ip.2 (indexedFrom_mem after _ ip.1 ip.2 hip).1 h1 h2 h3) s hs)
    g0 hbase
  refine ⟨E, s1, hE, ?_, k1.2.2⟩
  rw [indexedFrom_append]
  exact e1

theorem cullExpected_setup {Q : Type} (env : Collaborators Q) (g : GraphicsGL2 Q)
    (p : GraphicsConfigPass) (d : String) (m : Nat) :
    cullExpected env (DrawSceneSetup env g) p d m = cullExpected env g p d m := by
  have h1 : (DrawSceneSetup env g).render_outputs = g.render_outputs := by
    simp [DrawSceneSetup]
  have h2 : (DrawSceneSetup env g).static_drawlist = g.static_drawlist := by
    simp [DrawSceneSetup]
  have h3 : (DrawSceneSetup env g).cameras = g.cameras := by simp [DrawSceneSetup]
  unfold cullExpected sideCameraOf
  rw [h1, h2, h3]

/-- What `cullExpected` is when it gives a list: the static contents of the layer for a
pass that does not cull, and those of them that the frustum of the camera of the side
intersects for a culling pass. -/
theorem cullExpected_some {Q : Type} (env : Collaborators Q) (g : GraphicsGL2 Q)
    (p : GraphicsConfigPass) (d : String) (m : Nat) (E : List Nat)
    (h : cullExpected env g p d m = some E) :
    ∃ ro container, mapFind g.render_outputs p.output = some ro ∧
      mapFind g.static_drawlist d = some container ∧
      (p.cull = false → E = container) ∧
      (p.cull = true → ∃ cam, sideCameraOf env g p ro m = some cam ∧
        E = container.filter (env.intersects (cameraFrustum (cameraOrtho cam) cam))) := by
  unfold cullExpected at h
  cases hro : mapFind g.render_outputs p.output with
  | none =>
    rw [hro] at h
    simp at h
  | some ro =>
    cases hc : mapFind g.static_drawlist d with
    | none =>
      rw [hro, hc] at h
      simp at h
    | some container =>
      rw [hro, hc] at h
      simp only at h
      refine ⟨ro, container, rfl, rfl, ?_, ?_⟩
      · intro hcull
        rw [hcull] at h
        simp only [Bool.false_eq_true, if_false] at h
        exact (Option.some.inj h).symm
      · intro hcull
        rw [hcull] at h
        simp only [if_true] at h
        cases hcam : sideCameraOf env g p ro m with
        | none =>
          rw [hcam] at h
          simp at h
        | some cam =>
          rw [hcam] at h
          exact ⟨cam, rfl, (Option.some.inj h).symm⟩

/-- C15 (amended): at the end of the cull phase of a frame whose passes all have a draw
layer, the cull-cache entry of a key is what the first query of the key put there, as
long as no pass that does not cull fills the key again.  Let `F` be the first active
pass, not a post-process, that fills the key, for its layer `d0` and its side `m0` (the
only side 0 of an output that is not a cube map, one of the six sides of a cube map): its
render output and its camera exist, its layers up to `d0` have a static container, no
active pass before it fills the key or stores a sub-camera under the name of its camera,
none of its layers before `d0` has the key, and when `F` does not cull none of its layers
after `d0` has the key.  Let no active pass after `F` that does not cull fill the key.
Then the cull phase returns, and for every pass `P`, layer `L` and side `n` whose draw
reads that key and whose own query, `cullExpected`, is that of `F` (as it is for `F` itself, and for a later
culling pass with the camera, the layer and the side of `F`), the entry that the draw of
`P` reads is exactly `cullExpected` of `P`: the whole static contents of `L` when `P`
does not cull, and those of them that the frustum of the camera of `P` for the side
intersects when `P` culls. -/
theorem cullPhase_entry_of_first_query {Q : Type} (env : Collaborators Q)
    (g : GraphicsGL2 Q) (before after : List GraphicsConfigPass) (F : GraphicsConfigPass)
    (pre post : List String) (d0 : String) (m0 : Nat) (ro : RenderOutput)
    (bc : GraphicsCamera Q) (P : GraphicsConfigPass) (L : String) (n : Nat)
    (hpasses : g.config.passes = before ++ F :: after)
    (hdraws : ∀ p ∈ g.config.passes, p.draw ≠ [])
    (hactive : F.conditions.Satisfied g.conditions = true)
    (hpost : F.draw.getLast? ≠ some "postprocess")
    (hlayers : F.draw = pre ++ d0 :: post)
    (hm0 : m0 ∈ cubeSides (isCubemap env ro))
    (hout : mapFind g.render_outputs F.output = some ro)
    (hcam : mapFind g.cameras F.camera = some bc)
    (hconts : ∀ d ∈ pre ++ [d0], (mapFind g.static_drawlist d).isSome = true)
    (hbefore : ∀ p ∈ before, p.conditions.Satisfied g.conditions = true →
      p.draw.getLast? ≠ some "postprocess" →
      BuildKey (sideCameraName F (isCubemap env ro) m0) d0 ∉ cullKeys env g p ∧
        F.camera ∉ cullCameras env g p)
    (hpre : ∀ d ∈ pre, ∀ m ∈ cubeSides (isCubemap env ro),
      BuildKey (sideCameraName F (isCubemap env ro) m) d ≠
        BuildKey (sideCameraName F (isCubemap env ro) m0) d0)
    (hlater : F.cull = false → ∀ d ∈ post, ∀ m ∈ cubeSides (isCubemap env ro),
      BuildKey (sideCameraName F (isCubemap env ro) m) d ≠
        BuildKey (sideCameraName F (isCubemap env ro) m0) d0)
    (hafter : ∀ p ∈ after, p.conditions.Satisfied g.conditions = true →
      p.draw.getLast? ≠ some "postprocess" → p.cull = false →
      BuildKey (sideCameraName F (isCubemap env ro) m0) d0 ∉ cullKeys env g p)
    (hkey : BuildKey (sideCameraName P (isCubemap env
        (mapGetD g.render_outputs P.output RenderOutput.new)) n) L =
      BuildKey (sideCameraName F (isCubemap env ro) m0) d0)
    (hsame : cullExpected env g P L n = cullExpected env g F d0 m0) :
    DrawScene env g = ((cullPhase env g).andThen
      (fun g1 => forLoop (drawPassBody env) (indexedFrom 0 g1.config.passes) g1)).call ∧
    ∃ E s, cullPhase env g = Flow.next s ∧ cullExpected env g P L n = some E ∧
      mapFind s.culled_static_drawlist
        (BuildKey (sideCameraName P (isCubemap env
          (mapGetD g.render_outputs P.output RenderOutput.new)) n) L) = some E ∧
      ∃ roP container, mapFind g.render_outputs P.output = some roP ∧
        mapFind g.static_drawlist L = some container ∧
        (P.cull = false → E = container) ∧
        (P.cull = true → ∃ cam, sideCameraOf env g P roP n = some cam ∧
          E = container.filter (env.intersects (cameraFrustum (cameraOrtho cam) cam))) := by
  refine ⟨rfl, ?_⟩
  have h1 : (DrawSceneSetup env g).conditions = g.conditions := by simp [DrawSceneSetup]
  have h2 : (DrawSceneSetup env g).render_outputs = g.render_outputs := by
    simp [DrawSceneSetup]
  have h3 : (DrawSceneSetup env g).static_drawlist = g.static_drawlist := by
    simp [DrawSceneSetup]
  have h4 : (DrawSceneSetup env g).cameras = g.cameras := by simp [DrawSceneSetup]
  have h5 : (DrawSceneSetup env g).culled_static_drawlist = [] := by simp [DrawSceneSetup]
  have h6 : (DrawSceneSetup env g).config = g.config := by simp [DrawSceneSetup]
  obtain ⟨E, s, e1, e2, e3⟩ := cullLoop_first_query env (DrawSceneSetup env g) before after F
    pre post d0 m0 ro bc
    (fun p hp => hdraws p (by
      rw [hpasses]
      rcases List.mem_append.mp hp with h | h
      · simp [h]
      · simp [h]))
    (by rw [h1]; exact hactive) hpost hlayers hm0 (by rw [h2]; exact hout)
    (by rw [h4]; exact hcam) (by rw [h3]; exact hconts)
    (fun p hp => by
      rw [h1, (cullKeys_setup env g p).1, (cullKeys_setup env g p).2]
      exact hbefore p hp)
    hpre hlater
    (fun p hp => by
      rw [h1, (cullKeys_setup env g p).1]
      exact hafter p hp)
    (by rw [h5]; rfl)
  rw [cullExpected_setup] at e1
  refine ⟨E, s, ?_, by rw [hsame]; exact e1, by rw [hkey]; exact e3,
    cullExpected_some env g P L n E (by rw [hsame]; exact e1)⟩
  unfold cullPhase
  rw [h6, hpasses]
  exact e2

/-- C15 (amended), at two concrete inputs.  In `shareFrame` two culling passes share the
camera "default" and the layer "a": the entry the second pass reads is the result [1] of
its frustum query, put there by the first pass.  In `cubeCullFrame` a culling pass draws
the layers "a" and "b" into a cube map: the entry of the face 3 and the layer "a" is the
result [1] of the query of the sub-camera of the face. -/
theorem cullPhase_entry_of_first_query_witness :
    (∃ E s, cullPhase (cullEnv shareConfig) shareFrame = Flow.next s ∧
      cullExpected (cullEnv shareConfig) shareFrame
        (exPass "default" ["a"] "framebuffer" "s" true exAlways) "a" 0 = some E ∧
      mapFind s.culled_static_drawlist "default;a" = some E ∧ E = [1]) ∧
    ∃ E s, cullPhase (cullEnv cubeCullConfig) cubeCullFrame = Flow.next s ∧
      cullExpected (cullEnv cubeCullConfig) cubeCullFrame cubeCullPass "a" 3 = some E ∧
      mapFind s.culled_static_drawlist "default_cubeside3;a" = some E ∧ E = [1] := by
  constructor
  · obtain ⟨E, s, h1, h2, h3, -⟩ := (cullPhase_entry_of_first_query (cullEnv shareConfig)
      shareFrame [] [exPass "default" ["a"] "framebuffer" "s" true exAlways]
      (exPass "default" ["a"] "framebuffer" "s" true exAlways) [] [] "a" 0
      (mapGetD shareFrame.render_outputs "framebuffer" RenderOutput.new) exCamera
      (exPass "default" ["a"] "framebuffer" "s" true exAlways) "a" 0
      (by decide) (by decide) (by decide) (by decide) (by decide) (by decide) (by decide)
      (by decide) (by decide) (by decide) (by decide) (by decide) (by decide) (by decide)
      (by decide)).2
    refine ⟨E, s, h1, h2, h3, ?_⟩
    have h4 : cullExpected (cullEnv shareConfig) shareFrame
        (exPass "default" ["a"] "framebuffer" "s" true exAlways) "a" 0 = some [1] := by
      decide
    rw [h4] at h2
    exact (Option.some.inj h2).symm
  · obtain ⟨E, s, h1, h2, h3, -⟩ := (cullPhase_entry_of_first_query (cullEnv cubeCullConfig)
      cubeCullFrame [] [] cubeCullPass [] ["b"] "a" 3
      (mapGetD cubeCullFrame.render_outputs "cube" RenderOutput.new) exCamera
      cubeCullPass "a" 3
      (by decide) (by decide) (by decide) (by decide) (by decide) (by decide) (by decide)
      (by decide) (by decide) (by decide) (by decide) (by decide) (by decide) (by decide)
      (by decide)).2
    refine ⟨E, s, h1, h2, h3, ?_⟩
    have h4 : cullExpected (cullEnv cubeCullConfig) cubeCullFrame cubeCullPass "a" 3 =
        some [1] := by
      decide
    rw [h4] at h2
    exact (Option.some.inj h2).symm

end VDrift
